import Mathlib

/-!
# Render-system hardware abstraction layer: a shallow embedding

Definitions follow `BsVertexBuffer.cpp`, `BsMonoField.cpp` and `CmD3D9RenderSystem.cpp`.
Machine integers are natural numbers reduced modulo `2^32` where the source
computes in `UINT32`/`DWORD`; `HRESULT` is an integer that is a failure exactly
when it is negative.  Native Direct3D calls are answered by an abstract device
and recorded, in order, in a trace.
-/

namespace Bsf

/-! ## Machine integers -/

/-- Number of values of a 32-bit unsigned integer (`UINT32`, `DWORD`, `UINT`). -/
def UINT32_RANGE : Nat := 4294967296

/-- The conversion `static_cast<DWORD>(x)` / `static_cast<UINT>(x)`. -/
def castDWORD (x : Nat) : Nat := x % UINT32_RANGE

/-- The conversion `static_cast<INT>(x)` to a signed 32-bit integer. -/
def castINT (x : Nat) : Int :=
  if x % UINT32_RANGE < 2147483648 then (x % UINT32_RANGE : Nat) else (x % UINT32_RANGE : Nat) - 4294967296

/-- Subtraction of two `DWORD` values, wrapping below zero. -/
def dwordSub (a b : Nat) : Nat := (a % UINT32_RANGE + (UINT32_RANGE - b % UINT32_RANGE)) % UINT32_RANGE

/-- Multiplication of two `UINT32` values, wrapping at `2^32`. -/
def uint32Mul (a b : Nat) : Nat := (a * b) % UINT32_RANGE

/-! ## BsVertexBuffer.cpp -/

/-- Buffer usage flags handed to the `HardwareBuffer` base class. -/
inductive GpuBufferUsage
  | GBU_STATIC
  | GBU_DYNAMIC
  deriving DecidableEq, Repr

/-- The class `VertexBufferProperties`. -/
structure VertexBufferProperties where
  mNumVertices : Nat
  mVertexSize : Nat
  deriving DecidableEq, Repr

/-- The constructor `VertexBufferProperties::VertexBufferProperties(numVertices, vertexSize)`. -/
def VertexBufferProperties.new (numVertices vertexSize : Nat) : VertexBufferProperties :=
  { mNumVertices := numVertices, mVertexSize := vertexSize }

/-- The class `VertexBufferCore`, with the `HardwareBuffer` fields its constructor sets. -/
structure VertexBufferCore where
  mUsage : GpuBufferUsage
  mSystemMemory : Bool
  mProperties : VertexBufferProperties
  mSizeInBytes : Nat
  deriving DecidableEq, Repr

/-- The constructor `VertexBufferCore::VertexBufferCore(vertexSize, numVertices, usage, streamOut)`:
the base is `HardwareBuffer(usage, false)`, the properties are built from
`(numVertices, vertexSize)` and the size is the `UINT32` product of the two. -/
def VertexBufferCore.new (vertexSize numVertices : Nat) (usage : GpuBufferUsage)
    (_streamOut : Bool) : VertexBufferCore :=
  let mProperties := VertexBufferProperties.new numVertices vertexSize
  { mUsage := usage
    mSystemMemory := false
    mProperties := mProperties
    mSizeInBytes := uint32Mul mProperties.mVertexSize mProperties.mNumVertices }

/-- The class `VertexBuffer`, the descriptor that lives off the render thread, with
the members its constructor sets. -/
structure VertexBuffer where
  mProperties : VertexBufferProperties
  mUsage : GpuBufferUsage
  mStreamOut : Bool
  deriving DecidableEq, Repr

/-- The constructor `VertexBuffer::VertexBuffer(vertexSize, numVertices, usage, streamOut)`:
the properties are built from `(numVertices, vertexSize)`. -/
def VertexBuffer.new (vertexSize numVertices : Nat) (usage : GpuBufferUsage)
    (streamOut : Bool) : VertexBuffer :=
  { mProperties := VertexBufferProperties.new numVertices vertexSize
    mUsage := usage
    mStreamOut := streamOut }

/-- The function `VertexBuffer::createCore`.  `createVertexBuffer` stands for
`HardwareBufferCoreManager::instance().createVertexBuffer`, whose code is not
part of the sources. -/
def VertexBuffer.createCore {α : Type}
    (createVertexBuffer : Nat → Nat → GpuBufferUsage → Bool → α) (buffer : VertexBuffer) : α :=
  createVertexBuffer buffer.mProperties.mVertexSize buffer.mProperties.mNumVertices
    buffer.mUsage buffer.mStreamOut

/-! ## BsMonoField.cpp -/

/-- The enumeration `MonoFieldVisibility`. -/
inductive MonoFieldVisibility
  | Private
  | Protected
  | Internal
  | ProtectedInternal
  | Public
  deriving DecidableEq, Repr

/-- The field access constants of `mono/metadata/attrdefs.h` that
`MonoField::getVisibility` tests; the header is not part of the sources. -/
structure FieldAttributes where
  MONO_FIELD_ATTR_PRIVATE : Nat
  MONO_FIELD_ATTR_FAM_AND_ASSEM : Nat
  MONO_FIELD_ATTR_ASSEMBLY : Nat
  MONO_FIELD_ATTR_FAMILY : Nat
  MONO_FIELD_ATTR_PUBLIC : Nat
  deriving DecidableEq, Repr

/-- The values Mono gives the field access constants: the access level is a
number in the low three bits of the flags, not one bit per level. -/
def monoFieldAttributes : FieldAttributes where
  MONO_FIELD_ATTR_PRIVATE := 0x1
  MONO_FIELD_ATTR_FAM_AND_ASSEM := 0x2
  MONO_FIELD_ATTR_ASSEMBLY := 0x3
  MONO_FIELD_ATTR_FAMILY := 0x4
  MONO_FIELD_ATTR_PUBLIC := 0x6

/-- The function `MonoField::getVisibility`, on the `flags` that `mono_field_get_flags(mField)`
returns.  When no test succeeds the source runs into `assert(false)`: in a
build with assertions the program stops (`none`), in a build without them
(`NDEBUG`) the function goes on to return `Private`. -/
def MonoField.getVisibility (attr : FieldAttributes) (NDEBUG : Bool) (flags : Nat) :
    Option MonoFieldVisibility :=
  if flags &&& attr.MONO_FIELD_ATTR_PRIVATE ≠ 0 then
    some MonoFieldVisibility.Private
  else if flags &&& attr.MONO_FIELD_ATTR_FAM_AND_ASSEM ≠ 0 then
    some MonoFieldVisibility.ProtectedInternal
  else if flags &&& attr.MONO_FIELD_ATTR_ASSEMBLY ≠ 0 then
    some MonoFieldVisibility.Internal
  else if flags &&& attr.MONO_FIELD_ATTR_FAMILY ≠ 0 then
    some MonoFieldVisibility.Protected
  else if flags &&& attr.MONO_FIELD_ATTR_PUBLIC ≠ 0 then
    some MonoFieldVisibility.Public
  else if NDEBUG then
    some MonoFieldVisibility.Private
  else
    none

/-- The access level a field's flags carry: the low three bits
(`MONO_FIELD_ATTR_FIELD_ACCESS_MASK` is `0x7`). -/
def accessBits (flags : Nat) : Nat := flags &&& 0x7

/-! ## CmD3D9RenderSystem.cpp: the native device -/

/-- Result codes of native calls: `S_OK` and `D3D_OK` are zero. -/
def S_OK : Int := 0

/-- The success code `D3D_OK`. -/
def D3D_OK : Int := 0

/-- The test `FAILED(hr)`: a result code is a failure exactly when negative. -/
def FAILED (hr : Int) : Bool := decide (hr < 0)

/-- The render state `D3DRS_ZWRITEENABLE` of the Direct3D 9 interface. -/
def D3DRS_ZWRITEENABLE : Nat := 14

/-- The sampler state `D3DSAMP_SRGBTEXTURE` of the Direct3D 9 interface. -/
def D3DSAMP_SRGBTEXTURE : Nat := 11

/-- The texture stage state `D3DTSS_COLOROP` of the Direct3D 9 interface. -/
def D3DTSS_COLOROP : Nat := 1

/-- The texture operation `D3DTOP_DISABLE` of the Direct3D 9 interface. -/
def D3DTOP_DISABLE : Nat := 1

/-- The enumeration `D3DPRIMITIVETYPE`. -/
inductive D3DPRIMITIVETYPE
  | D3DPT_POINTLIST
  | D3DPT_LINELIST
  | D3DPT_LINESTRIP
  | D3DPT_TRIANGLELIST
  | D3DPT_TRIANGLESTRIP
  | D3DPT_TRIANGLEFAN
  deriving DecidableEq, Repr

/-- Calls on `IDirect3DDevice9` issued by the render system, followed by the
calls it makes on the device manager, the resource manager and render windows.
Native objects (declarations, buffers, textures, surfaces) are handles, `0`
being `NULL`; `float` arguments are carried as their 32-bit patterns. -/
inductive NativeCall
  | SetVertexDeclaration (decl : Nat)
  | SetStreamSource (stream : Nat) (buffer : Nat) (offset : Nat) (stride : Nat)
  | SetIndices (indexBuffer : Nat)
  | DrawPrimitive (primType : D3DPRIMITIVETYPE) (startVertex : Nat) (primCount : Nat)
  | DrawIndexedPrimitive (primType : D3DPRIMITIVETYPE) (baseVertexIndex : Int) (minIndex : Nat)
      (numVertices : Nat) (startIndex : Nat) (primCount : Nat)
  | GetRenderState (state : Nat)
  | SetRenderState (state : Nat) (value : Nat)
  | GetSamplerState (sampler : Nat) (type : Nat)
  | SetSamplerState (sampler : Nat) (type : Nat) (value : Nat)
  | GetTextureStageState (stage : Nat) (type : Nat)
  | SetTextureStageState (stage : Nat) (type : Nat) (value : Nat)
  | SetTexture (stage : Nat) (texture : Nat)
  | SetRenderTarget (index : Nat) (surface : Nat)
  | SetDepthStencilSurface (surface : Nat)
  | SetViewport (x : Nat) (y : Nat) (width : Nat) (height : Nat) (minZ : Nat) (maxZ : Nat)
  | BeginScene
  | EndScene
  | SetClipPlane (index : Nat) (a : Nat) (b : Nat) (c : Nat) (d : Nat)
  | GetDeviceCaps
  | GetDepthStencilSurface
  | GetSurfaceDesc (surface : Nat)
  | CreateQuery (type : Nat)
  | SetScissorRect (left : Int) (top : Int) (right : Int) (bottom : Int)
  | Clear (count : Nat) (rects : Nat) (flags : Nat) (color : Nat) (z : Nat) (stencil : Nat)
  | SetVertexShader (shader : Nat)
  | SetPixelShader (shader : Nat)
  | SetVertexShaderConstantF (startRegister : Nat) (data : Nat) (count : Nat)
  | SetVertexShaderConstantI (startRegister : Nat) (data : Nat) (count : Nat)
  | SetPixelShaderConstantF (startRegister : Nat) (data : Nat) (count : Nat)
  | SetPixelShaderConstantI (startRegister : Nat) (data : Nat) (count : Nat)
  | clearDeviceStreams
  | destroyInactiveRenderDevices
  | lockDeviceAccess
  | unlockDeviceAccess
  | linkRenderWindow (window : Nat)
  | destroyWindow (window : Nat)
  deriving DecidableEq, Repr

/-- What a native call hands back: its `HRESULT` and, for the `Get...` calls,
the value written through the out-parameter. -/
structure Reply where
  hr : Int
  out : Nat
  deriving DecidableEq, Repr

/-- A native Direct3D device: an external collaborator, given by how it answers
each call in each of its states. -/
structure Device (σ : Type) where
  call : NativeCall → σ → Reply × σ

/-! ## CmD3D9RenderSystem.cpp: data -/

/-- Exception classes raised through `CM_EXCEPT` (messages are not modelled).
`AssertionFailure` is not an exception class: it is the outcome of a run that a
failed `assert` stopped, carried here so that the state reached is kept. -/
inductive Exception
  | RenderingAPIException
  | InvalidParametersException
  | InvalidStateException
  | InternalErrorException
  | AssertionFailure
  deriving DecidableEq, Repr

/-- The enumeration `D3D9Mappings::eD3DTexType`. -/
inductive eD3DTexType
  | D3D_TEX_TYPE_NORMAL
  | D3D_TEX_TYPE_CUBE
  | D3D_TEX_TYPE_VOLUME
  | D3D_TEX_TYPE_NONE
  deriving DecidableEq, Repr

/-- One entry of `mTexStageDesc`. -/
structure sD3DTextureStageDesc where
  texType : eD3DTexType
  coordIndex : Nat
  pTex : Nat
  pVertexTex : Nat
  deriving DecidableEq, Repr

/-- A `D3D9Texture` as `setTexture` sees it: the native texture returned by
`getTexture_internal()`, the mapped type `D3D9Mappings::get(getTextureType())`
and `isHardwareGammaReadToBeUsed()`. -/
structure D3D9Texture where
  texture_internal : Nat
  d3dTexType : eD3DTexType
  hardwareGammaReadToBeUsed : Bool
  deriving DecidableEq, Repr

/-- A vertex buffer bound to a stream: the native buffer `getD3D9VertexBuffer()`
and `getVertexSize()`. -/
structure D3D9HardwareVertexBuffer where
  d3d9VertexBuffer : Nat
  vertexSize : Nat
  deriving DecidableEq, Repr

/-- The class `VertexData`: `vertexDeclaration` is the native declaration
`getD3DVertexDeclaration()`, `vertexBufferBinding` lists the entries of the
binding map in the iteration order of `std::map` (ascending stream index). -/
structure VertexData where
  vertexDeclaration : Nat
  vertexBufferBinding : List (Nat × D3D9HardwareVertexBuffer)
  vertexStart : Nat
  vertexCount : Nat
  deriving DecidableEq, Repr

/-- The class `IndexData`: `indexBuffer` is the native buffer `getD3DIndexBuffer()`. -/
structure IndexData where
  indexBuffer : Nat
  indexStart : Nat
  indexCount : Nat
  deriving DecidableEq, Repr

/-- The enumeration `RenderOperation::OperationType`. -/
inductive OperationType
  | OT_POINT_LIST
  | OT_LINE_LIST
  | OT_LINE_STRIP
  | OT_TRIANGLE_LIST
  | OT_TRIANGLE_STRIP
  | OT_TRIANGLE_FAN
  deriving DecidableEq, Repr

/-- The class `RenderOperation`; `indexData` is read only when `useIndexes` is set. -/
structure RenderOperation where
  operationType : OperationType
  vertexData : VertexData
  indexData : IndexData
  useIndexes : Bool
  deriving DecidableEq, Repr

/-- A `RenderTarget` as `setRenderTarget` sees it: `id` is the pointer identity,
`device` is `D3D9RenderWindow::getDevice()` (read only for registered windows),
`backBuffers` are the surfaces `getCustomAttribute_internal("DDBACKBUFFER")`
writes, in order, and `depthBuffer` the one `"D3DZBUFFER"` writes.  The
remaining fields are `getHeight()`, `requiresTextureFlipping()`,
`isHardwareGammaEnabled()` and the format in the description of back buffer 0. -/
structure RenderTarget where
  id : Nat
  device : Nat
  backBuffers : List Nat
  depthBuffer : Nat
  height : Nat := 0
  requiresTextureFlipping : Bool := false
  hardwareGammaEnabled : Bool := false
  backBufferFormat : Nat := 0
  deriving DecidableEq, Repr

/-- A `Viewport` as `setViewport` sees it: its target and the values of
`getActualLeft()`, `getActualTop()`, `getActualWidth()`, `getActualHeight()`. -/
structure Viewport where
  target : RenderTarget
  actualLeft : Nat
  actualTop : Nat
  actualWidth : Nat
  actualHeight : Nat
  deriving DecidableEq, Repr

/-- The enumeration `SceneBlendFactor`; a factor other than the two the render
system names is `SBF_OTHER`. -/
inductive SceneBlendFactor
  | SBF_ONE
  | SBF_ZERO
  | SBF_OTHER (value : Nat)
  deriving DecidableEq, Repr

/-- The enumeration `SceneBlendOperation`; an operation other than the one the render
system names is `SBO_OTHER`. -/
inductive SceneBlendOperation
  | SBO_ADD
  | SBO_OTHER (value : Nat)
  deriving DecidableEq, Repr

/-- The class `BlendState`, as the render system reads it: the accessors
`getAlphaToCoverageEnabled()` and, per render target index,
`getBlendEnabled`, `getSrcBlend`, `getDstBlend`, `getAlphaSrcBlend`,
`getAlphaDstBlend`, `getBlendOperation`, `getAlphaBlendOperation` and
`getRenderTargetWriteMask` (a `UINT8`). -/
structure BlendState where
  getAlphaToCoverageEnabled : Bool
  getBlendEnabled : Nat → Bool
  getSrcBlend : Nat → SceneBlendFactor
  getDstBlend : Nat → SceneBlendFactor
  getAlphaSrcBlend : Nat → SceneBlendFactor
  getAlphaDstBlend : Nat → SceneBlendFactor
  getBlendOperation : Nat → SceneBlendOperation
  getAlphaBlendOperation : Nat → SceneBlendOperation
  getRenderTargetWriteMask : Nat → Nat

/-- The class `Plane`: the normal and the distance, each `float` carried as its
32-bit pattern. -/
structure Plane where
  normal_x : Nat
  normal_y : Nat
  normal_z : Nat
  d : Nat
  deriving DecidableEq, Repr

/-- The enumeration `CullingMode`. -/
inductive CullingMode
  | CULL_NONE
  | CULL_CLOCKWISE
  | CULL_COUNTERCLOCKWISE
  deriving DecidableEq, Repr

/-- The enumeration `CompareFunction`; a function other than the one the render
system names is `CMPF_OTHER`. -/
inductive CompareFunction
  | CMPF_ALWAYS_PASS
  | CMPF_OTHER (value : Nat)
  deriving DecidableEq, Repr

/-- The enumeration `FilterType`; a type other than the three the render system
names is `FT_OTHER`. -/
inductive FilterType
  | FT_MIN
  | FT_MAG
  | FT_MIP
  | FT_OTHER (value : Nat)
  deriving DecidableEq, Repr

/-- The enumeration `FilterOptions`, by the value of the enumerator; the render
system only hands it to `D3D9Mappings::get`. -/
structure FilterOptions where
  value : Nat
  deriving DecidableEq, Repr

/-- The enumeration `PolygonMode`, by the value of the enumerator; the render
system only hands it to `D3D9Mappings::get`. -/
structure PolygonMode where
  value : Nat
  deriving DecidableEq, Repr

/-- The enumeration `StencilOperation`, by the value of the enumerator; the render
system only hands it to `D3D9Mappings::get`. -/
structure StencilOperation where
  value : Nat
  deriving DecidableEq, Repr

/-- The enumeration `TextureAddressingMode`, by the value of the enumerator; the
render system only hands it to `D3D9Mappings::get`. -/
structure TextureAddressingMode where
  value : Nat
  deriving DecidableEq, Repr

/-- The structure `UVWAddressingMode`. -/
structure UVWAddressingMode where
  u : TextureAddressingMode
  v : TextureAddressingMode
  w : TextureAddressingMode
  deriving DecidableEq, Repr

/-- The class `Color`, as the render system reads it: the value of
`getAsARGB()`. -/
structure Color where
  getAsARGB : Nat
  deriving DecidableEq, Repr

/-- The class `SamplerState`, as the render system reads it: the accessors
`getTextureFiltering(ftype)`, `getTextureAnisotropy()`,
`getTextureMipmapBias()` (a `float`, as its 32-bit pattern),
`getTextureAddressingMode()` and `getBorderColor()`. -/
structure SamplerState where
  getTextureFiltering : FilterType → FilterOptions
  getTextureAnisotropy : Nat
  getTextureMipmapBias : Nat
  getTextureAddressingMode : UVWAddressingMode
  getBorderColor : Color

/-- The class `RasterizerState`, as the render system reads it: `getDepthBias`
is the value of `(float)rasterizerState.getDepthBias()` and
`getSlopeScaledDepthBias` that of `getSlopeScaledDepthBias()`, both as 32-bit
patterns, followed by `getCullMode()`, `getPolygonMode()`,
`getScissorEnable()`, `getMultisampleEnable()` and
`getAntialiasedLineEnable()`. -/
structure RasterizerState where
  getDepthBias : Nat
  getSlopeScaledDepthBias : Nat
  getCullMode : CullingMode
  getPolygonMode : PolygonMode
  getScissorEnable : Bool
  getMultisampleEnable : Bool
  getAntialiasedLineEnable : Bool
  deriving DecidableEq, Repr

/-- The class `DepthStencilState`, as the render system reads it, by its
accessors. -/
structure DepthStencilState where
  getStencilEnable : Bool
  getStencilFrontFailOp : StencilOperation
  getStencilFrontZFailOp : StencilOperation
  getStencilFrontPassOp : StencilOperation
  getStencilFrontCompFunc : CompareFunction
  getStencilBackFailOp : StencilOperation
  getStencilBackZFailOp : StencilOperation
  getStencilBackPassOp : StencilOperation
  getStencilBackCompFunc : CompareFunction
  getStencilReadMask : Nat
  getStencilWriteMask : Nat
  getDepthReadEnable : Bool
  getDepthWriteEnable : Bool
  getDepthComparisonFunc : CompareFunction
  deriving DecidableEq, Repr

/-- The enumeration `GpuProgramType`; a type other than the two the render system
names is `GPT_OTHER`. -/
inductive GpuProgramType
  | GPT_VERTEX_PROGRAM
  | GPT_FRAGMENT_PROGRAM
  | GPT_OTHER (value : Nat)
  deriving DecidableEq, Repr

/-- A `GpuProgramHandle` as `bindGpuProgram` sees it, through the program
`getBindingDelegate_internal()` returns: its `getType()`, and the native
shaders `getVertexShader()` and `getPixelShader()` (handles, read only for a
program of the matching type). -/
structure GpuProgram where
  getType : GpuProgramType
  getVertexShader : Nat
  getPixelShader : Nat
  deriving DecidableEq, Repr

/-- A `TextureHandle` as `bindGpuProgramParameters` sees it: `isLoaded()` and
`getInternalPtr()`, `none` being the null pointer. -/
structure TextureHandle where
  isLoaded : Bool
  getInternalPtr : Option D3D9Texture
  deriving DecidableEq, Repr

/-- The structure `GpuLogicalIndexUse`: the members `physicalIndex`,
`currentSize` and `variability` that the render system reads. -/
structure GpuLogicalIndexUse where
  physicalIndex : Nat
  currentSize : Nat
  variability : Nat
  deriving DecidableEq, Repr

/-- The class `GpuProgramParameters`, as the render system reads it: the maps of
the four logical buffer structures (`getFloatLogicalBufferStruct()->map`, and
the same for `Int`, `Sampler`, `Texture`), each as the list of its entries
`(logical index, use)` in the iteration order of the map, and the accessors
`getSamplerState` (`none` for `nullptr`), `getTexture`, `getFloatPointer` and
`getIntPointer` (pointers are handles). -/
structure GpuProgramParameters where
  floatLogical : List (Nat × GpuLogicalIndexUse)
  intLogical : List (Nat × GpuLogicalIndexUse)
  samplerLogical : List (Nat × GpuLogicalIndexUse)
  textureLogical : List (Nat × GpuLogicalIndexUse)
  getSamplerState : Nat → Option SamplerState
  getTexture : Nat → TextureHandle
  getFloatPointer : Nat → Nat
  getIntPointer : Nat → Nat

/-- The structure `RECT` of the Windows interface; its members are `LONG`. -/
structure RECT where
  left : Int
  top : Int
  right : Int
  bottom : Int
  deriving DecidableEq, Repr

/-- The capability flags `RSC_...` that `D3D9RenderSystem` sets or clears. -/
inductive Capabilities
  | RSC_FIXED_FUNCTION
  | RSC_ANISOTROPY
  | RSC_AUTOMIPMAP
  | RSC_DOT3
  | RSC_CUBEMAPPING
  | RSC_SCISSOR_TEST
  | RSC_TWO_SIDED_STENCIL
  | RSC_STENCIL_WRAP
  | RSC_HWOCCLUSION
  | RSC_USER_CLIP_PLANES
  | RSC_VERTEX_FORMAT_UBYTE4
  | RSC_TEXTURE_3D
  | RSC_NON_POWER_OF_2_TEXTURES
  | RSC_MRT_DIFFERENT_BIT_DEPTHS
  | RSC_POINT_SPRITES
  | RSC_POINT_EXTENDED_PARAMETERS
  | RSC_MIPMAP_LOD_BIAS
  | RSC_PERSTAGECONSTANT
  | RSC_HWSTENCIL
  | RSC_ADVANCED_BLEND_OPERATIONS
  | RSC_BLENDING
  | RSC_TEXTURE_COMPRESSION
  | RSC_TEXTURE_COMPRESSION_DXT
  | RSC_VBO
  | RSC_VERTEX_PROGRAM
  | RSC_FRAGMENT_PROGRAM
  | RSC_INFINITE_FAR_PLANE
  | RSC_HWRENDER_TO_TEXTURE
  | RSC_TEXTURE_FLOAT
  | RSC_VERTEX_TEXTURE_FETCH
  | RSC_ALPHA_TO_COVERAGE
  deriving DecidableEq, Repr

/-- The enumeration `GPUVendor`. -/
inductive GPUVendor
  | GPU_UNKNOWN
  | GPU_NVIDIA
  | GPU_ATI
  | GPU_INTEL
  | GPU_S3
  | GPU_3DLABS
  | GPU_MATROX
  | GPU_SIS
  deriving DecidableEq, Repr

/-- The enumeration `GpuProgramProfile`, as far as the Direct3D 9 render system
registers profiles. -/
inductive GpuProgramProfile
  | GPP_VS_1_1
  | GPP_VS_2_0
  | GPP_VS_2_x
  | GPP_VS_2_a
  | GPP_VS_3_0
  | GPP_PS_1_1
  | GPP_PS_1_2
  | GPP_PS_1_3
  | GPP_PS_1_4
  | GPP_PS_2_0
  | GPP_PS_2_x
  | GPP_PS_2_a
  | GPP_PS_2_b
  | GPP_PS_3_0
  | GPP_PS_3_x
  deriving DecidableEq, Repr

/-- Modelled from the spec: the class `RenderSystemCapabilities` is not part of
the sources; it is the snapshot of vendor, driver version, feature flags and
numeric limits (texture units, render targets, max point size, shader constant
counts) whose setters store a value and whose getters return the stored one.
The flags and the shader profiles are sets, kept as lists without duplicates. -/
structure RenderSystemCapabilities where
  capabilities : List Capabilities := []
  numTextureUnits : Nat := 0
  numMultiRenderTargets : Nat := 0
  nonPOW2TexturesLimited : Bool := false
  maxPointSize : ℚ := 0
  stencilBufferBitDepth : Nat := 0
  shaderProfiles : List String := []
  gpuProgramProfiles : List (GpuProgramProfile × String) := []
  vertexProgramConstantBoolCount : Nat := 0
  vertexProgramConstantIntCount : Nat := 0
  vertexProgramConstantFloatCount : Nat := 0
  fragmentProgramConstantBoolCount : Nat := 0
  fragmentProgramConstantIntCount : Nat := 0
  fragmentProgramConstantFloatCount : Nat := 0
  vendor : GPUVendor := GPUVendor.GPU_UNKNOWN
  numVertexTextureUnits : Nat := 0
  vertexTextureUnitsShared : Bool := false
  deviceName : String := ""
  renderSystemName : String := ""
  driverVersion : Nat := 0
  categoryRelevantD3D9 : Bool := false
  deriving DecidableEq, Repr

/-- The capability structure `D3DCAPS9` of the Direct3D 9 interface, with the
members the render system reads; `VS20Caps` and `PS20Caps` are flattened. -/
structure D3DCAPS9 where
  MaxSimultaneousTextures : Nat := 0
  MaxAnisotropy : Nat := 0
  Caps2 : Nat := 0
  TextureOpCaps : Nat := 0
  RasterCaps : Nat := 0
  StencilCaps : Nat := 0
  MaxUserClipPlanes : Nat := 0
  DeclTypes : Nat := 0
  TextureCaps : Nat := 0
  NumSimultaneousRTs : Nat := 0
  PrimitiveMiscCaps : Nat := 0
  MaxPointSize : ℚ := 0
  VertexShaderVersion : Nat := 0
  PixelShaderVersion : Nat := 0
  MaxVertexShaderConst : Nat := 0
  VS20Caps_Caps : Nat := 0
  VS20Caps_DynamicFlowControlDepth : Int := 0
  VS20Caps_NumTemps : Int := 0
  PS20Caps_Caps : Nat := 0
  PS20Caps_NumTemps : Int := 0
  deriving DecidableEq, Repr

/-- A `D3D9VideoMode`: `getDescription()` and `getFormat()`. -/
structure D3D9VideoMode where
  description : String
  format : Nat := 0
  deriving DecidableEq, Repr

/-- A `D3D9Driver` of the driver list: `DriverDescription()`, `getAdapterNumber()`,
`getD3D9DeviceCaps()`, the vendor and device identifiers and the packed driver
version of `getAdapterIdentifier()`, and its video mode list. -/
structure D3D9Driver where
  DriverDescription : String
  adapterNumber : Nat := 0
  d3d9DeviceCaps : D3DCAPS9 := {}
  VendorId : Nat := 0
  DeviceId : Nat := 0
  DriverVersion : Nat := 0
  videoModeList : List D3D9VideoMode := []
  deriving DecidableEq, Repr

/-- The enumeration `D3D9ResourceCreationPolicy`; a value that is neither policy
is `RCP_OTHER`. -/
inductive D3D9ResourceCreationPolicy
  | RCP_CREATE_ON_ACTIVE_DEVICE
  | RCP_CREATE_ON_ALL_DEVICES
  | RCP_OTHER
  deriving DecidableEq, Repr

/-- The structure `ConfigOption`. -/
structure ConfigOption where
  name : String := ""
  currentValue : String := ""
  possibleValues : List String := []
  immutable : Bool := false
  deriving DecidableEq, Repr

/-- The state of `D3D9RenderSystem` together with the native devices it drives.
`devices d` is the native `IDirect3DDevice9` behind `D3D9Device` number `d`
(`none` when `getD3D9Device()` is `NULL`), `activeDevice` is
`mDeviceManager->getActiveDevice()`, `deviceCount` is
`mDeviceManager->getDeviceCount()`, and `trace` lists the calls issued so far,
oldest first.  `mActiveRenderTarget` holds the target pointed to (`none` for
`NULL`), `mActiveViewport` is `none` for the default-constructed viewport,
`mpD3D` tells whether the Direct3D object exists, `mRenderTargets` are the
render targets attached in the base class, by pointer identity.
`mScissorRect` starts as the constructor leaves it, and the two
`mActive...GpuProgramParameters` are `none` for `nullptr`. -/
structure RS (σ : Type) where
  devices : Nat → Option σ
  activeDevice : Nat
  trace : List NativeCall
  mTexStageDesc : Nat → sD3DTextureStageDesc
  mLastVertexSourceCount : Nat
  mActiveRenderTarget : Option RenderTarget
  mRenderWindows : List Nat
  mCurrentCapabilities : Option RenderSystemCapabilities
  deviceCount : Nat := 0
  mActiveViewport : Option Viewport := none
  mCullingMode : CullingMode := CullingMode.CULL_COUNTERCLOCKWISE
  mInvertVertexWinding : Bool := false
  mpD3D : Bool := false
  mDriverList : Option (List D3D9Driver) := none
  mActiveD3DDriver : Option D3D9Driver := none
  mDriverVersion : Nat := 0
  mOptions : List (String × ConfigOption) := []
  mFSAAHint : String := ""
  mFSAASamples : Nat := 0
  mRenderTargets : List Nat := []
  mScissorRect : RECT := { left := 0, top := 0, right := 1280, bottom := 720 }
  mActiveVertexGpuProgramParameters : Option GpuProgramParameters := none
  mActiveFragmentGpuProgramParameters : Option GpuProgramParameters := none
  mVertexProgramBound : Bool := false
  mFragmentProgramBound : Bool := false

/-- Computations of the render system: they read and update the state and either
return a value or raise an exception; the state reached when an exception is
raised is kept, as in the source. -/
def RSM (σ : Type) (α : Type) : Type := RS σ → Except Exception α × RS σ

/-- Returning a value. -/
def RSM.pure {σ α : Type} (a : α) : RSM σ α := fun s => (Except.ok a, s)

/-- Sequencing: an exception raised by the first computation skips the second. -/
def RSM.bind {σ α β : Type} (m : RSM σ α) (f : α → RSM σ β) : RSM σ β := fun s =>
  match m s with
  | (Except.ok a, s1) => f a s1
  | (Except.error e, s1) => (Except.error e, s1)

instance (σ : Type) : Monad (RSM σ) where
  pure := RSM.pure
  bind := RSM.bind

/-- The statement `CM_EXCEPT(e, ...)`. -/
def CM_EXCEPT {σ α : Type} (e : Exception) : RSM σ α := fun s => (Except.error e, s)

/-- Reading the state. -/
def getRS {σ : Type} : RSM σ (RS σ) := fun s => (Except.ok s, s)

/-- Updating the state. -/
def modifyRS {σ : Type} (f : RS σ → RS σ) : RSM σ Unit := fun s => (Except.ok (), f s)

/-- What the render system runs against: the build flag `CM_DEBUG_MODE`, whether
the calling thread is the render thread, the native device behaviour, and the
collaborators whose code lies outside this file: the base-class
`RenderSystem::render`, `D3D9DeviceManager::setActiveRenderTargetDevice` and
`D3D9RenderWindow::_validateDevice`.

Further: the constants `CM_MAX_MULTIPLE_RENDER_TARGETS` and
`CM_MAX_TEXTURE_LAYERS`; `collab`, what a call on the device manager, the
resource manager or a render window does (it may raise, and may replace the
devices and the active device, the only parts of the state these classes
reach); the base-class `attachRenderTarget`; `superInitialize`, the manager
start-ups and `RenderSystem::initialize_internal` that end
`initialize_internal`; the mapping `D3D9Mappings::get(CullingMode, bool)`;
`getD3D9DeviceCaps()` of each `D3D9Device`; whether `Direct3DCreate9` yields an
object; the adapters a new `D3D9DriverList` enumerates; the creation policy of
the resource manager; the answers of `IDirect3D9::CheckDeviceFormat` (adapter,
adapter format, usage, resource type, format) and of
`IDirect3D9::CheckDeviceMultiSampleType` (adapter, format, sample type: result
and quality levels); the Direct3D formats `checkVertexTextureFormats` runs
through; the indeterminate contents of an uninitialised `D3DCAPS9`; the
build flag `OGRE_DOUBLE_PRECISION`; and the mappings
`D3D9Mappings::get(SceneBlendFactor)` and `D3D9Mappings::get(SceneBlendOperation)`.

Further still: the mappings `D3D9Mappings::get` of a `CompareFunction`, of a
`PolygonMode`, of a `StencilOperation` with the inversion flag, of a
`TextureAddressingMode` with the device caps, of a `FilterType`, and of a
`FilterType` with the filter, the device caps and the texture type; the
`float` operations unary minus and division of the target, on 32-bit
patterns; the enumerators `FBT_COLOUR`, `FBT_DEPTH` and `FBT_STENCIL`; the
sampler state `SamplerState::getDefault()`; the build flag `NDEBUG`, which
removes the `assert`s; the base-class `RenderSystem::disableTextureUnit`,
`RenderSystem::bindGpuProgram`, `RenderSystem::unbindGpuProgram`,
`RenderSystem::destroyRenderTarget` and `RenderSystem::destroy_internal`;
`deleteDeviceManager`, what `SAFE_DELETE(mDeviceManager)` runs; and
`shutDownManagers`, the three manager shut-downs that end `destroy_internal`. -/
structure Env (σ : Type) where
  CM_DEBUG_MODE : Bool
  onRenderThread : Bool
  dev : Device σ
  superRender : RenderOperation → RSM σ Unit
  setActiveRenderTargetDevice : Nat → RSM σ Unit
  validateDevice : RenderTarget → RSM σ Unit
  CM_MAX_MULTIPLE_RENDER_TARGETS : Nat
  CM_MAX_TEXTURE_LAYERS : Nat
  collab : NativeCall → RS σ → Except Exception Unit × ((Nat → Option σ) × Nat)
  attachRenderTarget : RenderTarget → RSM σ Unit
  superInitialize : RSM σ Unit
  mapCullingMode : CullingMode → Bool → Nat
  deviceCaps : Nat → D3DCAPS9
  direct3DCreate9 : Bool
  enumeratedDrivers : List D3D9Driver
  creationPolicy : D3D9ResourceCreationPolicy
  checkDeviceFormat : Nat → Nat → Nat → Nat → Nat → Int
  checkDeviceMultiSampleType : Nat → Nat → Nat → Int × Nat
  vertexTextureFormats : List Nat
  indeterminateCaps : D3DCAPS9
  OGRE_DOUBLE_PRECISION : Bool
  mapBlendFactor : SceneBlendFactor → Nat
  mapBlendOperation : SceneBlendOperation → Nat
  mapCompareFunction : CompareFunction → Nat
  mapPolygonMode : PolygonMode → Nat
  mapStencilOperation : StencilOperation → Bool → Nat
  mapAddressingMode : TextureAddressingMode → D3DCAPS9 → Nat
  mapFilterType : FilterType → Nat
  mapFilter : FilterType → FilterOptions → D3DCAPS9 → eD3DTexType → Nat
  floatNeg : Nat → Nat
  floatDiv : Nat → Nat → Nat
  FBT_COLOUR : Nat
  FBT_DEPTH : Nat
  FBT_STENCIL : Nat
  defaultSamplerState : SamplerState
  NDEBUG : Bool
  superDisableTextureUnit : Nat → RSM σ Unit
  superBindGpuProgram : GpuProgram → RSM σ Unit
  superUnbindGpuProgram : GpuProgramType → RSM σ Unit
  superDestroyRenderTarget : RenderTarget → RSM σ Unit
  superDestroy : RSM σ Unit
  deleteDeviceManager : RSM σ Unit
  shutDownManagers : RSM σ Unit

/-- Modelled from the spec: `throwIfNotRenderThread` is not part of the
sources; a call from another thread than the render thread is the error class
`InvalidState`. -/
def throwIfNotRenderThread {σ : Type} (env : Env σ) : RSM σ Unit :=
  if env.onRenderThread then pure () else CM_EXCEPT Exception.InvalidStateException

/-- The macros `THROW_IF_NOT_RENDER_THREAD` and `THROW_IF_NOT_RENDER_THREAD_STATIC`:
the check in debug builds, nothing otherwise. -/
def THROW_IF_NOT_RENDER_THREAD {σ : Type} (env : Env σ) : RSM σ Unit :=
  if env.CM_DEBUG_MODE then throwIfNotRenderThread env else pure ()

/-- The function `D3D9RenderSystem::getActiveD3D9Device`: the native device of the active
`D3D9Device`, or `InvalidParametersException` when it is `NULL`. -/
def getActiveD3D9Device {σ : Type} (env : Env σ) : RSM σ σ := do
  THROW_IF_NOT_RENDER_THREAD env
  let s ← getRS
  match s.devices s.activeDevice with
  | none => CM_EXCEPT Exception.InvalidParametersException
  | some d3d9Device => pure d3d9Device

/-- A call `getActiveD3D9Device()->c`: the active device answers, its new state is
stored and the call is appended to the trace. -/
def native {σ : Type} (env : Env σ) (c : NativeCall) : RSM σ Reply := do
  let d ← getActiveD3D9Device env
  let r := env.dev.call c d
  modifyRS (fun s => { s with devices := Function.update s.devices s.activeDevice (some r.2),
                              trace := s.trace ++ [c] })
  pure r.1

/-! ## CmD3D9RenderSystem.cpp: operations -/

/-- The function `D3D9RenderSystem::__SetRenderState`. -/
def __SetRenderState {σ : Type} (env : Env σ) (state : Nat) (value : Nat) : RSM σ Int := do
  let r ← native env (NativeCall.GetRenderState state)
  if FAILED r.hr then
    pure r.hr
  else if r.out = value then
    pure D3D_OK
  else do
    let r2 ← native env (NativeCall.SetRenderState state value)
    pure r2.hr

/-- The function `D3D9RenderSystem::__SetSamplerState`. -/
def __SetSamplerState {σ : Type} (env : Env σ) (sampler : Nat) (type : Nat) (value : Nat) :
    RSM σ Int := do
  let r ← native env (NativeCall.GetSamplerState sampler type)
  if FAILED r.hr then
    pure r.hr
  else if r.out = value then
    pure D3D_OK
  else do
    let r2 ← native env (NativeCall.SetSamplerState sampler type value)
    pure r2.hr

/-- The function `D3D9RenderSystem::__SetTextureStageState`: only the fixed-function stages
(below 8) have texture stage state. -/
def __SetTextureStageState {σ : Type} (env : Env σ) (stage : Nat) (type : Nat) (value : Nat) :
    RSM σ Int := do
  if stage < 8 then
    let r ← native env (NativeCall.GetTextureStageState stage type)
    if FAILED r.hr then
      pure r.hr
    else if r.out = value then
      pure D3D_OK
    else do
      let r2 ← native env (NativeCall.SetTextureStageState stage type value)
      pure r2.hr
  else
    pure D3D_OK

/-- The function `D3D9RenderSystem::setDepthBufferWriteEnabled`; the `bool` converts to the
`DWORD` 1 or 0. -/
def setDepthBufferWriteEnabled {σ : Type} (env : Env σ) (enabled : Bool) : RSM σ Unit := do
  THROW_IF_NOT_RENDER_THREAD env
  let hr ← __SetRenderState env D3DRS_ZWRITEENABLE (if enabled then 1 else 0)
  if FAILED hr then
    CM_EXCEPT Exception.RenderingAPIException
  else
    pure ()

/-- The function `D3D9RenderSystem::setTexture`; `tex` is `none` for a null texture pointer. -/
def setTexture {σ : Type} (env : Env σ) (stage : Nat) (enabled : Bool)
    (tex : Option D3D9Texture) : RSM σ Unit := do
  THROW_IF_NOT_RENDER_THREAD env
  match enabled, tex with
  | true, some dt => do
    let pTex := dt.texture_internal
    let s ← getRS
    if (s.mTexStageDesc stage).pTex ≠ pTex then
      let r ← native env (NativeCall.SetTexture (castDWORD stage) pTex)
      if r.hr ≠ S_OK then
        CM_EXCEPT Exception.RenderingAPIException
      else do
        -- set stage desc.
        modifyRS (fun s =>
          let desc := { (s.mTexStageDesc stage) with pTex := pTex, texType := dt.d3dTexType }
          { s with mTexStageDesc := Function.update s.mTexStageDesc stage desc })
        -- Set gamma now too
        if dt.hardwareGammaReadToBeUsed then
          let _ ← __SetSamplerState env (castDWORD stage) D3DSAMP_SRGBTEXTURE 1
          pure ()
        else
          let _ ← __SetSamplerState env (castDWORD stage) D3DSAMP_SRGBTEXTURE 0
          pure ()
    else
      pure ()
  | _, _ => do
    let s ← getRS
    if (s.mTexStageDesc stage).pTex ≠ 0 then
      let r ← native env (NativeCall.SetTexture (castDWORD stage) 0)
      if r.hr ≠ S_OK then
        CM_EXCEPT Exception.RenderingAPIException
      else
        pure ()
    else
      pure ()
    let hr ← __SetTextureStageState env (castDWORD stage) D3DTSS_COLOROP D3DTOP_DISABLE
    if hr ≠ S_OK then
      CM_EXCEPT Exception.RenderingAPIException
    else
      -- set stage desc. to defaults
      modifyRS (fun s =>
        let desc := { (s.mTexStageDesc stage) with
          pTex := 0, coordIndex := 0, texType := eD3DTexType.D3D_TEX_TYPE_NORMAL }
        { s with mTexStageDesc := Function.update s.mTexStageDesc stage desc })

/-- The loop of `setRenderTarget` binding `pBack[x]` as render target `x`, for
`count` consecutive indices from `x`. -/
def bindRenderTargets {σ : Type} (env : Env σ) (pBack : Nat → Nat) (x : Nat) :
    (count : Nat) → RSM σ Unit
  | 0 => pure ()
  | count + 1 => do
    let r ← native env (NativeCall.SetRenderTarget (castDWORD x) (pBack x))
    if FAILED r.hr then
      CM_EXCEPT Exception.RenderingAPIException
    else
      bindRenderTargets env pBack (x + 1) count

/-- The function `D3D9RenderSystem::setRenderTarget`.  `pBack` is zero-filled and then written
by the target's `DDBACKBUFFER` attribute.  The count of render targets is read
from `mCurrentCapabilities`, which the source dereferences unchecked; a `NULL`
pointer stands for no render target. -/
def setRenderTarget {σ : Type} (env : Env σ) (target : RenderTarget) : RSM σ Unit := do
  THROW_IF_NOT_RENDER_THREAD env
  modifyRS (fun s => { s with mActiveRenderTarget := some target })
  let s ← getRS
  if target.id ∈ s.mRenderWindows then
    env.setActiveRenderTargetDevice target.device
    env.validateDevice target
  else
    pure ()
  -- Retrieve render surfaces
  let pBack : Nat → Nat := fun x => target.backBuffers.getD x 0
  if pBack 0 = 0 then
    pure ()
  else do
    let pDepth := target.depthBuffer
    -- Bind render targets
    let s1 ← getRS
    let count := (s1.mCurrentCapabilities.map (fun caps => caps.numMultiRenderTargets)).getD 0
    bindRenderTargets env pBack 0 count
    let r ← native env (NativeCall.SetDepthStencilSurface pDepth)
    if FAILED r.hr then
      CM_EXCEPT Exception.RenderingAPIException
    else
      pure ()

/-- The function `D3D9RenderSystem::setVertexDeclaration`. -/
def setVertexDeclaration {σ : Type} (env : Env σ) (decl : Nat) : RSM σ Unit := do
  THROW_IF_NOT_RENDER_THREAD env
  let r ← native env (NativeCall.SetVertexDeclaration decl)
  if FAILED r.hr then
    CM_EXCEPT Exception.RenderingAPIException
  else
    pure ()

/-- The loops of `setVertexBufferBinding` that reset stream sources: `count`
consecutive sources from `source` are set to `NULL`. -/
def unbindSources {σ : Type} (env : Env σ) (source : Nat) : (count : Nat) → RSM σ Unit
  | 0 => pure ()
  | count + 1 => do
    let r ← native env (NativeCall.SetStreamSource (castDWORD source) 0 0 0)
    if FAILED r.hr then
      CM_EXCEPT Exception.RenderingAPIException
    else
      unbindSources env (source + 1) count

/-- The main loop of `setVertexBufferBinding` over the entries of the binding
map, from the running value of `source`; it returns the final `source`.  The
gap loop runs while `source < i->first`, after which `source` is the larger of
the two. -/
def bindSources {σ : Type} (env : Env σ) :
    List (Nat × D3D9HardwareVertexBuffer) → Nat → RSM σ Nat
  | [], source => pure source
  | (first, d3d9buf) :: rest, source => do
    -- Unbind gap sources
    unbindSources env source (first - source)
    let source := max source first
    let r ← native env (NativeCall.SetStreamSource (castDWORD source) d3d9buf.d3d9VertexBuffer 0
      (castDWORD d3d9buf.vertexSize))
    if FAILED r.hr then
      CM_EXCEPT Exception.RenderingAPIException
    else
      bindSources env rest (source + 1)

/-- The function `D3D9RenderSystem::setVertexBufferBinding`. -/
def setVertexBufferBinding {σ : Type} (env : Env σ)
    (binding : List (Nat × D3D9HardwareVertexBuffer)) : RSM σ Unit := do
  THROW_IF_NOT_RENDER_THREAD env
  let source ← bindSources env binding 0
  -- Unbind any unused sources
  let s ← getRS
  unbindSources env source (s.mLastVertexSourceCount - source)
  modifyRS (fun s => { s with mLastVertexSourceCount := source })

/-- The element count `op.useIndexes ? op.indexData->indexCount : op.vertexData->vertexCount`
of `render`, converted by `static_cast<DWORD>`. -/
def elementCount (op : RenderOperation) : Nat :=
  castDWORD (if op.useIndexes then op.indexData.indexCount else op.vertexData.vertexCount)

/-- The `primType` chosen by the `switch` of `render`. -/
def primType (op : RenderOperation) : D3DPRIMITIVETYPE :=
  match op.operationType with
  | OperationType.OT_POINT_LIST => D3DPRIMITIVETYPE.D3DPT_POINTLIST
  | OperationType.OT_LINE_LIST => D3DPRIMITIVETYPE.D3DPT_LINELIST
  | OperationType.OT_LINE_STRIP => D3DPRIMITIVETYPE.D3DPT_LINESTRIP
  | OperationType.OT_TRIANGLE_LIST => D3DPRIMITIVETYPE.D3DPT_TRIANGLELIST
  | OperationType.OT_TRIANGLE_STRIP => D3DPRIMITIVETYPE.D3DPT_TRIANGLESTRIP
  | OperationType.OT_TRIANGLE_FAN => D3DPRIMITIVETYPE.D3DPT_TRIANGLEFAN

/-- The `primCount` computed by the `switch` of `render`, in `DWORD` arithmetic. -/
def primCount (op : RenderOperation) : Nat :=
  match op.operationType with
  | OperationType.OT_POINT_LIST => elementCount op
  | OperationType.OT_LINE_LIST => elementCount op / 2
  | OperationType.OT_LINE_STRIP => dwordSub (elementCount op) 1
  | OperationType.OT_TRIANGLE_LIST => elementCount op / 3
  | OperationType.OT_TRIANGLE_STRIP => dwordSub (elementCount op) 2
  | OperationType.OT_TRIANGLE_FAN => dwordSub (elementCount op) 2

/-- The function `D3D9RenderSystem::render`. -/
def render {σ : Type} (env : Env σ) (op : RenderOperation) : RSM σ Unit := do
  THROW_IF_NOT_RENDER_THREAD env
  -- Exit immediately if there is nothing to render
  if op.vertexData.vertexCount = 0 then
    pure ()
  else do
    -- Call super class
    env.superRender op
    setVertexDeclaration env op.vertexData.vertexDeclaration
    setVertexBufferBinding env op.vertexData.vertexBufferBinding
    -- Determine rendering operation
    if primCount op = 0 then
      pure ()
    else do
      -- Issue the op
      if op.useIndexes then
        let r ← native env (NativeCall.SetIndices op.indexData.indexBuffer)
        if FAILED r.hr then
          CM_EXCEPT Exception.RenderingAPIException
        else do
          -- do indexed draw operation
          let r2 ← native env (NativeCall.DrawIndexedPrimitive (primType op)
            (castINT op.vertexData.vertexStart) 0 (castDWORD op.vertexData.vertexCount)
            (castDWORD op.indexData.indexStart) (castDWORD (primCount op)))
          if FAILED r2.hr then
            CM_EXCEPT Exception.RenderingAPIException
          else
            pure ()
      else do
        let r2 ← native env (NativeCall.DrawPrimitive (primType op)
          (castDWORD op.vertexData.vertexStart) (castDWORD (primCount op)))
        if FAILED r2.hr then
          CM_EXCEPT Exception.RenderingAPIException
        else
          pure ()

/-! ## CmD3D9RenderSystem.cpp: frames, viewport and further state -/

/-- The render state `D3DRS_CULLMODE` of the Direct3D 9 interface. -/
def D3DRS_CULLMODE : Nat := 22

/-- The render state `D3DRS_CLIPPLANEENABLE` of the Direct3D 9 interface. -/
def D3DRS_CLIPPLANEENABLE : Nat := 152

/-- The render state `D3DRS_SRGBWRITEENABLE` of the Direct3D 9 interface. -/
def D3DRS_SRGBWRITEENABLE : Nat := 194

/-- The sampler state `D3DSAMP_MAXANISOTROPY` of the Direct3D 9 interface. -/
def D3DSAMP_MAXANISOTROPY : Nat := 10

/-- The 32-bit pattern of the `float` literal `0.0f`. -/
def FLOAT_0 : Nat := 0

/-- The 32-bit pattern of the `float` literal `1.0f`. -/
def FLOAT_1 : Nat := 1065353216

/-- A call on a collaborator whose code is not part of the sources (device
manager, resource manager, render window): the call is appended to the trace,
and the collaborator decides whether it raises and what the devices and the
active device are afterwards. -/
def collaborate {σ : Type} (env : Env σ) (c : NativeCall) : RSM σ Unit := fun s =>
  ((env.collab c s).1,
   { s with devices := (env.collab c s).2.1, activeDevice := (env.collab c s).2.2,
            trace := s.trace ++ [c] })

/-- The function `D3D9RenderSystem::beginFrame`. -/
def beginFrame {σ : Type} (env : Env σ) : RSM σ Unit := do
  THROW_IF_NOT_RENDER_THREAD env
  let r ← native env NativeCall.BeginScene
  if FAILED r.hr then
    CM_EXCEPT Exception.RenderingAPIException
  else do
    modifyRS (fun s => { s with mLastVertexSourceCount := 0 })
    -- Clear left overs of previous viewport.
    collaborate env NativeCall.clearDeviceStreams

/-- The function `D3D9RenderSystem::endFrame`. -/
def endFrame {σ : Type} (env : Env σ) : RSM σ Unit := do
  THROW_IF_NOT_RENDER_THREAD env
  let r ← native env NativeCall.EndScene
  if FAILED r.hr then
    CM_EXCEPT Exception.RenderingAPIException
  else
    collaborate env NativeCall.destroyInactiveRenderDevices

/-- The function `D3D9RenderSystem::setCullingMode`.  `mActiveRenderTarget` is dereferenced
unchecked in the source; a `NULL` pointer stands for a target that does not
require flipping. -/
def setCullingMode {σ : Type} (env : Env σ) (mode : CullingMode) : RSM σ Unit := do
  THROW_IF_NOT_RENDER_THREAD env
  modifyRS (fun s => { s with mCullingMode := mode })
  let s ← getRS
  let flipping := (s.mActiveRenderTarget.map (fun t => t.requiresTextureFlipping)).getD false
  let flip := (flipping && !s.mInvertVertexWinding) || (!flipping && s.mInvertVertexWinding)
  let hr ← __SetRenderState env D3DRS_CULLMODE (env.mapCullingMode mode flip)
  if FAILED hr then
    CM_EXCEPT Exception.RenderingAPIException
  else
    pure ()

/-- The `Y` that `setViewport` hands to the device: `getActualTop()`, or, for a
target that requires texture flipping, `getHeight() - Height - Y` in `DWORD`
arithmetic. -/
def viewportY (vp : Viewport) : Nat :=
  if vp.target.requiresTextureFlipping then
    dwordSub (dwordSub (castDWORD vp.target.height) (castDWORD vp.actualHeight))
      (castDWORD vp.actualTop)
  else
    castDWORD vp.actualTop

/-- The function `D3D9RenderSystem::setViewport`. -/
def setViewport {σ : Type} (env : Env σ) (vp : Viewport) : RSM σ Unit := do
  THROW_IF_NOT_RENDER_THREAD env
  modifyRS (fun s => { s with mActiveViewport := some vp })
  -- Set render target
  let target := vp.target
  setRenderTarget env target
  let s ← getRS
  setCullingMode env s.mCullingMode
  -- set viewport dimensions
  let r ← native env (NativeCall.SetViewport (castDWORD vp.actualLeft) (viewportY vp)
    (castDWORD vp.actualWidth) (castDWORD vp.actualHeight) FLOAT_0 FLOAT_1)
  if FAILED r.hr then
    CM_EXCEPT Exception.RenderingAPIException
  else do
    -- Set sRGB write mode
    let _ ← __SetRenderState env D3DRS_SRGBWRITEENABLE (if target.hardwareGammaEnabled then 1 else 0)
    pure ()

/-- The function `D3D9RenderSystem::setClipPlane`; the result of the native call is dropped. -/
def setClipPlane {σ : Type} (env : Env σ) (index : Nat) (A B C D : Nat) : RSM σ Unit := do
  let _ ← native env (NativeCall.SetClipPlane index A B C D)
  pure ()

/-- The value `enable ? (prev | (1 << index)) : (prev & ~(1 << index))` of
`enableClipPlane`, in `DWORD` arithmetic. -/
def clipPlaneMask (prev : Nat) (index : Nat) (enable : Bool) : Nat :=
  if enable then
    castDWORD (prev ||| castDWORD (1 <<< index))
  else
    castDWORD (prev &&& (4294967295 - castDWORD (1 <<< index)))

/-- The function `D3D9RenderSystem::enableClipPlane`; the results of both native calls are
dropped, and `prev` is whatever the read left in it. -/
def enableClipPlane {σ : Type} (env : Env σ) (index : Nat) (enable : Bool) : RSM σ Unit := do
  let r ← native env (NativeCall.GetRenderState D3DRS_CLIPPLANEENABLE)
  let prev := r.out
  let _ ← __SetRenderState env D3DRS_CLIPPLANEENABLE (clipPlaneMask prev index enable)
  pure ()

/-- The function `D3D9RenderSystem::_getCurrentAnisotropy`; the result of the native call is
dropped. -/
def _getCurrentAnisotropy {σ : Type} (env : Env σ) (unit : Nat) : RSM σ Nat := do
  let r ← native env (NativeCall.GetSamplerState (castDWORD unit) D3DSAMP_MAXANISOTROPY)
  pure r.out

/-- The function `D3D9RenderSystem::setTextureAnisotropy`; the result of `__SetSamplerState`
is dropped. -/
def setTextureAnisotropy {σ : Type} (env : Env σ) (unit : Nat) (maxAnisotropy : Nat) :
    RSM σ Unit := do
  THROW_IF_NOT_RENDER_THREAD env
  let s ← getRS
  let maxAnisotropy :=
    if castDWORD maxAnisotropy > (env.deviceCaps s.activeDevice).MaxAnisotropy then
      (env.deviceCaps s.activeDevice).MaxAnisotropy
    else maxAnisotropy
  let current ← _getCurrentAnisotropy env unit
  if current ≠ maxAnisotropy then
    let _ ← __SetSamplerState env (castDWORD unit) D3DSAMP_MAXANISOTROPY maxAnisotropy
    pure ()
  else
    pure ()

/-! ## CmD3D9RenderSystem.cpp: capabilities -/

/-- The conversion `static_cast<UINT16>(x)`. -/
def castUINT16 (x : Nat) : Nat := x % 65536

/-- The test `SUCCEEDED(hr)`. -/
def SUCCEEDED (hr : Int) : Bool := decide (0 ≤ hr)

/-- The failure code `E_FAIL`. -/
def E_FAIL : Int := -2147467259

/-- Modelled from the spec: `RenderSystemCapabilities::setCapability` is not part of the
sources; it adds a feature flag to the snapshot. -/
def RenderSystemCapabilities.setCapability (rsc : RenderSystemCapabilities) (c : Capabilities) :
    RenderSystemCapabilities :=
  { rsc with capabilities := if c ∈ rsc.capabilities then rsc.capabilities
                             else c :: rsc.capabilities }

/-- Modelled from the spec: `RenderSystemCapabilities::unsetCapability` is not part of the
sources; it removes a feature flag from the snapshot. -/
def RenderSystemCapabilities.unsetCapability (rsc : RenderSystemCapabilities) (c : Capabilities) :
    RenderSystemCapabilities :=
  { rsc with capabilities := rsc.capabilities.filter (fun x => decide (x ≠ c)) }

/-- Modelled from the spec: `RenderSystemCapabilities::hasCapability` is not part of the
sources; it tells whether a feature flag is in the snapshot. -/
def RenderSystemCapabilities.hasCapability (rsc : RenderSystemCapabilities) (c : Capabilities) :
    Bool :=
  decide (c ∈ rsc.capabilities)

/-- Modelled from the spec: `RenderSystemCapabilities::addShaderProfile` is not part of the
sources; it adds a profile name to the set of supported shader profiles. -/
def RenderSystemCapabilities.addShaderProfile (rsc : RenderSystemCapabilities) (profile : String) :
    RenderSystemCapabilities :=
  { rsc with shaderProfiles := if profile ∈ rsc.shaderProfiles then rsc.shaderProfiles
                               else profile :: rsc.shaderProfiles }

/-- Modelled from the spec: `RenderSystemCapabilities::isShaderProfileSupported` is not part
of the sources; it tells whether a profile name is in the set of supported
shader profiles. -/
def RenderSystemCapabilities.isShaderProfileSupported (rsc : RenderSystemCapabilities)
    (profile : String) : Bool :=
  decide (profile ∈ rsc.shaderProfiles)

/-- Modelled from the spec: `RenderSystemCapabilities::addGpuProgramProfile` is not part of
the sources; it records the name under which a GPU program profile is known. -/
def RenderSystemCapabilities.addGpuProgramProfile (rsc : RenderSystemCapabilities)
    (gpp : GpuProgramProfile) (name : String) : RenderSystemCapabilities :=
  { rsc with gpuProgramProfiles :=
      (gpp, name) :: rsc.gpuProgramProfiles.filter (fun x => decide (x.1 ≠ gpp)) }

/-- Modelled from the spec: `RenderSystemCapabilities::setCategoryRelevant` (for `CAPS_CATEGORY_D3D9`) is not part of the sources;
it stores the value in the snapshot. -/
def RenderSystemCapabilities.setCategoryRelevantD3D9 (rsc : RenderSystemCapabilities) (v : Bool) :
    RenderSystemCapabilities :=
  { rsc with categoryRelevantD3D9 := v }

/-- Modelled from the spec: `RenderSystemCapabilities::setDriverVersion` is not part of the sources;
it stores the value in the snapshot. -/
def RenderSystemCapabilities.setDriverVersion (rsc : RenderSystemCapabilities) (v : Nat) :
    RenderSystemCapabilities :=
  { rsc with driverVersion := v }

/-- Modelled from the spec: `RenderSystemCapabilities::setDeviceName` is not part of the sources;
it stores the value in the snapshot. -/
def RenderSystemCapabilities.setDeviceName (rsc : RenderSystemCapabilities) (v : String) :
    RenderSystemCapabilities :=
  { rsc with deviceName := v }

/-- Modelled from the spec: `RenderSystemCapabilities::setRenderSystemName` is not part of the sources;
it stores the value in the snapshot. -/
def RenderSystemCapabilities.setRenderSystemName (rsc : RenderSystemCapabilities) (v : String) :
    RenderSystemCapabilities :=
  { rsc with renderSystemName := v }

/-- Modelled from the spec: `RenderSystemCapabilities::setNumTextureUnits` is not part of the sources;
it stores the value in the snapshot. -/
def RenderSystemCapabilities.setNumTextureUnits (rsc : RenderSystemCapabilities) (v : Nat) :
    RenderSystemCapabilities :=
  { rsc with numTextureUnits := v }

/-- Modelled from the spec: `RenderSystemCapabilities::setNonPOW2TexturesLimited` is not part of the sources;
it stores the value in the snapshot. -/
def RenderSystemCapabilities.setNonPOW2TexturesLimited (rsc : RenderSystemCapabilities) (v : Bool) :
    RenderSystemCapabilities :=
  { rsc with nonPOW2TexturesLimited := v }

/-- Modelled from the spec: `RenderSystemCapabilities::setNumMultiRenderTargets` is not part of the sources;
it stores the value in the snapshot. -/
def RenderSystemCapabilities.setNumMultiRenderTargets (rsc : RenderSystemCapabilities) (v : Nat) :
    RenderSystemCapabilities :=
  { rsc with numMultiRenderTargets := v }

/-- Modelled from the spec: `RenderSystemCapabilities::setMaxPointSize` is not part of the sources;
it stores the value in the snapshot. -/
def RenderSystemCapabilities.setMaxPointSize (rsc : RenderSystemCapabilities) (v : ℚ) :
    RenderSystemCapabilities :=
  { rsc with maxPointSize := v }

/-- Modelled from the spec: `RenderSystemCapabilities::setStencilBufferBitDepth` is not part of the sources;
it stores the value in the snapshot. -/
def RenderSystemCapabilities.setStencilBufferBitDepth (rsc : RenderSystemCapabilities) (v : Nat) :
    RenderSystemCapabilities :=
  { rsc with stencilBufferBitDepth := v }

/-- Modelled from the spec: `RenderSystemCapabilities::setVertexProgramConstantBoolCount` is not part of the sources;
it stores the value in the snapshot. -/
def RenderSystemCapabilities.setVertexProgramConstantBoolCount (rsc : RenderSystemCapabilities) (v : Nat) :
    RenderSystemCapabilities :=
  { rsc with vertexProgramConstantBoolCount := v }

/-- Modelled from the spec: `RenderSystemCapabilities::setVertexProgramConstantIntCount` is not part of the sources;
it stores the value in the snapshot. -/
def RenderSystemCapabilities.setVertexProgramConstantIntCount (rsc : RenderSystemCapabilities) (v : Nat) :
    RenderSystemCapabilities :=
  { rsc with vertexProgramConstantIntCount := v }

/-- Modelled from the spec: `RenderSystemCapabilities::setVertexProgramConstantFloatCount` is not part of the sources;
it stores the value in the snapshot. -/
def RenderSystemCapabilities.setVertexProgramConstantFloatCount (rsc : RenderSystemCapabilities) (v : Nat) :
    RenderSystemCapabilities :=
  { rsc with vertexProgramConstantFloatCount := v }

/-- Modelled from the spec: `RenderSystemCapabilities::setFragmentProgramConstantBoolCount` is not part of the sources;
it stores the value in the snapshot. -/
def RenderSystemCapabilities.setFragmentProgramConstantBoolCount (rsc : RenderSystemCapabilities) (v : Nat) :
    RenderSystemCapabilities :=
  { rsc with fragmentProgramConstantBoolCount := v }

/-- Modelled from the spec: `RenderSystemCapabilities::setFragmentProgramConstantIntCount` is not part of the sources;
it stores the value in the snapshot. -/
def RenderSystemCapabilities.setFragmentProgramConstantIntCount (rsc : RenderSystemCapabilities) (v : Nat) :
    RenderSystemCapabilities :=
  { rsc with fragmentProgramConstantIntCount := v }

/-- Modelled from the spec: `RenderSystemCapabilities::setFragmentProgramConstantFloatCount` is not part of the sources;
it stores the value in the snapshot. -/
def RenderSystemCapabilities.setFragmentProgramConstantFloatCount (rsc : RenderSystemCapabilities) (v : Nat) :
    RenderSystemCapabilities :=
  { rsc with fragmentProgramConstantFloatCount := v }

/-- Modelled from the spec: `RenderSystemCapabilities::setVendor` is not part of the sources;
it stores the value in the snapshot. -/
def RenderSystemCapabilities.setVendor (rsc : RenderSystemCapabilities) (v : GPUVendor) :
    RenderSystemCapabilities :=
  { rsc with vendor := v }

/-- Modelled from the spec: `RenderSystemCapabilities::setNumVertexTextureUnits` is not part of the sources;
it stores the value in the snapshot. -/
def RenderSystemCapabilities.setNumVertexTextureUnits (rsc : RenderSystemCapabilities) (v : Nat) :
    RenderSystemCapabilities :=
  { rsc with numVertexTextureUnits := v }

/-- Modelled from the spec: `RenderSystemCapabilities::setVertexTextureUnitsShared` is not part of the sources;
it stores the value in the snapshot. -/
def RenderSystemCapabilities.setVertexTextureUnitsShared (rsc : RenderSystemCapabilities) (v : Bool) :
    RenderSystemCapabilities :=
  { rsc with vertexTextureUnitsShared := v }

/-- The statement `if (cond) rsc->unsetCapability(c);`. -/
def RenderSystemCapabilities.unsetCapabilityWhen (rsc : RenderSystemCapabilities) (cond : Bool)
    (c : Capabilities) : RenderSystemCapabilities :=
  if cond then rsc.unsetCapability c else rsc

/-- The statement `if (cond) rsc->setCapability(c);`. -/
def RenderSystemCapabilities.setCapabilityWhen (rsc : RenderSystemCapabilities) (cond : Bool)
    (c : Capabilities) : RenderSystemCapabilities :=
  if cond then rsc.setCapability c else rsc

/-- The statements `rsc->addShaderProfile(name); rsc->addGpuProgramProfile(gpp, name);`,
under a condition. -/
def RenderSystemCapabilities.addProfileWhen (rsc : RenderSystemCapabilities) (cond : Bool)
    (gpp : GpuProgramProfile) (name : String) : RenderSystemCapabilities :=
  if cond then (rsc.addShaderProfile name).addGpuProgramProfile gpp name else rsc

/-- Capability bits of `d3d9caps.h`. -/
def D3DCAPS2_CANAUTOGENMIPMAP : Nat := 0x40000000

/-- The texture operation bit `D3DTEXOPCAPS_DOTPRODUCT3`. -/
def D3DTEXOPCAPS_DOTPRODUCT3 : Nat := 0x00800000

/-- The raster bit `D3DPRASTERCAPS_SCISSORTEST`. -/
def D3DPRASTERCAPS_SCISSORTEST : Nat := 0x01000000

/-- The raster bit `D3DPRASTERCAPS_MIPMAPLODBIAS`. -/
def D3DPRASTERCAPS_MIPMAPLODBIAS : Nat := 0x00002000

/-- The stencil bit `D3DSTENCILCAPS_TWOSIDED`. -/
def D3DSTENCILCAPS_TWOSIDED : Nat := 0x00000100

/-- The stencil bit `D3DSTENCILCAPS_INCR`. -/
def D3DSTENCILCAPS_INCR : Nat := 0x00000040

/-- The stencil bit `D3DSTENCILCAPS_DECR`. -/
def D3DSTENCILCAPS_DECR : Nat := 0x00000080

/-- The declaration type bit `D3DDTCAPS_UBYTE4`. -/
def D3DDTCAPS_UBYTE4 : Nat := 0x00000001

/-- The texture bit `D3DPTEXTURECAPS_CUBEMAP`. -/
def D3DPTEXTURECAPS_CUBEMAP : Nat := 0x00000800

/-- The texture bit `D3DPTEXTURECAPS_VOLUMEMAP`. -/
def D3DPTEXTURECAPS_VOLUMEMAP : Nat := 0x00002000

/-- The texture bit `D3DPTEXTURECAPS_POW2`. -/
def D3DPTEXTURECAPS_POW2 : Nat := 0x00000002

/-- The texture bit `D3DPTEXTURECAPS_NONPOW2CONDITIONAL`. -/
def D3DPTEXTURECAPS_NONPOW2CONDITIONAL : Nat := 0x00000100

/-- The misc bit `D3DPMISCCAPS_MRTINDEPENDENTBITDEPTHS`. -/
def D3DPMISCCAPS_MRTINDEPENDENTBITDEPTHS : Nat := 0x00040000

/-- The misc bit `D3DPMISCCAPS_PERSTAGECONSTANT`. -/
def D3DPMISCCAPS_PERSTAGECONSTANT : Nat := 0x00008000

/-- The misc bit `D3DPMISCCAPS_BLENDOP`. -/
def D3DPMISCCAPS_BLENDOP : Nat := 0x00000800

/-- The shader bit `D3DVS20CAPS_PREDICATION`. -/
def D3DVS20CAPS_PREDICATION : Nat := 1

/-- The shader bit `D3DPS20CAPS_ARBITRARYSWIZZLE`. -/
def D3DPS20CAPS_ARBITRARYSWIZZLE : Nat := 1

/-- The shader bit `D3DPS20CAPS_GRADIENTINSTRUCTIONS`. -/
def D3DPS20CAPS_GRADIENTINSTRUCTIONS : Nat := 2

/-- The shader bit `D3DPS20CAPS_PREDICATION`. -/
def D3DPS20CAPS_PREDICATION : Nat := 4

/-- The shader bit `D3DPS20CAPS_NODEPENDENTREADLIMIT`. -/
def D3DPS20CAPS_NODEPENDENTREADLIMIT : Nat := 8

/-- The shader bit `D3DPS20CAPS_NOTEXINSTRUCTIONLIMIT`. -/
def D3DPS20CAPS_NOTEXINSTRUCTIONLIMIT : Nat := 16

/-- The depth-stencil formats with a stencil channel that the device loop accepts:
`D3DFMT_D15S1`, `D3DFMT_D24S8`, `D3DFMT_D24X4S4`, `D3DFMT_D24FS8`. -/
def stencilFormats : List Nat := [73, 75, 79, 83]

/-- The array `floatFormats` of `updateRenderSystemCapabilities`: `D3DFMT_R16F`,
`D3DFMT_G16R16F`, `D3DFMT_A16B16G16R16F`, `D3DFMT_R32F`, `D3DFMT_G32R32F`,
`D3DFMT_A32B32G32R32F`. -/
def floatFormats : List Nat := [111, 112, 113, 114, 115, 116]

/-- The query type `D3DQUERYTYPE_OCCLUSION`. -/
def D3DQUERYTYPE_OCCLUSION : Nat := 9

/-- The resource type `D3DRTYPE_SURFACE`. -/
def D3DRTYPE_SURFACE : Nat := 1

/-- The resource type `D3DRTYPE_TEXTURE`. -/
def D3DRTYPE_TEXTURE : Nat := 3

/-- The usage `D3DUSAGE_QUERY_VERTEXTEXTURE`. -/
def D3DUSAGE_QUERY_VERTEXTEXTURE : Nat := 0x00100000

/-- The format `D3DFMT_X8R8G8B8`. -/
def D3DFMT_X8R8G8B8 : Nat := 22

/-- The format code `MAKEFOURCC('A', 'T', 'O', 'C')`. -/
def FOURCC_ATOC : Nat := 0x434F5441

/-- The function `D3D9RenderSystem::getName`. -/
def getName : String := "D3D9RenderSystem"

/-- A call on the native device of `D3D9Device` number `device`, as in the device
loop of `updateRenderSystemCapabilities`.  The source dereferences the native
handle unchecked; for a `NULL` handle the call is skipped here and reads as a
failure with a null result. -/
def nativeOn {σ : Type} (env : Env σ) (device : Nat) (c : NativeCall) : RSM σ Reply := fun s =>
  match s.devices device with
  | some d =>
    (Except.ok (env.dev.call c d).1,
     { s with devices := Function.update s.devices device (some (env.dev.call c d).2),
              trace := s.trace ++ [c] })
  | none => (Except.ok { hr := E_FAIL, out := 0 }, s)

/-- The part of `updateRenderSystemCapabilities` before the loops: the identification
and the capabilities at their maximum.  `mActiveD3DDriver` is dereferenced
unchecked in the source; a `NULL` pointer stands for an empty description. -/
def capsInit {σ : Type} (env : Env σ) (s : RS σ) (rsc : RenderSystemCapabilities) :
    RenderSystemCapabilities :=
  rsc
    |>.setCategoryRelevantD3D9 true
    |>.setDriverVersion s.mDriverVersion
    |>.setDeviceName ((s.mActiveD3DDriver.map (fun d => d.DriverDescription)).getD "")
    |>.setRenderSystemName getName
    -- Supports fixed-function
    |>.setCapability Capabilities.RSC_FIXED_FUNCTION
    -- Init caps to maximum.
    |>.setNumTextureUnits 1024
    |>.setCapability Capabilities.RSC_ANISOTROPY
    |>.setCapability Capabilities.RSC_AUTOMIPMAP
    |>.setCapability Capabilities.RSC_DOT3
    |>.setCapability Capabilities.RSC_CUBEMAPPING
    |>.setCapability Capabilities.RSC_SCISSOR_TEST
    |>.setCapability Capabilities.RSC_TWO_SIDED_STENCIL
    |>.setCapability Capabilities.RSC_STENCIL_WRAP
    |>.setCapability Capabilities.RSC_HWOCCLUSION
    |>.setCapability Capabilities.RSC_USER_CLIP_PLANES
    |>.setCapability Capabilities.RSC_VERTEX_FORMAT_UBYTE4
    |>.setCapability Capabilities.RSC_TEXTURE_3D
    |>.setCapability Capabilities.RSC_NON_POWER_OF_2_TEXTURES
    |>.setNonPOW2TexturesLimited false
    |>.setNumMultiRenderTargets env.CM_MAX_MULTIPLE_RENDER_TARGETS
    |>.setCapability Capabilities.RSC_MRT_DIFFERENT_BIT_DEPTHS
    |>.setCapability Capabilities.RSC_POINT_SPRITES
    |>.setCapability Capabilities.RSC_POINT_EXTENDED_PARAMETERS
    |>.setMaxPointSize 10
    |>.setCapability Capabilities.RSC_MIPMAP_LOD_BIAS
    |>.setCapability Capabilities.RSC_PERSTAGECONSTANT
    |>.setCapability Capabilities.RSC_HWSTENCIL
    |>.setStencilBufferBitDepth 8
    |>.setCapability Capabilities.RSC_ADVANCED_BLEND_OPERATIONS

/-- One round of the device loop of `updateRenderSystemCapabilities`. -/
def probeDevice {σ : Type} (env : Env σ) (i : Nat) (rsc : RenderSystemCapabilities) :
    RSM σ RenderSystemCapabilities := do
  -- Check for hardware stencil support
  let r ← nativeOn env i NativeCall.GetDepthStencilSurface
  let pSurf := r.out
  let rsc ←
    (if pSurf ≠ 0 then do
      let desc ← nativeOn env i (NativeCall.GetSurfaceDesc pSurf)
      pure (rsc.unsetCapabilityWhen (decide (desc.out ∉ stencilFormats)) Capabilities.RSC_HWSTENCIL)
    else
      pure rsc)
  -- Check for hardware occlusion support
  let q ← nativeOn env i (NativeCall.CreateQuery D3DQUERYTYPE_OCCLUSION)
  pure (rsc.unsetCapabilityWhen (FAILED q.hr) Capabilities.RSC_HWOCCLUSION)

/-- The device loop of `updateRenderSystemCapabilities`: `count` devices from number `i`. -/
def probeDevices {σ : Type} (env : Env σ) (i : Nat) :
    (count : Nat) → RenderSystemCapabilities → RSM σ RenderSystemCapabilities
  | 0, rsc => pure rsc
  | count + 1, rsc => do
    let rsc ← probeDevice env i rsc
    probeDevices env (i + 1) count rsc

/-- The statement of the adapter loop on the number of texture units. -/
def limitNumTextureUnits (rsc : RenderSystemCapabilities) (caps : D3DCAPS9) :
    RenderSystemCapabilities :=
  if caps.MaxSimultaneousTextures < rsc.numTextureUnits then
    rsc.setNumTextureUnits (castUINT16 caps.MaxSimultaneousTextures)
  else rsc

/-- The statement of the adapter loop on power-of-two textures. -/
def limitNonPOW2 (rsc : RenderSystemCapabilities) (caps : D3DCAPS9) : RenderSystemCapabilities :=
  if caps.TextureCaps &&& D3DPTEXTURECAPS_POW2 ≠ 0 then
    -- Conditional support for non POW2
    if caps.TextureCaps &&& D3DPTEXTURECAPS_NONPOW2CONDITIONAL ≠ 0 then
      rsc.setNonPOW2TexturesLimited true
    -- Only power of 2 supported.
    else
      rsc.unsetCapability Capabilities.RSC_NON_POWER_OF_2_TEXTURES
  else rsc

/-- The statement of the adapter loop on the number of render targets. -/
def limitNumMultiRenderTargets (maxRT : Nat) (rsc : RenderSystemCapabilities) (caps : D3DCAPS9) :
    RenderSystemCapabilities :=
  if caps.NumSimultaneousRTs < rsc.numMultiRenderTargets then
    rsc.setNumMultiRenderTargets (min (castUINT16 caps.NumSimultaneousRTs) (castUINT16 maxRT))
  else rsc

/-- The statement of the adapter loop that takes the minimum point size. -/
def limitMaxPointSize (rsc : RenderSystemCapabilities) (caps : D3DCAPS9) :
    RenderSystemCapabilities :=
  if caps.MaxPointSize < rsc.maxPointSize then
    rsc.setMaxPointSize caps.MaxPointSize
  else rsc

/-- One round of the adapter loop of `updateRenderSystemCapabilities`, for the caps
`rkCurCaps` of the current driver. -/
def capsFromDriver (maxRT : Nat) (rsc : RenderSystemCapabilities) (rkCurCaps : D3DCAPS9) :
    RenderSystemCapabilities :=
  let rsc := limitNumTextureUnits rsc rkCurCaps
  -- Check for Anisotropy.
  let rsc := rsc.unsetCapabilityWhen (decide (rkCurCaps.MaxAnisotropy ≤ 1))
    Capabilities.RSC_ANISOTROPY
  -- Check automatic mipmap generation.
  let rsc := rsc.unsetCapabilityWhen (decide (rkCurCaps.Caps2 &&& D3DCAPS2_CANAUTOGENMIPMAP = 0))
    Capabilities.RSC_AUTOMIPMAP
  -- Check Dot product 3.
  let rsc := rsc.unsetCapabilityWhen
    (decide (rkCurCaps.TextureOpCaps &&& D3DTEXOPCAPS_DOTPRODUCT3 = 0)) Capabilities.RSC_DOT3
  -- Scissor test
  let rsc := rsc.unsetCapabilityWhen
    (decide (rkCurCaps.RasterCaps &&& D3DPRASTERCAPS_SCISSORTEST = 0))
    Capabilities.RSC_SCISSOR_TEST
  -- Two-sided stencil
  let rsc := rsc.unsetCapabilityWhen
    (decide (rkCurCaps.StencilCaps &&& D3DSTENCILCAPS_TWOSIDED = 0))
    Capabilities.RSC_TWO_SIDED_STENCIL
  -- stencil wrap
  let rsc := rsc.unsetCapabilityWhen
    (decide (rkCurCaps.StencilCaps &&& D3DSTENCILCAPS_INCR = 0 ∨
             rkCurCaps.StencilCaps &&& D3DSTENCILCAPS_DECR = 0))
    Capabilities.RSC_STENCIL_WRAP
  -- User clip planes
  let rsc := rsc.unsetCapabilityWhen (decide (rkCurCaps.MaxUserClipPlanes = 0))
    Capabilities.RSC_USER_CLIP_PLANES
  -- UBYTE4 type?
  let rsc := rsc.unsetCapabilityWhen (decide (rkCurCaps.DeclTypes &&& D3DDTCAPS_UBYTE4 = 0))
    Capabilities.RSC_VERTEX_FORMAT_UBYTE4
  -- Check cube map support.
  let rsc := rsc.unsetCapabilityWhen
    (decide (rkCurCaps.TextureCaps &&& D3DPTEXTURECAPS_CUBEMAP = 0)) Capabilities.RSC_CUBEMAPPING
  -- 3D textures?
  let rsc := rsc.unsetCapabilityWhen
    (decide (rkCurCaps.TextureCaps &&& D3DPTEXTURECAPS_VOLUMEMAP = 0)) Capabilities.RSC_TEXTURE_3D
  let rsc := limitNonPOW2 rsc rkCurCaps
  -- Number of render targets
  let rsc := limitNumMultiRenderTargets maxRT rsc rkCurCaps
  let rsc := rsc.unsetCapabilityWhen
    (decide (rkCurCaps.PrimitiveMiscCaps &&& D3DPMISCCAPS_MRTINDEPENDENTBITDEPTHS = 0))
    Capabilities.RSC_MRT_DIFFERENT_BIT_DEPTHS
  -- Point sprites
  let rsc := rsc.unsetCapabilityWhen (decide (rkCurCaps.MaxPointSize ≤ 1))
    Capabilities.RSC_POINT_SPRITES
  -- sprites and extended parameters go together in D3D
  let rsc := rsc.unsetCapabilityWhen (decide (rkCurCaps.MaxPointSize ≤ 1))
    Capabilities.RSC_POINT_EXTENDED_PARAMETERS
  -- Take the minimum point size.
  let rsc := limitMaxPointSize rsc rkCurCaps
  -- Mipmap LOD biasing?
  let rsc := rsc.unsetCapabilityWhen
    (decide (rkCurCaps.RasterCaps &&& D3DPRASTERCAPS_MIPMAPLODBIAS = 0))
    Capabilities.RSC_MIPMAP_LOD_BIAS
  -- Do we support per-stage src_manual constants?
  let rsc := rsc.unsetCapabilityWhen
    (decide (rkCurCaps.PrimitiveMiscCaps &&& D3DPMISCCAPS_PERSTAGECONSTANT = 0))
    Capabilities.RSC_PERSTAGECONSTANT
  -- Advanced blend operations? min max subtract rev
  rsc.unsetCapabilityWhen (decide (rkCurCaps.PrimitiveMiscCaps &&& D3DPMISCCAPS_BLENDOP = 0))
    Capabilities.RSC_ADVANCED_BLEND_OPERATIONS

/-- The adapter loop of `updateRenderSystemCapabilities` over the driver list. -/
def capsFromDrivers (maxRT : Nat) (rsc : RenderSystemCapabilities) (drivers : List D3D9Driver) :
    RenderSystemCapabilities :=
  drivers.foldl (fun rsc pCurDriver => capsFromDriver maxRT rsc pCurDriver.d3d9DeviceCaps) rsc

/-- The loop of `convertVertexShaderCaps` and of `convertPixelShaderCaps` that finds the
driver with the lowest shader version: `version` selects `VertexShaderVersion`
or `PixelShaderVersion`, and the accumulator is `(major, minor, minCaps)`. -/
def lowestShaderCaps (version : D3DCAPS9 → Nat) (drivers : List D3D9Driver)
    (start : Nat × Nat × D3DCAPS9) : Nat × Nat × D3DCAPS9 :=
  drivers.foldl (fun acc pCurDriver =>
    let rkCurCaps := pCurDriver.d3d9DeviceCaps
    let currMajor := castUINT16 ((version rkCurCaps &&& 0x0000FF00) >>> 8)
    let currMinor := castUINT16 (version rkCurCaps &&& 0x000000FF)
    if currMajor < acc.1 then (currMajor, currMinor, rkCurCaps)
    else if currMajor = acc.1 ∧ currMinor < acc.2.1 then (acc.1, currMinor, rkCurCaps)
    else acc) start

/-- The part of `convertVertexShaderCaps` after the version is settled: the `vs_2_x` and
`vs_2_a` detection, the constant counts and the profiles (the second `switch`
falls through from 3 to 2 to 1). -/
def vertexShaderProfiles (major : Nat) (minVSCaps : D3DCAPS9) (rsc : RenderSystemCapabilities) :
    RenderSystemCapabilities :=
  let vs2x : Bool := decide (major ≥ 2) &&
    (decide (minVSCaps.VS20Caps_Caps &&& D3DVS20CAPS_PREDICATION ≠ 0) &&
     decide (minVSCaps.VS20Caps_DynamicFlowControlDepth > 0) &&
     decide (minVSCaps.VS20Caps_NumTemps ≥ 12))
  let vs2a : Bool := decide (major ≥ 2) &&
    (decide (minVSCaps.VS20Caps_Caps &&& D3DVS20CAPS_PREDICATION ≠ 0) &&
     decide (minVSCaps.VS20Caps_DynamicFlowControlDepth > 0) &&
     decide (minVSCaps.VS20Caps_NumTemps ≥ 13))
  -- Populate max param count
  let rsc :=
    if major = 1 then
      rsc
        |>.setVertexProgramConstantBoolCount 0
        |>.setVertexProgramConstantIntCount 0
        |>.setVertexProgramConstantFloatCount (castUINT16 minVSCaps.MaxVertexShaderConst)
    else if major = 2 ∨ major = 3 then
      rsc
        |>.setVertexProgramConstantBoolCount 16
        |>.setVertexProgramConstantIntCount 16
        |>.setVertexProgramConstantFloatCount (castUINT16 minVSCaps.MaxVertexShaderConst)
    else rsc
  -- populate syntax codes in program manager
  rsc
    |>.addProfileWhen (decide (major = 3)) GpuProgramProfile.GPP_VS_3_0 "vs_3_0"
    |>.addProfileWhen (decide (major = 3 ∨ major = 2) && vs2x) GpuProgramProfile.GPP_VS_2_x "vs_2_x"
    |>.addProfileWhen (decide (major = 3 ∨ major = 2) && vs2a) GpuProgramProfile.GPP_VS_2_a "vs_2_a"
    |>.addProfileWhen (decide (major = 3 ∨ major = 2)) GpuProgramProfile.GPP_VS_2_0 "vs_2_0"
    |>.addProfileWhen (decide (major = 3 ∨ major = 2 ∨ major = 1)) GpuProgramProfile.GPP_VS_1_1
        "vs_1_1"
    |>.setCapabilityWhen (decide (major = 3 ∨ major = 2 ∨ major = 1))
        Capabilities.RSC_VERTEX_PROGRAM

/-- The function `D3D9RenderSystem::convertVertexShaderCaps`.  When no driver lowers the
version, `minVSCaps` keeps its indeterminate contents. -/
def convertVertexShaderCaps {σ : Type} (env : Env σ) (rsc : RenderSystemCapabilities) :
    RSM σ RenderSystemCapabilities := do
  let s ← getRS
  -- Find the device with the lowest vertex shader caps.
  let low := lowestShaderCaps (fun caps => caps.VertexShaderVersion) (s.mDriverList.getD [])
    (0xFF, 0xFF, env.indeterminateCaps)
  -- In case we didn't found any vertex shader support
  -- try the IDirect3DDevice9 caps instead of the IDirect3D9
  -- software vertex processing is reported there
  if low.1 = 0 ∧ low.2.1 = 0 then do
    let d3dDeviceCaps9 ← native env NativeCall.GetDeviceCaps
    let major := castUINT16 ((d3dDeviceCaps9.out &&& 0x0000FF00) >>> 8)
    pure (vertexShaderProfiles major low.2.2 rsc)
  else
    pure (vertexShaderProfiles low.1 low.2.2 rsc)

/-- The part of `convertPixelShaderCaps` after the version is found: the `ps_2_x`
detection, the constant counts and the profiles (the second `switch` falls
through from 3 to 2 to 1). -/
def pixelShaderProfiles (major minor : Nat) (minPSCaps : D3DCAPS9)
    (rsc : RenderSystemCapabilities) : RenderSystemCapabilities :=
  let ps2b : Bool := decide (major ≥ 2) &&
    (decide (minPSCaps.PS20Caps_Caps &&& D3DPS20CAPS_NOTEXINSTRUCTIONLIMIT ≠ 0) &&
     decide (minPSCaps.PS20Caps_NumTemps ≥ 32))
  let ps2a : Bool := decide (major ≥ 2) &&
    (decide (minPSCaps.PS20Caps_Caps &&& D3DPS20CAPS_NOTEXINSTRUCTIONLIMIT ≠ 0) &&
     decide (minPSCaps.PS20Caps_Caps &&& D3DPS20CAPS_NODEPENDENTREADLIMIT ≠ 0) &&
     decide (minPSCaps.PS20Caps_Caps &&& D3DPS20CAPS_ARBITRARYSWIZZLE ≠ 0) &&
     decide (minPSCaps.PS20Caps_Caps &&& D3DPS20CAPS_GRADIENTINSTRUCTIONS ≠ 0) &&
     decide (minPSCaps.PS20Caps_Caps &&& D3DPS20CAPS_PREDICATION ≠ 0) &&
     decide (minPSCaps.PS20Caps_NumTemps ≥ 22))
  let ps2x : Bool := ps2a || ps2b
  let rsc :=
    if major = 1 then
      rsc
        |>.setFragmentProgramConstantBoolCount 0
        |>.setFragmentProgramConstantIntCount 0
        |>.setFragmentProgramConstantFloatCount 8
    else if major = 2 then
      rsc
        |>.setFragmentProgramConstantBoolCount 16
        |>.setFragmentProgramConstantIntCount 16
        |>.setFragmentProgramConstantFloatCount 32
    else if major = 3 then
      rsc
        |>.setFragmentProgramConstantBoolCount 16
        |>.setFragmentProgramConstantIntCount 16
        |>.setFragmentProgramConstantFloatCount 224
    else rsc
  -- populate syntax codes in program manager
  rsc
    |>.addProfileWhen (decide (major = 3) && decide (minor > 0)) GpuProgramProfile.GPP_PS_3_x
        "ps_3_x"
    |>.addProfileWhen (decide (major = 3)) GpuProgramProfile.GPP_PS_3_0 "ps_3_0"
    |>.addProfileWhen (decide (major = 3 ∨ major = 2) && ps2x) GpuProgramProfile.GPP_PS_2_x "ps_2_x"
    |>.addProfileWhen (decide (major = 3 ∨ major = 2) && ps2a) GpuProgramProfile.GPP_PS_2_a "ps_2_a"
    |>.addProfileWhen (decide (major = 3 ∨ major = 2) && ps2b) GpuProgramProfile.GPP_PS_2_b "ps_2_b"
    |>.addProfileWhen (decide (major = 3 ∨ major = 2)) GpuProgramProfile.GPP_PS_2_0 "ps_2_0"
    |>.addProfileWhen (decide (major = 3 ∨ major = 2 ∨ major = 1) &&
        decide (major > 1 ∨ minor ≥ 4)) GpuProgramProfile.GPP_PS_1_4 "ps_1_4"
    |>.addProfileWhen (decide (major = 3 ∨ major = 2 ∨ major = 1) &&
        decide (major > 1 ∨ minor ≥ 3)) GpuProgramProfile.GPP_PS_1_3 "ps_1_3"
    |>.addProfileWhen (decide (major = 3 ∨ major = 2 ∨ major = 1) &&
        decide (major > 1 ∨ minor ≥ 2)) GpuProgramProfile.GPP_PS_1_2 "ps_1_2"
    |>.addProfileWhen (decide (major = 3 ∨ major = 2 ∨ major = 1)) GpuProgramProfile.GPP_PS_1_1
        "ps_1_1"
    |>.setCapabilityWhen (decide (major = 3 ∨ major = 2 ∨ major = 1))
        Capabilities.RSC_FRAGMENT_PROGRAM

/-- The function `D3D9RenderSystem::convertPixelShaderCaps`, for the driver list `drivers` and
the indeterminate initial contents `indeterminate` of `minPSCaps`. -/
def convertPixelShaderCaps (indeterminate : D3DCAPS9) (drivers : List D3D9Driver)
    (rsc : RenderSystemCapabilities) : RenderSystemCapabilities :=
  -- Find the device with the lowest pixel shader caps.
  let low := lowestShaderCaps (fun caps => caps.PixelShaderVersion) drivers
    (0xFF, 0xFF, indeterminate)
  pixelShaderProfiles low.1 low.2.1 low.2.2 rsc

/-- The `switch` of `updateRenderSystemCapabilities` on `adapterID.VendorId`. -/
def vendorOf (vendorId : Nat) : GPUVendor :=
  if vendorId = 0x10DE then GPUVendor.GPU_NVIDIA
  else if vendorId = 0x1002 then GPUVendor.GPU_ATI
  else if vendorId = 0x163C ∨ vendorId = 0x8086 then GPUVendor.GPU_INTEL
  else if vendorId = 0x5333 then GPUVendor.GPU_S3
  else if vendorId = 0x3D3D then GPUVendor.GPU_3DLABS
  else if vendorId = 0x102B then GPUVendor.GPU_MATROX
  else if vendorId = 0x1039 then GPUVendor.GPU_SIS
  else GPUVendor.GPU_UNKNOWN

/-- The device identifiers that `updateRenderSystemCapabilities` excludes from infinite far
planes (GeForce 3 and 4). -/
def preFXDevice (deviceId : Nat) : Bool :=
  decide ((0x200 ≤ deviceId ∧ deviceId ≤ 0x20F) ∨ (0x250 ≤ deviceId ∧ deviceId ≤ 0x25F) ∨
          (0x280 ≤ deviceId ∧ deviceId ≤ 0x28F) ∨ (0x170 ≤ deviceId ∧ deviceId ≤ 0x18F) ∨
          (0x280 ≤ deviceId ∧ deviceId ≤ 0x28F))

/-- The function `D3D9RenderSystem::checkVertexTextureFormats`: whether any of the formats
run through supports vertex texture fetch. -/
def checkVertexTextureFormats {σ : Type} (env : Env σ) (adapterNumber : Nat)
    (renderWindow : RenderTarget) : Bool :=
  env.vertexTextureFormats.any (fun fmt =>
    SUCCEEDED (env.checkDeviceFormat adapterNumber renderWindow.backBufferFormat
      D3DUSAGE_QUERY_VERTEXTEXTURE D3DRTYPE_TEXTURE fmt))

/-- The part of `updateRenderSystemCapabilities` after the shader caps: vendor, infinite
far plane, render to texture, float textures, vertex texture fetch and alpha
to coverage, for the active driver `adapter`. -/
def capsFromAdapter {σ : Type} (env : Env σ) (adapter : D3D9Driver) (renderWindow : RenderTarget)
    (rsc : RenderSystemCapabilities) : RenderSystemCapabilities :=
  -- determine vendor
  let rsc := rsc.setVendor (vendorOf adapter.VendorId)
  -- Infinite projection?
  let rsc := rsc.setCapabilityWhen
    (rsc.hasCapability Capabilities.RSC_VERTEX_PROGRAM &&
      (decide (rsc.vendor ≠ GPUVendor.GPU_NVIDIA) || !preFXDevice adapter.DeviceId))
    Capabilities.RSC_INFINITE_FAR_PLANE
  -- We always support rendertextures bigger than the frame buffer
  let rsc := rsc.setCapability Capabilities.RSC_HWRENDER_TO_TEXTURE
  -- Determine if any floating point texture format is supported
  let rsc := rsc.setCapabilityWhen
    (floatFormats.any (fun fmt =>
      SUCCEEDED (env.checkDeviceFormat adapter.adapterNumber renderWindow.backBufferFormat 0
        D3DRTYPE_TEXTURE fmt)))
    Capabilities.RSC_TEXTURE_FLOAT
  -- Vertex textures
  let rsc :=
    if rsc.isShaderProfileSupported "vs_3_0" &&
        checkVertexTextureFormats env adapter.adapterNumber renderWindow then
      rsc
        |>.setCapability Capabilities.RSC_VERTEX_TEXTURE_FETCH
        -- always 4 vertex texture units in vs_3_0, and never shared
        |>.setNumVertexTextureUnits 4
        |>.setVertexTextureUnitsShared false
    else rsc
  -- Check alpha to coverage support
  rsc.setCapabilityWhen
    (rsc.isShaderProfileSupported "ps_3_0" &&
      ((decide (rsc.vendor = GPUVendor.GPU_NVIDIA) &&
          decide (env.checkDeviceFormat 0 D3DFMT_X8R8G8B8 0 D3DRTYPE_SURFACE FOURCC_ATOC = S_OK)) ||
       (decide (rsc.vendor ≠ GPUVendor.GPU_NVIDIA) && decide (rsc.vendor = GPUVendor.GPU_ATI))))
    Capabilities.RSC_ALPHA_TO_COVERAGE

/-- The function `D3D9RenderSystem::initialiseFromRenderSystemCapabilities`; the registration of
the program factories with `HighLevelGpuProgramManager` leaves the state of the
render system as it is. -/
def initialiseFromRenderSystemCapabilities {σ : Type} (caps : RenderSystemCapabilities) :
    RSM σ Unit :=
  if caps.renderSystemName ≠ getName then
    CM_EXCEPT Exception.InvalidParametersException
  else
    pure ()

/-- The function `D3D9RenderSystem::updateRenderSystemCapabilities`.  `rsc` is the object
`mCurrentCapabilities` itself unless that pointer is `NULL`, so what is written
to `rsc` is written to the current capabilities: they are stored back before
the one step that can raise, and at the end. -/
def updateRenderSystemCapabilities {σ : Type} (env : Env σ) (renderWindow : RenderTarget) :
    RSM σ RenderSystemCapabilities := do
  let s ← getRS
  let isNew := s.mCurrentCapabilities.isNone
  let rsc := s.mCurrentCapabilities.getD {}
  let rsc := capsInit env s rsc
  let rsc ← probeDevices env 0 s.deviceCount rsc
  -- Update RS caps using the minimum value found in adapter list.
  let rsc := capsFromDrivers env.CM_MAX_MULTIPLE_RENDER_TARGETS rsc (s.mDriverList.getD [])
  let rsc := rsc
    -- Blending between stages supported
    |>.setCapability Capabilities.RSC_BLENDING
    -- We always support compression, D3DX will decompress if device does not support
    |>.setCapability Capabilities.RSC_TEXTURE_COMPRESSION
    |>.setCapability Capabilities.RSC_TEXTURE_COMPRESSION_DXT
    -- We always support VBOs
    |>.setCapability Capabilities.RSC_VBO
  (if isNew then pure () else modifyRS (fun s => { s with mCurrentCapabilities := some rsc }))
  let rsc ← convertVertexShaderCaps env rsc
  let rsc := convertPixelShaderCaps env.indeterminateCaps (s.mDriverList.getD []) rsc
  -- Adapter details
  let adapter := s.mActiveD3DDriver.getD { DriverDescription := "" }
  let rsc := capsFromAdapter env adapter renderWindow rsc
  if isNew then do
    let rsc := (rsc.addShaderProfile "hlsl").addShaderProfile "cg"
    modifyRS (fun s => { s with mCurrentCapabilities := some rsc })
    initialiseFromRenderSystemCapabilities rsc
    pure rsc
  else do
    modifyRS (fun s => { s with mCurrentCapabilities := some rsc })
    pure rsc

/-- A `try` block with its `catch` clauses: `handler` gives the clause that
catches an exception, if any; an exception no clause catches propagates. -/
def tryCatch {σ α : Type} (body : RSM σ α) (handler : Exception → Option (RSM σ α)) :
    RSM σ α := fun s =>
  match body s with
  | (Except.ok a, s1) => (Except.ok a, s1)
  | (Except.error e, s1) =>
    match handler e with
    | some h => h s1
    | none => (Except.error e, s1)

/-- The function `D3D9RenderSystem::registerRenderWindow`. -/
def registerRenderWindow {σ : Type} (env : Env σ) (renderWindow : RenderTarget) :
    RSM σ Unit := do
  THROW_IF_NOT_RENDER_THREAD env
  collaborate env NativeCall.lockDeviceAccess
  tryCatch (collaborate env (NativeCall.linkRenderWindow renderWindow.id))
    (fun e =>
      match e with
      | Exception.RenderingAPIException => some (do
          -- after catching the exception, clean up
          collaborate env NativeCall.unlockDeviceAccess
          collaborate env (NativeCall.destroyWindow renderWindow.id)
          -- re-throw
          CM_EXCEPT e)
      | _ => none)
  collaborate env NativeCall.unlockDeviceAccess
  modifyRS (fun s => { s with mRenderWindows := s.mRenderWindows ++ [renderWindow.id] })
  let _ ← updateRenderSystemCapabilities env renderWindow
  env.attachRenderTarget renderWindow

/-! ## CmD3D9RenderSystem.cpp: configuration options and initialisation -/

/-- The lookup `mOptions.find(name)`: the option stored under `name`, if any. -/
def findOption (options : List (String × ConfigOption)) (name : String) : Option ConfigOption :=
  (options.find? (fun x => decide (x.1 = name))).map (fun x => x.2)

/-- The assignment `mOptions[name] = option`. -/
def assignOption (options : List (String × ConfigOption)) (name : String)
    (option : ConfigOption) : List (String × ConfigOption) :=
  (name, option) :: options.filter (fun x => decide (x.1 ≠ name))

/-- A change made through the pointer `&mOptions.find(name)->second`.  The source
dereferences the iterator unchecked; an absent option stays absent here. -/
def updateOption (options : List (String × ConfigOption)) (name : String)
    (f : ConfigOption → ConfigOption) : List (String × ConfigOption) :=
  options.map (fun x => if x.1 = name then (x.1, f x.2) else x)

/-- The function `D3D9RenderSystem::getDirect3DDrivers`: the driver list, created on first
use. -/
def getDirect3DDrivers {σ : Type} (env : Env σ) : RSM σ (List D3D9Driver) := do
  let s ← getRS
  match s.mDriverList with
  | some drivers => pure drivers
  | none => do
    modifyRS (fun s => { s with mDriverList := some env.enumeratedDrivers })
    pure env.enumeratedDrivers

/-- The lookup `D3D9DriverList::item(name)`: the first driver with that
description, or `NULL`. -/
def driverByDescription (drivers : List D3D9Driver) (name : String) : Option D3D9Driver :=
  drivers.find? (fun d => decide (d.DriverDescription = name))

/-- The loops of `initialize_internal` and `refreshD3DSettings` over the drivers, left by
`break` at the first driver whose description equals `currentValue`. -/
def firstDriverWithDescription (drivers : List D3D9Driver) (currentValue : String) :
    Option D3D9Driver :=
  match drivers with
  | [] => none
  | driver :: rest =>
    if driver.DriverDescription = currentValue then some driver
    else firstDriverWithDescription rest currentValue

/-- The lookup `D3D9VideoModeList::item(name)`: the first video mode with that
description, or `NULL`. -/
def videoModeByDescription (modes : List D3D9VideoMode) (name : String) : Option D3D9VideoMode :=
  modes.find? (fun m => decide (m.description = name))

/-- The function `D3D9RenderSystem::_checkMultiSampleQuality`, for the device type and the
full-screen flag that `refreshFSAAOptions` passes. -/
def _checkMultiSampleQuality {σ : Type} (env : Env σ) (type : Nat) (format : Nat)
    (adapterNum : Nat) : Bool :=
  SUCCEEDED (env.checkDeviceMultiSampleType adapterNum format type).1

/-- The loop of `refreshFSAAOptions` over the sample counts: `count` values from `n`;
the values it appends to `possibleValues`. -/
def fsaaValues (bOK : Nat → Bool) (n : Nat) : (count : Nat) → List String
  | 0 => []
  | count + 1 =>
    (if bOK n then
      toString n :: (if n ≥ 8 then [toString n ++ " [Quality]"] else [])
     else []) ++ fsaaValues bOK (n + 1) count

/-- A change of the option map `mOptions`. -/
def modifyOptions {σ : Type}
    (f : List (String × ConfigOption) → List (String × ConfigOption)) : RSM σ Unit :=
  modifyRS (fun s => { s with mOptions := f s.mOptions })

/-- The function `D3D9RenderSystem::refreshFSAAOptions`. -/
def refreshFSAAOptions {σ : Type} (env : Env σ) : RSM σ Unit := do
  modifyOptions (fun options =>
    updateOption options "FSAA" (fun optFSAA => { optFSAA with possibleValues := ["0"] }))
  let s ← getRS
  let device := ((findOption s.mOptions "Rendering Device").map (fun o => o.currentValue)).getD ""
  let drivers ← getDirect3DDrivers env
  match driverByDescription drivers device with
  | some driver =>
    let s ← getRS
    let mode := ((findOption s.mOptions "Video Mode").map (fun o => o.currentValue)).getD ""
    match videoModeByDescription driver.videoModeList mode with
    | some videoMode =>
      let bOK : Nat → Bool := fun n =>
        _checkMultiSampleQuality env n videoMode.format driver.adapterNumber
      modifyOptions (fun options =>
        updateOption options "FSAA" (fun optFSAA =>
          { optFSAA with possibleValues := optFSAA.possibleValues ++ fsaaValues bOK 2 23 }))
    | none => pure ()
  | none => pure ()
  -- Reset FSAA to none if previous doesn't avail in new possible values
  modifyOptions (fun options =>
    updateOption options "FSAA" (fun optFSAA =>
      if optFSAA.currentValue ∈ optFSAA.possibleValues then optFSAA
      else { optFSAA with currentValue := "0" }))

/-- The video mode option as `refreshD3DSettings` leaves it for a driver: the possible
values are the descriptions of the driver's video modes, and the current value
is reset to the default when it is not among them. -/
def refreshVideoModeOption (driver : D3D9Driver) (optVideoMode : ConfigOption) : ConfigOption :=
  -- get vide modes for this device
  let optVideoMode :=
    { optVideoMode with possibleValues := driver.videoModeList.map (fun m => m.description) }
  -- Reset video mode to default if previous doesn't avail in new possible values
  if optVideoMode.currentValue ∈ optVideoMode.possibleValues then optVideoMode
  else { optVideoMode with currentValue := "800 x 600 @ 32-bit colour" }

/-- The function `D3D9RenderSystem::refreshD3DSettings`. -/
def refreshD3DSettings {σ : Type} (env : Env σ) : RSM σ Unit := do
  let s ← getRS
  match findOption s.mOptions "Rendering Device" with
  | some opt =>
    let drivers ← getDirect3DDrivers env
    match firstDriverWithDescription drivers opt.currentValue with
    | some driver =>
      modifyOptions (fun options =>
        updateOption options "Video Mode" (refreshVideoModeOption driver))
      -- Also refresh FSAA options
      refreshFSAAOptions env
    | none => pure ()
  | none => pure ()

/-- The loop of `initConfigOptions` over the drivers, from index `j`: every description
becomes a possible value, the first one the current value. -/
def deviceOptionLoop : List D3D9Driver → Nat → ConfigOption → ConfigOption
  | [], _, optDevice => optDevice
  | driver :: rest, j, optDevice =>
    let optDevice := { optDevice with
      possibleValues := optDevice.possibleValues ++ [driver.DriverDescription] }
    -- Make first one default
    let optDevice :=
      if j = 0 then { optDevice with currentValue := driver.DriverDescription } else optDevice
    deviceOptionLoop rest (j + 1) optDevice

/-- The function `D3D9RenderSystem::initConfigOptions`. -/
def initConfigOptions {σ : Type} (env : Env σ) : RSM σ Unit := do
  let driverList ← getDirect3DDrivers env
  let optDevice : ConfigOption :=
    { name := "Rendering Device", currentValue := "", possibleValues := [], immutable := false }
  let optVideoMode : ConfigOption :=
    { name := "Video Mode", currentValue := "800 x 600 @ 32-bit colour", immutable := false }
  let optFullScreen : ConfigOption :=
    { name := "Full Screen", possibleValues := ["Yes", "No"], currentValue := "Yes",
      immutable := false }
  let optResourceCeationPolicy : ConfigOption :=
    { name := "Resource Creation Policy",
      possibleValues := ["Create on all devices", "Create on active device"],
      currentValue :=
        match env.creationPolicy with
        | D3D9ResourceCreationPolicy.RCP_CREATE_ON_ACTIVE_DEVICE => "Create on active device"
        | D3D9ResourceCreationPolicy.RCP_CREATE_ON_ALL_DEVICES => "Create on all devices"
        | D3D9ResourceCreationPolicy.RCP_OTHER => "N/A",
      immutable := false }
  let optDevice := deviceOptionLoop driverList 0 optDevice
  let optVSync : ConfigOption :=
    { name := "VSync", immutable := false, possibleValues := ["Yes", "No"], currentValue := "No" }
  let optVSyncInterval : ConfigOption :=
    { name := "VSync Interval", immutable := false, possibleValues := ["1", "2", "3", "4"],
      currentValue := "1" }
  let optAA : ConfigOption :=
    { name := "FSAA", immutable := false, possibleValues := ["None"], currentValue := "None" }
  let optFPUMode : ConfigOption :=
    { name := "Floating-point mode",
      currentValue := if env.OGRE_DOUBLE_PRECISION then "Consistent" else "Fastest",
      possibleValues := ["Fastest", "Consistent"], immutable := false }
  let optNVPerfHUD : ConfigOption :=
    { currentValue := "No", immutable := false, name := "Allow NVPerfHUD",
      possibleValues := ["Yes", "No"] }
  -- SRGB on auto window
  let optSRGB : ConfigOption :=
    { name := "sRGB Gamma Conversion", possibleValues := ["Yes", "No"], currentValue := "No",
      immutable := false }
  modifyOptions (fun options => assignOption options optDevice.name optDevice)
  modifyOptions (fun options => assignOption options optVideoMode.name optVideoMode)
  modifyOptions (fun options => assignOption options optFullScreen.name optFullScreen)
  modifyOptions (fun options => assignOption options optVSync.name optVSync)
  modifyOptions (fun options => assignOption options optVSyncInterval.name optVSyncInterval)
  modifyOptions (fun options => assignOption options optAA.name optAA)
  modifyOptions (fun options => assignOption options optFPUMode.name optFPUMode)
  modifyOptions (fun options => assignOption options optNVPerfHUD.name optNVPerfHUD)
  modifyOptions (fun options => assignOption options optSRGB.name optSRGB)
  modifyOptions (fun options =>
    assignOption options optResourceCeationPolicy.name optResourceCeationPolicy)
  refreshD3DSettings env

/-- The function `D3D9RenderSystem::initialize_internal`.  The driver version is kept as the
packed `DriverVersion`; the managers and factories it creates, and the
base-class initialisation that ends it, are `superInitialize`. -/
def initialize_internal {σ : Type} (env : Env σ) : RSM σ Unit := do
  THROW_IF_NOT_RENDER_THREAD env
  -- Create our Direct3D object
  modifyRS (fun s => { s with mpD3D := env.direct3DCreate9 })
  if env.direct3DCreate9 = false then
    CM_EXCEPT Exception.InternalErrorException
  else do
    -- set config options defaults
    initConfigOptions env
    -- fsaa options
    modifyRS (fun s => { s with mFSAAHint := "", mFSAASamples := 0 })
    -- set stages desc. to defaults
    modifyRS (fun s => { s with
      mTexStageDesc := fun n =>
        if n < env.CM_MAX_TEXTURE_LAYERS then
          { coordIndex := 0, texType := eD3DTexType.D3D_TEX_TYPE_NORMAL, pTex := 0,
            pVertexTex := 0 }
        else s.mTexStageDesc n })
    modifyRS (fun s => { s with mLastVertexSourceCount := 0 })
    -- Init using current settings
    modifyRS (fun s => { s with mActiveD3DDriver := none })
    let s ← getRS
    let opt := (findOption s.mOptions "Rendering Device").getD {}
    let drivers ← getDirect3DDrivers env
    modifyRS (fun s => { s with
      mActiveD3DDriver := firstDriverWithDescription drivers opt.currentValue })
    match firstDriverWithDescription drivers opt.currentValue with
    | none => CM_EXCEPT Exception.InvalidParametersException
    | some driver => do
      -- get driver version
      modifyRS (fun s => { s with mDriverVersion := driver.DriverVersion })
      env.superInitialize

/-! ## CmD3D9RenderSystem.cpp: blend state and clip planes -/

/-- The render state `D3DRS_SRCBLEND` of the Direct3D 9 interface. -/
def D3DRS_SRCBLEND : Nat := 19

/-- The render state `D3DRS_DESTBLEND` of the Direct3D 9 interface. -/
def D3DRS_DESTBLEND : Nat := 20

/-- The render state `D3DRS_ALPHABLENDENABLE` of the Direct3D 9 interface. -/
def D3DRS_ALPHABLENDENABLE : Nat := 27

/-- The render state `D3DRS_POINTSIZE` of the Direct3D 9 interface. -/
def D3DRS_POINTSIZE : Nat := 154

/-- The render state `D3DRS_COLORWRITEENABLE` of the Direct3D 9 interface. -/
def D3DRS_COLORWRITEENABLE : Nat := 168

/-- The render state `D3DRS_BLENDOP` of the Direct3D 9 interface. -/
def D3DRS_BLENDOP : Nat := 171

/-- The render state `D3DRS_ADAPTIVETESS_Y` of the Direct3D 9 interface. -/
def D3DRS_ADAPTIVETESS_Y : Nat := 181

/-- The render state `D3DRS_SEPARATEALPHABLENDENABLE` of the Direct3D 9 interface. -/
def D3DRS_SEPARATEALPHABLENDENABLE : Nat := 206

/-- The render state `D3DRS_SRCBLENDALPHA` of the Direct3D 9 interface. -/
def D3DRS_SRCBLENDALPHA : Nat := 207

/-- The render state `D3DRS_DESTBLENDALPHA` of the Direct3D 9 interface. -/
def D3DRS_DESTBLENDALPHA : Nat := 208

/-- The render state `D3DRS_BLENDOPALPHA` of the Direct3D 9 interface. -/
def D3DRS_BLENDOPALPHA : Nat := 209

/-- The flag `D3DCOLORWRITEENABLE_RED` of the Direct3D 9 interface. -/
def D3DCOLORWRITEENABLE_RED : Nat := 1

/-- The flag `D3DCOLORWRITEENABLE_GREEN` of the Direct3D 9 interface. -/
def D3DCOLORWRITEENABLE_GREEN : Nat := 2

/-- The flag `D3DCOLORWRITEENABLE_BLUE` of the Direct3D 9 interface. -/
def D3DCOLORWRITEENABLE_BLUE : Nat := 4

/-- The flag `D3DCOLORWRITEENABLE_ALPHA` of the Direct3D 9 interface. -/
def D3DCOLORWRITEENABLE_ALPHA : Nat := 8

/-- The format `D3DFMT_UNKNOWN` of the Direct3D 9 interface. -/
def D3DFMT_UNKNOWN : Nat := 0

/-- The Windows constants `TRUE` and `FALSE` as `DWORD` values. -/
def BOOL_TRUE : Nat := 1

/-- The Windows constant `FALSE`. -/
def BOOL_FALSE : Nat := 0

/-- The macro `MAKEFOURCC(ch0, ch1, ch2, ch3)`. -/
def MAKEFOURCC (ch0 ch1 ch2 ch3 : Char) : Nat :=
  castDWORD (ch0.toNat ||| (ch1.toNat <<< 8) ||| (ch2.toNat <<< 16) ||| (ch3.toNat <<< 24))

/-- The statement `if (FAILED(hr = __SetRenderState(state, value))) CM_EXCEPT(RenderingAPIException, ...)`. -/
def checkedSetRenderState {σ : Type} (env : Env σ) (state : Nat) (value : Nat) : RSM σ Unit := do
  let hr ← __SetRenderState env state value
  if FAILED hr then
    CM_EXCEPT Exception.RenderingAPIException
  else
    pure ()

/-- The function `D3D9RenderSystem::setAlphaToCoverage`.  `getCapabilities()` is dereferenced
unchecked in the source; a `NULL` pointer stands for capabilities without any
flag.  The function-local `static bool lasta2c` is written and never read. -/
def setAlphaToCoverage {σ : Type} (env : Env σ) (enable : Bool) : RSM σ Unit := do
  THROW_IF_NOT_RENDER_THREAD env
  let s ← getRS
  let caps : RenderSystemCapabilities := s.mCurrentCapabilities.getD {}
  -- Alpha to coverage
  if caps.hasCapability Capabilities.RSC_ALPHA_TO_COVERAGE then
    -- Vendor-specific hacks on renderstate
    if caps.vendor = GPUVendor.GPU_NVIDIA then
      if enable then
        checkedSetRenderState env D3DRS_ADAPTIVETESS_Y (MAKEFOURCC 'A' 'T' 'O' 'C')
      else
        checkedSetRenderState env D3DRS_ADAPTIVETESS_Y D3DFMT_UNKNOWN
    else if caps.vendor = GPUVendor.GPU_ATI then
      if enable then
        checkedSetRenderState env D3DRS_POINTSIZE (MAKEFOURCC 'A' '2' 'M' '1')
      else
        checkedSetRenderState env D3DRS_POINTSIZE (MAKEFOURCC 'A' '2' 'M' '0')
    else
      pure ()
  else
    pure ()

/-- The function `D3D9RenderSystem::setSceneBlending(sourceFactor, destFactor, op)`. -/
def setSceneBlending {σ : Type} (env : Env σ) (sourceFactor destFactor : SceneBlendFactor)
    (op : SceneBlendOperation) : RSM σ Unit := do
  THROW_IF_NOT_RENDER_THREAD env
  (if sourceFactor = SceneBlendFactor.SBF_ONE ∧ destFactor = SceneBlendFactor.SBF_ZERO then
    checkedSetRenderState env D3DRS_ALPHABLENDENABLE BOOL_FALSE
  else do
    checkedSetRenderState env D3DRS_ALPHABLENDENABLE BOOL_TRUE
    checkedSetRenderState env D3DRS_SEPARATEALPHABLENDENABLE BOOL_FALSE
    checkedSetRenderState env D3DRS_SRCBLEND (env.mapBlendFactor sourceFactor)
    checkedSetRenderState env D3DRS_DESTBLEND (env.mapBlendFactor destFactor))
  checkedSetRenderState env D3DRS_BLENDOP (env.mapBlendOperation op)
  checkedSetRenderState env D3DRS_BLENDOPALPHA (env.mapBlendOperation op)

/-- The overload `D3D9RenderSystem::setSceneBlending(sourceFactor, destFactor, sourceFactorAlpha,
destFactorAlpha, op, alphaOp)` with separate factors for the alpha channel. -/
def setSceneBlendingSeparate {σ : Type} (env : Env σ)
    (sourceFactor destFactor sourceFactorAlpha destFactorAlpha : SceneBlendFactor)
    (op alphaOp : SceneBlendOperation) : RSM σ Unit := do
  THROW_IF_NOT_RENDER_THREAD env
  (if sourceFactor = SceneBlendFactor.SBF_ONE ∧ destFactor = SceneBlendFactor.SBF_ZERO ∧
      sourceFactorAlpha = SceneBlendFactor.SBF_ONE ∧
      destFactorAlpha = SceneBlendFactor.SBF_ZERO then
    checkedSetRenderState env D3DRS_ALPHABLENDENABLE BOOL_FALSE
  else do
    checkedSetRenderState env D3DRS_ALPHABLENDENABLE BOOL_TRUE
    checkedSetRenderState env D3DRS_SEPARATEALPHABLENDENABLE BOOL_TRUE
    checkedSetRenderState env D3DRS_SRCBLEND (env.mapBlendFactor sourceFactor)
    checkedSetRenderState env D3DRS_DESTBLEND (env.mapBlendFactor destFactor)
    checkedSetRenderState env D3DRS_SRCBLENDALPHA (env.mapBlendFactor sourceFactorAlpha)
    checkedSetRenderState env D3DRS_DESTBLENDALPHA (env.mapBlendFactor destFactorAlpha))
  checkedSetRenderState env D3DRS_BLENDOP (env.mapBlendOperation op)
  checkedSetRenderState env D3DRS_BLENDOPALPHA (env.mapBlendOperation alphaOp)

/-- The value `val` that `setColorBufferWriteEnabled` builds from its four flags. -/
def colorWriteEnable (red green blue alpha : Bool) : Nat :=
  let val : Nat := 0
  let val := if red then val ||| D3DCOLORWRITEENABLE_RED else val
  let val := if green then val ||| D3DCOLORWRITEENABLE_GREEN else val
  let val := if blue then val ||| D3DCOLORWRITEENABLE_BLUE else val
  let val := if alpha then val ||| D3DCOLORWRITEENABLE_ALPHA else val
  val

/-- The function `D3D9RenderSystem::setColorBufferWriteEnabled`. -/
def setColorBufferWriteEnabled {σ : Type} (env : Env σ) (red green blue alpha : Bool) :
    RSM σ Unit := do
  THROW_IF_NOT_RENDER_THREAD env
  checkedSetRenderState env D3DRS_COLORWRITEENABLE (colorWriteEnable red green blue alpha)

/-- The conversion to `UINT8`. -/
def castUINT8 (x : Nat) : Nat := x % 256

/-- The function `D3D9RenderSystem::setBlendState`. -/
def setBlendState {σ : Type} (env : Env σ) (blendState : BlendState) : RSM σ Unit := do
  THROW_IF_NOT_RENDER_THREAD env
  -- Alpha to coverage
  setAlphaToCoverage env blendState.getAlphaToCoverageEnabled
  -- Blend states
  -- DirectX 9 doesn't allow us to specify blend state per render target, so we just use the first one.
  (if blendState.getBlendEnabled 0 then
    setSceneBlendingSeparate env (blendState.getSrcBlend 0) (blendState.getDstBlend 0)
      (blendState.getAlphaSrcBlend 0) (blendState.getAlphaDstBlend 0)
      (blendState.getBlendOperation 0) (blendState.getAlphaBlendOperation 0)
  else
    setSceneBlending env SceneBlendFactor.SBF_ONE SceneBlendFactor.SBF_ZERO
      SceneBlendOperation.SBO_ADD)
  -- Color write mask
  let writeMask := castUINT8 (blendState.getRenderTargetWriteMask 0)
  setColorBufferWriteEnabled env (decide (writeMask &&& 0x1 ≠ 0)) (decide (writeMask &&& 0x2 ≠ 0))
    (decide (writeMask &&& 0x4 ≠ 0)) (decide (writeMask &&& 0x8 ≠ 0))

/-- The loop of `setClipPlanesImpl` from plane number `i` with the mask built so far; it
returns the final mask.  The shift `1 << i` is an `int` shift, defined for
`i < 32`. -/
def setClipPlanesLoop {σ : Type} (env : Env σ) : List Plane → Nat → Nat → RSM σ Nat
  | [], _, mask => pure mask
  | plane :: rest, i, mask => do
    let r ← native env (NativeCall.SetClipPlane (castDWORD i) plane.normal_x plane.normal_y
      plane.normal_z plane.d)
    if FAILED r.hr then
      CM_EXCEPT Exception.RenderingAPIException
    else
      setClipPlanesLoop env rest (i + 1) (castDWORD (mask ||| castDWORD (1 <<< i)))

/-- The function `D3D9RenderSystem::setClipPlanesImpl`. -/
def setClipPlanesImpl {σ : Type} (env : Env σ) (clipPlanes : List Plane) : RSM σ Unit := do
  let mask ← setClipPlanesLoop env clipPlanes 0 0
  checkedSetRenderState env D3DRS_CLIPPLANEENABLE mask

/-! ## CmD3D9RenderSystem.cpp: multisampling -/

/-- The sample type `D3DMULTISAMPLE_NONE` of the Direct3D 9 interface. -/
def D3DMULTISAMPLE_NONE : Nat := 0

/-- The sample type `D3DMULTISAMPLE_4_SAMPLES` of the Direct3D 9 interface. -/
def D3DMULTISAMPLE_4_SAMPLES : Nat := 4

/-- The sample type `D3DMULTISAMPLE_8_SAMPLES` of the Direct3D 9 interface. -/
def D3DMULTISAMPLE_8_SAMPLES : Nat := 8

/-- Whether the characters `s` begin with the characters `pattern`. -/
def beginsWith : List Char → List Char → Bool
  | _, [] => true
  | [], _ :: _ => false
  | c :: rest, p :: pattern => decide (c = p) && beginsWith rest pattern

/-- Whether the characters `pattern` occur in a row somewhere in `s`. -/
def occursIn (pattern : List Char) : List Char → Bool
  | [] => pattern.isEmpty
  | c :: rest => beginsWith (c :: rest) pattern || occursIn pattern rest

/-- The test `s.find(pattern) != String::npos`. -/
def stringFinds (s pattern : String) : Bool := occursIn pattern.toList s.toList

/-- The first part of one round of the loop of `determineFSAASettings`: the sample type
and quality it writes to the out-parameters before the query.  With CSAA and a
sample count other than 8 and 16 the `switch` writes nothing and the
out-parameters keep what they held. -/
def fsaaCandidate (tryCSAA qualityHint : Bool) (fsaa : Nat) (out : Nat × Nat) : Nat × Nat :=
  -- Deal with special cases
  if tryCSAA then
    if fsaa = 8 then
      (if qualityHint then (D3DMULTISAMPLE_8_SAMPLES, 0) else (D3DMULTISAMPLE_4_SAMPLES, 2))
    else if fsaa = 16 then
      (if qualityHint then (D3DMULTISAMPLE_8_SAMPLES, 2) else (D3DMULTISAMPLE_4_SAMPLES, 4))
    else out
  else
    (fsaa, 0)

/-- The loop `while (!ok)` of `determineFSAASettings`: `fuel` bounds the number of rounds
(`none` when it runs out), `calls` counts the queries made so far, and
`check k type` is what the `k`-th query `CheckDeviceMultiSampleType` answers for
the sample type `type`: its `HRESULT` and the number of quality levels.  The
result is the content of the two out-parameters when the loop ends.  `--fsaa`
is a `UINT32` decrement. -/
def determineFSAASettingsLoop (check : Nat → Nat → Int × Nat) (origFSAA : Nat) :
    (fuel : Nat) → (calls : Nat) → (fsaa : Nat) → (qualityHint : Bool) → (tryCSAA : Bool) →
    (out : Nat × Nat) → Option (Nat × Nat)
  | 0, _, _, _, _, _ => none
  | fuel + 1, calls, fsaa, qualityHint, tryCSAA, out =>
    let out := fsaaCandidate tryCSAA qualityHint fsaa out
    let r := check calls out.1
    if SUCCEEDED r.1 = true ∧ (tryCSAA = false ∨ r.2 > out.2) then
      some out
    else if tryCSAA = true ∧ fsaa = 8 then
      -- for CSAA, we'll try downgrading with quality mode at all samples.
      -- then try without quality, then drop CSAA
      if qualityHint then
        -- drop quality first, return to original requested samples
        determineFSAASettingsLoop check origFSAA fuel (calls + 1) origFSAA false tryCSAA out
      else
        -- drop CSAA entirely, return to original requested samples
        determineFSAASettingsLoop check origFSAA fuel (calls + 1) origFSAA qualityHint false out
    else
      -- drop samples
      let fsaa := dwordSub fsaa 1
      if fsaa = 1 then
        -- ran out of options, no FSAA
        some out
      else
        determineFSAASettingsLoop check origFSAA fuel (calls + 1) fsaa qualityHint tryCSAA out

/-- The function `D3D9RenderSystem::determineFSAASettings`.  `driverList` is what
`getDirect3DDrivers()` returns, `deviceAdapterNumber` is the adapter number of
the `D3D9Device` the device manager finds for `d3d9Device`, `out` is what the
two out-parameters hold on entry, and `check k adapter format windowed type` is
the answer of the `k`-th query `mpD3D->CheckDeviceMultiSampleType` (device type
`D3DDEVTYPE_HAL`).  `mActiveD3DDriver` is dereferenced unchecked when no driver
of the list matches; a `NULL` pointer stands for a driver with vendor 0. -/
def determineFSAASettings (check : Nat → Nat → Nat → Bool → Nat → Int × Nat)
    (driverList : List D3D9Driver) (mActiveD3DDriver : Option D3D9Driver) (fuel : Nat)
    (deviceAdapterNumber : Nat) (fsaa : Nat) (fsaaHint : String) (d3dPixelFormat : Nat)
    (fullScreen : Bool) (out : Nat × Nat) : Option (Nat × Nat) :=
  let qualityHint := stringFinds fsaaHint "Quality"
  let origFSAA := fsaa
  let deviceDriver : D3D9Driver :=
    match driverList.find? (fun currDriver =>
        decide (currDriver.adapterNumber = deviceAdapterNumber)) with
    | some currDriver => currDriver
    | none => mActiveD3DDriver.getD { DriverDescription := "" }
  -- NVIDIA, prefer CSAA if available for 8+
  let tryCSAA : Bool := decide (deviceDriver.VendorId = 0x10DE) && decide (fsaa ≥ 8)
  determineFSAASettingsLoop
    (fun calls type => check calls deviceDriver.adapterNumber d3dPixelFormat fullScreen type)
    origFSAA fuel 0 fsaa qualityHint tryCSAA out

/-! ## CmD3D9RenderSystem.cpp: sampler, rasterizer and depth-stencil state, programs, clearing -/

/-- The render state `D3DRS_ZENABLE` of the Direct3D 9 interface. -/
def D3DRS_ZENABLE : Nat := 7

/-- The render state `D3DRS_FILLMODE` of the Direct3D 9 interface. -/
def D3DRS_FILLMODE : Nat := 8

/-- The render state `D3DRS_ALPHATESTENABLE` of the Direct3D 9 interface. -/
def D3DRS_ALPHATESTENABLE : Nat := 15

/-- The render state `D3DRS_ZFUNC` of the Direct3D 9 interface. -/
def D3DRS_ZFUNC : Nat := 23

/-- The render state `D3DRS_ALPHAREF` of the Direct3D 9 interface. -/
def D3DRS_ALPHAREF : Nat := 24

/-- The render state `D3DRS_ALPHAFUNC` of the Direct3D 9 interface. -/
def D3DRS_ALPHAFUNC : Nat := 25

/-- The render state `D3DRS_STENCILENABLE` of the Direct3D 9 interface. -/
def D3DRS_STENCILENABLE : Nat := 52

/-- The render state `D3DRS_STENCILFAIL` of the Direct3D 9 interface. -/
def D3DRS_STENCILFAIL : Nat := 53

/-- The render state `D3DRS_STENCILZFAIL` of the Direct3D 9 interface. -/
def D3DRS_STENCILZFAIL : Nat := 54

/-- The render state `D3DRS_STENCILPASS` of the Direct3D 9 interface. -/
def D3DRS_STENCILPASS : Nat := 55

/-- The render state `D3DRS_STENCILFUNC` of the Direct3D 9 interface. -/
def D3DRS_STENCILFUNC : Nat := 56

/-- The render state `D3DRS_STENCILREF` of the Direct3D 9 interface. -/
def D3DRS_STENCILREF : Nat := 57

/-- The render state `D3DRS_STENCILMASK` of the Direct3D 9 interface. -/
def D3DRS_STENCILMASK : Nat := 58

/-- The render state `D3DRS_STENCILWRITEMASK` of the Direct3D 9 interface. -/
def D3DRS_STENCILWRITEMASK : Nat := 59

/-- The render state `D3DRS_MULTISAMPLEANTIALIAS` of the Direct3D 9 interface. -/
def D3DRS_MULTISAMPLEANTIALIAS : Nat := 161

/-- The render state `D3DRS_SCISSORTESTENABLE` of the Direct3D 9 interface. -/
def D3DRS_SCISSORTESTENABLE : Nat := 174

/-- The render state `D3DRS_SLOPESCALEDEPTHBIAS` of the Direct3D 9 interface. -/
def D3DRS_SLOPESCALEDEPTHBIAS : Nat := 175

/-- The render state `D3DRS_ANTIALIASEDLINEENABLE` of the Direct3D 9 interface. -/
def D3DRS_ANTIALIASEDLINEENABLE : Nat := 176

/-- The render state `D3DRS_TWOSIDEDSTENCILMODE` of the Direct3D 9 interface. -/
def D3DRS_TWOSIDEDSTENCILMODE : Nat := 185

/-- The render state `D3DRS_CCW_STENCILFAIL` of the Direct3D 9 interface. -/
def D3DRS_CCW_STENCILFAIL : Nat := 186

/-- The render state `D3DRS_CCW_STENCILZFAIL` of the Direct3D 9 interface. -/
def D3DRS_CCW_STENCILZFAIL : Nat := 187

/-- The render state `D3DRS_CCW_STENCILPASS` of the Direct3D 9 interface. -/
def D3DRS_CCW_STENCILPASS : Nat := 188

/-- The render state `D3DRS_CCW_STENCILFUNC` of the Direct3D 9 interface. -/
def D3DRS_CCW_STENCILFUNC : Nat := 189

/-- The render state `D3DRS_DEPTHBIAS` of the Direct3D 9 interface. -/
def D3DRS_DEPTHBIAS : Nat := 195

/-- The sampler state `D3DSAMP_ADDRESSU` of the Direct3D 9 interface. -/
def D3DSAMP_ADDRESSU : Nat := 1

/-- The sampler state `D3DSAMP_ADDRESSV` of the Direct3D 9 interface. -/
def D3DSAMP_ADDRESSV : Nat := 2

/-- The sampler state `D3DSAMP_ADDRESSW` of the Direct3D 9 interface. -/
def D3DSAMP_ADDRESSW : Nat := 3

/-- The sampler state `D3DSAMP_BORDERCOLOR` of the Direct3D 9 interface. -/
def D3DSAMP_BORDERCOLOR : Nat := 4

/-- The sampler state `D3DSAMP_MIPMAPLODBIAS` of the Direct3D 9 interface. -/
def D3DSAMP_MIPMAPLODBIAS : Nat := 8

/-- The texture stage state `D3DTSS_TEXCOORDINDEX` of the Direct3D 9 interface. -/
def D3DTSS_TEXCOORDINDEX : Nat := 11

/-- The depth buffering type `D3DZB_FALSE` of the Direct3D 9 interface. -/
def D3DZB_FALSE : Nat := 0

/-- The depth buffering type `D3DZB_TRUE` of the Direct3D 9 interface. -/
def D3DZB_TRUE : Nat := 1

/-- The clear flag `D3DCLEAR_TARGET` of the Direct3D 9 interface. -/
def D3DCLEAR_TARGET : Nat := 1

/-- The clear flag `D3DCLEAR_ZBUFFER` of the Direct3D 9 interface. -/
def D3DCLEAR_ZBUFFER : Nat := 2

/-- The clear flag `D3DCLEAR_STENCIL` of the Direct3D 9 interface. -/
def D3DCLEAR_STENCIL : Nat := 4

/-- The raster capability flag `D3DPRASTERCAPS_SLOPESCALEDEPTHBIAS` of the Direct3D 9 interface. -/
def D3DPRASTERCAPS_SLOPESCALEDEPTHBIAS : Nat := 0x02000000

/-- The raster capability flag `D3DPRASTERCAPS_DEPTHBIAS` of the Direct3D 9 interface. -/
def D3DPRASTERCAPS_DEPTHBIAS : Nat := 0x04000000

/-- The 32-bit pattern of the `float` literal `250000.0f`. -/
def FLOAT_250000 : Nat := 0x48742400

/-- The conversion `static_cast<LONG>(x)` to a signed 32-bit integer. -/
def castLONG (x : Nat) : Int := castINT x

/-- The statement `if (FAILED(hr = __SetSamplerState(sampler, type, value))) CM_EXCEPT(RenderingAPIException, ...)`. -/
def checkedSetSamplerState {σ : Type} (env : Env σ) (sampler : Nat) (type : Nat) (value : Nat) :
    RSM σ Unit := do
  let hr ← __SetSamplerState env sampler type value
  if FAILED hr then
    CM_EXCEPT Exception.RenderingAPIException
  else
    pure ()

/-- The macro `assert(cond)`: nothing in a build without assertions (`NDEBUG`);
otherwise a false condition stops the program. -/
def assert {σ : Type} (env : Env σ) (cond : Bool) : RSM σ Unit :=
  if env.NDEBUG then pure ()
  else if cond then pure ()
  else CM_EXCEPT Exception.AssertionFailure

/-- The function `D3D9RenderSystem::disableTextureUnit`. -/
def disableTextureUnit {σ : Type} (env : Env σ) (texUnit : Nat) : RSM σ Unit := do
  THROW_IF_NOT_RENDER_THREAD env
  env.superDisableTextureUnit texUnit

/-- The function `D3D9RenderSystem::setTextureFiltering`. -/
def setTextureFiltering {σ : Type} (env : Env σ) (unit : Nat) (ftype : FilterType)
    (filter : FilterOptions) : RSM σ Unit := do
  THROW_IF_NOT_RENDER_THREAD env
  let s ← getRS
  let texType := (s.mTexStageDesc unit).texType
  let hr ← __SetSamplerState env (castDWORD unit) (env.mapFilterType ftype)
    (env.mapFilter ftype filter (env.deviceCaps s.activeDevice) texType)
  if FAILED hr then
    CM_EXCEPT Exception.RenderingAPIException
  else
    pure ()

/-- The function `D3D9RenderSystem::setTextureMipmapBias`; `bias` is the 32-bit pattern of
the `float`, which is what the source hands to the device.
`mCurrentCapabilities` is dereferenced unchecked; a `NULL` pointer stands for
capabilities without any flag. -/
def setTextureMipmapBias {σ : Type} (env : Env σ) (unit : Nat) (bias : Nat) : RSM σ Unit := do
  THROW_IF_NOT_RENDER_THREAD env
  let s ← getRS
  let caps : RenderSystemCapabilities := s.mCurrentCapabilities.getD {}
  if caps.hasCapability Capabilities.RSC_MIPMAP_LOD_BIAS then
    -- ugh - have to pass float data through DWORD with no conversion
    let hr ← __SetSamplerState env (castDWORD unit) D3DSAMP_MIPMAPLODBIAS bias
    if FAILED hr then
      CM_EXCEPT Exception.RenderingAPIException
    else
      pure ()
  else
    pure ()

/-- The function `D3D9RenderSystem::setTextureAddressingMode`. -/
def setTextureAddressingMode {σ : Type} (env : Env σ) (stage : Nat) (uvw : UVWAddressingMode) :
    RSM σ Unit := do
  THROW_IF_NOT_RENDER_THREAD env
  let s ← getRS
  checkedSetSamplerState env (castDWORD stage) D3DSAMP_ADDRESSU
    (env.mapAddressingMode uvw.u (env.deviceCaps s.activeDevice))
  let s ← getRS
  checkedSetSamplerState env (castDWORD stage) D3DSAMP_ADDRESSV
    (env.mapAddressingMode uvw.v (env.deviceCaps s.activeDevice))
  let s ← getRS
  checkedSetSamplerState env (castDWORD stage) D3DSAMP_ADDRESSW
    (env.mapAddressingMode uvw.w (env.deviceCaps s.activeDevice))

/-- The function `D3D9RenderSystem::setTextureBorderColor`. -/
def setTextureBorderColor {σ : Type} (env : Env σ) (stage : Nat) (colour : Color) :
    RSM σ Unit := do
  THROW_IF_NOT_RENDER_THREAD env
  checkedSetSamplerState env (castDWORD stage) D3DSAMP_BORDERCOLOR (castDWORD colour.getAsARGB)

/-- The function `D3D9RenderSystem::setSamplerState`. -/
def setSamplerState {σ : Type} (env : Env σ) (unit : Nat) (state : SamplerState) :
    RSM σ Unit := do
  THROW_IF_NOT_RENDER_THREAD env
  -- Set texture layer filtering
  setTextureFiltering env unit FilterType.FT_MIN (state.getTextureFiltering FilterType.FT_MIN)
  setTextureFiltering env unit FilterType.FT_MAG (state.getTextureFiltering FilterType.FT_MAG)
  setTextureFiltering env unit FilterType.FT_MIP (state.getTextureFiltering FilterType.FT_MIP)
  -- Set texture layer filtering
  setTextureAnisotropy env unit state.getTextureAnisotropy
  -- Set mipmap biasing
  setTextureMipmapBias env unit state.getTextureMipmapBias
  -- Texture addressing mode
  let uvw := state.getTextureAddressingMode
  setTextureAddressingMode env unit uvw
  -- Set border color
  setTextureBorderColor env unit state.getBorderColor

/-- The function `D3D9RenderSystem::setStencilRefValue`. -/
def setStencilRefValue {σ : Type} (env : Env σ) (refValue : Nat) : RSM σ Unit := do
  THROW_IF_NOT_RENDER_THREAD env
  let hr ← __SetRenderState env D3DRS_STENCILREF (castDWORD refValue)
  if FAILED hr then
    CM_EXCEPT Exception.RenderingAPIException
  else
    pure ()

/-- The function `D3D9RenderSystem::setAlphaTest`; `value` is an `unsigned char`. -/
def setAlphaTest {σ : Type} (env : Env σ) (func : CompareFunction) (value : Nat) :
    RSM σ Unit := do
  THROW_IF_NOT_RENDER_THREAD env
  (if func ≠ CompareFunction.CMPF_ALWAYS_PASS then
    checkedSetRenderState env D3DRS_ALPHATESTENABLE BOOL_TRUE
  else
    checkedSetRenderState env D3DRS_ALPHATESTENABLE BOOL_FALSE)
  -- Set always just be sure
  checkedSetRenderState env D3DRS_ALPHAFUNC (env.mapCompareFunction func)
  checkedSetRenderState env D3DRS_ALPHAREF (castUINT8 value)

/-- The function `D3D9RenderSystem::setDepthBufferCheckEnabled`. -/
def setDepthBufferCheckEnabled {σ : Type} (env : Env σ) (enabled : Bool) : RSM σ Unit := do
  THROW_IF_NOT_RENDER_THREAD env
  let hr ← (if enabled then
    __SetRenderState env D3DRS_ZENABLE D3DZB_TRUE
  else
    __SetRenderState env D3DRS_ZENABLE D3DZB_FALSE)
  if FAILED hr then
    CM_EXCEPT Exception.RenderingAPIException
  else
    pure ()

/-- The function `D3D9RenderSystem::setDepthBufferFunction`. -/
def setDepthBufferFunction {σ : Type} (env : Env σ) (func : CompareFunction) : RSM σ Unit := do
  THROW_IF_NOT_RENDER_THREAD env
  checkedSetRenderState env D3DRS_ZFUNC (env.mapCompareFunction func)

/-- The function `D3D9RenderSystem::setDepthBufferParams`. -/
def setDepthBufferParams {σ : Type} (env : Env σ) (depthTest depthWrite : Bool)
    (depthFunction : CompareFunction) : RSM σ Unit := do
  THROW_IF_NOT_RENDER_THREAD env
  setDepthBufferCheckEnabled env depthTest
  setDepthBufferWriteEnabled env depthWrite
  setDepthBufferFunction env depthFunction

/-- The function `D3D9RenderSystem::setDepthBias`; both arguments are the 32-bit patterns of
the `float`s, and `FLOAT2DWORD` hands a pattern on as it is. -/
def setDepthBias {σ : Type} (env : Env σ) (constantBias slopeScaleBias : Nat) :
    RSM σ Unit := do
  THROW_IF_NOT_RENDER_THREAD env
  let s ← getRS
  (if (env.deviceCaps s.activeDevice).RasterCaps &&& D3DPRASTERCAPS_DEPTHBIAS ≠ 0 then do
    -- Negate bias since D3D is backward
    let constantBias := env.floatDiv (env.floatNeg constantBias) FLOAT_250000
    let hr ← __SetRenderState env D3DRS_DEPTHBIAS constantBias
    if FAILED hr then
      CM_EXCEPT Exception.RenderingAPIException
    else
      pure ()
  else
    pure ())
  let s ← getRS
  if (env.deviceCaps s.activeDevice).RasterCaps &&& D3DPRASTERCAPS_SLOPESCALEDEPTHBIAS ≠ 0 then do
    -- Negate bias since D3D is backward
    let slopeScaleBias := env.floatNeg slopeScaleBias
    let hr ← __SetRenderState env D3DRS_SLOPESCALEDEPTHBIAS slopeScaleBias
    if FAILED hr then
      CM_EXCEPT Exception.RenderingAPIException
    else
      pure ()
  else
    pure ()

/-- The function `D3D9RenderSystem::setPolygonMode`. -/
def setPolygonMode {σ : Type} (env : Env σ) (level : PolygonMode) : RSM σ Unit := do
  THROW_IF_NOT_RENDER_THREAD env
  let hr ← __SetRenderState env D3DRS_FILLMODE (env.mapPolygonMode level)
  if FAILED hr then
    CM_EXCEPT Exception.RenderingAPIException
  else
    pure ()

/-- The function `D3D9RenderSystem::setStencilCheckEnabled`; the `bool` converts to the
`DWORD` 1 or 0.  `mCurrentCapabilities` is dereferenced unchecked; a `NULL`
pointer stands for capabilities without any flag. -/
def setStencilCheckEnabled {σ : Type} (env : Env σ) (enabled : Bool) : RSM σ Unit := do
  THROW_IF_NOT_RENDER_THREAD env
  -- Allow stencilling
  let hr ← __SetRenderState env D3DRS_STENCILENABLE (if enabled then 1 else 0)
  if FAILED hr then
    CM_EXCEPT Exception.RenderingAPIException
  else do
    let s ← getRS
    let caps : RenderSystemCapabilities := s.mCurrentCapabilities.getD {}
    if caps.hasCapability Capabilities.RSC_TWO_SIDED_STENCIL then
      let hr ← __SetRenderState env D3DRS_TWOSIDEDSTENCILMODE BOOL_TRUE
      if FAILED hr then
        CM_EXCEPT Exception.RenderingAPIException
      else
        pure ()
    else
      let hr ← __SetRenderState env D3DRS_TWOSIDEDSTENCILMODE BOOL_FALSE
      if FAILED hr then
        CM_EXCEPT Exception.RenderingAPIException
      else
        pure ()

/-- The function `D3D9RenderSystem::setStencilBufferOperations`. -/
def setStencilBufferOperations {σ : Type} (env : Env σ)
    (stencilFailOp depthFailOp passOp : StencilOperation) (ccw : Bool) : RSM σ Unit := do
  THROW_IF_NOT_RENDER_THREAD env
  let s ← getRS
  -- 2-sided operation
  if ccw then do
    -- fail op
    checkedSetRenderState env D3DRS_CCW_STENCILFAIL
      (env.mapStencilOperation stencilFailOp s.mInvertVertexWinding)
    -- depth fail op
    checkedSetRenderState env D3DRS_CCW_STENCILZFAIL
      (env.mapStencilOperation depthFailOp s.mInvertVertexWinding)
    -- pass op
    checkedSetRenderState env D3DRS_CCW_STENCILPASS
      (env.mapStencilOperation passOp s.mInvertVertexWinding)
  else do
    -- fail op
    checkedSetRenderState env D3DRS_STENCILFAIL
      (env.mapStencilOperation stencilFailOp (!s.mInvertVertexWinding))
    -- depth fail op
    checkedSetRenderState env D3DRS_STENCILZFAIL
      (env.mapStencilOperation depthFailOp (!s.mInvertVertexWinding))
    -- pass op
    checkedSetRenderState env D3DRS_STENCILPASS
      (env.mapStencilOperation passOp (!s.mInvertVertexWinding))

/-- The function `D3D9RenderSystem::setStencilBufferFunc`; it has no render-thread check. -/
def setStencilBufferFunc {σ : Type} (env : Env σ) (func : CompareFunction) (ccw : Bool) :
    RSM σ Unit := do
  let hr ← (if ccw then
    __SetRenderState env D3DRS_CCW_STENCILFUNC (env.mapCompareFunction func)
  else
    __SetRenderState env D3DRS_STENCILFUNC (env.mapCompareFunction func))
  if FAILED hr then
    CM_EXCEPT Exception.RenderingAPIException
  else
    pure ()

/-- The function `D3D9RenderSystem::setStencilBufferReadMask`; it has no render-thread check. -/
def setStencilBufferReadMask {σ : Type} (env : Env σ) (mask : Nat) : RSM σ Unit := do
  let hr ← __SetRenderState env D3DRS_STENCILMASK (castDWORD mask)
  if FAILED hr then
    CM_EXCEPT Exception.RenderingAPIException
  else
    pure ()

/-- The function `D3D9RenderSystem::setStencilBufferWriteMask`; it has no render-thread check. -/
def setStencilBufferWriteMask {σ : Type} (env : Env σ) (mask : Nat) : RSM σ Unit := do
  let hr ← __SetRenderState env D3DRS_STENCILWRITEMASK (castDWORD mask)
  if FAILED hr then
    CM_EXCEPT Exception.RenderingAPIException
  else
    pure ()

/-- The function `D3D9RenderSystem::setScissorRect`: it only records the rectangle. -/
def setScissorRect {σ : Type} (env : Env σ) (left top right bottom : Nat) : RSM σ Unit := do
  THROW_IF_NOT_RENDER_THREAD env
  modifyRS (fun s => { s with mScissorRect := { s.mScissorRect with left := castLONG left } })
  modifyRS (fun s => { s with mScissorRect := { s.mScissorRect with top := castLONG top } })
  modifyRS (fun s => { s with mScissorRect := { s.mScissorRect with bottom := castLONG bottom } })
  modifyRS (fun s => { s with mScissorRect := { s.mScissorRect with right := castLONG right } })

/-- The function `D3D9RenderSystem::setScissorTestEnable`. -/
def setScissorTestEnable {σ : Type} (env : Env σ) (enable : Bool) : RSM σ Unit := do
  THROW_IF_NOT_RENDER_THREAD env
  if enable then do
    checkedSetRenderState env D3DRS_SCISSORTESTENABLE BOOL_TRUE
    let s ← getRS
    let r ← native env (NativeCall.SetScissorRect s.mScissorRect.left s.mScissorRect.top
      s.mScissorRect.right s.mScissorRect.bottom)
    if FAILED r.hr then
      CM_EXCEPT Exception.RenderingAPIException
    else
      pure ()
  else
    checkedSetRenderState env D3DRS_SCISSORTESTENABLE BOOL_FALSE

/-- The function `D3D9RenderSystem::setMultisampleAntialiasEnable`; it has no render-thread
check. -/
def setMultisampleAntialiasEnable {σ : Type} (env : Env σ) (enable : Bool) : RSM σ Unit :=
  if enable then
    checkedSetRenderState env D3DRS_MULTISAMPLEANTIALIAS BOOL_TRUE
  else
    checkedSetRenderState env D3DRS_MULTISAMPLEANTIALIAS BOOL_FALSE

/-- The function `D3D9RenderSystem::setAntialiasedLineEnable`; it has no render-thread check. -/
def setAntialiasedLineEnable {σ : Type} (env : Env σ) (enable : Bool) : RSM σ Unit :=
  if enable then
    checkedSetRenderState env D3DRS_ANTIALIASEDLINEENABLE BOOL_TRUE
  else
    checkedSetRenderState env D3DRS_ANTIALIASEDLINEENABLE BOOL_FALSE

/-- The function `D3D9RenderSystem::setRasterizerState`. -/
def setRasterizerState {σ : Type} (env : Env σ) (rasterizerState : RasterizerState) :
    RSM σ Unit := do
  THROW_IF_NOT_RENDER_THREAD env
  setDepthBias env rasterizerState.getDepthBias rasterizerState.getSlopeScaledDepthBias
  setCullingMode env rasterizerState.getCullMode
  setPolygonMode env rasterizerState.getPolygonMode
  setScissorTestEnable env rasterizerState.getScissorEnable
  setMultisampleAntialiasEnable env rasterizerState.getMultisampleEnable
  setAntialiasedLineEnable env rasterizerState.getAntialiasedLineEnable

/-- The function `D3D9RenderSystem::setDepthStencilState`. -/
def setDepthStencilState {σ : Type} (env : Env σ) (depthStencilState : DepthStencilState) :
    RSM σ Unit := do
  THROW_IF_NOT_RENDER_THREAD env
  -- Set stencil buffer options
  setStencilCheckEnabled env depthStencilState.getStencilEnable
  setStencilBufferOperations env depthStencilState.getStencilFrontFailOp
    depthStencilState.getStencilFrontZFailOp depthStencilState.getStencilFrontPassOp true
  setStencilBufferFunc env depthStencilState.getStencilFrontCompFunc true
  setStencilBufferOperations env depthStencilState.getStencilBackFailOp
    depthStencilState.getStencilBackZFailOp depthStencilState.getStencilBackPassOp false
  setStencilBufferFunc env depthStencilState.getStencilBackCompFunc false
  setStencilBufferReadMask env depthStencilState.getStencilReadMask
  setStencilBufferWriteMask env depthStencilState.getStencilWriteMask
  -- Set depth buffer options
  setDepthBufferCheckEnabled env depthStencilState.getDepthReadEnable
  setDepthBufferWriteEnabled env depthStencilState.getDepthWriteEnable
  setDepthBufferFunction env depthStencilState.getDepthComparisonFunc

/-- The `flags` that `clearFrameBuffer` builds; `hwStencil` is
`hasCapability(RSC_HWSTENCIL)`. -/
def clearFlags {σ : Type} (env : Env σ) (buffers : Nat) (hwStencil : Bool) : Nat :=
  let flags : Nat := 0
  let flags := if castDWORD buffers &&& env.FBT_COLOUR ≠ 0 then flags ||| D3DCLEAR_TARGET else flags
  let flags := if castDWORD buffers &&& env.FBT_DEPTH ≠ 0 then flags ||| D3DCLEAR_ZBUFFER else flags
  -- Only try to clear the stencil buffer if supported
  let flags :=
    if castDWORD buffers &&& env.FBT_STENCIL ≠ 0 ∧ hwStencil = true then flags ||| D3DCLEAR_STENCIL
    else flags
  flags

/-- The function `D3D9RenderSystem::clearFrameBuffer`; `depth` is the 32-bit pattern of the
`float` and `stencil` an `unsigned short`.  `mCurrentCapabilities` is
dereferenced unchecked; a `NULL` pointer stands for capabilities without any
flag. -/
def clearFrameBuffer {σ : Type} (env : Env σ) (buffers : Nat) (colour : Color) (depth : Nat)
    (stencil : Nat) : RSM σ Unit := do
  THROW_IF_NOT_RENDER_THREAD env
  let s ← getRS
  let caps : RenderSystemCapabilities := s.mCurrentCapabilities.getD {}
  let flags := clearFlags env buffers (caps.hasCapability Capabilities.RSC_HWSTENCIL)
  let r ← native env (NativeCall.Clear 0 0 flags (castDWORD colour.getAsARGB) depth
    (castUINT16 stencil))
  if FAILED r.hr then
    CM_EXCEPT Exception.RenderingAPIException
  else
    pure ()

/-- The loop of `bindGpuProgram` over the texture stages: `count` consecutive stages
from `nStage` get their own number as texture coordinate index; the results are
dropped. -/
def resetTexCoordIndex {σ : Type} (env : Env σ) (nStage : Nat) : (count : Nat) → RSM σ Unit
  | 0 => pure ()
  | count + 1 => do
    let _ ← __SetTextureStageState env nStage D3DTSS_TEXCOORDINDEX nStage
    resetTexCoordIndex env (nStage + 1) count

/-- The function `D3D9RenderSystem::bindGpuProgram`. -/
def bindGpuProgram {σ : Type} (env : Env σ) (prg : GpuProgram) : RSM σ Unit := do
  THROW_IF_NOT_RENDER_THREAD env
  let bindingPrg := prg
  (match bindingPrg.getType with
  | GpuProgramType.GPT_VERTEX_PROGRAM => do
    let r ← native env (NativeCall.SetVertexShader bindingPrg.getVertexShader)
    if FAILED r.hr then
      CM_EXCEPT Exception.RenderingAPIException
    else
      pure ()
  | GpuProgramType.GPT_FRAGMENT_PROGRAM => do
    let r ← native env (NativeCall.SetPixelShader bindingPrg.getPixelShader)
    if FAILED r.hr then
      CM_EXCEPT Exception.RenderingAPIException
    else
      pure ()
  | GpuProgramType.GPT_OTHER _ => pure ())
  -- Make sure texcoord index is equal to stage value
  resetTexCoordIndex env 0 8
  env.superBindGpuProgram prg

/-- The function `D3D9RenderSystem::unbindGpuProgram`. -/
def unbindGpuProgram {σ : Type} (env : Env σ) (gptype : GpuProgramType) : RSM σ Unit := do
  THROW_IF_NOT_RENDER_THREAD env
  (match gptype with
  | GpuProgramType.GPT_VERTEX_PROGRAM => do
    modifyRS (fun s => { s with mActiveVertexGpuProgramParameters := none })
    let r ← native env (NativeCall.SetVertexShader 0)
    if FAILED r.hr then
      CM_EXCEPT Exception.RenderingAPIException
    else
      pure ()
  | GpuProgramType.GPT_FRAGMENT_PROGRAM => do
    modifyRS (fun s => { s with mActiveFragmentGpuProgramParameters := none })
    let r ← native env (NativeCall.SetPixelShader 0)
    if FAILED r.hr then
      CM_EXCEPT Exception.RenderingAPIException
    else
      pure ()
  | GpuProgramType.GPT_OTHER _ => pure ())
  env.superUnbindGpuProgram gptype

/-- The first loop of `bindGpuProgramParameters`, over the entries of the sampler map;
the `UINT32` logical index converts to the `UINT16` unit. -/
def bindSamplerStates {σ : Type} (env : Env σ) (params : GpuProgramParameters)
    (variability : Nat) : List (Nat × GpuLogicalIndexUse) → RSM σ Unit
  | [] => pure ()
  | i :: rest => do
    (if i.2.variability &&& castUINT16 variability ≠ 0 then
      let logicalIndex := castDWORD i.1
      match params.getSamplerState i.2.physicalIndex with
      | none => setSamplerState env (castUINT16 logicalIndex) env.defaultSamplerState
      | some samplerState => setSamplerState env (castUINT16 logicalIndex) samplerState
    else
      pure ())
    bindSamplerStates env params variability rest

/-- The second loop of `bindGpuProgramParameters`, over the entries of the texture map; a
texture that is not loaded is skipped. -/
def bindTextures {σ : Type} (env : Env σ) (params : GpuProgramParameters)
    (variability : Nat) : List (Nat × GpuLogicalIndexUse) → RSM σ Unit
  | [] => pure ()
  | i :: rest => do
    (if i.2.variability &&& castUINT16 variability ≠ 0 then
      let logicalIndex := castDWORD i.1
      let texture := params.getTexture i.2.physicalIndex
      if !texture.isLoaded then
        pure ()
      else
        setTexture env (castUINT16 logicalIndex) true texture.getInternalPtr
    else
      pure ())
    bindTextures env params variability rest

/-- The four loops of `bindGpuProgramParameters` that upload constants differ in the
native call `upload` and in the accessor `pointer` only: for every entry of the
map whose variability is asked for, `currentSize / 4` slots from the logical
index are uploaded. -/
def uploadConstants {σ : Type} (env : Env σ) (upload : Nat → Nat → Nat → NativeCall)
    (pointer : Nat → Nat) (variability : Nat) : List (Nat × GpuLogicalIndexUse) → RSM σ Unit
  | [] => pure ()
  | i :: rest => do
    (if i.2.variability &&& castUINT16 variability ≠ 0 then do
      let logicalIndex := castDWORD i.1
      let p := pointer i.2.physicalIndex
      let slotCount := castDWORD (i.2.currentSize / 4)
      assert env (decide (i.2.currentSize % 4 = 0))
      let r ← native env (upload (castDWORD logicalIndex) p (castDWORD slotCount))
      if FAILED r.hr then
        CM_EXCEPT Exception.RenderingAPIException
      else
        pure ()
    else
      pure ())
    uploadConstants env upload pointer variability rest

/-- The function `D3D9RenderSystem::bindGpuProgramParameters`. -/
def bindGpuProgramParameters {σ : Type} (env : Env σ) (gptype : GpuProgramType)
    (params : GpuProgramParameters) (variability : Nat) : RSM σ Unit := do
  THROW_IF_NOT_RENDER_THREAD env
  let floatLogical := params.floatLogical
  let intLogical := params.intLogical
  let samplerLogical := params.samplerLogical
  let textureLogical := params.textureLogical
  -- Set texture & sampler
  bindSamplerStates env params variability samplerLogical
  bindTextures env params variability textureLogical
  match gptype with
  | GpuProgramType.GPT_VERTEX_PROGRAM => do
    modifyRS (fun s => { s with mActiveVertexGpuProgramParameters := some params })
    uploadConstants env NativeCall.SetVertexShaderConstantF params.getFloatPointer variability
      floatLogical
    -- bind ints
    uploadConstants env NativeCall.SetVertexShaderConstantI params.getIntPointer variability
      intLogical
  | GpuProgramType.GPT_FRAGMENT_PROGRAM => do
    modifyRS (fun s => { s with mActiveFragmentGpuProgramParameters := some params })
    uploadConstants env NativeCall.SetPixelShaderConstantF params.getFloatPointer variability
      floatLogical
    -- bind ints
    uploadConstants env NativeCall.SetPixelShaderConstantI params.getIntPointer variability
      intLogical
  | GpuProgramType.GPT_OTHER _ => pure ()

/-- The function `D3D9RenderSystem::destroyRenderTarget`: the first entry of `mRenderWindows`
that is the target is erased, then the base class removes the target. -/
def destroyRenderTarget {σ : Type} (env : Env σ) (renderTarget : RenderTarget) :
    RSM σ Unit := do
  THROW_IF_NOT_RENDER_THREAD env
  -- Check render windows
  modifyRS (fun s => { s with mRenderWindows := s.mRenderWindows.erase renderTarget.id })
  -- Do the real removal
  env.superDestroyRenderTarget renderTarget

/-- The function `D3D9RenderSystem::destroy_internal`; `SAFE_DELETE(mDriverList)` leaves
`NULL` behind. -/
def destroy_internal {σ : Type} (env : Env σ) : RSM σ Unit := do
  env.superDestroy
  env.deleteDeviceManager
  modifyRS (fun s => { s with mDriverList := none })
  modifyRS (fun s => { s with mActiveD3DDriver := none })
  env.shutDownManagers

/-- The function `D3D9RenderSystem::notifyOnDeviceLost`: its body is empty. -/
def notifyOnDeviceLost {σ : Type} (_device : Nat) : RSM σ Unit := pure ()

/-- The loop of `notifyOnDeviceReset` over the texture stages: `count` consecutive stages
from `i` are reset. -/
def resetTextureStages {σ : Type} (env : Env σ) (i : Nat) : (count : Nat) → RSM σ Unit
  | 0 => pure ()
  | count + 1 => do
    setTexture env i false none
    resetTextureStages env (i + 1) count

/-- The function `D3D9RenderSystem::notifyOnDeviceReset`.  The counter of the loop is a
`UINT16`: `CM_MAX_TEXTURE_LAYERS` is taken to be at most 65535, as the loop
does not end otherwise. -/
def notifyOnDeviceReset {σ : Type} (env : Env σ) (_device : Nat) : RSM σ Unit := do
  -- Reset state attributes.
  modifyRS (fun s => { s with mVertexProgramBound := false })
  modifyRS (fun s => { s with mFragmentProgramBound := false })
  modifyRS (fun s => { s with mLastVertexSourceCount := 0 })
  -- Invalidate active view port.
  modifyRS (fun s => { s with mActiveViewport := none })
  -- Reset the texture stages, they will need to be rebound
  resetTextureStages env 0 env.CM_MAX_TEXTURE_LAYERS

/-! ## Hypotheses on the surroundings, and a concrete device to run the code on -/

/-- The calling thread passes the render-thread check: either the build is not a
debug build or the caller is the render thread. -/
def Env.threadOk {σ : Type} (env : Env σ) : Prop :=
  env.CM_DEBUG_MODE = true → env.onRenderThread = true

instance {σ : Type} (env : Env σ) : Decidable env.threadOk := by
  unfold Env.threadOk; exact inferInstance

/-- No native call of the device ever fails: no reply satisfies `FAILED`. -/
def Device.healthy {σ : Type} (dev : Device σ) : Prop :=
  ∀ (c : NativeCall) (st : σ), FAILED (dev.call c st).1.hr = false

/-- The device reads render states back: `GetRenderState` leaves the device as it
is, and after a successful `SetRenderState(k, v)` it succeeds with value `v`. -/
def Device.readsBackRenderState {σ : Type} (dev : Device σ) : Prop :=
  (∀ (k : Nat) (st : σ), (dev.call (NativeCall.GetRenderState k) st).2 = st) ∧
  (∀ (k v : Nat) (st : σ), FAILED (dev.call (NativeCall.SetRenderState k v) st).1.hr = false →
    dev.call (NativeCall.GetRenderState k) (dev.call (NativeCall.SetRenderState k v) st).2
      = (({ hr := D3D_OK, out := v } : Reply), (dev.call (NativeCall.SetRenderState k v) st).2))

/-- The calls that a list of native calls has of a given kind. -/
def countCalls (p : NativeCall → Bool) (calls : List NativeCall) : Nat := (calls.filter p).length

/-- Recogniser of `SetRenderState(state, ...)` calls. -/
def isSetRenderState (state : Nat) : NativeCall → Bool
  | NativeCall.SetRenderState k _ => decide (k = state)
  | _ => false

/-- Recogniser of `SetTexture` calls. -/
def isSetTexture : NativeCall → Bool
  | NativeCall.SetTexture _ _ => true
  | _ => false

/-- Recogniser of the calls that issue a draw or bind the index buffer. -/
def isDrawOrSetIndices : NativeCall → Bool
  | NativeCall.SetIndices _ => true
  | NativeCall.DrawPrimitive _ _ _ => true
  | NativeCall.DrawIndexedPrimitive _ _ _ _ _ _ => true
  | _ => false

/-- The `SetStreamSource` calls of the reset loops: `count` sources from `source`. -/
def unbindCalls (source : Nat) : Nat → List NativeCall
  | 0 => []
  | count + 1 => NativeCall.SetStreamSource (castDWORD source) 0 0 0 :: unbindCalls (source + 1) count

/-- The `SetStreamSource` calls of the main loop of `setVertexBufferBinding`,
with the final value of `source`. -/
def bindCalls : List (Nat × D3D9HardwareVertexBuffer) → Nat → List NativeCall × Nat
  | [], source => ([], source)
  | (first, d3d9buf) :: rest, source =>
    let r := bindCalls rest (max source first + 1)
    (unbindCalls source (first - source) ++
      NativeCall.SetStreamSource (castDWORD (max source first)) d3d9buf.d3d9VertexBuffer 0
        (castDWORD d3d9buf.vertexSize) :: r.1, r.2)

/-- All `SetStreamSource` calls of `setVertexBufferBinding` for a binding map when
the previous number of sources was `last`. -/
def streamCalls (binding : List (Nat × D3D9HardwareVertexBuffer)) (last : Nat) : List NativeCall :=
  (bindCalls binding 0).1 ++ unbindCalls (bindCalls binding 0).2 (last - (bindCalls binding 0).2)

/-- The calls by which `render` issues the draw. -/
def drawCalls (op : RenderOperation) : List NativeCall :=
  if op.useIndexes then
    [NativeCall.SetIndices op.indexData.indexBuffer,
     NativeCall.DrawIndexedPrimitive (primType op) (castINT op.vertexData.vertexStart) 0
       (castDWORD op.vertexData.vertexCount) (castDWORD op.indexData.indexStart) (primCount op)]
  else
    [NativeCall.DrawPrimitive (primType op) (castDWORD op.vertexData.vertexStart) (primCount op)]

/-- State of the simulated device: the values of its render, sampler and texture
stage states. -/
structure SimState where
  renderState : Nat → Nat
  samplerState : Nat → Nat → Nat
  textureStageState : Nat → Nat → Nat

/-- A simulated device on which every call succeeds and every `Get...` returns
the value last set. -/
def simDevice : Device SimState where
  call c st :=
    match c with
    | NativeCall.GetRenderState k => ({ hr := S_OK, out := st.renderState k }, st)
    | NativeCall.SetRenderState k v =>
      ({ hr := S_OK, out := 0 }, { st with renderState := Function.update st.renderState k v })
    | NativeCall.GetSamplerState i k => ({ hr := S_OK, out := st.samplerState i k }, st)
    | NativeCall.SetSamplerState i k v =>
      ({ hr := S_OK, out := 0 },
       { st with samplerState := Function.update st.samplerState i (Function.update (st.samplerState i) k v) })
    | NativeCall.GetTextureStageState i k => ({ hr := S_OK, out := st.textureStageState i k }, st)
    | NativeCall.SetTextureStageState i k v =>
      ({ hr := S_OK, out := 0 },
       { st with textureStageState :=
                   Function.update st.textureStageState i (Function.update (st.textureStageState i) k v) })
    | _ => ({ hr := S_OK, out := 0 }, st)

/-- Modelled from the spec: `D3D9DeviceManager::setActiveRenderTargetDevice` is not part of the
sources; it switches the current device context, so that all subsequent calls
apply to the given device, and issues no native call. -/
def DeviceManager.setActiveRenderTargetDevice {σ : Type} (device : Nat) : RSM σ Unit :=
  modifyRS (fun s => { s with activeDevice := device })

/-- Surroundings for concrete runs: a debug build called on the render thread,
the simulated device, a base-class `render` and a window validation that do
nothing, and the device manager of the spec.  The managers and windows return
without touching the devices, attaching a render target records it, no adapter
is enumerated and every Direct3D query succeeds.  The mappings of the
enumerations that are carried by value return that value, unary minus flips
the sign bit, the division is not simulated (it returns its first operand),
assertions are compiled in, and the remaining base-class functions and the
shut-downs do nothing. -/
def simEnv : Env SimState where
  CM_DEBUG_MODE := true
  onRenderThread := true
  dev := simDevice
  superRender := fun _ => pure ()
  setActiveRenderTargetDevice := DeviceManager.setActiveRenderTargetDevice
  validateDevice := fun _ => pure ()
  CM_MAX_MULTIPLE_RENDER_TARGETS := 8
  CM_MAX_TEXTURE_LAYERS := 16
  collab := fun _ s => (Except.ok (), (s.devices, s.activeDevice))
  attachRenderTarget := fun w => modifyRS (fun s => { s with mRenderTargets := s.mRenderTargets ++ [w.id] })
  superInitialize := pure ()
  mapCullingMode := fun mode flip =>
    match mode with
    | CullingMode.CULL_NONE => 1
    | CullingMode.CULL_CLOCKWISE => if flip then 3 else 2
    | CullingMode.CULL_COUNTERCLOCKWISE => if flip then 2 else 3
  deviceCaps := fun _ => { MaxAnisotropy := 16 }
  direct3DCreate9 := true
  enumeratedDrivers := []
  creationPolicy := D3D9ResourceCreationPolicy.RCP_CREATE_ON_ACTIVE_DEVICE
  checkDeviceFormat := fun _ _ _ _ _ => 0
  checkDeviceMultiSampleType := fun _ _ _ => (0, 1)
  vertexTextureFormats := []
  indeterminateCaps := {}
  OGRE_DOUBLE_PRECISION := false
  mapBlendFactor := fun f =>
    match f with
    | SceneBlendFactor.SBF_ONE => 2
    | SceneBlendFactor.SBF_ZERO => 1
    | SceneBlendFactor.SBF_OTHER v => v
  mapBlendOperation := fun op =>
    match op with
    | SceneBlendOperation.SBO_ADD => 1
    | SceneBlendOperation.SBO_OTHER v => v
  mapCompareFunction := fun func =>
    match func with
    | CompareFunction.CMPF_ALWAYS_PASS => 8
    | CompareFunction.CMPF_OTHER v => v
  mapPolygonMode := fun level => level.value
  mapStencilOperation := fun op _ => op.value
  mapAddressingMode := fun tam _ => tam.value
  mapFilterType := fun ftype =>
    match ftype with
    | FilterType.FT_MIN => 6
    | FilterType.FT_MAG => 5
    | FilterType.FT_MIP => 7
    | FilterType.FT_OTHER _ => 6
  mapFilter := fun _ filter _ _ => filter.value
  floatNeg := fun x => if x < 2147483648 then x + 2147483648 else x - 2147483648
  floatDiv := fun x _ => x
  FBT_COLOUR := 1
  FBT_DEPTH := 2
  FBT_STENCIL := 4
  defaultSamplerState :=
    { getTextureFiltering := fun _ => { value := 0 }, getTextureAnisotropy := 1,
      getTextureMipmapBias := 0,
      getTextureAddressingMode := { u := { value := 1 }, v := { value := 1 }, w := { value := 1 } },
      getBorderColor := { getAsARGB := 0 } }
  NDEBUG := false
  superDisableTextureUnit := fun _ => pure ()
  superBindGpuProgram := fun _ => pure ()
  superUnbindGpuProgram := fun _ => pure ()
  superDestroyRenderTarget := fun _ => pure ()
  superDestroy := pure ()
  deleteDeviceManager := pure ()
  shutDownManagers := pure ()

/-- A render system as `initialize_internal` leaves it (stage descriptors at
their defaults, no stream source bound), on simulated devices whose states are
all zero. -/
def simInit : RS SimState where
  devices := fun _ => some { renderState := fun _ => 0, samplerState := fun _ _ => 0,
                             textureStageState := fun _ _ => 0 }
  activeDevice := 0
  trace := []
  mTexStageDesc := fun _ => { texType := eD3DTexType.D3D_TEX_TYPE_NORMAL, coordIndex := 0,
                              pTex := 0, pVertexTex := 0 }
  mLastVertexSourceCount := 0
  mActiveRenderTarget := none
  mRenderWindows := []
  mCurrentCapabilities := some { numMultiRenderTargets := 1 }

/-- A render operation on `n` elements of a single vertex stream: unindexed with
`n` vertices, or indexed with `n` indices over 10 vertices. -/
def sampleOp (t : OperationType) (indexed : Bool) (n : Nat) : RenderOperation where
  operationType := t
  vertexData := { vertexDeclaration := 7,
                  vertexBufferBinding := [(0, { d3d9VertexBuffer := 5, vertexSize := 32 })],
                  vertexStart := 0,
                  vertexCount := if indexed then 10 else n }
  indexData := { indexBuffer := 9, indexStart := 0, indexCount := n }
  useIndexes := indexed

/-- A cube texture with native handle 4 that is read with hardware gamma. -/
def sampleTexture : D3D9Texture where
  texture_internal := 4
  d3dTexType := eD3DTexType.D3D_TEX_TYPE_CUBE
  hardwareGammaReadToBeUsed := true

/-- The initial render system after `sampleTexture` was recorded on stage 2 with
texture coordinate set 1. -/
def simBound : RS SimState :=
  { simInit with
      mTexStageDesc := Function.update simInit.mTexStageDesc 2
        { texType := eD3DTexType.D3D_TEX_TYPE_CUBE, coordIndex := 1, pTex := 4, pVertexTex := 0 } }

/-- A render target that is still initialising: on device 1, with no back buffer
and no depth buffer yet. -/
def sampleTarget : RenderTarget where
  id := 3
  device := 1
  backBuffers := []
  depthBuffer := 0

/-- A computation only ever appends native calls satisfying `P` to the trace,
whether it returns or raises. -/
def Emits {σ α : Type} (P : NativeCall → Prop) (m : RSM σ α) : Prop :=
  ∀ s : RS σ, ∃ calls : List NativeCall, (m s).2.trace = s.trace ++ calls ∧ ∀ c ∈ calls, P c

/-- The device behind the active `D3D9Device` is not `NULL`. -/
def RS.live {σ : Type} (s : RS σ) : Prop := ∃ d : σ, s.devices s.activeDevice = some d

/-- A computation leaves the stage descriptors `mTexStageDesc` as they are,
whether it returns or raises. -/
def KeepsTexStageDesc {σ α : Type} (m : RSM σ α) : Prop :=
  ∀ s : RS σ, (m s).2.mTexStageDesc = s.mTexStageDesc

/-- A simulated device on which the calls selected by `bad` fail with `E_FAIL` and
leave the device as it was; every other call is answered as by `simDevice`. -/
def failingDevice (bad : NativeCall → Bool) : Device SimState where
  call c st := if bad c then ({ hr := E_FAIL, out := 0 }, st) else simDevice.call c st

/-- The surroundings of `simEnv` with the device replaced by `failingDevice bad`. -/
def failingEnv (bad : NativeCall → Bool) : Env SimState :=
  { simEnv with dev := failingDevice bad }

/-- The calls `BeginScene` and `EndScene`. -/
def isSceneCall : NativeCall → Bool
  | NativeCall.BeginScene => true
  | NativeCall.EndScene => true
  | _ => false

/-- The calls on `IDirect3DDevice9`, as opposed to the calls on the device manager,
the resource manager and render windows. -/
def isDeviceCall : NativeCall → Bool
  | NativeCall.clearDeviceStreams => false
  | NativeCall.destroyInactiveRenderDevices => false
  | NativeCall.lockDeviceAccess => false
  | NativeCall.unlockDeviceAccess => false
  | NativeCall.linkRenderWindow _ => false
  | NativeCall.destroyWindow _ => false
  | _ => true

/-- The collaborators whose code is a parameter append only calls satisfying `P`
to the trace. -/
def Env.quiet {σ : Type} (env : Env σ) (P : NativeCall → Prop) : Prop :=
  (∀ op, Emits P (env.superRender op)) ∧
  (∀ dv, Emits P (env.setActiveRenderTargetDevice dv)) ∧
  (∀ t, Emits P (env.validateDevice t)) ∧
  (∀ w, Emits P (env.attachRenderTarget w)) ∧
  Emits P env.superInitialize

/-- The initial render system after three vertex streams were bound. -/
def simStreamed : RS SimState :=
  { simInit with mLastVertexSourceCount := 3 }

/-- The initial render system with `sampleTarget` registered as a render window. -/
def simWindowed : RS SimState :=
  { simInit with mRenderWindows := [sampleTarget.id] }

/-- A projection of the state that reads neither the devices, nor which device is
active, nor the trace: a field of the render system itself. -/
def OwnField {σ β : Type} (f : RS σ → β) : Prop :=
  ∀ (s : RS σ) (dv : Nat → Option σ) (a : Nat) (t : List NativeCall),
    f { s with devices := dv, activeDevice := a, trace := t } = f s

/-- A computation leaves the projection `f` of the state as it is, whether it
returns or raises. -/
def Keeps {σ α β : Type} (f : RS σ → β) (m : RSM σ α) : Prop :=
  ∀ s : RS σ, f (m s).2 = f s

/-- A render target with one back buffer, 600 lines high, that requires texture
flipping. -/
def flippedTarget : RenderTarget where
  id := 4
  device := 0
  backBuffers := [5]
  depthBuffer := 6
  height := 600
  requiresTextureFlipping := true

/-- A viewport of 100 by 50 at (10, 20) on `flippedTarget`. -/
def sampleViewport : Viewport where
  target := flippedTarget
  actualLeft := 10
  actualTop := 20
  actualWidth := 100
  actualHeight := 50

/-- The state in which `setViewport`, run on `sampleViewport` from `simInit`, issues
`SetViewport`: the viewport is recorded, the render target and the culling mode
are set. -/
def simViewportReady : RS SimState :=
  (setCullingMode simEnv CullingMode.CULL_COUNTERCLOCKWISE
    (setRenderTarget simEnv flippedTarget
      { simInit with mActiveViewport := some sampleViewport }).2).2

/-- A computation returns, without raising, from every state with a live active
device, and leaves the active device live. -/
def Returns {σ α : Type} (m : RSM σ α) : Prop :=
  ∀ s : RS σ, s.live → ∃ (a : α) (s1 : RS σ), m s = (Except.ok a, s1) ∧ s1.live

/-- Every native call fails. -/
def allCalls : NativeCall → Bool := fun _ => true

/-- The reads and writes of the render state `D3DRS_SRGBWRITEENABLE`. -/
def isSRGBWriteCall : NativeCall → Bool
  | NativeCall.GetRenderState k => decide (k = D3DRS_SRGBWRITEENABLE)
  | NativeCall.SetRenderState k _ => decide (k = D3DRS_SRGBWRITEENABLE)
  | _ => false

/-- A render target with a back buffer and hardware gamma enabled. -/
def gammaTarget : RenderTarget where
  id := 7
  device := 0
  backBuffers := [5]
  depthBuffer := 6
  height := 600
  hardwareGammaEnabled := true

/-- A viewport of 100 by 50 at (10, 20) on `gammaTarget`. -/
def gammaViewport : Viewport where
  target := gammaTarget
  actualLeft := 10
  actualTop := 20
  actualWidth := 100
  actualHeight := 50

/-- The call `lockDeviceAccess`. -/
def isLock : NativeCall → Bool
  | NativeCall.lockDeviceAccess => true
  | _ => false

/-- The call `unlockDeviceAccess`. -/
def isUnlock : NativeCall → Bool
  | NativeCall.unlockDeviceAccess => true
  | _ => false

/-- The surroundings of `simEnv` with a device manager that fails to link render
windows: `linkRenderWindow` raises `RenderingAPIException`. -/
def linkFailingEnv : Env SimState :=
  { simEnv with
      collab := fun c s =>
        match c with
        | NativeCall.linkRenderWindow _ =>
          (Except.error Exception.RenderingAPIException, (s.devices, s.activeDevice))
        | _ => (Except.ok (), (s.devices, s.activeDevice)) }

/-- The feature flags that `updateRenderSystemCapabilities` derives from the caps of the
enumerated adapters. -/
def adapterFlags : List Capabilities :=
  [Capabilities.RSC_ANISOTROPY, Capabilities.RSC_AUTOMIPMAP, Capabilities.RSC_DOT3,
   Capabilities.RSC_SCISSOR_TEST, Capabilities.RSC_TWO_SIDED_STENCIL,
   Capabilities.RSC_STENCIL_WRAP, Capabilities.RSC_USER_CLIP_PLANES,
   Capabilities.RSC_VERTEX_FORMAT_UBYTE4, Capabilities.RSC_CUBEMAPPING,
   Capabilities.RSC_TEXTURE_3D, Capabilities.RSC_MRT_DIFFERENT_BIT_DEPTHS,
   Capabilities.RSC_POINT_SPRITES, Capabilities.RSC_MIPMAP_LOD_BIAS,
   Capabilities.RSC_PERSTAGECONSTANT, Capabilities.RSC_ADVANCED_BLEND_OPERATIONS]

/-- Specification: whether the caps of an adapter report support for the feature
behind an adapter-derived flag (any other flag is not adapter-derived and reads
as supported). -/
def adapterSupports (c : Capabilities) (caps : D3DCAPS9) : Bool :=
  match c with
  | Capabilities.RSC_ANISOTROPY => decide (1 < caps.MaxAnisotropy)
  | Capabilities.RSC_AUTOMIPMAP => decide (caps.Caps2 &&& D3DCAPS2_CANAUTOGENMIPMAP ≠ 0)
  | Capabilities.RSC_DOT3 => decide (caps.TextureOpCaps &&& D3DTEXOPCAPS_DOTPRODUCT3 ≠ 0)
  | Capabilities.RSC_SCISSOR_TEST => decide (caps.RasterCaps &&& D3DPRASTERCAPS_SCISSORTEST ≠ 0)
  | Capabilities.RSC_TWO_SIDED_STENCIL =>
    decide (caps.StencilCaps &&& D3DSTENCILCAPS_TWOSIDED ≠ 0)
  | Capabilities.RSC_STENCIL_WRAP =>
    decide (caps.StencilCaps &&& D3DSTENCILCAPS_INCR ≠ 0 ∧
            caps.StencilCaps &&& D3DSTENCILCAPS_DECR ≠ 0)
  | Capabilities.RSC_USER_CLIP_PLANES => decide (caps.MaxUserClipPlanes ≠ 0)
  | Capabilities.RSC_VERTEX_FORMAT_UBYTE4 => decide (caps.DeclTypes &&& D3DDTCAPS_UBYTE4 ≠ 0)
  | Capabilities.RSC_CUBEMAPPING => decide (caps.TextureCaps &&& D3DPTEXTURECAPS_CUBEMAP ≠ 0)
  | Capabilities.RSC_TEXTURE_3D => decide (caps.TextureCaps &&& D3DPTEXTURECAPS_VOLUMEMAP ≠ 0)
  | Capabilities.RSC_MRT_DIFFERENT_BIT_DEPTHS =>
    decide (caps.PrimitiveMiscCaps &&& D3DPMISCCAPS_MRTINDEPENDENTBITDEPTHS ≠ 0)
  | Capabilities.RSC_POINT_SPRITES => decide (1 < caps.MaxPointSize)
  | Capabilities.RSC_MIPMAP_LOD_BIAS =>
    decide (caps.RasterCaps &&& D3DPRASTERCAPS_MIPMAPLODBIAS ≠ 0)
  | Capabilities.RSC_PERSTAGECONSTANT =>
    decide (caps.PrimitiveMiscCaps &&& D3DPMISCCAPS_PERSTAGECONSTANT ≠ 0)
  | Capabilities.RSC_ADVANCED_BLEND_OPERATIONS =>
    decide (caps.PrimitiveMiscCaps &&& D3DPMISCCAPS_BLENDOP ≠ 0)
  | _ => true

/-- Specification: the minimum of `start` and the values of a list. -/
def minOver (start : Nat) (values : List Nat) : Nat := values.foldr min start

/-- What the adapter loop of `updateRenderSystemCapabilities` settles in a capabilities
object: the two numeric limits, the name of the render system and, for each of
the adapter-derived flags, whether it is set. -/
def RenderSystemCapabilities.adapterView (rsc : RenderSystemCapabilities) :
    Nat × Nat × String × List Bool :=
  (rsc.numTextureUnits, rsc.numMultiRenderTargets, rsc.renderSystemName,
   adapterFlags.map (fun c => rsc.hasCapability c))

/-- Specification: the adapter view after `updateRenderSystemCapabilities` for a list of
adapters: each limit is the minimum over the adapters, each flag the
conjunction over the adapters. -/
def expectedAdapterView (maxRT : Nat) (drivers : List D3D9Driver) :
    Nat × Nat × String × List Bool :=
  (minOver 1024 (drivers.map (fun d => d.d3d9DeviceCaps.MaxSimultaneousTextures)),
   minOver maxRT (drivers.map (fun d => d.d3d9DeviceCaps.NumSimultaneousRTs)),
   getName,
   adapterFlags.map (fun c => drivers.all (fun d => adapterSupports c d.d3d9DeviceCaps)))

/-- Whenever the computation returns, the value returned and the state it leaves
satisfy `Q`. -/
def Yields {σ α : Type} (Q : α → RS σ → Prop) (m : RSM σ α) : Prop :=
  ∀ (s : RS σ) (a : α) (s1 : RS σ), m s = (Except.ok a, s1) → Q a s1

/-- An adapter that supports every adapter-derived feature, with 8 texture units,
4 render targets and shader model 3.0. -/
def adapterA : D3D9Driver where
  DriverDescription := "Adapter A"
  adapterNumber := 0
  d3d9DeviceCaps :=
    { MaxSimultaneousTextures := 8, MaxAnisotropy := 16, Caps2 := 0x40000000,
      TextureOpCaps := 0x00800000, RasterCaps := 0x01002000, StencilCaps := 0x000001C0,
      MaxUserClipPlanes := 6, DeclTypes := 0x00000001, TextureCaps := 0x00002800,
      NumSimultaneousRTs := 4, PrimitiveMiscCaps := 0x00048800, MaxPointSize := 64,
      VertexShaderVersion := 0xFFFE0300, PixelShaderVersion := 0xFFFF0300,
      MaxVertexShaderConst := 256 }

/-- An adapter with 4 texture units and 1 render target, without anisotropic
filtering, two-sided stencil and point sprites, with vertex shaders 1.1 and
pixel shaders 2.0. -/
def adapterB : D3D9Driver where
  DriverDescription := "Adapter B"
  adapterNumber := 1
  d3d9DeviceCaps :=
    { MaxSimultaneousTextures := 4, MaxAnisotropy := 1, Caps2 := 0x40000000,
      TextureOpCaps := 0x00800000, RasterCaps := 0x01002000, StencilCaps := 0x000000C0,
      MaxUserClipPlanes := 6, DeclTypes := 0x00000001, TextureCaps := 0x00002800,
      NumSimultaneousRTs := 1, PrimitiveMiscCaps := 0x00048800, MaxPointSize := 1,
      VertexShaderVersion := 0xFFFE0101, PixelShaderVersion := 0xFFFF0200,
      MaxVertexShaderConst := 96 }

/-- An adapter without hardware vertex processing: it reports vertex shader
version 0.0, and pixel shaders 3.0. -/
def adapterSoftwareVertex : D3D9Driver where
  DriverDescription := "Adapter C"
  adapterNumber := 0
  d3d9DeviceCaps :=
    { MaxSimultaneousTextures := 8, NumSimultaneousRTs := 4,
      VertexShaderVersion := 0xFFFE0000, PixelShaderVersion := 0xFFFF0300 }

/-- The initial render system with one device, after the adapters `adapterA` and
`adapterB` were enumerated and `adapterA` was made the active driver. -/
def simAdapters : RS SimState :=
  { simInit with deviceCount := 1, mDriverList := some [adapterA, adapterB],
                 mActiveD3DDriver := some adapterA }

/-- As `simAdapters`, with no capabilities object yet. -/
def simAdaptersFresh : RS SimState :=
  { simAdapters with mCurrentCapabilities := none }

/-- The major number `static_cast<UINT16>((version & 0x0000FF00) >> 8)` of a packed
shader version. -/
def versionMajor (version : Nat) : Nat := castUINT16 ((version &&& 0x0000FF00) >>> 8)

/-- The minor number `static_cast<UINT16>(version & 0x000000FF)` of a packed shader
version. -/
def versionMinor (version : Nat) : Nat := castUINT16 (version &&& 0x000000FF)

/-- Specification: the lexicographic order on `(major, minor)` pairs. -/
def lexLE (a b : Nat × Nat) : Prop := a.1 < b.1 ∨ (a.1 = b.1 ∧ a.2 ≤ b.2)

/-- Specification: the vertex shader profiles with their major version. -/
def vertexProfiles : List (String × Nat) :=
  [("vs_1_1", 1), ("vs_2_0", 2), ("vs_2_x", 2), ("vs_2_a", 2), ("vs_3_0", 3)]

/-- Specification: the pixel shader profiles with their major version. -/
def pixelProfiles : List (String × Nat) :=
  [("ps_1_1", 1), ("ps_1_2", 1), ("ps_1_3", 1), ("ps_1_4", 1), ("ps_2_0", 2), ("ps_2_x", 2),
   ("ps_2_a", 2), ("ps_2_b", 2), ("ps_3_0", 3), ("ps_3_x", 3)]

/-- A simulated device with software vertex processing: its `GetDeviceCaps` reports
vertex shader version 3.0; every other call is answered as by `simDevice`. -/
def softwareVertexDevice : Device SimState where
  call c st :=
    match c with
    | NativeCall.GetDeviceCaps => ({ hr := S_OK, out := 0xFFFE0300 }, st)
    | _ => simDevice.call c st

/-- The surroundings of `simEnv` with the device replaced by `softwareVertexDevice`. -/
def softwareVertexEnv : Env SimState :=
  { simEnv with dev := softwareVertexDevice }

/-- The initial render system after the single adapter `adapterSoftwareVertex` was
enumerated. -/
def simSoftwareVertex : RS SimState :=
  { simInit with deviceCount := 1, mDriverList := some [adapterSoftwareVertex],
                 mActiveD3DDriver := some adapterSoftwareVertex }

/-- The driver list that `getDirect3DDrivers` hands out in a state: the list created
earlier, or the enumerated adapters. -/
def driversOf {σ : Type} (env : Env σ) (s : RS σ) : List D3D9Driver :=
  s.mDriverList.getD env.enumeratedDrivers

/-- A computation returns from every state and leaves the projection `f` of the
state as it is. -/
def ReturnsKeeping {σ α β : Type} (f : RS σ → β) (m : RSM σ α) : Prop :=
  ∀ s : RS σ, ∃ (a : α) (s1 : RS σ), m s = (Except.ok a, s1) ∧ f s1 = f s

/-- The driver list and the option "Rendering Device" of a state. -/
def deviceSelection {σ : Type} (env : Env σ) (s : RS σ) :
    List D3D9Driver × Option ConfigOption :=
  (driversOf env s, findOption s.mOptions "Rendering Device")

/-- The option "Rendering Device" as `initConfigOptions` builds it for a driver list. -/
def defaultDeviceOption (drivers : List D3D9Driver) : ConfigOption :=
  deviceOptionLoop drivers 0
    { name := "Rendering Device", currentValue := "", possibleValues := [], immutable := false }

/-- The surroundings of `simEnv` with the adapters `adapterA` and `adapterB` enumerated. -/
def adaptersEnv : Env SimState :=
  { simEnv with enumeratedDrivers := [adapterA, adapterB] }

/-- The capability test behind `ps2b` in `convertPixelShaderCaps`: no texture instruction
limit and at least 32 temporaries. -/
def ps2bCaps (minPSCaps : D3DCAPS9) : Bool :=
  decide (minPSCaps.PS20Caps_Caps &&& D3DPS20CAPS_NOTEXINSTRUCTIONLIMIT ≠ 0) &&
  decide (minPSCaps.PS20Caps_NumTemps ≥ 32)
/-- The capability test behind `ps2a` in `convertPixelShaderCaps`: the five `PS20Caps` bits
and at least 22 temporaries. -/
def ps2aCaps (minPSCaps : D3DCAPS9) : Bool :=
  decide (minPSCaps.PS20Caps_Caps &&& D3DPS20CAPS_NOTEXINSTRUCTIONLIMIT ≠ 0) &&
  decide (minPSCaps.PS20Caps_Caps &&& D3DPS20CAPS_NODEPENDENTREADLIMIT ≠ 0) &&
  decide (minPSCaps.PS20Caps_Caps &&& D3DPS20CAPS_ARBITRARYSWIZZLE ≠ 0) &&
  decide (minPSCaps.PS20Caps_Caps &&& D3DPS20CAPS_GRADIENTINSTRUCTIONS ≠ 0) &&
  decide (minPSCaps.PS20Caps_Caps &&& D3DPS20CAPS_PREDICATION ≠ 0) &&
  decide (minPSCaps.PS20Caps_NumTemps ≥ 22)
/-- The pixel shader profiles expected for a version `major.minor` with `major` one of
1, 2, 3, by name: `ps_1_1` always; `ps_1_2`, `ps_1_3`, `ps_1_4` when `major > 1`
or `minor` is at least 2, 3, 4; `ps_2_0` when `major ≥ 2`; `ps_2_a`, `ps_2_b`
when moreover the capability test holds, `ps_2_x` when one of the two does;
`ps_3_0` when `major = 3`; `ps_3_x` when moreover `minor > 0`. -/
def pixelProfileExpected (major minor : Nat) (ps2a ps2b : Bool) (p : String) : Bool :=
  decide (p = "ps_1_1") ||
  (decide (p = "ps_1_2") && decide (major > 1 ∨ minor ≥ 2)) ||
  (decide (p = "ps_1_3") && decide (major > 1 ∨ minor ≥ 3)) ||
  (decide (p = "ps_1_4") && decide (major > 1 ∨ minor ≥ 4)) ||
  (decide (p = "ps_2_0") && decide (major ≥ 2)) ||
  (decide (p = "ps_2_a") && (decide (major ≥ 2) && ps2a)) ||
  (decide (p = "ps_2_b") && (decide (major ≥ 2) && ps2b)) ||
  (decide (p = "ps_2_x") && (decide (major ≥ 2) && (ps2a || ps2b))) ||
  (decide (p = "ps_3_0") && decide (major = 3)) ||
  (decide (p = "ps_3_x") && (decide (major = 3) && decide (minor > 0)))

/-- A blend state with blending disabled on the first target, stored factors that
are not the defaults, and a write mask that selects red and alpha and has
high bits set; the second target differs. -/
def sampleBlendState : BlendState where
  getAlphaToCoverageEnabled := false
  getBlendEnabled := fun i => decide (i = 1)
  getSrcBlend := fun _ => SceneBlendFactor.SBF_OTHER 5
  getDstBlend := fun _ => SceneBlendFactor.SBF_OTHER 6
  getAlphaSrcBlend := fun _ => SceneBlendFactor.SBF_OTHER 5
  getAlphaDstBlend := fun _ => SceneBlendFactor.SBF_OTHER 6
  getBlendOperation := fun _ => SceneBlendOperation.SBO_OTHER 3
  getAlphaBlendOperation := fun _ => SceneBlendOperation.SBO_OTHER 3
  getRenderTargetWriteMask := fun i => if i = 0 then 0xF9 else 0x06

/-- One more than the last stream index of a binding map, 0 for the empty map. -/
def sourceCount (binding : List (Nat × D3D9HardwareVertexBuffer)) : Nat :=
  match binding.getLast? with
  | none => 0
  | some b => b.1 + 1

/-- The call expected for stream index `i`: the buffer bound under key `i`, with
offset 0 and its vertex size as stride, or `NULL` when `i` is not a key. -/
def expectedStreamCall (binding : List (Nat × D3D9HardwareVertexBuffer)) (i : Nat) :
    NativeCall :=
  match binding.find? (fun b => decide (b.1 = i)) with
  | some b => NativeCall.SetStreamSource i b.2.d3d9VertexBuffer 0 b.2.vertexSize
  | none => NativeCall.SetStreamSource i 0 0 0

/-- The calls expected of `setVertexBufferBinding` when the previous source count was
`last`: one call per stream index below the larger of `last` and the source
count of the map, in ascending order. -/
def expectedStreamCalls (binding : List (Nat × D3D9HardwareVertexBuffer)) (last : Nat) :
    List NativeCall :=
  (List.range (max last (sourceCount binding))).map (expectedStreamCall binding)

/-- A binding map with buffers on streams 1 and 4. -/
def sampleBinding : List (Nat × D3D9HardwareVertexBuffer) :=
  [(1, { d3d9VertexBuffer := 5, vertexSize := 32 }),
   (4, { d3d9VertexBuffer := 6, vertexSize := 12 })]

/-- Whether the adapter selected by the option "Rendering Device" accepts `n` samples
for the video mode selected by the option "Video Mode": the answer
`refreshFSAAOptions` gets from `_checkMultiSampleQuality`.  When the options select no
driver of the list, or no video mode of the driver, nothing is asked and no
sample count counts as accepted. -/
def fsaaAccepted {σ : Type} (env : Env σ) (s : RS σ) (n : Nat) : Bool :=
  match driverByDescription (driversOf env s)
      (((findOption s.mOptions "Rendering Device").map (fun o => o.currentValue)).getD "") with
  | some driver =>
    match videoModeByDescription driver.videoModeList
        (((findOption s.mOptions "Video Mode").map (fun o => o.currentValue)).getD "") with
    | some videoMode => _checkMultiSampleQuality env n videoMode.format driver.adapterNumber
    | none => false
  | none => false

/-- The possible values expected of the option "FSAA": "0", then for `n` from 2 to 24
in ascending order the string of every accepted `n`, each `n` of at least 8
followed at once by the string of `n` with " [Quality]" appended. -/
def expectedFSAAValues (accepted : Nat → Bool) : List String :=
  "0" :: (List.range' 2 23).flatMap (fun n =>
    if accepted n then
      (if n ≥ 8 then [toString n, toString n ++ " [Quality]"] else [toString n])
    else [])

/-- The option "FSAA" expected after `refreshFSAAOptions`: the expected possible values, and
the current value kept when it is one of them, "0" otherwise. -/
def expectedFSAAOption (accepted : Nat → Bool) (optFSAA : ConfigOption) : ConfigOption :=
  if optFSAA.currentValue ∈ expectedFSAAValues accepted then
    { optFSAA with possibleValues := expectedFSAAValues accepted }
  else
    { optFSAA with possibleValues := expectedFSAAValues accepted, currentValue := "0" }

/-- An adapter with one video mode. -/
def adapterWithMode : D3D9Driver where
  DriverDescription := "Adapter V"
  adapterNumber := 2
  videoModeList := [{ description := "800 x 600 @ 32-bit colour", format := 22 }]

/-- Surroundings in which `adapterWithMode` is the only adapter and accepts 2, 4 and 8
samples for format 22. -/
def fsaaEnv : Env SimState :=
  { simEnv with
      enumeratedDrivers := [adapterWithMode]
      checkDeviceMultiSampleType := fun adapter format type =>
        if adapter = 2 ∧ format = 22 ∧ (type = 2 ∨ type = 4 ∨ type = 8) then (0, 1)
        else (E_FAIL, 0) }

/-- A render system whose options select `adapterWithMode` and its video mode, with the
option "FSAA" as `initConfigOptions` creates it. -/
def simOptions : RS SimState :=
  { simInit with
      mOptions :=
        [("FSAA", { name := "FSAA", possibleValues := ["None"], currentValue := "None" }),
         ("Video Mode", { name := "Video Mode", currentValue := "800 x 600 @ 32-bit colour" }),
         ("Rendering Device", { name := "Rendering Device", currentValue := "Adapter V" })] }

/-- A bound on the rounds the loop of `determineFSAASettings` still makes from a loop
state: with CSAA the sample count walks down to 8 at most twice (with and
without the quality hint), without CSAA it walks down, through the wrap at 0
if need be, to 1. -/
def fsaaRounds (fsaa : Nat) (qualityHint tryCSAA : Bool) : Nat :=
  if tryCSAA then
    (if qualityHint then 2 else 1) * UINT32_RANGE + (fsaa - 7)
  else
    (fsaa + UINT32_RANGE - 2) % UINT32_RANGE + 1

/-- A query that rejects every sample type. -/
def rejectAll : Nat → Nat → Nat → Bool → Nat → Int × Nat :=
  fun _ _ _ _ _ => (E_FAIL, 0)

/-- An NVIDIA adapter. -/
def adapterNVIDIA : D3D9Driver where
  DriverDescription := "Adapter N"
  adapterNumber := 0
  VendorId := 0x10DE

/-- The capability test behind `vs2x` in `convertVertexShaderCaps`: predication, dynamic
flow control and at least 12 temporaries. -/
def vs2xCaps (minVSCaps : D3DCAPS9) : Bool :=
  decide (minVSCaps.VS20Caps_Caps &&& D3DVS20CAPS_PREDICATION ≠ 0) &&
  decide (minVSCaps.VS20Caps_DynamicFlowControlDepth > 0) &&
  decide (minVSCaps.VS20Caps_NumTemps ≥ 12)

/-- The capability test behind `vs2a` in `convertVertexShaderCaps`: predication, dynamic
flow control and at least 13 temporaries. -/
def vs2aCaps (minVSCaps : D3DCAPS9) : Bool :=
  decide (minVSCaps.VS20Caps_Caps &&& D3DVS20CAPS_PREDICATION ≠ 0) &&
  decide (minVSCaps.VS20Caps_DynamicFlowControlDepth > 0) &&
  decide (minVSCaps.VS20Caps_NumTemps ≥ 13)

/-- The vertex shader profiles expected for a major version, by name: `vs_1_1` for a
major version of 1, 2 or 3; `vs_2_0` for 2 or 3; `vs_2_x` and `vs_2_a` for 2 or
3 when the capability test holds; `vs_3_0` for 3; none for any other major
version. -/
def vertexProfileExpected (major : Nat) (vs2x vs2a : Bool) (p : String) : Bool :=
  (decide (p = "vs_1_1") && decide (major = 1 ∨ major = 2 ∨ major = 3)) ||
  (decide (p = "vs_2_0") && decide (major = 2 ∨ major = 3)) ||
  (decide (p = "vs_2_x") && (decide (major = 2 ∨ major = 3) && vs2x)) ||
  (decide (p = "vs_2_a") && (decide (major = 2 ∨ major = 3) && vs2a)) ||
  (decide (p = "vs_3_0") && decide (major = 3))

/-- The operations of `D3D9RenderSystem`, with their arguments: every member function
that the source defines and that is modelled here as a computation on the
render system, in the order of the source; a value that a function returns is
dropped.  Left out are the constructor and the destructor, and the functions
that only compute a value for their caller and are not modelled as
computations: the other getters, `convertProjectionMatrix`,
`_checkMultiSampleQuality`, `convertPixelShaderCaps`,
`checkVertexTextureFormats`, `checkTextureFilteringSupported`,
`getErrorDescription`, `determineFSAASettings` and
`createRenderSystemCapabilities`. -/
inductive Op
  | initialize_internal
  | destroy_internal
  | registerRenderWindow (renderWindow : RenderTarget)
  | bindGpuProgram (prg : GpuProgram)
  | unbindGpuProgram (gptype : GpuProgramType)
  | bindGpuProgramParameters (gptype : GpuProgramType) (params : GpuProgramParameters) (variability : Nat)
  | destroyRenderTarget (renderTarget : RenderTarget)
  | setTexture (stage : Nat) (enabled : Bool) (tex : Option D3D9Texture)
  | disableTextureUnit (texUnit : Nat)
  | setSamplerState (unit : Nat) (state : SamplerState)
  | setBlendState (blendState : BlendState)
  | setRasterizerState (rasterizerState : RasterizerState)
  | setDepthStencilState (depthStencilState : DepthStencilState)
  | setStencilRefValue (refValue : Nat)
  | setTextureMipmapBias (unit : Nat) (bias : Nat)
  | setTextureAddressingMode (stage : Nat) (uvw : UVWAddressingMode)
  | setTextureBorderColor (stage : Nat) (colour : Color)
  | setSceneBlending (sourceFactor : SceneBlendFactor) (destFactor : SceneBlendFactor) (op : SceneBlendOperation)
  | setSceneBlendingSeparate (sourceFactor : SceneBlendFactor) (destFactor : SceneBlendFactor) (sourceFactorAlpha : SceneBlendFactor) (destFactorAlpha : SceneBlendFactor) (op : SceneBlendOperation) (alphaOp : SceneBlendOperation)
  | setAlphaTest (func : CompareFunction) (value : Nat)
  | setAlphaToCoverage (enable : Bool)
  | setCullingMode (mode : CullingMode)
  | setDepthBufferParams (depthTest : Bool) (depthWrite : Bool) (depthFunction : CompareFunction)
  | setDepthBufferCheckEnabled (enabled : Bool)
  | setDepthBufferWriteEnabled (enabled : Bool)
  | setDepthBufferFunction (func : CompareFunction)
  | setDepthBias (constantBias : Nat) (slopeScaleBias : Nat)
  | setColorBufferWriteEnabled (red : Bool) (green : Bool) (blue : Bool) (alpha : Bool)
  | setPolygonMode (level : PolygonMode)
  | setStencilCheckEnabled (enabled : Bool)
  | setStencilBufferOperations (stencilFailOp : StencilOperation) (depthFailOp : StencilOperation) (passOp : StencilOperation) (ccw : Bool)
  | setStencilBufferFunc (func : CompareFunction) (ccw : Bool)
  | setStencilBufferReadMask (mask : Nat)
  | setStencilBufferWriteMask (mask : Nat)
  | setTextureFiltering (unit : Nat) (ftype : FilterType) (filter : FilterOptions)
  | setTextureAnisotropy (unit : Nat) (maxAnisotropy : Nat)
  | setRenderTarget (target : RenderTarget)
  | setViewport (vp : Viewport)
  | beginFrame
  | endFrame
  | setVertexDeclaration (decl : Nat)
  | setVertexBufferBinding (binding : List (Nat × D3D9HardwareVertexBuffer))
  | render (op : RenderOperation)
  | setScissorRect (left : Nat) (top : Nat) (right : Nat) (bottom : Nat)
  | setScissorTestEnable (enable : Bool)
  | setMultisampleAntialiasEnable (enable : Bool)
  | setAntialiasedLineEnable (enable : Bool)
  | clearFrameBuffer (buffers : Nat) (colour : Color) (depth : Nat) (stencil : Nat)
  | getActiveD3D9Device
  | getDirect3DDrivers
  | initConfigOptions
  | refreshD3DSettings
  | refreshFSAAOptions
  | updateRenderSystemCapabilities (renderWindow : RenderTarget)
  | convertVertexShaderCaps (rsc : RenderSystemCapabilities)
  | initialiseFromRenderSystemCapabilities (caps : RenderSystemCapabilities)
  | setClipPlane (index : Nat) (A : Nat) (B : Nat) (C : Nat) (D : Nat)
  | enableClipPlane (index : Nat) (enable : Bool)
  | notifyOnDeviceLost (device : Nat)
  | notifyOnDeviceReset (device : Nat)
  | setClipPlanesImpl (clipPlanes : List Plane)
  | __SetRenderState (state : Nat) (value : Nat)
  | __SetSamplerState (sampler : Nat) (type : Nat) (value : Nat)
  | __SetTextureStageState (stage : Nat) (type : Nat) (value : Nat)
  | _getCurrentAnisotropy (unit : Nat)

/-- Whether an operation is `endFrame`. -/
def Op.isEndFrame : Op → Bool
  | Op.endFrame => true
  | _ => false

/-- The code run by an operation. -/
def Op.run {σ : Type} (env : Env σ) : Op → RSM σ Unit
  | Op.initialize_internal => Bsf.initialize_internal env
  | Op.destroy_internal => Bsf.destroy_internal env
  | Op.registerRenderWindow renderWindow => Bsf.registerRenderWindow env renderWindow
  | Op.bindGpuProgram prg => Bsf.bindGpuProgram env prg
  | Op.unbindGpuProgram gptype => Bsf.unbindGpuProgram env gptype
  | Op.bindGpuProgramParameters gptype params variability =>
    Bsf.bindGpuProgramParameters env gptype params variability
  | Op.destroyRenderTarget renderTarget => Bsf.destroyRenderTarget env renderTarget
  | Op.setTexture stage enabled tex => Bsf.setTexture env stage enabled tex
  | Op.disableTextureUnit texUnit => Bsf.disableTextureUnit env texUnit
  | Op.setSamplerState unit state => Bsf.setSamplerState env unit state
  | Op.setBlendState blendState => Bsf.setBlendState env blendState
  | Op.setRasterizerState rasterizerState => Bsf.setRasterizerState env rasterizerState
  | Op.setDepthStencilState depthStencilState => Bsf.setDepthStencilState env depthStencilState
  | Op.setStencilRefValue refValue => Bsf.setStencilRefValue env refValue
  | Op.setTextureMipmapBias unit bias => Bsf.setTextureMipmapBias env unit bias
  | Op.setTextureAddressingMode stage uvw => Bsf.setTextureAddressingMode env stage uvw
  | Op.setTextureBorderColor stage colour => Bsf.setTextureBorderColor env stage colour
  | Op.setSceneBlending sourceFactor destFactor op =>
    Bsf.setSceneBlending env sourceFactor destFactor op
  | Op.setSceneBlendingSeparate sourceFactor destFactor sourceFactorAlpha destFactorAlpha op alphaOp =>
    Bsf.setSceneBlendingSeparate env sourceFactor destFactor sourceFactorAlpha destFactorAlpha op alphaOp
  | Op.setAlphaTest func value => Bsf.setAlphaTest env func value
  | Op.setAlphaToCoverage enable => Bsf.setAlphaToCoverage env enable
  | Op.setCullingMode mode => Bsf.setCullingMode env mode
  | Op.setDepthBufferParams depthTest depthWrite depthFunction =>
    Bsf.setDepthBufferParams env depthTest depthWrite depthFunction
  | Op.setDepthBufferCheckEnabled enabled => Bsf.setDepthBufferCheckEnabled env enabled
  | Op.setDepthBufferWriteEnabled enabled => Bsf.setDepthBufferWriteEnabled env enabled
  | Op.setDepthBufferFunction func => Bsf.setDepthBufferFunction env func
  | Op.setDepthBias constantBias slopeScaleBias => Bsf.setDepthBias env constantBias slopeScaleBias
  | Op.setColorBufferWriteEnabled red green blue alpha =>
    Bsf.setColorBufferWriteEnabled env red green blue alpha
  | Op.setPolygonMode level => Bsf.setPolygonMode env level
  | Op.setStencilCheckEnabled enabled => Bsf.setStencilCheckEnabled env enabled
  | Op.setStencilBufferOperations stencilFailOp depthFailOp passOp ccw =>
    Bsf.setStencilBufferOperations env stencilFailOp depthFailOp passOp ccw
  | Op.setStencilBufferFunc func ccw => Bsf.setStencilBufferFunc env func ccw
  | Op.setStencilBufferReadMask mask => Bsf.setStencilBufferReadMask env mask
  | Op.setStencilBufferWriteMask mask => Bsf.setStencilBufferWriteMask env mask
  | Op.setTextureFiltering unit ftype filter => Bsf.setTextureFiltering env unit ftype filter
  | Op.setTextureAnisotropy unit maxAnisotropy => Bsf.setTextureAnisotropy env unit maxAnisotropy
  | Op.setRenderTarget target => Bsf.setRenderTarget env target
  | Op.setViewport vp => Bsf.setViewport env vp
  | Op.beginFrame => Bsf.beginFrame env
  | Op.endFrame => Bsf.endFrame env
  | Op.setVertexDeclaration decl => Bsf.setVertexDeclaration env decl
  | Op.setVertexBufferBinding binding => Bsf.setVertexBufferBinding env binding
  | Op.render op => Bsf.render env op
  | Op.setScissorRect left top right bottom => Bsf.setScissorRect env left top right bottom
  | Op.setScissorTestEnable enable => Bsf.setScissorTestEnable env enable
  | Op.setMultisampleAntialiasEnable enable => Bsf.setMultisampleAntialiasEnable env enable
  | Op.setAntialiasedLineEnable enable => Bsf.setAntialiasedLineEnable env enable
  | Op.clearFrameBuffer buffers colour depth stencil =>
    Bsf.clearFrameBuffer env buffers colour depth stencil
  | Op.getActiveD3D9Device => do
    let _ ← Bsf.getActiveD3D9Device env
    pure ()
  | Op.getDirect3DDrivers => do
    let _ ← Bsf.getDirect3DDrivers env
    pure ()
  | Op.initConfigOptions => Bsf.initConfigOptions env
  | Op.refreshD3DSettings => Bsf.refreshD3DSettings env
  | Op.refreshFSAAOptions => Bsf.refreshFSAAOptions env
  | Op.updateRenderSystemCapabilities renderWindow => do
    let _ ← Bsf.updateRenderSystemCapabilities env renderWindow
    pure ()
  | Op.convertVertexShaderCaps rsc => do
    let _ ← Bsf.convertVertexShaderCaps env rsc
    pure ()
  | Op.initialiseFromRenderSystemCapabilities caps =>
    Bsf.initialiseFromRenderSystemCapabilities caps
  | Op.setClipPlane index A B C D => Bsf.setClipPlane env index A B C D
  | Op.enableClipPlane index enable => Bsf.enableClipPlane env index enable
  | Op.notifyOnDeviceLost device => Bsf.notifyOnDeviceLost device
  | Op.notifyOnDeviceReset device => Bsf.notifyOnDeviceReset env device
  | Op.setClipPlanesImpl clipPlanes => Bsf.setClipPlanesImpl env clipPlanes
  | Op.__SetRenderState state value => do
    let _ ← Bsf.__SetRenderState env state value
    pure ()
  | Op.__SetSamplerState sampler type value => do
    let _ ← Bsf.__SetSamplerState env sampler type value
    pure ()
  | Op.__SetTextureStageState stage type value => do
    let _ ← Bsf.__SetTextureStageState env stage type value
    pure ()
  | Op._getCurrentAnisotropy unit => do
    let _ ← Bsf._getCurrentAnisotropy env unit
    pure ()

/-- A sequence of operations run one after the other, the caller going on after an
operation that raised.  A run that a failed assertion stopped is the run of
the operations up to and including the one that stopped. -/
def runOps {σ : Type} (env : Env σ) : List Op → RS σ → RS σ
  | [], s => s
  | op :: rest, s => runOps env rest (op.run env s).2

/-- Whether the native `EndScene` of an `endFrame` called in state `s` is issued and
succeeds. -/
def endSceneSucceeds {σ : Type} (env : Env σ) (s : RS σ) : Bool :=
  match s.devices s.activeDevice with
  | some d => !FAILED (env.dev.call NativeCall.EndScene d).1.hr
  | none => false

/-- The number of `endFrame` calls in a run of a sequence of operations whose
`EndScene` succeeded. -/
def endedFrames {σ : Type} (env : Env σ) : List Op → RS σ → Nat
  | [], _ => 0
  | op :: rest, s =>
    (if op.isEndFrame && endSceneSucceeds env s then 1 else 0)
      + endedFrames env rest (op.run env s).2

/-- The call `destroyInactiveRenderDevices`. -/
def isCleanup : NativeCall → Bool
  | NativeCall.destroyInactiveRenderDevices => true
  | _ => false

/-- The call `EndScene`. -/
def isEndScene : NativeCall → Bool
  | NativeCall.EndScene => true
  | _ => false

/-- Every `destroyInactiveRenderDevices` in a list of calls comes immediately after an
`EndScene`; `prev` tells whether the call before the list was an `EndScene`. -/
def cleanupFollowsEndScene (prev : Bool) : List NativeCall → Bool
  | [] => true
  | c :: rest => (!isCleanup c || prev) && cleanupFollowsEndScene (isEndScene c) rest

/-- The collaborators behind the remaining base-class functions, the deletion of
the device manager and the manager shut-downs append only calls satisfying `P`
to the trace. -/
def Env.quietBase {σ : Type} (env : Env σ) (P : NativeCall → Prop) : Prop :=
  (∀ texUnit, Emits P (env.superDisableTextureUnit texUnit)) ∧
  (∀ prg, Emits P (env.superBindGpuProgram prg)) ∧
  (∀ gptype, Emits P (env.superUnbindGpuProgram gptype)) ∧
  (∀ t, Emits P (env.superDestroyRenderTarget t)) ∧
  Emits P env.superDestroy ∧
  Emits P env.deleteDeviceManager ∧
  Emits P env.shutDownManagers

/-- A rasterizer state with the scissor test enabled. -/
def sampleRasterizerState : RasterizerState where
  getDepthBias := 0
  getSlopeScaledDepthBias := 0
  getCullMode := CullingMode.CULL_CLOCKWISE
  getPolygonMode := { value := 3 }
  getScissorEnable := true
  getMultisampleEnable := false
  getAntialiasedLineEnable := false

/-- A frame loop: two frames with state changes, a clear and a draw, using `sampleOp`,
`sampleBlendState` and `sampleRasterizerState`. -/
def sampleFrames : List Op :=
  [Op.beginFrame, Op.clearFrameBuffer 7 { getAsARGB := 0 } FLOAT_1 0,
   Op.setDepthBufferWriteEnabled true, Op.setBlendState sampleBlendState,
   Op.setRasterizerState sampleRasterizerState,
   Op.render (sampleOp OperationType.OT_TRIANGLE_LIST false 3), Op.endFrame,
   Op.beginFrame, Op.setClipPlane 0 0 0 0 0, Op.setSamplerState 0 simEnv.defaultSamplerState,
   Op.endFrame]

/-- The device manager and the render windows leave the recorded viewport and the
recorded render target of the render system alone. -/
def Env.keepsRecorded {σ : Type} (env : Env σ) : Prop :=
  (∀ dv, Keeps (fun s => (s.mActiveViewport, s.mActiveRenderTarget))
    (env.setActiveRenderTargetDevice dv)) ∧
  (∀ t, Keeps (fun s => (s.mActiveViewport, s.mActiveRenderTarget)) (env.validateDevice t))

end Bsf

/-! ## Lemmas on the computations -/

namespace Bsf

variable {σ : Type}

@[simp] theorem rsm_pure_apply {α : Type} (a : α) (s : RS σ) :
    (pure a : RSM σ α) s = (Except.ok a, s) := rfl

@[simp] theorem rsm_bind_apply {α β : Type} (m : RSM σ α) (f : α → RSM σ β) (s : RS σ) :
    (m >>= f) s = match m s with
      | (Except.ok a, s1) => f a s1
      | (Except.error e, s1) => (Except.error e, s1) := rfl

@[simp] theorem CM_EXCEPT_apply {α : Type} (e : Exception) (s : RS σ) :
    (CM_EXCEPT e : RSM σ α) s = (Except.error e, s) := rfl

@[simp] theorem getRS_apply (s : RS σ) : (getRS : RSM σ (RS σ)) s = (Except.ok s, s) := rfl

@[simp] theorem modifyRS_apply (f : RS σ → RS σ) (s : RS σ) :
    modifyRS f s = (Except.ok (), f s) := rfl

theorem THROW_IF_NOT_RENDER_THREAD_ok (env : Env σ) (h : env.threadOk) (s : RS σ) :
    THROW_IF_NOT_RENDER_THREAD env s = (Except.ok (), s) := by
  unfold THROW_IF_NOT_RENDER_THREAD throwIfNotRenderThread
  unfold Env.threadOk at h
  cases hd : env.CM_DEBUG_MODE <;> simp [hd] at h ⊢
  simp [h]

/-- A native call on a live device, from the render thread: the device answers
and the call is appended to the trace. -/
theorem native_apply (env : Env σ) (h : env.threadOk) (c : NativeCall) (s : RS σ) (d : σ)
    (hd : s.devices s.activeDevice = some d) :
    native env c s = (Except.ok (env.dev.call c d).1,
      { s with devices := Function.update s.devices s.activeDevice (some (env.dev.call c d).2),
               trace := s.trace ++ [c] }) := by
  simp [native, getActiveD3D9Device, THROW_IF_NOT_RENDER_THREAD_ok env h, hd]


/-! ### Which calls a computation can append -/

theorem emits_pure {α : Type} (P : NativeCall → Prop) (a : α) : Emits P (pure a : RSM σ α) :=
  fun s => ⟨[], by simp, by simp⟩

theorem emits_except {α : Type} (P : NativeCall → Prop) (e : Exception) :
    Emits P (CM_EXCEPT e : RSM σ α) :=
  fun s => ⟨[], by simp, by simp⟩

theorem emits_getRS (P : NativeCall → Prop) : Emits P (getRS : RSM σ (RS σ)) :=
  fun s => ⟨[], by simp, by simp⟩

theorem emits_modifyRS (P : NativeCall → Prop) (f : RS σ → RS σ)
    (hf : ∀ s, (f s).trace = s.trace) : Emits P (modifyRS f) :=
  fun s => ⟨[], by simp [hf], by simp⟩

theorem emits_bind {α β : Type} {P : NativeCall → Prop} {m : RSM σ α} {f : α → RSM σ β}
    (hm : Emits P m) (hf : ∀ a, Emits P (f a)) : Emits P (m >>= f) := by
  intro s
  obtain ⟨c1, h1, p1⟩ := hm s
  rw [rsm_bind_apply]
  rcases hms : m s with ⟨r, s1⟩
  rw [hms] at h1
  cases r with
  | error e => exact ⟨c1, h1, p1⟩
  | ok a =>
    obtain ⟨c2, h2, p2⟩ := hf a s1
    refine ⟨c1 ++ c2, ?_, ?_⟩
    · simp only [] at h1 ⊢
      rw [h2, h1, List.append_assoc]
    · intro c hc
      rcases List.mem_append.mp hc with h | h
      · exact p1 c h
      · exact p2 c h

theorem emits_mono {α : Type} {P Q : NativeCall → Prop} {m : RSM σ α}
    (hm : Emits P m) (hPQ : ∀ c, P c → Q c) : Emits Q m := by
  intro s
  obtain ⟨c1, h1, p1⟩ := hm s
  exact ⟨c1, h1, fun c hc => hPQ c (p1 c hc)⟩

theorem emits_ite {α : Type} {P : NativeCall → Prop} (b : Prop) [Decidable b] {m1 m2 : RSM σ α}
    (h1 : Emits P m1) (h2 : Emits P m2) : Emits P (if b then m1 else m2) := by
  split
  · exact h1
  · exact h2

theorem emits_thread (P : NativeCall → Prop) (env : Env σ) :
    Emits P (THROW_IF_NOT_RENDER_THREAD env) := by
  unfold THROW_IF_NOT_RENDER_THREAD throwIfNotRenderThread
  split
  · split
    · exact emits_pure P ()
    · exact emits_except P _
  · exact emits_pure P ()

theorem emits_getActiveD3D9Device (P : NativeCall → Prop) (env : Env σ) :
    Emits P (getActiveD3D9Device env) := by
  unfold Bsf.getActiveD3D9Device
  refine emits_bind (emits_thread P env) (fun _ => emits_bind (emits_getRS P) (fun s => ?_))
  cases s.devices s.activeDevice with
  | none => exact emits_except P _
  | some d => exact emits_pure P d

theorem emits_native {P : NativeCall → Prop} (env : Env σ) (c : NativeCall) (hc : P c) :
    Emits P (native env c) := by
  unfold Bsf.native
  refine emits_bind (emits_getActiveD3D9Device P env) (fun d => ?_)
  intro s
  refine ⟨[c], by simp, ?_⟩
  intro x hx
  rw [List.mem_singleton] at hx
  rw [hx]; exact hc


theorem emits_setVertexDeclaration (env : Env σ) (decl : Nat) :
    Emits (fun c => isDrawOrSetIndices c = false) (setVertexDeclaration env decl) := by
  unfold Bsf.setVertexDeclaration
  refine emits_bind (emits_thread _ env) (fun _ => emits_bind (emits_native env _ rfl) (fun r => ?_))
  exact emits_ite _ (emits_except _ _) (emits_pure _ ())

theorem emits_unbindSources (env : Env σ) (count : Nat) :
    ∀ source : Nat, Emits (fun c => isDrawOrSetIndices c = false) (unbindSources env source count) := by
  induction count with
  | zero => intro source; exact emits_pure _ ()
  | succ n ih =>
    intro source
    unfold Bsf.unbindSources
    refine emits_bind (emits_native env _ rfl) (fun r => ?_)
    exact emits_ite _ (emits_except _ _) (ih (source + 1))

theorem emits_bindSources (env : Env σ) (binding : List (Nat × D3D9HardwareVertexBuffer)) :
    ∀ source : Nat, Emits (fun c => isDrawOrSetIndices c = false) (bindSources env binding source) := by
  induction binding with
  | nil => intro source; exact emits_pure _ source
  | cons b rest ih =>
    intro source
    obtain ⟨first, d3d9buf⟩ := b
    unfold Bsf.bindSources
    refine emits_bind (emits_unbindSources env _ source) (fun _ => ?_)
    refine emits_bind (emits_native env _ rfl) (fun r => ?_)
    exact emits_ite _ (emits_except _ _) (ih _)

theorem emits_setVertexBufferBinding (env : Env σ)
    (binding : List (Nat × D3D9HardwareVertexBuffer)) :
    Emits (fun c => isDrawOrSetIndices c = false) (setVertexBufferBinding env binding) := by
  unfold Bsf.setVertexBufferBinding
  refine emits_bind (emits_thread _ env) (fun _ => ?_)
  refine emits_bind (emits_bindSources env binding 0) (fun source => ?_)
  refine emits_bind (emits_getRS _) (fun s => ?_)
  refine emits_bind (emits_unbindSources env _ source) (fun _ => ?_)
  exact emits_modifyRS _ _ (fun _ => rfl)

/-! ### Runs on a healthy device -/

/-- A native call on a live, healthy device returns and keeps the device live. -/
theorem native_run (env : Env σ) (hT : env.threadOk) (c : NativeCall) (s : RS σ) (hL : s.live) :
    ∃ r s1, native env c s = (Except.ok r, s1) ∧ s1.trace = s.trace ++ [c] ∧ s1.live ∧
      s1.mLastVertexSourceCount = s.mLastVertexSourceCount ∧
      (env.dev.healthy → FAILED r.hr = false) := by
  obtain ⟨d, hd⟩ := hL
  refine ⟨(env.dev.call c d).1, _, native_apply env hT c s d hd, rfl, ?_, rfl, fun hH => hH c d⟩
  exact ⟨(env.dev.call c d).2, by simp⟩

theorem unbindSources_run (env : Env σ) (hT : env.threadOk) (hH : env.dev.healthy) (count : Nat) :
    ∀ (source : Nat) (s : RS σ), s.live →
    ∃ s1, unbindSources env source count s = (Except.ok (), s1) ∧
      s1.trace = s.trace ++ unbindCalls source count ∧ s1.live ∧
      s1.mLastVertexSourceCount = s.mLastVertexSourceCount := by
  induction count with
  | zero => intro source s hL; exact ⟨s, rfl, by simp [unbindCalls], hL, rfl⟩
  | succ n ih =>
    intro source s hL
    obtain ⟨r, s1, h1, t1, l1, m1, ok1⟩ := native_run env hT (NativeCall.SetStreamSource (castDWORD source) 0 0 0) s hL
    obtain ⟨s2, h2, t2, l2, m2⟩ := ih (source + 1) s1 l1
    refine ⟨s2, ?_, ?_, l2, by rw [m2, m1]⟩
    · unfold unbindSources
      simp [h1, ok1 hH, h2]
    · rw [t2, t1]; simp [unbindCalls]

theorem bindSources_run (env : Env σ) (hT : env.threadOk) (hH : env.dev.healthy)
    (binding : List (Nat × D3D9HardwareVertexBuffer)) :
    ∀ (source : Nat) (s : RS σ), s.live →
    ∃ s1, bindSources env binding source s = (Except.ok (bindCalls binding source).2, s1) ∧
      s1.trace = s.trace ++ (bindCalls binding source).1 ∧ s1.live ∧
      s1.mLastVertexSourceCount = s.mLastVertexSourceCount := by
  induction binding with
  | nil => intro source s hL; exact ⟨s, rfl, by simp [bindCalls], hL, rfl⟩
  | cons b rest ih =>
    intro source s hL
    obtain ⟨first, d3d9buf⟩ := b
    obtain ⟨s1, h1, t1, l1, m1⟩ := unbindSources_run env hT hH (first - source) source s hL
    obtain ⟨r, s2, h2, t2, l2, m2, ok2⟩ := native_run env hT
      (NativeCall.SetStreamSource (castDWORD (max source first)) d3d9buf.d3d9VertexBuffer 0
        (castDWORD d3d9buf.vertexSize)) s1 l1
    obtain ⟨s3, h3, t3, l3, m3⟩ := ih (max source first + 1) s2 l2
    refine ⟨s3, ?_, ?_, l3, by rw [m3, m2, m1]⟩
    · unfold bindSources
      simp [h1, h2, ok2 hH, h3, bindCalls]
    · rw [t3, t2, t1]; simp [bindCalls]

theorem setVertexBufferBinding_run (env : Env σ) (hT : env.threadOk) (hH : env.dev.healthy)
    (binding : List (Nat × D3D9HardwareVertexBuffer)) (s : RS σ) (hL : s.live) :
    ∃ s1, setVertexBufferBinding env binding s = (Except.ok (), s1) ∧
      s1.trace = s.trace ++ streamCalls binding s.mLastVertexSourceCount ∧ s1.live := by
  obtain ⟨s1, h1, t1, l1, m1⟩ := bindSources_run env hT hH binding 0 s hL
  obtain ⟨s2, h2, t2, l2, _⟩ := unbindSources_run env hT hH
    (s1.mLastVertexSourceCount - (bindCalls binding 0).2) (bindCalls binding 0).2 s1 l1
  refine ⟨{ s2 with mLastVertexSourceCount := (bindCalls binding 0).2 }, ?_, ?_, ?_⟩
  · unfold setVertexBufferBinding
    simp [THROW_IF_NOT_RENDER_THREAD_ok env hT, h1, h2]
  · simp only [t2, t1, m1, streamCalls, List.append_assoc]
  · exact l2

theorem setVertexDeclaration_run (env : Env σ) (hT : env.threadOk) (hH : env.dev.healthy)
    (decl : Nat) (s : RS σ) (hL : s.live) :
    ∃ s1, setVertexDeclaration env decl s = (Except.ok (), s1) ∧
      s1.trace = s.trace ++ [NativeCall.SetVertexDeclaration decl] ∧ s1.live ∧
      s1.mLastVertexSourceCount = s.mLastVertexSourceCount := by
  obtain ⟨r, s1, h1, t1, l1, m1, ok1⟩ := native_run env hT (NativeCall.SetVertexDeclaration decl) s hL
  refine ⟨s1, ?_, t1, l1, m1⟩
  unfold setVertexDeclaration
  simp [THROW_IF_NOT_RENDER_THREAD_ok env hT, h1, ok1 hH]


/-! ### The primitive count -/

theorem castDWORD_of_lt (x : Nat) (h : x < UINT32_RANGE) : castDWORD x = x :=
  Nat.mod_eq_of_lt h

theorem elementCount_lt (op : RenderOperation) : elementCount op < UINT32_RANGE :=
  Nat.mod_lt _ (by decide)

theorem dwordSub_lt (a b : Nat) : dwordSub a b < UINT32_RANGE :=
  Nat.mod_lt _ (by decide)

theorem dwordSub_of_le (a b : Nat) (ha : a < UINT32_RANGE) (hb : b ≤ a) : dwordSub a b = a - b := by
  unfold dwordSub UINT32_RANGE at *
  omega

theorem dwordSub_int (a b : Nat) :
    ((dwordSub a b : Nat) : Int) = ((a : Int) - (b : Int)) % 4294967296 := by
  unfold dwordSub UINT32_RANGE at *
  omega

theorem primCount_lt (op : RenderOperation) : primCount op < UINT32_RANGE := by
  have h := elementCount_lt op
  unfold primCount
  cases op.operationType <;> simp only
  · exact h
  · exact lt_of_le_of_lt (Nat.div_le_self _ _) h
  · exact dwordSub_lt _ _
  · exact lt_of_le_of_lt (Nat.div_le_self _ _) h
  · exact dwordSub_lt _ _
  · exact dwordSub_lt _ _

/-- The primitive count is zero exactly for these element counts. -/
theorem primCount_eq_zero_iff (op : RenderOperation) :
    primCount op = 0 ↔
      match op.operationType with
      | OperationType.OT_POINT_LIST => elementCount op = 0
      | OperationType.OT_LINE_LIST => elementCount op ≤ 1
      | OperationType.OT_LINE_STRIP => elementCount op = 1
      | OperationType.OT_TRIANGLE_LIST => elementCount op ≤ 2
      | OperationType.OT_TRIANGLE_STRIP => elementCount op = 2
      | OperationType.OT_TRIANGLE_FAN => elementCount op = 2 := by
  have h := elementCount_lt op
  unfold primCount
  cases op.operationType <;> simp only [dwordSub] <;> unfold UINT32_RANGE at * <;> omega

/-! ### Shape of the stream calls -/

theorem unbindCalls_are_SetStreamSource (count : Nat) : ∀ (source : Nat),
    ∀ c ∈ unbindCalls source count,
      ∃ stream buffer offset stride, c = NativeCall.SetStreamSource stream buffer offset stride := by
  induction count with
  | zero => intro source c hc; simp [unbindCalls] at hc
  | succ n ih =>
    intro source c hc
    simp only [unbindCalls, List.mem_cons] at hc
    rcases hc with h | h
    · exact ⟨_, _, _, _, h⟩
    · exact ih _ c h

theorem bindCalls_are_SetStreamSource (binding : List (Nat × D3D9HardwareVertexBuffer)) :
    ∀ (source : Nat), ∀ c ∈ (bindCalls binding source).1,
      ∃ stream buffer offset stride, c = NativeCall.SetStreamSource stream buffer offset stride := by
  induction binding with
  | nil => intro source c hc; simp [bindCalls] at hc
  | cons b rest ih =>
    intro source c hc
    obtain ⟨first, d3d9buf⟩ := b
    simp only [bindCalls, List.mem_append, List.mem_cons] at hc
    rcases hc with h | h | h
    · exact unbindCalls_are_SetStreamSource _ _ c h
    · exact ⟨_, _, _, _, h⟩
    · exact ih _ c h

theorem streamCalls_are_SetStreamSource (binding : List (Nat × D3D9HardwareVertexBuffer))
    (last : Nat) : ∀ c ∈ streamCalls binding last,
      ∃ stream buffer offset stride, c = NativeCall.SetStreamSource stream buffer offset stride := by
  intro c hc
  simp only [streamCalls, List.mem_append] at hc
  rcases hc with h | h
  · exact bindCalls_are_SetStreamSource _ _ c h
  · exact unbindCalls_are_SetStreamSource _ _ c h

/-! ### Runs of `render` -/

theorem simDevice_healthy : simDevice.healthy := by
  intro c st
  cases c <;> rfl

theorem simInit_live : simInit.live := ⟨_, rfl⟩

/-- With a zero vertex count `render` returns at once. -/
theorem render_of_vertexCount_zero (env : Env σ) (hT : env.threadOk) (op : RenderOperation)
    (s : RS σ) (hv : op.vertexData.vertexCount = 0) : render env op s = (Except.ok (), s) := by
  unfold render
  simp [THROW_IF_NOT_RENDER_THREAD_ok env hT, hv]

/-- With a zero primitive count `render` does what the base class and the two
binding steps do, and nothing else. -/
theorem render_of_primCount_zero (env : Env σ) (hT : env.threadOk) (op : RenderOperation)
    (s s1 : RS σ) (hv : op.vertexData.vertexCount ≠ 0) (hp : primCount op = 0)
    (hsuper : env.superRender op s = (Except.ok (), s1)) :
    render env op s =
      (setVertexDeclaration env op.vertexData.vertexDeclaration >>= fun _ =>
        setVertexBufferBinding env op.vertexData.vertexBufferBinding) s1 := by
  unfold render
  simp only [rsm_bind_apply, THROW_IF_NOT_RENDER_THREAD_ok env hT, if_neg hv, hsuper, hp, if_true]
  rcases setVertexDeclaration env op.vertexData.vertexDeclaration s1 with ⟨r, s2⟩
  cases r with
  | error e => rfl
  | ok u =>
    simp only []
    rcases setVertexBufferBinding env op.vertexData.vertexBufferBinding s2 with ⟨r2, s3⟩
    cases r2 <;> rfl

/-- On a healthy live device the two binding steps of `render` return. -/
theorem bindingSteps_run (env : Env σ) (hT : env.threadOk) (hH : env.dev.healthy)
    (vd : VertexData) (s1 : RS σ) (hL : s1.live) :
    ∃ s3, (setVertexDeclaration env vd.vertexDeclaration >>= fun _ =>
        setVertexBufferBinding env vd.vertexBufferBinding) s1 = (Except.ok (), s3) ∧
      s3.trace = s1.trace ++ NativeCall.SetVertexDeclaration vd.vertexDeclaration ::
        streamCalls vd.vertexBufferBinding s1.mLastVertexSourceCount ∧ s3.live := by
  obtain ⟨s2, h2, t2, l2, m2⟩ := setVertexDeclaration_run env hT hH vd.vertexDeclaration s1 hL
  obtain ⟨s3, h3, t3, l3⟩ := setVertexBufferBinding_run env hT hH vd.vertexBufferBinding s2 l2
  refine ⟨s3, ?_, ?_, l3⟩
  · simp [h2, h3]
  · rw [t3, t2, m2]; simp

/-- On a healthy live device a draw of `render` goes through: the exact trace. -/
theorem render_run (env : Env σ) (hT : env.threadOk) (hH : env.dev.healthy) (op : RenderOperation)
    (s s1 : RS σ) (hv : op.vertexData.vertexCount ≠ 0) (hp : primCount op ≠ 0)
    (hsuper : env.superRender op s = (Except.ok (), s1)) (hL : s1.live) :
    (render env op s).1 = Except.ok () ∧
    (render env op s).2.trace = s1.trace ++ NativeCall.SetVertexDeclaration op.vertexData.vertexDeclaration ::
      (streamCalls op.vertexData.vertexBufferBinding s1.mLastVertexSourceCount ++ drawCalls op) := by
  obtain ⟨s2, h2, t2, l2, m2⟩ := setVertexDeclaration_run env hT hH op.vertexData.vertexDeclaration s1 hL
  obtain ⟨s3, h3, t3, l3⟩ := setVertexBufferBinding_run env hT hH op.vertexData.vertexBufferBinding s2 l2
  have hc : castDWORD (primCount op) = primCount op := castDWORD_of_lt _ (primCount_lt op)
  unfold render
  simp only [rsm_bind_apply, THROW_IF_NOT_RENDER_THREAD_ok env hT, if_neg hv, hsuper, h2, h3, if_neg hp, hc]
  cases hi : op.useIndexes
  · obtain ⟨r, s4, h4, t4, l4, _, ok4⟩ := native_run env hT (NativeCall.DrawPrimitive (primType op)
      (castDWORD op.vertexData.vertexStart) (primCount op)) s3 l3
    simp [h4, ok4 hH, t4, t3, t2, m2, drawCalls, hi, hc]
  · obtain ⟨r, s4, h4, t4, l4, _, ok4⟩ := native_run env hT
      (NativeCall.SetIndices op.indexData.indexBuffer) s3 l3
    obtain ⟨r5, s5, h5, t5, l5, _, ok5⟩ := native_run env hT (NativeCall.DrawIndexedPrimitive (primType op)
      (castINT op.vertexData.vertexStart) 0 (castDWORD op.vertexData.vertexCount)
      (castDWORD op.indexData.indexStart) (primCount op)) s4 l4
    simp [h4, ok4 hH, h5, ok5 hH, t5, t4, t3, t2, m2, drawCalls, hi, hc]


/-! ### Which computations leave the stage descriptors alone -/

theorem keepsDesc_pure {α : Type} (a : α) : KeepsTexStageDesc (pure a : RSM σ α) :=
  fun _ => rfl

theorem keepsDesc_bind {α β : Type} {m : RSM σ α} {f : α → RSM σ β}
    (hm : KeepsTexStageDesc m) (hf : ∀ a, KeepsTexStageDesc (f a)) :
    KeepsTexStageDesc (m >>= f) := by
  intro s
  have h1 := hm s
  rw [rsm_bind_apply]
  rcases hms : m s with ⟨r, s1⟩
  rw [hms] at h1
  cases r with
  | error e => exact h1
  | ok a => simp only []; rw [hf a s1]; exact h1

theorem keepsDesc_ite {α : Type} (b : Prop) [Decidable b] {m1 m2 : RSM σ α}
    (h1 : KeepsTexStageDesc m1) (h2 : KeepsTexStageDesc m2) :
    KeepsTexStageDesc (if b then m1 else m2) := by
  split
  · exact h1
  · exact h2

theorem keepsDesc_thread (env : Env σ) :
    KeepsTexStageDesc (THROW_IF_NOT_RENDER_THREAD env) := by
  unfold THROW_IF_NOT_RENDER_THREAD throwIfNotRenderThread
  split
  · split
    · exact keepsDesc_pure ()
    · exact fun _ => rfl
  · exact keepsDesc_pure ()

theorem keepsDesc_native (env : Env σ) (c : NativeCall) :
    KeepsTexStageDesc (native env c) := by
  unfold Bsf.native Bsf.getActiveD3D9Device
  refine keepsDesc_bind (keepsDesc_bind (keepsDesc_thread env)
    (fun _ => keepsDesc_bind (fun _ => rfl) (fun s => ?_))) (fun d => ?_)
  · cases s.devices s.activeDevice with
    | none => exact fun _ => rfl
    | some d => exact keepsDesc_pure d
  · exact keepsDesc_bind (fun _ => rfl) (fun _ => keepsDesc_pure _)

theorem keepsDesc_SetSamplerState (env : Env σ) (sampler type value : Nat) :
    KeepsTexStageDesc (__SetSamplerState env sampler type value) := by
  unfold __SetSamplerState
  refine keepsDesc_bind (keepsDesc_native env _) (fun r => ?_)
  refine keepsDesc_ite _ (keepsDesc_pure _) (keepsDesc_ite _
    (keepsDesc_pure _) ?_)
  exact keepsDesc_bind (keepsDesc_native env _) (fun _ => keepsDesc_pure _)

theorem keepsDesc_SetTextureStageState (env : Env σ) (stage type value : Nat) :
    KeepsTexStageDesc (__SetTextureStageState env stage type value) := by
  unfold __SetTextureStageState
  refine keepsDesc_ite _ ?_ (keepsDesc_pure _)
  refine keepsDesc_bind (keepsDesc_native env _) (fun r => ?_)
  refine keepsDesc_ite _ (keepsDesc_pure _) (keepsDesc_ite _
    (keepsDesc_pure _) ?_)
  exact keepsDesc_bind (keepsDesc_native env _) (fun _ => keepsDesc_pure _)

theorem emits_SetSamplerState (env : Env σ) (sampler type value : Nat) :
    Emits (fun c => isSetTexture c = false) (__SetSamplerState env sampler type value) := by
  unfold __SetSamplerState
  refine emits_bind (emits_native env _ rfl) (fun r => ?_)
  refine emits_ite _ (emits_pure _ _) (emits_ite _ (emits_pure _ _) ?_)
  exact emits_bind (emits_native env _ rfl) (fun _ => emits_pure _ _)

theorem emits_SetTextureStageState (env : Env σ) (stage type value : Nat) :
    Emits (fun c => isSetTexture c = false) (__SetTextureStageState env stage type value) := by
  unfold __SetTextureStageState
  refine emits_ite _ ?_ (emits_pure _ _)
  refine emits_bind (emits_native env _ rfl) (fun r => ?_)
  refine emits_ite _ (emits_pure _ _) (emits_ite _ (emits_pure _ _) ?_)
  exact emits_bind (emits_native env _ rfl) (fun _ => emits_pure _ _)

/-- A native call that raises leaves the state as it was; one that returns
appended itself to the trace. -/
theorem native_trace (env : Env σ) (c : NativeCall) (s : RS σ) :
    (∀ e s1, native env c s = (Except.error e, s1) → s1 = s) ∧
    (∀ r s1, native env c s = (Except.ok r, s1) → s1.trace = s.trace ++ [c]) := by
  unfold native getActiveD3D9Device THROW_IF_NOT_RENDER_THREAD throwIfNotRenderThread
  constructor
  · intro e s1 h
    cases hd : env.CM_DEBUG_MODE <;> cases ht : env.onRenderThread <;>
      cases hdev : s.devices s.activeDevice <;>
      simp [hd, ht, hdev] at h <;> exact h.2.symm
  · intro r s1 h
    cases hd : env.CM_DEBUG_MODE <;> cases ht : env.onRenderThread <;>
      cases hdev : s.devices s.activeDevice <;>
      simp [hd, ht, hdev] at h <;> rw [← h.2]

/-! ### State-setting through the read-compare-write helpers -/

/-- What `__SetRenderState` does on a live device: it reads the state, returns the
failure of the read, or `D3D_OK` without a write when the value read equals the
requested one, or else writes and returns the result of the write. -/
theorem SetRenderState_apply (env : Env σ) (hT : env.threadOk) (state value : Nat) (s : RS σ)
    (d : σ) (hd : s.devices s.activeDevice = some d) :
    __SetRenderState env state value s =
      if FAILED (env.dev.call (NativeCall.GetRenderState state) d).1.hr = true then
        (Except.ok (env.dev.call (NativeCall.GetRenderState state) d).1.hr,
         { s with devices := Function.update s.devices s.activeDevice
                    (some (env.dev.call (NativeCall.GetRenderState state) d).2),
                  trace := s.trace ++ [NativeCall.GetRenderState state] })
      else if (env.dev.call (NativeCall.GetRenderState state) d).1.out = value then
        (Except.ok D3D_OK,
         { s with devices := Function.update s.devices s.activeDevice
                    (some (env.dev.call (NativeCall.GetRenderState state) d).2),
                  trace := s.trace ++ [NativeCall.GetRenderState state] })
      else
        (Except.ok (env.dev.call (NativeCall.SetRenderState state value)
            (env.dev.call (NativeCall.GetRenderState state) d).2).1.hr,
         { s with devices := Function.update s.devices s.activeDevice
                    (some (env.dev.call (NativeCall.SetRenderState state value)
                      (env.dev.call (NativeCall.GetRenderState state) d).2).2),
                  trace := s.trace ++ [NativeCall.GetRenderState state,
                                       NativeCall.SetRenderState state value] }) := by
  unfold __SetRenderState
  simp only [rsm_bind_apply, native_apply env hT _ s d hd]
  by_cases hf : FAILED (env.dev.call (NativeCall.GetRenderState state) d).1.hr = true
  · simp [hf]
  · by_cases hv : (env.dev.call (NativeCall.GetRenderState state) d).1.out = value
    · simp [hf, hv]
    · simp only [hf, hv, if_false, rsm_bind_apply, Bool.false_eq_true]
      rw [native_apply env hT _ _ (env.dev.call (NativeCall.GetRenderState state) d).2 (by simp)]
      simp

theorem setDepthBufferWriteEnabled_apply (env : Env σ) (hT : env.threadOk) (enabled : Bool)
    (s : RS σ) :
    setDepthBufferWriteEnabled env enabled s =
      match __SetRenderState env D3DRS_ZWRITEENABLE (if enabled then 1 else 0) s with
      | (Except.ok hr, s1) =>
        if FAILED hr = true then (Except.error Exception.RenderingAPIException, s1)
        else (Except.ok (), s1)
      | (Except.error e, s1) => (Except.error e, s1) := by
  unfold setDepthBufferWriteEnabled
  simp only [rsm_bind_apply, THROW_IF_NOT_RENDER_THREAD_ok env hT]
  rcases __SetRenderState env D3DRS_ZWRITEENABLE (if enabled then 1 else 0) s with ⟨r, s1⟩
  cases r with
  | error e => rfl
  | ok hr => by_cases h : FAILED hr = true <;> simp [h]

/-! ### `setTexture` -/

/-- The enable path of `setTexture` when the stage already records the texture. -/
theorem setTexture_recorded (env : Env σ) (hT : env.threadOk) (stage : Nat) (dt : D3D9Texture)
    (s : RS σ) (h : (s.mTexStageDesc stage).pTex = dt.texture_internal) :
    setTexture env stage true (some dt) s = (Except.ok (), s) := by
  unfold setTexture
  simp [THROW_IF_NOT_RENDER_THREAD_ok env hT, h]

/-- The enable path of `setTexture` when the stage records another texture: the
native `SetTexture` comes first; if it does not return `S_OK` the call raises,
otherwise the descriptor is updated and the gamma sampler state is requested. -/
theorem setTexture_bind (env : Env σ) (hT : env.threadOk) (stage : Nat) (dt : D3D9Texture)
    (s : RS σ) (h : (s.mTexStageDesc stage).pTex ≠ dt.texture_internal) :
    setTexture env stage true (some dt) s =
      match native env (NativeCall.SetTexture (castDWORD stage) dt.texture_internal) s with
      | (Except.error e, s1) => (Except.error e, s1)
      | (Except.ok r, s1) =>
        if r.hr ≠ S_OK then (Except.error Exception.RenderingAPIException, s1)
        else
          match __SetSamplerState env (castDWORD stage) D3DSAMP_SRGBTEXTURE
              (if dt.hardwareGammaReadToBeUsed then 1 else 0)
              { s1 with
                  mTexStageDesc := Function.update s1.mTexStageDesc stage
                    { (s1.mTexStageDesc stage) with pTex := dt.texture_internal,
                                                    texType := dt.d3dTexType } } with
          | (Except.error e, s2) => (Except.error e, s2)
          | (Except.ok _, s2) => (Except.ok (), s2) := by
  unfold setTexture
  simp only [rsm_bind_apply, THROW_IF_NOT_RENDER_THREAD_ok env hT, getRS_apply, if_pos h]
  rcases native env (NativeCall.SetTexture (castDWORD stage) dt.texture_internal) s with ⟨r, s1⟩
  cases r with
  | error e => rfl
  | ok r =>
    simp only []
    by_cases hr : r.hr = S_OK
    · simp only [hr, ne_eq, not_true_eq_false, if_false, rsm_bind_apply, modifyRS_apply]
      cases dt.hardwareGammaReadToBeUsed <;> simp only [if_true, if_false, Bool.false_eq_true,
        rsm_bind_apply] <;>
      · rcases __SetSamplerState env (castDWORD stage) D3DSAMP_SRGBTEXTURE _ _ with ⟨r2, s2⟩
        cases r2 <;> rfl
    · simp [hr]

/-- The disable path of `setTexture`, step by step. -/
theorem setTexture_disable_apply (env : Env σ) (hT : env.threadOk) (stage : Nat) (enabled : Bool)
    (tex : Option D3D9Texture) (s : RS σ) (hdis : enabled = false ∨ tex = none) :
    setTexture env stage enabled tex s =
      match (if (s.mTexStageDesc stage).pTex ≠ 0 then
          (native env (NativeCall.SetTexture (castDWORD stage) 0) >>= fun r =>
            if r.hr ≠ S_OK then CM_EXCEPT Exception.RenderingAPIException else pure ())
          else pure () : RSM σ Unit) s with
      | (Except.error e, s1) => (Except.error e, s1)
      | (Except.ok _, s1) =>
        match __SetTextureStageState env (castDWORD stage) D3DTSS_COLOROP D3DTOP_DISABLE s1 with
        | (Except.error e, s2) => (Except.error e, s2)
        | (Except.ok hr, s2) =>
          if hr ≠ S_OK then (Except.error Exception.RenderingAPIException, s2)
          else (Except.ok (), { s2 with
            mTexStageDesc := Function.update s2.mTexStageDesc stage
              { (s2.mTexStageDesc stage) with
                  pTex := 0, coordIndex := 0, texType := eD3DTexType.D3D_TEX_TYPE_NORMAL } }) := by
  have hmatch : setTexture env stage enabled tex = setTexture env stage false none := by
    rcases hdis with h | h
    · subst h; cases tex <;> rfl
    · subst h; cases enabled <;> rfl
  rw [hmatch]
  unfold setTexture
  simp only [rsm_bind_apply, THROW_IF_NOT_RENDER_THREAD_ok env hT, getRS_apply]
  by_cases hp : (s.mTexStageDesc stage).pTex = 0
  · simp only [hp, ne_eq, not_true_eq_false, if_false, rsm_pure_apply, rsm_bind_apply]
    rcases __SetTextureStageState env (castDWORD stage) D3DTSS_COLOROP D3DTOP_DISABLE s with ⟨r2, s2⟩
    cases r2 with
    | error e => rfl
    | ok hr => by_cases h : hr = S_OK <;> simp [h]
  · simp only [hp, ne_eq, not_false_eq_true, if_true, rsm_bind_apply]
    rcases native env (NativeCall.SetTexture (castDWORD stage) 0) s with ⟨r1, s1⟩
    cases r1 with
    | error e => rfl
    | ok r =>
      simp only []
      by_cases hr : r.hr = S_OK
      · simp only [hr, not_true_eq_false, if_false, rsm_pure_apply, rsm_bind_apply]
        rcases __SetTextureStageState env (castDWORD stage) D3DTSS_COLOROP D3DTOP_DISABLE s1 with ⟨r2, s2⟩
        cases r2 with
        | error e => rfl
        | ok hr => by_cases h : hr = S_OK <;> simp [h]
      · simp [hr]

theorem countCalls_eq_zero (p : NativeCall → Bool) (l : List NativeCall)
    (h : ∀ c ∈ l, p c = false) : countCalls p l = 0 := by
  simp only [countCalls, List.length_eq_zero, List.filter_eq_nil_iff]
  intro c hc
  simp [h c hc]

/-- The outcomes of an enabling `setTexture` on a stage that records another
texture: the device is `NULL` or the thread check fails and nothing happens; or
`SetTexture` is issued, followed by calls that are not `SetTexture`, and then
either an exception is raised or the call returns with the texture recorded. -/
theorem setTexture_bind_cases (env : Env σ) (hT : env.threadOk) (stage : Nat) (dt : D3D9Texture)
    (s : RS σ) (h : (s.mTexStageDesc stage).pTex ≠ dt.texture_internal) :
    ((∃ e, setTexture env stage true (some dt) s = (Except.error e, s)) ∧ ¬ s.live) ∨
    (∃ r s1 calls, setTexture env stage true (some dt) s = (r, s1) ∧
      s1.trace = s.trace ++ NativeCall.SetTexture (castDWORD stage) dt.texture_internal :: calls ∧
      (∀ c ∈ calls, isSetTexture c = false) ∧
      (r = Except.ok () → (s1.mTexStageDesc stage).pTex = dt.texture_internal)) := by
  rw [setTexture_bind env hT stage dt s h]
  obtain ⟨hne, hno⟩ := native_trace env (NativeCall.SetTexture (castDWORD stage) dt.texture_internal) s
  rcases hn : native env (NativeCall.SetTexture (castDWORD stage) dt.texture_internal) s with ⟨r, s1⟩
  cases r with
  | error e =>
    left
    have hs := hne e s1 hn
    subst hs
    refine ⟨⟨e, rfl⟩, ?_⟩
    rintro ⟨d, hd⟩
    rw [native_apply env hT _ _ d hd] at hn
    simp at hn
  | ok r =>
    right
    have ht := hno r s1 hn
    simp only []
    by_cases hr : r.hr = S_OK
    · simp only [hr, ne_eq, not_true_eq_false, if_false]
      obtain ⟨calls, hc, hp⟩ := emits_SetSamplerState env (castDWORD stage) D3DSAMP_SRGBTEXTURE
        (if dt.hardwareGammaReadToBeUsed then 1 else 0)
        { s1 with
            mTexStageDesc := Function.update s1.mTexStageDesc stage
              { (s1.mTexStageDesc stage) with pTex := dt.texture_internal,
                                              texType := dt.d3dTexType } }
      have hk := keepsDesc_SetSamplerState env (castDWORD stage) D3DSAMP_SRGBTEXTURE
        (if dt.hardwareGammaReadToBeUsed then 1 else 0)
        { s1 with
            mTexStageDesc := Function.update s1.mTexStageDesc stage
              { (s1.mTexStageDesc stage) with pTex := dt.texture_internal,
                                              texType := dt.d3dTexType } }
      rcases hs : __SetSamplerState env (castDWORD stage) D3DSAMP_SRGBTEXTURE
        (if dt.hardwareGammaReadToBeUsed then 1 else 0)
        { s1 with
            mTexStageDesc := Function.update s1.mTexStageDesc stage
              { (s1.mTexStageDesc stage) with pTex := dt.texture_internal,
                                              texType := dt.d3dTexType } } with ⟨r2, s2⟩
      rw [hs] at hc hk
      simp only [] at hc hk
      have htr : s2.trace = s.trace ++
          NativeCall.SetTexture (castDWORD stage) dt.texture_internal :: calls := by
        rw [hc, ht]; simp
      cases r2 with
      | error e => exact ⟨_, s2, calls, rfl, htr, hp, fun hcontra => by cases hcontra⟩
      | ok v => exact ⟨_, s2, calls, rfl, htr, hp, fun _ => by rw [hk]; simp⟩
    · simp only [ne_eq, hr, not_false_eq_true, if_true]
      exact ⟨_, s1, [], rfl, ht, by simp, fun hcontra => by cases hcontra⟩

theorem simDevice_readsBackRenderState : simDevice.readsBackRenderState := by
  constructor
  · intro k st; rfl
  · intro k v st _
    simp [simDevice, D3D_OK, S_OK]

/-- The function `setRenderTarget` on a target without back buffer: after recording the
target it only runs the device binding of a registered window. -/
theorem setRenderTarget_apply_no_back_buffer (env : Env σ) (hT : env.threadOk)
    (target : RenderTarget) (s : RS σ) (hnb : target.backBuffers.getD 0 0 = 0) :
    setRenderTarget env target s =
      (if target.id ∈ s.mRenderWindows then
        (env.setActiveRenderTargetDevice target.device >>= fun _ => env.validateDevice target)
       else pure ()) { s with mActiveRenderTarget := some target } := by
  unfold setRenderTarget
  simp only [rsm_bind_apply, THROW_IF_NOT_RENDER_THREAD_ok env hT, modifyRS_apply, getRS_apply,
    hnb, if_true]
  by_cases hw : target.id ∈ s.mRenderWindows
  · simp only [hw, if_true, rsm_bind_apply]
    rcases env.setActiveRenderTargetDevice target.device
      { s with mActiveRenderTarget := some target } with ⟨r1, s1⟩
    cases r1 with
    | error e => rfl
    | ok u =>
      simp only []
      rcases env.validateDevice target s1 with ⟨r2, s2⟩
      cases r2 <;> rfl
  · simp [hw]

/-! ## The claims -/

/-- C1, as the code has it: a `VertexBufferCore` built from `vertexSize` and
`numVertices` has `sizeInBytes` equal to their product reduced modulo `2^32`
(the product is computed in `UINT32`), hence equal to `numVertices * vertexSize`
whenever that product fits in 32 bits, as for 32 and 1000; its properties
record exactly `numVertices` and `vertexSize`. -/
theorem VertexBufferCore_sizeInBytes (vertexSize numVertices : Nat) (usage : GpuBufferUsage)
    (streamOut : Bool) :
    (VertexBufferCore.new vertexSize numVertices usage streamOut).mSizeInBytes
        = (numVertices * vertexSize) % 4294967296 ∧
    (numVertices * vertexSize < 4294967296 →
      (VertexBufferCore.new vertexSize numVertices usage streamOut).mSizeInBytes
        = numVertices * vertexSize) ∧
    (VertexBufferCore.new vertexSize numVertices usage streamOut).mProperties.mNumVertices
        = numVertices ∧
    (VertexBufferCore.new vertexSize numVertices usage streamOut).mProperties.mVertexSize
        = vertexSize := by
  have h : (VertexBufferCore.new vertexSize numVertices usage streamOut).mSizeInBytes
      = (numVertices * vertexSize) % 4294967296 := by
    simp [VertexBufferCore.new, VertexBufferProperties.new, uint32Mul, UINT32_RANGE, Nat.mul_comm]
  refine ⟨h, fun hlt => ?_, rfl, rfl⟩
  rw [h, Nat.mod_eq_of_lt hlt]

/-- C1 at 32-byte vertices, 1000 of them: the size is 32000. -/
theorem VertexBufferCore_sizeInBytes_witness :
    1000 * 32 < 4294967296 ∧
    (VertexBufferCore.new 32 1000 GpuBufferUsage.GBU_STATIC false).mSizeInBytes = 1000 * 32 :=
  ⟨by decide,
   (VertexBufferCore_sizeInBytes 32 1000 GpuBufferUsage.GBU_STATIC false).2.1 (by decide)⟩

/-- C1 as stated fails: with `vertexSize = 65536` and `numVertices = 65536` (both
valid `UINT32` values) the size is `0`, not the product `4294967296`. -/
theorem VertexBufferCore_sizeInBytes_overflow :
    65536 < UINT32_RANGE ∧
    (VertexBufferCore.new 65536 65536 GpuBufferUsage.GBU_STATIC false).mSizeInBytes = 0 ∧
    (VertexBufferCore.new 65536 65536 GpuBufferUsage.GBU_STATIC false).mSizeInBytes
      ≠ 65536 * 65536 := by
  decide

/-- C2: with `n` the element count of the operation (`indexCount` when
`useIndexes` is set, `vertexCount` otherwise), `render` computes the primitive
count as `n` for a point list, `n/2` for a line list, `n-1` for a line strip,
`n/3` for a triangle list and `n-2` for a triangle strip or fan, the
subtractions being those of the `DWORD` type; for `n = 10` unindexed this is
10, 5, 9, 3, 8, 8; and when the count is non-zero a run with non-zero vertex
count on a healthy device ends with the native draw call carrying exactly it. -/
theorem render_primCount (env : Env σ) (op : RenderOperation) (s s1 : RS σ) :
    ((if op.useIndexes then op.indexData.indexCount else op.vertexData.vertexCount) < UINT32_RANGE →
      elementCount op = if op.useIndexes then op.indexData.indexCount else op.vertexData.vertexCount) ∧
    (op.operationType = OperationType.OT_POINT_LIST → primCount op = elementCount op) ∧
    (op.operationType = OperationType.OT_LINE_LIST → primCount op = elementCount op / 2) ∧
    (op.operationType = OperationType.OT_LINE_STRIP →
      ((primCount op : Nat) : Int) = ((elementCount op : Nat) - 1 : Int) % 4294967296 ∧
      (1 ≤ elementCount op → primCount op = elementCount op - 1)) ∧
    (op.operationType = OperationType.OT_TRIANGLE_LIST → primCount op = elementCount op / 3) ∧
    (op.operationType = OperationType.OT_TRIANGLE_STRIP ∨
        op.operationType = OperationType.OT_TRIANGLE_FAN →
      ((primCount op : Nat) : Int) = ((elementCount op : Nat) - 2 : Int) % 4294967296 ∧
      (2 ≤ elementCount op → primCount op = elementCount op - 2)) ∧
    (op.useIndexes = false → op.vertexData.vertexCount = 10 →
      primCount op = match op.operationType with
        | OperationType.OT_POINT_LIST => 10
        | OperationType.OT_LINE_LIST => 5
        | OperationType.OT_LINE_STRIP => 9
        | OperationType.OT_TRIANGLE_LIST => 3
        | OperationType.OT_TRIANGLE_STRIP => 8
        | OperationType.OT_TRIANGLE_FAN => 8) ∧
    (env.threadOk → env.dev.healthy → op.vertexData.vertexCount ≠ 0 →
      env.superRender op s = (Except.ok (), s1) → s1.live → primCount op ≠ 0 →
      (render env op s).1 = Except.ok () ∧
      ∃ pre, (render env op s).2.trace = pre ++
        [if op.useIndexes then
           NativeCall.DrawIndexedPrimitive (primType op) (castINT op.vertexData.vertexStart) 0
             (castDWORD op.vertexData.vertexCount) (castDWORD op.indexData.indexStart) (primCount op)
         else
           NativeCall.DrawPrimitive (primType op) (castDWORD op.vertexData.vertexStart)
             (primCount op)]) := by
  have hn := elementCount_lt op
  refine ⟨fun h => castDWORD_of_lt _ h, ?_, ?_, ?_, ?_, ?_, ?_, ?_⟩
  · intro h; simp [primCount, h]
  · intro h; simp [primCount, h]
  · intro h
    have hp : primCount op = dwordSub (elementCount op) 1 := by simp [primCount, h]
    rw [hp]
    exact ⟨by have := dwordSub_int (elementCount op) 1; simpa using this,
           fun h1 => dwordSub_of_le _ _ hn h1⟩
  · intro h; simp [primCount, h]
  · intro h
    have hp : primCount op = dwordSub (elementCount op) 2 := by
      rcases h with h | h <;> simp [primCount, h]
    rw [hp]
    exact ⟨by have := dwordSub_int (elementCount op) 2; simpa using this,
           fun h1 => dwordSub_of_le _ _ hn h1⟩
  · intro hi hc
    have he : elementCount op = 10 := by simp [elementCount, hi, hc, castDWORD, UINT32_RANGE]
    unfold primCount
    rw [he]
    cases op.operationType <;> decide
  · intro hT hH hv hsuper hL hp
    obtain ⟨hok, htr⟩ := render_run env hT hH op s s1 hv hp hsuper hL
    refine ⟨hok, ?_⟩
    rw [htr]
    cases hi : op.useIndexes
    · exact ⟨s1.trace ++ NativeCall.SetVertexDeclaration op.vertexData.vertexDeclaration ::
        streamCalls op.vertexData.vertexBufferBinding s1.mLastVertexSourceCount,
        by simp [drawCalls, hi]⟩
    · exact ⟨s1.trace ++ NativeCall.SetVertexDeclaration op.vertexData.vertexDeclaration ::
        (streamCalls op.vertexData.vertexBufferBinding s1.mLastVertexSourceCount ++
          [NativeCall.SetIndices op.indexData.indexBuffer]),
        by simp [drawCalls, hi]⟩

/-- C2 on a triangle list of 10 vertices: three primitives are drawn. -/
theorem render_primCount_witness :
    primCount (sampleOp OperationType.OT_TRIANGLE_LIST false 10) = 3 ∧
    (render simEnv (sampleOp OperationType.OT_TRIANGLE_LIST false 10) simInit).1 = Except.ok () ∧
    ∃ pre, (render simEnv (sampleOp OperationType.OT_TRIANGLE_LIST false 10) simInit).2.trace
      = pre ++ [NativeCall.DrawPrimitive D3DPRIMITIVETYPE.D3DPT_TRIANGLELIST 0 3] :=
  ⟨(render_primCount simEnv (sampleOp OperationType.OT_TRIANGLE_LIST false 10) simInit
      simInit).2.2.2.2.2.2.1 rfl rfl,
   (render_primCount simEnv (sampleOp OperationType.OT_TRIANGLE_LIST false 10) simInit
      simInit).2.2.2.2.2.2.2 (fun _ => rfl) simDevice_healthy (by decide) rfl simInit_live
      (by decide)⟩


/-- C3: for every render operation whose vertex count is 0, indexed or not,
whatever its type and index count, `render` called on the render thread returns
without raising and leaves the whole state as it was: the trace of native calls
(no binding, no `SetIndices`, no draw), the devices and the render-system
fields. -/
theorem render_vertexCount_zero (env : Env σ) (op : RenderOperation) (s : RS σ)
    (hT : env.threadOk) (hv : op.vertexData.vertexCount = 0) :
    render env op s = (Except.ok (), s) ∧
    (render env op s).2.trace = s.trace :=
  ⟨render_of_vertexCount_zero env hT op s hv, by rw [render_of_vertexCount_zero env hT op s hv]⟩

/-- C3 on an indexed triangle list with 6 indices and no vertex. -/
theorem render_vertexCount_zero_witness :
    render simEnv { sampleOp OperationType.OT_TRIANGLE_LIST false 0 with
                    useIndexes := true,
                    indexData := { indexBuffer := 9, indexStart := 0, indexCount := 6 } } simInit
      = (Except.ok (), simInit) ∧
    (render simEnv { sampleOp OperationType.OT_TRIANGLE_LIST false 0 with
                     useIndexes := true,
                     indexData := { indexBuffer := 9, indexStart := 0, indexCount := 6 } }
      simInit).2.trace = [] :=
  render_vertexCount_zero simEnv _ simInit (fun _ => rfl) rfl

/-- C4: for every render operation with non-zero vertex count whose primitive
count is zero (line list of at most 1 element, line strip of 1, triangle list of
at most 2, triangle strip or fan of 2, point list of 0), `render` does, after the
base-class call, exactly what the declaration and stream binding steps do: it
appends neither `SetIndices` nor `DrawPrimitive` nor `DrawIndexedPrimitive`,
raises nothing of its own, and returns without an error on a healthy device. -/
theorem render_primCount_zero (env : Env σ) (op : RenderOperation) (s s1 : RS σ)
    (hT : env.threadOk) (hv : op.vertexData.vertexCount ≠ 0) (hp : primCount op = 0)
    (hsuper : env.superRender op s = (Except.ok (), s1)) :
    (match op.operationType with
      | OperationType.OT_POINT_LIST => elementCount op = 0
      | OperationType.OT_LINE_LIST => elementCount op ≤ 1
      | OperationType.OT_LINE_STRIP => elementCount op = 1
      | OperationType.OT_TRIANGLE_LIST => elementCount op ≤ 2
      | OperationType.OT_TRIANGLE_STRIP => elementCount op = 2
      | OperationType.OT_TRIANGLE_FAN => elementCount op = 2) ∧
    render env op s =
      (setVertexDeclaration env op.vertexData.vertexDeclaration >>= fun _ =>
        setVertexBufferBinding env op.vertexData.vertexBufferBinding) s1 ∧
    (∃ calls, (render env op s).2.trace = s1.trace ++ calls ∧
      ∀ c ∈ calls, isDrawOrSetIndices c = false) ∧
    (env.dev.healthy → s1.live →
      (render env op s).1 = Except.ok () ∧
      (render env op s).2.trace = s1.trace ++
        NativeCall.SetVertexDeclaration op.vertexData.vertexDeclaration ::
          streamCalls op.vertexData.vertexBufferBinding s1.mLastVertexSourceCount) := by
  have heq := render_of_primCount_zero env hT op s s1 hv hp hsuper
  refine ⟨(primCount_eq_zero_iff op).mp hp, heq, ?_, ?_⟩
  · rw [heq]
    exact emits_bind (emits_setVertexDeclaration env _)
      (fun _ => emits_setVertexBufferBinding env _) s1
  · intro hH hL
    obtain ⟨s3, h3, t3, _⟩ := bindingSteps_run env hT hH op.vertexData s1 hL
    rw [heq, h3]
    exact ⟨rfl, t3⟩

/-- C4 on an unindexed triangle list of 2 vertices: only the binding calls. -/
theorem render_primCount_zero_witness :
    (render simEnv (sampleOp OperationType.OT_TRIANGLE_LIST false 2) simInit).1 = Except.ok () ∧
    (render simEnv (sampleOp OperationType.OT_TRIANGLE_LIST false 2) simInit).2.trace =
      [NativeCall.SetVertexDeclaration 7, NativeCall.SetStreamSource 0 5 0 32] :=
  (render_primCount_zero simEnv (sampleOp OperationType.OT_TRIANGLE_LIST false 2) simInit simInit
    (fun _ => rfl) (by decide) (by decide) rfl).2.2.2 simDevice_healthy simInit_live

/-- C5, the code at the failing inputs: an unindexed triangle strip of 1 vertex,
and an indexed line strip with no index over 10 vertices, are drawn with
primitive count `4294967295`: the `DWORD` subtraction wraps, the count is not
zero, and the native draw call is issued. -/
theorem render_strip_underflow :
    primCount (sampleOp OperationType.OT_TRIANGLE_STRIP false 1) = 4294967295 ∧
    (render simEnv (sampleOp OperationType.OT_TRIANGLE_STRIP false 1) simInit).2.trace =
      [NativeCall.SetVertexDeclaration 7, NativeCall.SetStreamSource 0 5 0 32,
       NativeCall.DrawPrimitive D3DPRIMITIVETYPE.D3DPT_TRIANGLESTRIP 0 4294967295] ∧
    primCount (sampleOp OperationType.OT_LINE_STRIP true 0) = 4294967295 ∧
    (render simEnv (sampleOp OperationType.OT_LINE_STRIP true 0) simInit).2.trace =
      [NativeCall.SetVertexDeclaration 7, NativeCall.SetStreamSource 0 5 0 32,
       NativeCall.SetIndices 9,
       NativeCall.DrawIndexedPrimitive D3DPRIMITIVETYPE.D3DPT_LINESTRIP 0 0 10 0 4294967295] := by
  refine ⟨by decide, ?_, by decide, ?_⟩ <;> rfl

/-- C6: for every render operation that reaches the draw (non-zero vertex count,
non-zero primitive count, healthy live device), the calls `render` appends after
the base-class call are, in order, `SetVertexDeclaration`, the `SetStreamSource`
calls of the vertex-buffer binding, and then, for an indexed operation,
`SetIndices` with its index buffer followed by one `DrawIndexedPrimitive`, for a
non-indexed operation no `SetIndices` and one `DrawPrimitive` starting at
`vertexStart`. -/
theorem render_call_order (env : Env σ) (op : RenderOperation) (s s1 : RS σ)
    (hT : env.threadOk) (hH : env.dev.healthy)
    (hv : op.vertexData.vertexCount ≠ 0) (hp : primCount op ≠ 0)
    (hsuper : env.superRender op s = (Except.ok (), s1)) (hL : s1.live) :
    (render env op s).1 = Except.ok () ∧
    (∀ c ∈ streamCalls op.vertexData.vertexBufferBinding s1.mLastVertexSourceCount,
      ∃ stream buffer offset stride, c = NativeCall.SetStreamSource stream buffer offset stride) ∧
    (op.useIndexes = true →
      (render env op s).2.trace = s1.trace ++
        [NativeCall.SetVertexDeclaration op.vertexData.vertexDeclaration] ++
        streamCalls op.vertexData.vertexBufferBinding s1.mLastVertexSourceCount ++
        [NativeCall.SetIndices op.indexData.indexBuffer,
         NativeCall.DrawIndexedPrimitive (primType op) (castINT op.vertexData.vertexStart) 0
           (castDWORD op.vertexData.vertexCount) (castDWORD op.indexData.indexStart)
           (primCount op)]) ∧
    (op.useIndexes = false →
      (render env op s).2.trace = s1.trace ++
        [NativeCall.SetVertexDeclaration op.vertexData.vertexDeclaration] ++
        streamCalls op.vertexData.vertexBufferBinding s1.mLastVertexSourceCount ++
        [NativeCall.DrawPrimitive (primType op) (castDWORD op.vertexData.vertexStart)
           (primCount op)]) ∧
    (op.vertexData.vertexStart < UINT32_RANGE →
      castDWORD op.vertexData.vertexStart = op.vertexData.vertexStart) := by
  obtain ⟨hok, htr⟩ := render_run env hT hH op s s1 hv hp hsuper hL
  refine ⟨hok, ?_, ?_, ?_, fun h => castDWORD_of_lt _ h⟩
  · exact streamCalls_are_SetStreamSource _ _
  · intro hi
    rw [htr]; simp [drawCalls, hi]
  · intro hi
    rw [htr]; simp [drawCalls, hi]

/-- C6 on an indexed triangle list of 6 indices over 10 vertices. -/
theorem render_call_order_witness :
    (render simEnv (sampleOp OperationType.OT_TRIANGLE_LIST true 6) simInit).1 = Except.ok () ∧
    (render simEnv (sampleOp OperationType.OT_TRIANGLE_LIST true 6) simInit).2.trace =
      [NativeCall.SetVertexDeclaration 7, NativeCall.SetStreamSource 0 5 0 32,
       NativeCall.SetIndices 9,
       NativeCall.DrawIndexedPrimitive D3DPRIMITIVETYPE.D3DPT_TRIANGLELIST 0 0 10 0 2] :=
  ⟨(render_call_order simEnv (sampleOp OperationType.OT_TRIANGLE_LIST true 6) simInit simInit
      (fun _ => rfl) simDevice_healthy (by decide) (by decide) rfl simInit_live).1,
   (render_call_order simEnv (sampleOp OperationType.OT_TRIANGLE_LIST true 6) simInit simInit
      (fun _ => rfl) simDevice_healthy (by decide) (by decide) rfl simInit_live).2.2.1 rfl⟩


/-- C7: on a live device, `__SetRenderState(state, v)` reads the state first; when
the read fails it returns that failure and writes nothing; when the value read
equals `v` it returns `D3D_OK` and writes nothing; only when it differs does it
issue `SetRenderState`.  On a device whose `GetRenderState` returns the value
last set, after a `setDepthBufferWriteEnabled(true)` that returned, a second one
returns too and issues the read only, so that the two calls in succession issue
at most one `SetRenderState(D3DRS_ZWRITEENABLE)`. -/
theorem setDepthBufferWriteEnabled_redundant (env : Env σ) (s : RS σ) (d : σ)
    (hT : env.threadOk) (hd : s.devices s.activeDevice = some d) :
    (∀ state value : Nat,
      (FAILED (env.dev.call (NativeCall.GetRenderState state) d).1.hr = true →
        (__SetRenderState env state value s).1
          = Except.ok (env.dev.call (NativeCall.GetRenderState state) d).1.hr ∧
        (__SetRenderState env state value s).2.trace
          = s.trace ++ [NativeCall.GetRenderState state]) ∧
      (FAILED (env.dev.call (NativeCall.GetRenderState state) d).1.hr = false →
        (env.dev.call (NativeCall.GetRenderState state) d).1.out = value →
        (__SetRenderState env state value s).1 = Except.ok D3D_OK ∧
        (__SetRenderState env state value s).2.trace
          = s.trace ++ [NativeCall.GetRenderState state]) ∧
      (FAILED (env.dev.call (NativeCall.GetRenderState state) d).1.hr = false →
        (env.dev.call (NativeCall.GetRenderState state) d).1.out ≠ value →
        (__SetRenderState env state value s).1
          = Except.ok (env.dev.call (NativeCall.SetRenderState state value)
              (env.dev.call (NativeCall.GetRenderState state) d).2).1.hr ∧
        (__SetRenderState env state value s).2.trace
          = s.trace ++ [NativeCall.GetRenderState state,
                        NativeCall.SetRenderState state value])) ∧
    (env.dev.readsBackRenderState →
      (∀ s1, setDepthBufferWriteEnabled env true s = (Except.ok (), s1) →
        (setDepthBufferWriteEnabled env true s1).1 = Except.ok () ∧
        (setDepthBufferWriteEnabled env true s1).2.trace
          = s1.trace ++ [NativeCall.GetRenderState D3DRS_ZWRITEENABLE]) ∧
      (∃ calls,
        ((setDepthBufferWriteEnabled env true >>= fun _ =>
            setDepthBufferWriteEnabled env true) s).2.trace = s.trace ++ calls ∧
        countCalls (isSetRenderState D3DRS_ZWRITEENABLE) calls ≤ 1)) := by
  refine ⟨fun state value => ⟨?_, ?_, ?_⟩, ?_⟩
  · intro hf
    rw [SetRenderState_apply env hT state value s d hd]
    simp [hf]
  · intro hf hv
    rw [SetRenderState_apply env hT state value s d hd]
    simp [hf, hv]
  · intro hf hv
    rw [SetRenderState_apply env hT state value s d hd]
    simp [hf, hv]
  · intro hR
    obtain ⟨hGet, hSet⟩ := hR
    have hg2 : (env.dev.call (NativeCall.GetRenderState D3DRS_ZWRITEENABLE) d).2 = d := hGet _ d
    have hfirst := setDepthBufferWriteEnabled_apply env hT true s
    rw [SetRenderState_apply env hT _ _ s d hd] at hfirst
    simp only [if_true, hg2] at hfirst
    by_cases hf : FAILED (env.dev.call (NativeCall.GetRenderState D3DRS_ZWRITEENABLE) d).1.hr = true
    · -- the read fails: the first call raises
      simp only [hf, if_true] at hfirst
      refine ⟨fun s1 h1 => ?_, [NativeCall.GetRenderState D3DRS_ZWRITEENABLE], ?_, by decide⟩
      · rw [hfirst] at h1; simp at h1
      · rw [rsm_bind_apply, hfirst]
    · simp only [hf, if_false, Bool.false_eq_true] at hfirst
      by_cases hv : (env.dev.call (NativeCall.GetRenderState D3DRS_ZWRITEENABLE) d).1.out = 1
      · -- the value is already set: two reads, no write
        simp only [hv, if_true] at hfirst
        have hok : FAILED D3D_OK = false := rfl
        simp only [hok, if_false, Bool.false_eq_true] at hfirst
        have hsecond := setDepthBufferWriteEnabled_apply env hT true
          { s with devices := Function.update s.devices s.activeDevice (some d),
                   trace := s.trace ++ [NativeCall.GetRenderState D3DRS_ZWRITEENABLE] }
        rw [SetRenderState_apply env hT _ _ _ d (by simp)] at hsecond
        simp only [if_true, hg2, hf, if_false, hv, hok, Bool.false_eq_true] at hsecond
        refine ⟨fun s1 h1 => ?_, [NativeCall.GetRenderState D3DRS_ZWRITEENABLE,
          NativeCall.GetRenderState D3DRS_ZWRITEENABLE], ?_, by decide⟩
        · rw [hfirst] at h1
          have h1 := (Prod.mk.inj h1).2
          subst h1
          rw [hsecond]; simp
        · rw [rsm_bind_apply, hfirst]
          simp only []
          rw [hsecond]; simp
      · -- the value differs: the first call writes
        simp only [hv, if_false] at hfirst
        by_cases hw : FAILED (env.dev.call (NativeCall.SetRenderState D3DRS_ZWRITEENABLE 1) d).1.hr = true
        · simp only [hw, if_true] at hfirst
          refine ⟨fun s1 h1 => ?_, [NativeCall.GetRenderState D3DRS_ZWRITEENABLE,
            NativeCall.SetRenderState D3DRS_ZWRITEENABLE 1], ?_, by decide⟩
          · rw [hfirst] at h1; simp at h1
          · rw [rsm_bind_apply, hfirst]
        · simp only [hw, if_false, Bool.false_eq_true] at hfirst
          have hback := hSet D3DRS_ZWRITEENABLE 1 d (by simpa using hw)
          have hsecond := setDepthBufferWriteEnabled_apply env hT true
            { s with devices := Function.update s.devices s.activeDevice
                       (some (env.dev.call (NativeCall.SetRenderState D3DRS_ZWRITEENABLE 1) d).2),
                     trace := s.trace ++ [NativeCall.GetRenderState D3DRS_ZWRITEENABLE,
                                          NativeCall.SetRenderState D3DRS_ZWRITEENABLE 1] }
          rw [SetRenderState_apply env hT _ _ _
            (env.dev.call (NativeCall.SetRenderState D3DRS_ZWRITEENABLE 1) d).2 (by simp)] at hsecond
          have hok : FAILED D3D_OK = false := rfl
          simp only [if_true, hback, hok, if_false, Bool.false_eq_true] at hsecond
          refine ⟨fun s1 h1 => ?_, [NativeCall.GetRenderState D3DRS_ZWRITEENABLE,
            NativeCall.SetRenderState D3DRS_ZWRITEENABLE 1,
            NativeCall.GetRenderState D3DRS_ZWRITEENABLE], ?_, by decide⟩
          · rw [hfirst] at h1
            have h1 := (Prod.mk.inj h1).2
            subst h1
            rw [hsecond]; simp
          · rw [rsm_bind_apply, hfirst]
            simp only []
            rw [hsecond]; simp


/-- C8: `setTexture` is idempotent on the enable path.  For every stage and
non-null texture, `setTexture(stage, true, tex)` on a stage whose descriptor
already records the native texture of `tex` returns with the state untouched: no
native call, every stage descriptor unchanged.  An enabling call that returned
has recorded the texture, so the identical call after it is such a no-op; the
two calls in succession never issue more than one `SetTexture`, and issue
exactly one when the stage recorded another texture and the device is live. -/
theorem setTexture_enable_idempotent (env : Env σ) (stage : Nat) (dt : D3D9Texture) (s : RS σ)
    (hT : env.threadOk) :
    ((s.mTexStageDesc stage).pTex = dt.texture_internal →
      setTexture env stage true (some dt) s = (Except.ok (), s)) ∧
    (∀ s1, setTexture env stage true (some dt) s = (Except.ok (), s1) →
      (s1.mTexStageDesc stage).pTex = dt.texture_internal ∧
      setTexture env stage true (some dt) s1 = (Except.ok (), s1)) ∧
    (∃ calls,
      ((setTexture env stage true (some dt) >>= fun _ =>
          setTexture env stage true (some dt)) s).2.trace = s.trace ++ calls ∧
      countCalls isSetTexture calls ≤ 1 ∧
      ((s.mTexStageDesc stage).pTex ≠ dt.texture_internal → s.live →
        countCalls isSetTexture calls = 1)) := by
  have hcount : ∀ calls : List NativeCall, (∀ c ∈ calls, isSetTexture c = false) →
      countCalls isSetTexture
        (NativeCall.SetTexture (castDWORD stage) dt.texture_internal :: calls) = 1 := by
    intro calls hp
    have h0 := countCalls_eq_zero isSetTexture calls hp
    simp only [countCalls] at h0 ⊢
    simp [isSetTexture, h0]
  by_cases hrec : (s.mTexStageDesc stage).pTex = dt.texture_internal
  · have h1 := setTexture_recorded env hT stage dt s hrec
    refine ⟨fun _ => h1, ?_, [], ?_, by decide, fun hne => absurd hrec hne⟩
    · intro s1 hs1
      rw [h1] at hs1
      have := (Prod.mk.inj hs1).2
      subst this
      exact ⟨hrec, h1⟩
    · rw [rsm_bind_apply, h1]
      simp only []
      rw [h1]; simp
  · refine ⟨fun h => absurd h hrec, ?_, ?_⟩
    · intro s1 hs1
      rcases setTexture_bind_cases env hT stage dt s hrec with ⟨⟨e, he⟩, _⟩ | ⟨r, s2, calls, hr, _, _, hdesc⟩
      · rw [he] at hs1; simp at hs1
      · rw [hr] at hs1
        obtain ⟨h1, h2⟩ := Prod.mk.inj hs1
        subst h2
        exact ⟨hdesc h1, setTexture_recorded env hT stage dt s2 (hdesc h1)⟩
    · rcases setTexture_bind_cases env hT stage dt s hrec with ⟨⟨e, he⟩, hnl⟩ | ⟨r, s2, calls, hr, htr, hp, hdesc⟩
      · refine ⟨[], ?_, by decide, fun _ hl => absurd hl hnl⟩
        rw [rsm_bind_apply, he]; simp
      · refine ⟨NativeCall.SetTexture (castDWORD stage) dt.texture_internal :: calls, ?_,
          le_of_eq (hcount calls hp), fun _ _ => hcount calls hp⟩
        rw [rsm_bind_apply, hr]
        cases r with
        | error e => exact htr
        | ok u =>
          simp only []
          rw [setTexture_recorded env hT stage dt s2 (hdesc rfl)]
          exact htr

/-- C8 on stage 2 of the simulated device: of two identical enabling calls only
the first issues `SetTexture`. -/
theorem setTexture_enable_idempotent_witness :
    ∃ calls,
      ((setTexture simEnv 2 true (some sampleTexture) >>= fun _ =>
          setTexture simEnv 2 true (some sampleTexture)) simInit).2.trace
        = simInit.trace ++ calls ∧
      countCalls isSetTexture calls = 1 := by
  obtain ⟨calls, h1, _, h3⟩ :=
    (setTexture_enable_idempotent simEnv 2 sampleTexture simInit (fun _ => rfl)).2.2
  exact ⟨calls, h1, h3 (by decide) simInit_live⟩

/-- C9: after a `setTexture(stage, enabled, tex)` with `enabled = false` or a null
`tex` that returned, the descriptor of that stage is at its defaults (native
texture `NULL`, `coordIndex` 0, type normal), the descriptors of all other
stages are as before, and the calls issued are `SetTexture(stage, NULL)` exactly
when the stage recorded a non-null texture before, followed by calls that are
not `SetTexture`. -/
theorem setTexture_disable (env : Env σ) (stage : Nat) (enabled : Bool)
    (tex : Option D3D9Texture) (s s1 : RS σ) (hT : env.threadOk)
    (hdis : enabled = false ∨ tex = none)
    (hrun : setTexture env stage enabled tex s = (Except.ok (), s1)) :
    (s1.mTexStageDesc stage).pTex = 0 ∧
    (s1.mTexStageDesc stage).coordIndex = 0 ∧
    (s1.mTexStageDesc stage).texType = eD3DTexType.D3D_TEX_TYPE_NORMAL ∧
    (∀ other, other ≠ stage → s1.mTexStageDesc other = s.mTexStageDesc other) ∧
    (∃ rest, s1.trace = s.trace ++
        (if (s.mTexStageDesc stage).pTex ≠ 0 then [NativeCall.SetTexture (castDWORD stage) 0]
         else []) ++ rest ∧
      ∀ c ∈ rest, isSetTexture c = false) := by
  rw [setTexture_disable_apply env hT stage enabled tex s hdis] at hrun
  -- the optional unbinding call
  have hfirst : ∀ r0 s0, (if (s.mTexStageDesc stage).pTex ≠ 0 then
          (native env (NativeCall.SetTexture (castDWORD stage) 0) >>= fun r =>
            if r.hr ≠ S_OK then CM_EXCEPT Exception.RenderingAPIException else pure ())
          else pure () : RSM σ Unit) s = (Except.ok r0, s0) →
      s0.mTexStageDesc = s.mTexStageDesc ∧
      s0.trace = s.trace ++
        (if (s.mTexStageDesc stage).pTex ≠ 0 then [NativeCall.SetTexture (castDWORD stage) 0]
         else []) := by
    intro r0 s0 h0
    by_cases hp : (s.mTexStageDesc stage).pTex = 0
    · simp only [hp, ne_eq, not_true_eq_false, if_false, rsm_pure_apply] at h0 ⊢
      have := (Prod.mk.inj h0).2
      subst this
      simp
    · simp only [hp, ne_eq, not_false_eq_true, if_true, rsm_bind_apply] at h0 ⊢
      have hk := keepsDesc_native env (NativeCall.SetTexture (castDWORD stage) 0) s
      obtain ⟨_, hno⟩ := native_trace env (NativeCall.SetTexture (castDWORD stage) 0) s
      rcases hn : native env (NativeCall.SetTexture (castDWORD stage) 0) s with ⟨r, s2⟩
      rw [hn] at h0 hk
      cases r with
      | error e => simp at h0
      | ok r =>
        simp only [] at h0 hk
        by_cases hr : r.hr = S_OK
        · simp only [hr, not_true_eq_false, if_false, rsm_pure_apply] at h0
          have := (Prod.mk.inj h0).2
          subst this
          exact ⟨hk, hno r s2 hn⟩
        · simp [hr] at h0
  rcases h1 : (if (s.mTexStageDesc stage).pTex ≠ 0 then
          (native env (NativeCall.SetTexture (castDWORD stage) 0) >>= fun r =>
            if r.hr ≠ S_OK then CM_EXCEPT Exception.RenderingAPIException else pure ())
          else pure () : RSM σ Unit) s with ⟨r0, s0⟩
  rw [h1] at hrun
  cases r0 with
  | error e => simp at hrun
  | ok u =>
    obtain ⟨hd0, ht0⟩ := hfirst u s0 h1
    simp only [] at hrun
    obtain ⟨rest, hrest, hp⟩ := emits_SetTextureStageState env (castDWORD stage) D3DTSS_COLOROP
      D3DTOP_DISABLE s0
    have hk2 := keepsDesc_SetTextureStageState env (castDWORD stage) D3DTSS_COLOROP
      D3DTOP_DISABLE s0
    rcases h2 : __SetTextureStageState env (castDWORD stage) D3DTSS_COLOROP D3DTOP_DISABLE s0
      with ⟨r2, s2⟩
    rw [h2] at hrun hrest hk2
    cases r2 with
    | error e => simp at hrun
    | ok hr =>
      simp only [] at hrun hrest hk2
      by_cases hok : hr = S_OK
      · simp only [hok, ne_eq, not_true_eq_false, if_false] at hrun
        have := (Prod.mk.inj hrun).2
        subst this
        refine ⟨by simp, by simp, by simp, ?_, rest, ?_, hp⟩
        · intro other hne
          simp only [Function.update_noteq hne, hk2, hd0]
        · simp only [hrest, ht0]
      · simp [hok] at hrun

/-- C9 on stage 2 of the simulated device, where a texture was recorded. -/
theorem setTexture_disable_witness :
    ((setTexture simEnv 2 false none simBound).2.mTexStageDesc 2).pTex = 0 ∧
    ((setTexture simEnv 2 false none simBound).2.mTexStageDesc 2).coordIndex = 0 ∧
    (setTexture simEnv 2 false none simBound).2.mTexStageDesc 3 = simBound.mTexStageDesc 3 :=
  ⟨(setTexture_disable simEnv 2 false none simBound (setTexture simEnv 2 false none simBound).2
      (fun _ => rfl) (Or.inl rfl) rfl).1,
   (setTexture_disable simEnv 2 false none simBound (setTexture simEnv 2 false none simBound).2
      (fun _ => rfl) (Or.inl rfl) rfl).2.1,
   (setTexture_disable simEnv 2 false none simBound (setTexture simEnv 2 false none simBound).2
      (fun _ => rfl) (Or.inl rfl) rfl).2.2.2.1 3 (by decide)⟩


/-- C7 on the simulated device, whose depth-write state is initially 0. -/
theorem setDepthBufferWriteEnabled_redundant_witness :
    ∃ calls,
      ((setDepthBufferWriteEnabled simEnv true >>= fun _ =>
          setDepthBufferWriteEnabled simEnv true) simInit).2.trace = simInit.trace ++ calls ∧
      countCalls (isSetRenderState D3DRS_ZWRITEENABLE) calls ≤ 1 :=
  ((setDepthBufferWriteEnabled_redundant simEnv simInit _ (fun _ => rfl) rfl).2
    simDevice_readsBackRenderState).2

/-- C10: for every render target whose `DDBACKBUFFER` attribute leaves surface 0
null, `setRenderTarget` records the target and, for a registered window, runs
the device binding of that window; it does nothing else.  So for a target that
is not a registered window it returns without raising, issues no native call
and leaves every device as it was; for a registered window it returns whenever
the device binding does, in the state that binding left, having issued no
`SetRenderTarget` and no `SetDepthStencilSurface` of its own. -/
theorem setRenderTarget_no_back_buffer (env : Env σ) (target : RenderTarget) (s : RS σ)
    (hT : env.threadOk) (hnb : target.backBuffers.getD 0 0 = 0) :
    (target.id ∉ s.mRenderWindows →
      setRenderTarget env target s
        = (Except.ok (), { s with mActiveRenderTarget := some target }) ∧
      (setRenderTarget env target s).2.trace = s.trace ∧
      (setRenderTarget env target s).2.devices = s.devices ∧
      (setRenderTarget env target s).2.activeDevice = s.activeDevice) ∧
    (target.id ∈ s.mRenderWindows →
      setRenderTarget env target s =
        (env.setActiveRenderTargetDevice target.device >>= fun _ => env.validateDevice target)
          { s with mActiveRenderTarget := some target } ∧
      ∀ s2, (env.setActiveRenderTargetDevice target.device >>= fun _ =>
              env.validateDevice target) { s with mActiveRenderTarget := some target }
            = (Except.ok (), s2) →
        setRenderTarget env target s = (Except.ok (), s2)) ∧
    (target.id ∈ s.mRenderWindows →
      env.setActiveRenderTargetDevice = DeviceManager.setActiveRenderTargetDevice →
      (∀ s0, env.validateDevice target s0 = (Except.ok (), s0)) →
      (setRenderTarget env target s).1 = Except.ok () ∧
      (setRenderTarget env target s).2.trace = s.trace ∧
      (setRenderTarget env target s).2.devices = s.devices) := by
  have h := setRenderTarget_apply_no_back_buffer env hT target s hnb
  refine ⟨fun hw => ?_, fun hw => ?_, fun hw hset hval => ?_⟩
  · rw [h]; simp [hw]
  · rw [h]; simp only [hw, if_true]
    exact ⟨trivial, fun s2 h2 => h2⟩
  · rw [h]; simp only [hw, if_true, hset, rsm_bind_apply, DeviceManager.setActiveRenderTargetDevice,
      modifyRS_apply, hval]
    simp

/-- C10 on a target that is still initialising. -/
theorem setRenderTarget_no_back_buffer_witness :
    setRenderTarget simEnv sampleTarget simInit
      = (Except.ok (), { simInit with mActiveRenderTarget := some sampleTarget }) ∧
    (setRenderTarget simEnv sampleTarget simInit).2.trace = simInit.trace ∧
    (setRenderTarget simEnv sampleTarget simInit).2.devices = simInit.devices ∧
    (setRenderTarget simEnv sampleTarget simInit).2.activeDevice = simInit.activeDevice :=
  (setRenderTarget_no_back_buffer simEnv sampleTarget simInit (fun _ => rfl) rfl).1 (by decide)


/-! ## Frames: which computations leave a field of the render system alone -/

theorem keeps_pure {α β : Type} (f : RS σ → β) (a : α) : Keeps f (pure a : RSM σ α) :=
  fun _ => rfl

theorem keeps_except {α β : Type} (f : RS σ → β) (e : Exception) :
    Keeps f (CM_EXCEPT e : RSM σ α) :=
  fun _ => rfl

theorem keeps_getRS {β : Type} (f : RS σ → β) : Keeps f (getRS : RSM σ (RS σ)) :=
  fun _ => rfl

theorem keeps_modifyRS {β : Type} (f : RS σ → β) (g : RS σ → RS σ) (hg : ∀ s, f (g s) = f s) :
    Keeps f (modifyRS g) :=
  fun s => hg s

theorem keeps_bind {α γ β : Type} {f : RS σ → β} {m : RSM σ α} {k : α → RSM σ γ}
    (hm : Keeps f m) (hk : ∀ a, Keeps f (k a)) : Keeps f (m >>= k) := by
  intro s
  have h1 := hm s
  rw [rsm_bind_apply]
  rcases hms : m s with ⟨r, s1⟩
  rw [hms] at h1
  cases r with
  | error e => exact h1
  | ok a => simp only []; rw [hk a s1]; exact h1

theorem keeps_ite {α β : Type} {f : RS σ → β} (b : Prop) [Decidable b] {m1 m2 : RSM σ α}
    (h1 : Keeps f m1) (h2 : Keeps f m2) : Keeps f (if b then m1 else m2) := by
  split
  · exact h1
  · exact h2

theorem keeps_thread {β : Type} (f : RS σ → β) (env : Env σ) :
    Keeps f (THROW_IF_NOT_RENDER_THREAD env) := by
  unfold THROW_IF_NOT_RENDER_THREAD throwIfNotRenderThread
  split
  · split
    · exact keeps_pure f ()
    · exact keeps_except f _
  · exact keeps_pure f ()

theorem keeps_native {β : Type} {f : RS σ → β} (hf : OwnField f) (env : Env σ) (c : NativeCall) :
    Keeps f (native env c) := by
  unfold native getActiveD3D9Device
  refine keeps_bind (keeps_bind (keeps_thread f env)
    (fun _ => keeps_bind (keeps_getRS f) (fun s => ?_))) (fun d => ?_)
  · cases s.devices s.activeDevice with
    | none => exact keeps_except f _
    | some d => exact keeps_pure f d
  · refine keeps_bind (keeps_modifyRS f _ (fun s => ?_)) (fun _ => keeps_pure f _)
    exact hf s _ s.activeDevice _

theorem keeps_collaborate {β : Type} {f : RS σ → β} (hf : OwnField f) (env : Env σ)
    (c : NativeCall) : Keeps f (collaborate env c) :=
  fun s => hf s _ _ _

theorem keeps_SetRenderState {β : Type} {f : RS σ → β} (hf : OwnField f) (env : Env σ)
    (state value : Nat) : Keeps f (__SetRenderState env state value) := by
  unfold __SetRenderState
  refine keeps_bind (keeps_native hf env _) (fun r => ?_)
  refine keeps_ite _ (keeps_pure f _) (keeps_ite _ (keeps_pure f _) ?_)
  exact keeps_bind (keeps_native hf env _) (fun _ => keeps_pure f _)

theorem keeps_bindRenderTargets {β : Type} {f : RS σ → β} (hf : OwnField f) (env : Env σ)
    (pBack : Nat → Nat) (count : Nat) : ∀ x, Keeps f (bindRenderTargets env pBack x count) := by
  induction count with
  | zero => intro x; exact keeps_pure f ()
  | succ n ih =>
    intro x
    unfold bindRenderTargets
    refine keeps_bind (keeps_native hf env _) (fun r => ?_)
    exact keeps_ite _ (keeps_except f _) (ih (x + 1))

/-- What follows the recording of the target in `setRenderTarget` keeps a field of
the render system that the device binding of windows keeps. -/
theorem setRenderTarget_records {β : Type} {f : RS σ → β} (hf : OwnField f) (env : Env σ)
    (hT : env.threadOk) (target : RenderTarget)
    (hset : ∀ dv, Keeps f (env.setActiveRenderTargetDevice dv))
    (hval : ∀ t, Keeps f (env.validateDevice t)) (s : RS σ) :
    f (setRenderTarget env target s).2 = f { s with mActiveRenderTarget := some target } := by
  unfold setRenderTarget
  rw [rsm_bind_apply, THROW_IF_NOT_RENDER_THREAD_ok env hT]
  simp only []
  rw [rsm_bind_apply, modifyRS_apply]
  simp only []
  generalize ({ s with mActiveRenderTarget := some target } : RS σ) = s0
  revert s0
  change Keeps f _
  refine keeps_bind (keeps_getRS f) (fun s0 => ?_)
  refine keeps_ite _ (keeps_bind (hset _) (fun _ => keeps_bind (hval _) (fun _ => ?_)))
    (keeps_bind (keeps_pure f _) (fun _ => ?_))
  all_goals
    refine keeps_ite _ (keeps_pure f ()) (keeps_bind (keeps_getRS f) (fun s1 => ?_))
    refine keeps_bind (keeps_bindRenderTargets hf env _ _ 0) (fun _ => ?_)
    refine keeps_bind (keeps_native hf env _) (fun r => ?_)
    exact keeps_ite _ (keeps_except f _) (keeps_pure f ())

/-! ## The claims on render targets, viewports and frames -/

/-- C11, counterexample: `sampleTarget` exposes no back buffer and `setRenderTarget`
returns on it, yet the recorded active render target changes from none to
`sampleTarget`, and when `sampleTarget` is a registered render window the active
device changes from 0 to the window's device 1. -/
theorem setRenderTarget_no_back_buffer_changes_state :
    sampleTarget.backBuffers.getD 0 0 = 0 ∧
    (setRenderTarget simEnv sampleTarget simInit).1 = Except.ok () ∧
    simInit.mActiveRenderTarget = none ∧
    (setRenderTarget simEnv sampleTarget simInit).2.mActiveRenderTarget = some sampleTarget ∧
    (setRenderTarget simEnv sampleTarget simWindowed).1 = Except.ok () ∧
    simWindowed.activeDevice = 0 ∧
    (setRenderTarget simEnv sampleTarget simWindowed).2.activeDevice = 1 :=
  ⟨rfl, rfl, rfl, rfl, rfl, rfl, rfl⟩

/-- C11, as the code has it: on the render thread, for a target with no back buffer,
`setRenderTarget` records the target as the active render target before it looks
for the back buffer.  For a target that is not a registered render window the
call returns and the state afterwards is the state before with
`mActiveRenderTarget` set to the target, so the active device is the same and the
call is a no-op exactly when the target was already the recorded one.  For a
registered render window, with the device manager of the spec and a validation
that returns without effect, the call returns with the target recorded and the
window's device made the active device. -/
theorem setRenderTarget_no_back_buffer_state (env : Env σ) (hT : env.threadOk)
    (target : RenderTarget) (s : RS σ) (hnb : target.backBuffers.getD 0 0 = 0) :
    (target.id ∉ s.mRenderWindows →
      setRenderTarget env target s
        = (Except.ok (), { s with mActiveRenderTarget := some target }) ∧
      (setRenderTarget env target s).2.activeDevice = s.activeDevice ∧
      (s.mActiveRenderTarget = some target → (setRenderTarget env target s).2 = s)) ∧
    (target.id ∈ s.mRenderWindows →
      env.setActiveRenderTargetDevice = DeviceManager.setActiveRenderTargetDevice →
      env.validateDevice target = pure () →
      setRenderTarget env target s
        = (Except.ok (),
           { s with mActiveRenderTarget := some target, activeDevice := target.device })) := by
  rw [setRenderTarget_apply_no_back_buffer env hT target s hnb]
  refine ⟨fun hw => ?_, fun hw hset hval => ?_⟩
  · rw [if_neg hw]
    refine ⟨rfl, rfl, fun h => ?_⟩
    show ({ s with mActiveRenderTarget := some target } : RS σ) = s
    rw [← h]
  · rw [if_pos hw, hset, hval]
    rfl

theorem setRenderTarget_no_back_buffer_state_witness :
    simEnv.threadOk ∧ sampleTarget.backBuffers.getD 0 0 = 0 ∧
    setRenderTarget simEnv sampleTarget simInit
      = (Except.ok (), { simInit with mActiveRenderTarget := some sampleTarget }) ∧
    setRenderTarget simEnv sampleTarget simWindowed
      = (Except.ok (),
         { simWindowed with mActiveRenderTarget := some sampleTarget,
                            activeDevice := sampleTarget.device }) :=
  ⟨by decide, rfl,
   ((setRenderTarget_no_back_buffer_state simEnv (by decide) sampleTarget simInit rfl).1
      (by decide)).1,
   (setRenderTarget_no_back_buffer_state simEnv (by decide) sampleTarget simWindowed rfl).2
      (by decide) rfl rfl⟩

/-- C13: on the render thread with a live active device, `beginFrame` issues
`BeginScene`.  If that fails, `beginFrame` raises `RenderingAPIException` with
`mLastVertexSourceCount` as it was and only `BeginScene` appended to the trace.
If it succeeds, `beginFrame` sets `mLastVertexSourceCount` to 0 and then has the
active device clear its streams, that call deciding the outcome; so whenever
`beginFrame` returns, `mLastVertexSourceCount` is 0 and the trace has grown by
`BeginScene` followed by `clearDeviceStreams`, whatever the count was before. -/
theorem beginFrame_resets_stream_cache (env : Env σ) (hT : env.threadOk) (s : RS σ) (d : σ)
    (hd : s.devices s.activeDevice = some d) :
    (FAILED (env.dev.call NativeCall.BeginScene d).1.hr = true →
      beginFrame env s
        = (Except.error Exception.RenderingAPIException,
           { s with devices := Function.update s.devices s.activeDevice
                      (some (env.dev.call NativeCall.BeginScene d).2),
                    trace := s.trace ++ [NativeCall.BeginScene] }) ∧
      (beginFrame env s).2.mLastVertexSourceCount = s.mLastVertexSourceCount) ∧
    (FAILED (env.dev.call NativeCall.BeginScene d).1.hr = false →
      beginFrame env s
        = collaborate env NativeCall.clearDeviceStreams
            { s with devices := Function.update s.devices s.activeDevice
                       (some (env.dev.call NativeCall.BeginScene d).2),
                     trace := s.trace ++ [NativeCall.BeginScene],
                     mLastVertexSourceCount := 0 }) ∧
    (∀ s1, beginFrame env s = (Except.ok (), s1) →
      s1.mLastVertexSourceCount = 0 ∧
      s1.trace = s.trace ++ [NativeCall.BeginScene, NativeCall.clearDeviceStreams]) := by
  have hfail : FAILED (env.dev.call NativeCall.BeginScene d).1.hr = true →
      beginFrame env s
        = (Except.error Exception.RenderingAPIException,
           { s with devices := Function.update s.devices s.activeDevice
                      (some (env.dev.call NativeCall.BeginScene d).2),
                    trace := s.trace ++ [NativeCall.BeginScene] }) := by
    intro h
    unfold beginFrame
    simp only [rsm_bind_apply, THROW_IF_NOT_RENDER_THREAD_ok env hT,
      native_apply env hT _ s d hd, h, if_true, CM_EXCEPT_apply]
  have hok : FAILED (env.dev.call NativeCall.BeginScene d).1.hr = false →
      beginFrame env s
        = collaborate env NativeCall.clearDeviceStreams
            { s with devices := Function.update s.devices s.activeDevice
                       (some (env.dev.call NativeCall.BeginScene d).2),
                     trace := s.trace ++ [NativeCall.BeginScene],
                     mLastVertexSourceCount := 0 } := by
    intro h
    unfold beginFrame
    simp only [rsm_bind_apply, THROW_IF_NOT_RENDER_THREAD_ok env hT,
      native_apply env hT _ s d hd, h, modifyRS_apply]
    rfl
  refine ⟨fun h => ⟨hfail h, ?_⟩, hok, fun s1 h1 => ?_⟩
  · rw [hfail h]
  · cases h : FAILED (env.dev.call NativeCall.BeginScene d).1.hr with
    | true => rw [hfail h] at h1; cases h1
    | false =>
      rw [hok h] at h1
      have h2 := congrArg Prod.snd h1
      simp only [collaborate] at h2
      rw [← h2]
      exact ⟨rfl, by simp⟩

theorem beginFrame_resets_stream_cache_witness :
    simEnv.threadOk ∧
    (beginFrame simEnv simStreamed).1 = Except.ok () ∧
    simStreamed.mLastVertexSourceCount ≠ 0 ∧
    (beginFrame simEnv simStreamed).2.mLastVertexSourceCount = 0 ∧
    (beginFrame simEnv simStreamed).2.trace
      = simStreamed.trace ++ [NativeCall.BeginScene, NativeCall.clearDeviceStreams] ∧
    (beginFrame (failingEnv isSceneCall) simStreamed).1
      = Except.error Exception.RenderingAPIException ∧
    (beginFrame (failingEnv isSceneCall) simStreamed).2.mLastVertexSourceCount
      = simStreamed.mLastVertexSourceCount :=
  ⟨by decide, rfl, by decide,
   ((beginFrame_resets_stream_cache simEnv (by decide) simStreamed _ rfl).2.2 _ rfl).1,
   ((beginFrame_resets_stream_cache simEnv (by decide) simStreamed _ rfl).2.2 _ rfl).2,
   congrArg Prod.fst
     ((beginFrame_resets_stream_cache (failingEnv isSceneCall) (by decide) simStreamed _ rfl).1
       rfl).1,
   ((beginFrame_resets_stream_cache (failingEnv isSceneCall) (by decide) simStreamed _ rfl).1
       rfl).2⟩

/-! ## Which calls each operation can append -/

theorem emits_collaborate {P : NativeCall → Prop} (env : Env σ) (c : NativeCall) (hc : P c) :
    Emits P (collaborate env c) := by
  intro s
  refine ⟨[c], rfl, ?_⟩
  intro x hx
  rw [List.mem_singleton] at hx
  rw [hx]; exact hc

theorem emits_SetRenderState_of {P : NativeCall → Prop} (env : Env σ) (state value : Nat)
    (hg : P (NativeCall.GetRenderState state)) (hs : P (NativeCall.SetRenderState state value)) :
    Emits P (__SetRenderState env state value) := by
  unfold __SetRenderState
  refine emits_bind (emits_native env _ hg) (fun r => ?_)
  refine emits_ite _ (emits_pure P _) (emits_ite _ (emits_pure P _) ?_)
  exact emits_bind (emits_native env _ hs) (fun _ => emits_pure P _)

theorem emits_SetSamplerState_of {P : NativeCall → Prop} (hP : ∀ c, isDeviceCall c = true → P c)
    (env : Env σ) (sampler type value : Nat) :
    Emits P (__SetSamplerState env sampler type value) := by
  unfold __SetSamplerState
  refine emits_bind (emits_native env _ (hP _ rfl)) (fun r => ?_)
  refine emits_ite _ (emits_pure P _) (emits_ite _ (emits_pure P _) ?_)
  exact emits_bind (emits_native env _ (hP _ rfl)) (fun _ => emits_pure P _)

theorem emits_SetTextureStageState_of {P : NativeCall → Prop}
    (hP : ∀ c, isDeviceCall c = true → P c) (env : Env σ) (stage type value : Nat) :
    Emits P (__SetTextureStageState env stage type value) := by
  unfold __SetTextureStageState
  refine emits_ite _ ?_ (emits_pure P _)
  refine emits_bind (emits_native env _ (hP _ rfl)) (fun r => ?_)
  refine emits_ite _ (emits_pure P _) (emits_ite _ (emits_pure P _) ?_)
  exact emits_bind (emits_native env _ (hP _ rfl)) (fun _ => emits_pure P _)

theorem emits_setDepthBufferWriteEnabled {P : NativeCall → Prop}
    (hP : ∀ c, isDeviceCall c = true → P c) (env : Env σ) (enabled : Bool) :
    Emits P (setDepthBufferWriteEnabled env enabled) := by
  unfold setDepthBufferWriteEnabled
  refine emits_bind (emits_thread P env) (fun _ => ?_)
  refine emits_bind (emits_SetRenderState_of env _ _ (hP _ rfl) (hP _ rfl)) (fun hr => ?_)
  exact emits_ite _ (emits_except P _) (emits_pure P ())

theorem emits_setTexture {P : NativeCall → Prop} (hP : ∀ c, isDeviceCall c = true → P c)
    (env : Env σ) (stage : Nat) (enabled : Bool) (tex : Option D3D9Texture) :
    Emits P (setTexture env stage enabled tex) := by
  unfold setTexture
  refine emits_bind (emits_thread P env) (fun _ => ?_)
  split
  · refine emits_bind (emits_getRS P) (fun s => emits_ite _ ?_ (emits_pure P ()))
    refine emits_bind (emits_native env _ (hP _ rfl)) (fun r => emits_ite _ (emits_except P _) ?_)
    refine emits_bind (emits_modifyRS P _ (fun _ => rfl)) (fun _ => emits_ite _ ?_ ?_)
    · exact emits_bind (emits_SetSamplerState_of hP env _ _ _) (fun _ => emits_pure P ())
    · exact emits_bind (emits_SetSamplerState_of hP env _ _ _) (fun _ => emits_pure P ())
  · refine emits_bind (emits_getRS P) (fun s => emits_ite _ ?_ ?_)
    · refine emits_bind (emits_native env _ (hP _ rfl)) (fun r => emits_ite _ (emits_except P _) ?_)
      refine emits_bind (emits_pure P _) (fun _ => ?_)
      refine emits_bind (emits_SetTextureStageState_of hP env _ _ _) (fun hr => ?_)
      exact emits_ite _ (emits_except P _) (emits_modifyRS P _ (fun _ => rfl))
    · refine emits_bind (emits_pure P _) (fun _ => ?_)
      refine emits_bind (emits_SetTextureStageState_of hP env _ _ _) (fun hr => ?_)
      exact emits_ite _ (emits_except P _) (emits_modifyRS P _ (fun _ => rfl))

theorem emits_bindRenderTargets {P : NativeCall → Prop} (hP : ∀ c, isDeviceCall c = true → P c)
    (env : Env σ) (pBack : Nat → Nat) (count : Nat) :
    ∀ x, Emits P (bindRenderTargets env pBack x count) := by
  induction count with
  | zero => intro x; exact emits_pure P ()
  | succ n ih =>
    intro x
    unfold bindRenderTargets
    refine emits_bind (emits_native env _ (hP _ rfl)) (fun r => ?_)
    exact emits_ite _ (emits_except P _) (ih (x + 1))

theorem emits_setRenderTarget {P : NativeCall → Prop} (hP : ∀ c, isDeviceCall c = true → P c)
    (env : Env σ) (hq : env.quiet P) (target : RenderTarget) :
    Emits P (setRenderTarget env target) := by
  unfold setRenderTarget
  refine emits_bind (emits_thread P env) (fun _ => ?_)
  refine emits_bind (emits_modifyRS P _ (fun _ => rfl)) (fun _ => ?_)
  refine emits_bind (emits_getRS P) (fun s0 => ?_)
  refine emits_ite _ (emits_bind (hq.2.1 _) (fun _ => emits_bind (hq.2.2.1 _) (fun _ => ?_)))
    (emits_bind (emits_pure P _) (fun _ => ?_))
  all_goals
    refine emits_ite _ (emits_pure P ()) (emits_bind (emits_getRS P) (fun s1 => ?_))
    refine emits_bind (emits_bindRenderTargets hP env _ _ 0) (fun _ => ?_)
    refine emits_bind (emits_native env _ (hP _ rfl)) (fun r => ?_)
    exact emits_ite _ (emits_except P _) (emits_pure P ())

theorem emits_setVertexDeclaration_of {P : NativeCall → Prop}
    (hP : ∀ c, isDeviceCall c = true → P c) (env : Env σ) (decl : Nat) :
    Emits P (setVertexDeclaration env decl) := by
  unfold setVertexDeclaration
  refine emits_bind (emits_thread _ env)
    (fun _ => emits_bind (emits_native env _ (hP _ rfl)) (fun r => ?_))
  exact emits_ite _ (emits_except _ _) (emits_pure _ ())

theorem emits_unbindSources_of {P : NativeCall → Prop} (hP : ∀ c, isDeviceCall c = true → P c)
    (env : Env σ) (count : Nat) : ∀ source : Nat, Emits P (unbindSources env source count) := by
  induction count with
  | zero => intro source; exact emits_pure _ ()
  | succ n ih =>
    intro source
    unfold unbindSources
    refine emits_bind (emits_native env _ (hP _ rfl)) (fun r => ?_)
    exact emits_ite _ (emits_except _ _) (ih (source + 1))

theorem emits_bindSources_of {P : NativeCall → Prop} (hP : ∀ c, isDeviceCall c = true → P c)
    (env : Env σ) (binding : List (Nat × D3D9HardwareVertexBuffer)) :
    ∀ source : Nat, Emits P (bindSources env binding source) := by
  induction binding with
  | nil => intro source; exact emits_pure _ source
  | cons b rest ih =>
    intro source
    obtain ⟨first, buf⟩ := b
    unfold bindSources
    refine emits_bind (emits_unbindSources_of hP env _ source) (fun _ => ?_)
    refine emits_bind (emits_native env _ (hP _ rfl)) (fun r => ?_)
    exact emits_ite _ (emits_except _ _) (ih _)

theorem emits_setVertexBufferBinding_of {P : NativeCall → Prop}
    (hP : ∀ c, isDeviceCall c = true → P c) (env : Env σ)
    (binding : List (Nat × D3D9HardwareVertexBuffer)) :
    Emits P (setVertexBufferBinding env binding) := by
  unfold setVertexBufferBinding
  refine emits_bind (emits_thread _ env) (fun _ => ?_)
  refine emits_bind (emits_bindSources_of hP env binding 0) (fun source => ?_)
  refine emits_bind (emits_getRS _) (fun s => ?_)
  refine emits_bind (emits_unbindSources_of hP env _ source) (fun _ => ?_)
  exact emits_modifyRS _ _ (fun _ => rfl)

theorem emits_render {P : NativeCall → Prop} (hP : ∀ c, isDeviceCall c = true → P c)
    (env : Env σ) (hq : env.quiet P) (op : RenderOperation) : Emits P (render env op) := by
  unfold render
  refine emits_bind (emits_thread P env) (fun _ => emits_ite _ (emits_pure P ()) ?_)
  refine emits_bind (hq.1 op) (fun _ => ?_)
  refine emits_bind (emits_setVertexDeclaration_of hP env _) (fun _ => ?_)
  refine emits_bind (emits_setVertexBufferBinding_of hP env _) (fun _ => ?_)
  refine emits_ite _ (emits_pure P ()) (emits_ite _ ?_ ?_)
  · refine emits_bind (emits_native env _ (hP _ rfl)) (fun r => emits_ite _ (emits_except P _) ?_)
    refine emits_bind (emits_native env _ (hP _ rfl)) (fun r => ?_)
    exact emits_ite _ (emits_except P _) (emits_pure P ())
  · refine emits_bind (emits_native env _ (hP _ rfl)) (fun r => ?_)
    exact emits_ite _ (emits_except P _) (emits_pure P ())

theorem emits_beginFrame {P : NativeCall → Prop} (hP : ∀ c, isDeviceCall c = true → P c)
    (hc : P NativeCall.clearDeviceStreams) (env : Env σ) : Emits P (beginFrame env) := by
  unfold beginFrame
  refine emits_bind (emits_thread P env) (fun _ => ?_)
  refine emits_bind (emits_native env _ (hP _ rfl)) (fun r => emits_ite _ (emits_except P _) ?_)
  exact emits_bind (emits_modifyRS P _ (fun _ => rfl)) (fun _ => emits_collaborate env _ hc)

theorem emits_setCullingMode {P : NativeCall → Prop} (hP : ∀ c, isDeviceCall c = true → P c)
    (env : Env σ) (mode : CullingMode) : Emits P (setCullingMode env mode) := by
  unfold setCullingMode
  refine emits_bind (emits_thread P env) (fun _ => ?_)
  refine emits_bind (emits_modifyRS P _ (fun _ => rfl)) (fun _ => ?_)
  refine emits_bind (emits_getRS P) (fun s => ?_)
  refine emits_bind (emits_SetRenderState_of env _ _ (hP _ rfl) (hP _ rfl)) (fun hr => ?_)
  exact emits_ite _ (emits_except P _) (emits_pure P ())

theorem emits_setViewport {P : NativeCall → Prop} (hP : ∀ c, isDeviceCall c = true → P c)
    (env : Env σ) (hq : env.quiet P) (vp : Viewport) : Emits P (setViewport env vp) := by
  unfold setViewport
  refine emits_bind (emits_thread P env) (fun _ => ?_)
  refine emits_bind (emits_modifyRS P _ (fun _ => rfl)) (fun _ => ?_)
  refine emits_bind (emits_setRenderTarget hP env hq _) (fun _ => ?_)
  refine emits_bind (emits_getRS P) (fun s => ?_)
  refine emits_bind (emits_setCullingMode hP env _) (fun _ => ?_)
  refine emits_bind (emits_native env _ (hP _ rfl)) (fun r => emits_ite _ (emits_except P _) ?_)
  exact emits_bind (emits_SetRenderState_of env _ _ (hP _ rfl) (hP _ rfl))
    (fun _ => emits_pure P ())

theorem emits_setClipPlane {P : NativeCall → Prop} (hP : ∀ c, isDeviceCall c = true → P c)
    (env : Env σ) (index A B C D : Nat) : Emits P (setClipPlane env index A B C D) := by
  unfold setClipPlane
  exact emits_bind (emits_native env _ (hP _ rfl)) (fun _ => emits_pure P ())

theorem emits_enableClipPlane {P : NativeCall → Prop} (hP : ∀ c, isDeviceCall c = true → P c)
    (env : Env σ) (index : Nat) (enable : Bool) : Emits P (enableClipPlane env index enable) := by
  unfold enableClipPlane
  refine emits_bind (emits_native env _ (hP _ rfl)) (fun r => ?_)
  exact emits_bind (emits_SetRenderState_of env _ _ (hP _ rfl) (hP _ rfl))
    (fun _ => emits_pure P ())

theorem emits_setTextureAnisotropy {P : NativeCall → Prop}
    (hP : ∀ c, isDeviceCall c = true → P c) (env : Env σ) (unit maxAnisotropy : Nat) :
    Emits P (setTextureAnisotropy env unit maxAnisotropy) := by
  unfold setTextureAnisotropy _getCurrentAnisotropy
  refine emits_bind (emits_thread P env) (fun _ => ?_)
  refine emits_bind (emits_getRS P) (fun s => ?_)
  refine emits_bind (emits_bind (emits_native env _ (hP _ rfl)) (fun _ => emits_pure P _))
    (fun current => ?_)
  refine emits_ite _ ?_ (emits_pure P ())
  exact emits_bind (emits_SetSamplerState_of hP env _ _ _) (fun _ => emits_pure P ())

/-! ## The viewport -/

theorem keeps_fst {α β γ : Type} {f : RS σ → β} {g : RS σ → γ} {m : RSM σ α}
    (h : Keeps (fun s => (f s, g s)) m) : Keeps f m :=
  fun s => congrArg Prod.fst (h s)

theorem keeps_snd {α β γ : Type} {f : RS σ → β} {g : RS σ → γ} {m : RSM σ α}
    (h : Keeps (fun s => (f s, g s)) m) : Keeps g m :=
  fun s => congrArg Prod.snd (h s)

/-- What follows a computation in a bind does not change a field it keeps. -/
theorem keeps_bind_right {α γ β : Type} {f : RS σ → β} (m : RSM σ α) {k : α → RSM σ γ}
    (hk : ∀ a, Keeps f (k a)) (s : RS σ) : f ((m >>= k) s).2 = f (m s).2 := by
  rw [rsm_bind_apply]
  rcases m s with ⟨r, s1⟩
  cases r with
  | error e => rfl
  | ok a => exact hk a s1

theorem keeps_setCullingMode {β : Type} {f : RS σ → β} (hf : OwnField f)
    (hc : ∀ s m, f { s with mCullingMode := m } = f s) (env : Env σ) (mode : CullingMode) :
    Keeps f (setCullingMode env mode) := by
  unfold setCullingMode
  refine keeps_bind (keeps_thread f env) (fun _ => ?_)
  refine keeps_bind (keeps_modifyRS f _ (fun s => hc s mode)) (fun _ => ?_)
  refine keeps_bind (keeps_getRS f) (fun s => ?_)
  refine keeps_bind (keeps_SetRenderState hf env _ _) (fun hr => ?_)
  exact keeps_ite _ (keeps_except f _) (keeps_pure f ())

theorem viewportY_int (vp : Viewport) (htop : vp.actualTop < UINT32_RANGE) :
    ((viewportY vp : Nat) : Int)
      = if vp.target.requiresTextureFlipping = true then
          ((vp.target.height : Int) - (vp.actualHeight : Int) - (vp.actualTop : Int)) % 4294967296
        else (vp.actualTop : Int) := by
  unfold viewportY
  split
  · unfold dwordSub castDWORD UINT32_RANGE
    omega
  · rw [castDWORD_of_lt _ htop]

theorem keeps_setRenderTarget {β : Type} {f : RS σ → β} (hf : OwnField f)
    (hm : ∀ s t, f { s with mActiveRenderTarget := t } = f s) (env : Env σ) (hT : env.threadOk)
    (target : RenderTarget) (hset : ∀ dv, Keeps f (env.setActiveRenderTargetDevice dv))
    (hval : ∀ t, Keeps f (env.validateDevice t)) : Keeps f (setRenderTarget env target) :=
  fun s => (setRenderTarget_records hf env hT target hset hval s).trans (hm s _)

/-- After `setViewport`, on the render thread, the recorded viewport is the given one
and the recorded render target is the viewport's target, whether the call
returned or raised. -/
theorem setViewport_records (env : Env σ) (hT : env.threadOk) (hk : env.keepsRecorded)
    (vp : Viewport) (s : RS σ) :
    (setViewport env vp s).2.mActiveViewport = some vp ∧
    (setViewport env vp s).2.mActiveRenderTarget = some vp.target := by
  have hfv : OwnField (fun s : RS σ => s.mActiveViewport) := fun _ _ _ _ => rfl
  have hft : OwnField (fun s : RS σ => s.mActiveRenderTarget) := fun _ _ _ _ => rfl
  have htail : ∀ {β : Type} (f : RS σ → β), OwnField f →
      (∀ s m, f { s with mCullingMode := m } = f s) →
      ∀ u : Unit, Keeps f ((fun _ => (getRS : RSM σ (RS σ)) >>= fun s0 =>
        setCullingMode env s0.mCullingMode >>= fun _ =>
        native env (NativeCall.SetViewport (castDWORD vp.actualLeft) (viewportY vp)
          (castDWORD vp.actualWidth) (castDWORD vp.actualHeight) FLOAT_0 FLOAT_1) >>= fun r =>
        if FAILED r.hr = true then (CM_EXCEPT Exception.RenderingAPIException : RSM σ Unit)
        else (__SetRenderState env D3DRS_SRGBWRITEENABLE
                (if vp.target.hardwareGammaEnabled = true then 1 else 0) >>= fun _ => pure ()))
        u) := by
    intro β f hf hc u
    refine keeps_bind (keeps_getRS f) (fun s0 => ?_)
    refine keeps_bind (keeps_setCullingMode hf hc env _) (fun _ => ?_)
    refine keeps_bind (keeps_native hf env _) (fun r => keeps_ite _ (keeps_except f _) ?_)
    exact keeps_bind (keeps_SetRenderState hf env _ _) (fun _ => keeps_pure f ())
  have hrun : setViewport env vp s
      = (setRenderTarget env vp.target >>= fun _ => (getRS : RSM σ (RS σ)) >>= fun s0 =>
        setCullingMode env s0.mCullingMode >>= fun _ =>
        native env (NativeCall.SetViewport (castDWORD vp.actualLeft) (viewportY vp)
          (castDWORD vp.actualWidth) (castDWORD vp.actualHeight) FLOAT_0 FLOAT_1) >>= fun r =>
        if FAILED r.hr = true then (CM_EXCEPT Exception.RenderingAPIException : RSM σ Unit)
        else (__SetRenderState env D3DRS_SRGBWRITEENABLE
                (if vp.target.hardwareGammaEnabled = true then 1 else 0) >>= fun _ => pure ()))
          { s with mActiveViewport := some vp } := by
    unfold setViewport
    rw [rsm_bind_apply, THROW_IF_NOT_RENDER_THREAD_ok env hT]
    simp only []
    rw [rsm_bind_apply, modifyRS_apply]
  rw [hrun]
  constructor
  · have h := keeps_bind
      (keeps_setRenderTarget hfv (fun _ _ => rfl) env hT vp.target
        (fun dv => keeps_fst (hk.1 dv)) (fun t => keeps_fst (hk.2 t)))
      (htail (fun s : RS σ => s.mActiveViewport) hfv (fun _ _ => rfl))
    exact h { s with mActiveViewport := some vp }
  · have h := keeps_bind_right (setRenderTarget env vp.target)
      (htail (fun s : RS σ => s.mActiveRenderTarget) hft (fun _ _ => rfl))
      { s with mActiveViewport := some vp }
    have h2 := setRenderTarget_records hft env hT vp.target
      (fun dv => keeps_snd (hk.1 dv)) (fun t => keeps_snd (hk.2 t))
      { s with mActiveViewport := some vp }
    exact h.trans h2

/-- Once the render target and the culling mode are set, `setViewport` issues
`SetViewport` next; its failure raises, and otherwise only the sRGB write state
is read and possibly written before the call returns. -/
theorem setViewport_run (env : Env σ) (hT : env.threadOk) (vp : Viewport) (s s1 s2 : RS σ) (d : σ)
    (h1 : setRenderTarget env vp.target { s with mActiveViewport := some vp }
      = (Except.ok (), s1))
    (h2 : setCullingMode env s1.mCullingMode s1 = (Except.ok (), s2))
    (hd : s2.devices s2.activeDevice = some d) :
    ∃ rest, (setViewport env vp s).2.trace
        = s2.trace ++ NativeCall.SetViewport (castDWORD vp.actualLeft) (viewportY vp)
            (castDWORD vp.actualWidth) (castDWORD vp.actualHeight) FLOAT_0 FLOAT_1 :: rest ∧
      (∀ c ∈ rest, c = NativeCall.GetRenderState D3DRS_SRGBWRITEENABLE ∨
        c = NativeCall.SetRenderState D3DRS_SRGBWRITEENABLE
              (if vp.target.hardwareGammaEnabled = true then 1 else 0)) ∧
      (FAILED (env.dev.call (NativeCall.SetViewport (castDWORD vp.actualLeft) (viewportY vp)
          (castDWORD vp.actualWidth) (castDWORD vp.actualHeight) FLOAT_0 FLOAT_1) d).1.hr = true →
        (setViewport env vp s).1 = Except.error Exception.RenderingAPIException ∧ rest = []) ∧
      (FAILED (env.dev.call (NativeCall.SetViewport (castDWORD vp.actualLeft) (viewportY vp)
          (castDWORD vp.actualWidth) (castDWORD vp.actualHeight) FLOAT_0 FLOAT_1) d).1.hr = false →
        (setViewport env vp s).1 = Except.ok ()) := by
  have hrun : setViewport env vp s
      = (native env (NativeCall.SetViewport (castDWORD vp.actualLeft) (viewportY vp)
          (castDWORD vp.actualWidth) (castDWORD vp.actualHeight) FLOAT_0 FLOAT_1) >>= fun r =>
        if FAILED r.hr = true then (CM_EXCEPT Exception.RenderingAPIException : RSM σ Unit)
        else (__SetRenderState env D3DRS_SRGBWRITEENABLE
                (if vp.target.hardwareGammaEnabled = true then 1 else 0) >>= fun _ => pure ()))
          s2 := by
    unfold setViewport
    rw [rsm_bind_apply, THROW_IF_NOT_RENDER_THREAD_ok env hT]
    simp only []
    rw [rsm_bind_apply, modifyRS_apply]
    simp only []
    rw [rsm_bind_apply, h1]
    simp only []
    rw [rsm_bind_apply, getRS_apply]
    simp only []
    rw [rsm_bind_apply, h2]
  rw [hrun]
  generalize NativeCall.SetViewport (castDWORD vp.actualLeft) (viewportY vp)
      (castDWORD vp.actualWidth) (castDWORD vp.actualHeight) FLOAT_0 FLOAT_1 = c
  generalize (if vp.target.hardwareGammaEnabled = true then 1 else 0 : Nat) = gamma
  rw [rsm_bind_apply, native_apply env hT _ s2 d hd]
  simp only []
  cases hF : FAILED (env.dev.call c d).1.hr with
  | true =>
    refine ⟨[], ?_, ?_, ?_, ?_⟩
    · simp [CM_EXCEPT_apply]
    · intro c hc; cases hc
    · intro _; simp [CM_EXCEPT_apply]
    · intro h; cases h
  | false =>
    simp only [Bool.false_eq_true, if_false]
    rw [rsm_bind_apply]
    rw [SetRenderState_apply env hT _ _ _ (env.dev.call c d).2 (by simp)]
    by_cases hg : FAILED (env.dev.call (NativeCall.GetRenderState D3DRS_SRGBWRITEENABLE)
        (env.dev.call c d).2).1.hr = true
    · rw [if_pos hg]
      refine ⟨[NativeCall.GetRenderState D3DRS_SRGBWRITEENABLE], by simp, ?_, ?_, ?_⟩
      · intro c hc; simp at hc; exact Or.inl hc
      · intro h; cases h
      · intro _; rfl
    · rw [if_neg hg]
      by_cases hv : (env.dev.call (NativeCall.GetRenderState D3DRS_SRGBWRITEENABLE)
          (env.dev.call c d).2).1.out = gamma
      · rw [if_pos hv]
        refine ⟨[NativeCall.GetRenderState D3DRS_SRGBWRITEENABLE], by simp, ?_, ?_, ?_⟩
        · intro c hc; simp at hc; exact Or.inl hc
        · intro h; cases h
        · intro _; rfl
      · rw [if_neg hv]
        refine ⟨[NativeCall.GetRenderState D3DRS_SRGBWRITEENABLE,
            NativeCall.SetRenderState D3DRS_SRGBWRITEENABLE gamma], by simp, ?_, ?_, ?_⟩
        · intro c hc; simp at hc; exact hc
        · intro h; cases h
        · intro _; rfl

/-- C12: on the render thread, with a device manager and windows that leave the
recorded viewport and target alone, and viewport values that fit in 32 bits:
after `setViewport` the recorded active viewport is the given one and the
recorded active render target is the viewport's target; and once the render
target and the culling mode are set without an exception, the next call on the
device is `SetViewport` with `X = actualLeft`, `Width = actualWidth`,
`Height = actualHeight`, `MinZ = 0.0f`, `MaxZ = 1.0f` and `Y = viewportY`, which is
`actualTop` when the target does not require texture flipping and
`targetHeight - actualHeight - actualTop` modulo `2^32` when it does.  A failure
of that call raises `RenderingAPIException`; otherwise `setViewport` returns after
reading, and possibly writing, the sRGB write state only. -/
theorem setViewport_rectangle (env : Env σ) (hT : env.threadOk) (hk : env.keepsRecorded)
    (vp : Viewport) (s : RS σ)
    (hl : vp.actualLeft < UINT32_RANGE) (ht : vp.actualTop < UINT32_RANGE)
    (hw : vp.actualWidth < UINT32_RANGE) (hh : vp.actualHeight < UINT32_RANGE) :
    (setViewport env vp s).2.mActiveViewport = some vp ∧
    (setViewport env vp s).2.mActiveRenderTarget = some vp.target ∧
    ((viewportY vp : Nat) : Int)
      = (if vp.target.requiresTextureFlipping = true then
          ((vp.target.height : Int) - (vp.actualHeight : Int) - (vp.actualTop : Int)) % 4294967296
        else (vp.actualTop : Int)) ∧
    (FLOAT_0 = 0 ∧ FLOAT_1 = 1065353216) ∧
    ∀ (s1 s2 : RS σ) (d : σ),
      setRenderTarget env vp.target { s with mActiveViewport := some vp } = (Except.ok (), s1) →
      setCullingMode env s1.mCullingMode s1 = (Except.ok (), s2) →
      s2.devices s2.activeDevice = some d →
      ∃ rest, (setViewport env vp s).2.trace
          = s2.trace ++ NativeCall.SetViewport vp.actualLeft (viewportY vp)
              vp.actualWidth vp.actualHeight FLOAT_0 FLOAT_1 :: rest ∧
        (∀ c ∈ rest, c = NativeCall.GetRenderState D3DRS_SRGBWRITEENABLE ∨
          c = NativeCall.SetRenderState D3DRS_SRGBWRITEENABLE
                (if vp.target.hardwareGammaEnabled = true then 1 else 0)) ∧
        (FAILED (env.dev.call (NativeCall.SetViewport vp.actualLeft (viewportY vp)
            vp.actualWidth vp.actualHeight FLOAT_0 FLOAT_1) d).1.hr = true →
          (setViewport env vp s).1 = Except.error Exception.RenderingAPIException ∧ rest = []) ∧
        (FAILED (env.dev.call (NativeCall.SetViewport vp.actualLeft (viewportY vp)
            vp.actualWidth vp.actualHeight FLOAT_0 FLOAT_1) d).1.hr = false →
          (setViewport env vp s).1 = Except.ok ()) := by
  refine ⟨(setViewport_records env hT hk vp s).1, (setViewport_records env hT hk vp s).2,
    viewportY_int vp ht, ⟨rfl, rfl⟩, fun s1 s2 d h1 h2 hd => ?_⟩
  have h := setViewport_run env hT vp s s1 s2 d h1 h2 hd
  rw [castDWORD_of_lt _ hl, castDWORD_of_lt _ hw, castDWORD_of_lt _ hh] at h
  exact h

theorem setViewport_rectangle_witness :
    simEnv.threadOk ∧ simEnv.keepsRecorded ∧
    (setViewport simEnv sampleViewport simInit).2.mActiveViewport = some sampleViewport ∧
    (setViewport simEnv sampleViewport simInit).2.mActiveRenderTarget = some flippedTarget ∧
    ((viewportY sampleViewport : Nat) : Int) = ((600 : Int) - 50 - 20) % 4294967296 ∧
    simViewportReady.trace
      = [NativeCall.SetRenderTarget 0 5, NativeCall.SetDepthStencilSurface 6,
         NativeCall.GetRenderState D3DRS_CULLMODE, NativeCall.SetRenderState D3DRS_CULLMODE 2] ∧
    ∃ rest, (setViewport simEnv sampleViewport simInit).2.trace
      = simViewportReady.trace
        ++ NativeCall.SetViewport 10 (viewportY sampleViewport) 100 50 FLOAT_0 FLOAT_1 :: rest :=
  have hk : simEnv.keepsRecorded := ⟨fun _ _ => rfl, fun _ _ => rfl⟩
  have h := setViewport_rectangle simEnv (by decide) hk sampleViewport simInit
    (by decide) (by decide) (by decide) (by decide)
  ⟨by decide, hk, h.1, h.2.1, h.2.2.1, rfl,
   (h.2.2.2.2
      (setRenderTarget simEnv flippedTarget
        { simInit with mActiveViewport := some sampleViewport }).2
      simViewportReady
      { renderState := Function.update (fun _ => 0) D3DRS_CULLMODE 2,
        samplerState := fun _ _ => 0, textureStageState := fun _ _ => 0 }
      rfl rfl rfl).imp (fun _ hr => hr.1)⟩

/-! ## Frames and the cleanup of inactive devices -/

theorem isCleanup_of_isDeviceCall (c : NativeCall) (h : isDeviceCall c = true) :
    isCleanup c = false := by
  cases c <;> first | rfl | cases h

/-- A native call on a `NULL` device raises and leaves the state as it was. -/
theorem native_null (env : Env σ) (hT : env.threadOk) (c : NativeCall) (s : RS σ)
    (hd : s.devices s.activeDevice = none) :
    native env c s = (Except.error Exception.InvalidParametersException, s) := by
  simp [native, getActiveD3D9Device, THROW_IF_NOT_RENDER_THREAD_ok env hT, hd, CM_EXCEPT_apply]

/-- What `endFrame` does on the render thread: nothing but raise on a `NULL` device;
raise `RenderingAPIException` after a failed `EndScene`; and after a successful
`EndScene` have the device manager destroy the inactive devices. -/
theorem endFrame_apply (env : Env σ) (hT : env.threadOk) (s : RS σ) :
    (s.devices s.activeDevice = none →
      endFrame env s = (Except.error Exception.InvalidParametersException, s)) ∧
    (∀ d, s.devices s.activeDevice = some d →
      (FAILED (env.dev.call NativeCall.EndScene d).1.hr = true →
        endFrame env s
          = (Except.error Exception.RenderingAPIException,
             { s with devices := Function.update s.devices s.activeDevice
                        (some (env.dev.call NativeCall.EndScene d).2),
                      trace := s.trace ++ [NativeCall.EndScene] })) ∧
      (FAILED (env.dev.call NativeCall.EndScene d).1.hr = false →
        endFrame env s
          = collaborate env NativeCall.destroyInactiveRenderDevices
              { s with devices := Function.update s.devices s.activeDevice
                         (some (env.dev.call NativeCall.EndScene d).2),
                       trace := s.trace ++ [NativeCall.EndScene] })) := by
  refine ⟨fun hd => ?_, fun d hd => ⟨fun h => ?_, fun h => ?_⟩⟩
  · unfold endFrame
    simp only [rsm_bind_apply, THROW_IF_NOT_RENDER_THREAD_ok env hT, native_null env hT _ s hd]
  · unfold endFrame
    simp only [rsm_bind_apply, THROW_IF_NOT_RENDER_THREAD_ok env hT,
      native_apply env hT _ s d hd, h, if_true, CM_EXCEPT_apply]
  · unfold endFrame
    simp only [rsm_bind_apply, THROW_IF_NOT_RENDER_THREAD_ok env hT,
      native_apply env hT _ s d hd, h]
    rfl

theorem cleanupFollowsEndScene_mono (calls : List NativeCall) (p : Bool)
    (h : cleanupFollowsEndScene false calls = true) : cleanupFollowsEndScene p calls = true := by
  cases calls with
  | nil => rfl
  | cons c rest =>
    simp only [cleanupFollowsEndScene, Bool.and_eq_true, Bool.or_eq_true, Bool.or_false] at h ⊢
    exact ⟨Or.inl h.1, h.2⟩

theorem cleanupFollowsEndScene_append (a b : List NativeCall) :
    ∀ p, cleanupFollowsEndScene p a = true → cleanupFollowsEndScene false b = true →
      cleanupFollowsEndScene p (a ++ b) = true := by
  induction a with
  | nil => intro p _ hb; exact cleanupFollowsEndScene_mono b p hb
  | cons c rest ih =>
    intro p ha hb
    simp only [List.cons_append, cleanupFollowsEndScene, Bool.and_eq_true] at ha ⊢
    exact ⟨ha.1, ih _ ha.2 hb⟩

theorem cleanupFollowsEndScene_of_none (calls : List NativeCall)
    (h : ∀ c ∈ calls, isCleanup c = false) : ∀ p, cleanupFollowsEndScene p calls = true := by
  induction calls with
  | nil => intro p; rfl
  | cons c rest ih =>
    intro p
    simp only [cleanupFollowsEndScene, Bool.and_eq_true, Bool.or_eq_true]
    refine ⟨Or.inl ?_, ih (fun x hx => h x (List.mem_cons_of_mem _ hx)) _⟩
    rw [h c (List.mem_cons_self _ _)]
    rfl

theorem countCalls_append (p : NativeCall → Bool) (a b : List NativeCall) :
    countCalls p (a ++ b) = countCalls p a + countCalls p b := by
  simp [countCalls]

theorem simEnv_quiet (P : NativeCall → Prop) : simEnv.quiet P :=
  ⟨fun _ => emits_pure P (), fun _ => emits_modifyRS P _ (fun _ => rfl),
   fun _ => emits_pure P (), fun _ => emits_modifyRS P _ (fun _ => rfl), emits_pure P ()⟩

/-! ## Operations that return whatever the device answers -/

theorem returns_pure {α : Type} (a : α) : Returns (pure a : RSM σ α) :=
  fun s hL => ⟨a, s, rfl, hL⟩

theorem returns_getRS : Returns (getRS : RSM σ (RS σ)) :=
  fun s hL => ⟨s, s, rfl, hL⟩

theorem returns_bind {α β : Type} {m : RSM σ α} {k : α → RSM σ β}
    (hm : Returns m) (hk : ∀ a, Returns (k a)) : Returns (m >>= k) := by
  intro s hL
  obtain ⟨a, s1, h1, hL1⟩ := hm s hL
  obtain ⟨b, s2, h2, hL2⟩ := hk a s1 hL1
  exact ⟨b, s2, by rw [rsm_bind_apply, h1]; exact h2, hL2⟩

theorem returns_ite {α : Type} (b : Prop) [Decidable b] {m1 m2 : RSM σ α}
    (h1 : Returns m1) (h2 : Returns m2) : Returns (if b then m1 else m2) := by
  split
  · exact h1
  · exact h2

theorem returns_thread (env : Env σ) (hT : env.threadOk) :
    Returns (THROW_IF_NOT_RENDER_THREAD env) :=
  fun s hL => ⟨(), s, THROW_IF_NOT_RENDER_THREAD_ok env hT s, hL⟩

theorem returns_native (env : Env σ) (hT : env.threadOk) (c : NativeCall) :
    Returns (native env c) := by
  intro s hL
  obtain ⟨r, s1, h, -, hL1, -, -⟩ := native_run env hT c s hL
  exact ⟨r, s1, h, hL1⟩

theorem returns_SetRenderState (env : Env σ) (hT : env.threadOk) (state value : Nat) :
    Returns (__SetRenderState env state value) := by
  unfold __SetRenderState
  refine returns_bind (returns_native env hT _) (fun r => ?_)
  refine returns_ite _ (returns_pure _) (returns_ite _ (returns_pure _) ?_)
  exact returns_bind (returns_native env hT _) (fun _ => returns_pure _)

theorem returns_SetSamplerState (env : Env σ) (hT : env.threadOk) (sampler type value : Nat) :
    Returns (__SetSamplerState env sampler type value) := by
  unfold __SetSamplerState
  refine returns_bind (returns_native env hT _) (fun r => ?_)
  refine returns_ite _ (returns_pure _) (returns_ite _ (returns_pure _) ?_)
  exact returns_bind (returns_native env hT _) (fun _ => returns_pure _)

/-- C15, what the code does: on the render thread with a live active device,
`setClipPlane`, `enableClipPlane` and `setTextureAnisotropy` return without raising
whatever the device answers to the native calls they issue, so also when every
one of those calls reports a failure: the results of `SetClipPlane`,
`GetRenderState`, `GetSamplerState`, `__SetRenderState` and `__SetSamplerState` are
dropped there. -/
theorem native_failure_not_raised (env : Env σ) (hT : env.threadOk) :
    (∀ index A B C D, Returns (setClipPlane env index A B C D)) ∧
    (∀ index enable, Returns (enableClipPlane env index enable)) ∧
    (∀ unit maxAnisotropy, Returns (setTextureAnisotropy env unit maxAnisotropy)) := by
  refine ⟨fun index A B C D => ?_, fun index enable => ?_, fun unit maxAnisotropy => ?_⟩
  · unfold setClipPlane
    exact returns_bind (returns_native env hT _) (fun _ => returns_pure ())
  · unfold enableClipPlane
    refine returns_bind (returns_native env hT _) (fun r => ?_)
    exact returns_bind (returns_SetRenderState env hT _ _) (fun _ => returns_pure ())
  · unfold setTextureAnisotropy _getCurrentAnisotropy
    refine returns_bind (returns_thread env hT) (fun _ => ?_)
    refine returns_bind returns_getRS (fun s => ?_)
    refine returns_bind (returns_bind (returns_native env hT _) (fun _ => returns_pure _))
      (fun current => ?_)
    refine returns_ite _ ?_ (returns_pure ())
    exact returns_bind (returns_SetSamplerState env hT _ _ _) (fun _ => returns_pure ())

theorem native_failure_not_raised_witness :
    (failingEnv allCalls).threadOk ∧
    (∀ c st, FAILED (((failingEnv allCalls).dev.call c st).1.hr) = true) ∧
    Returns (setClipPlane (failingEnv allCalls) 0 1 2 3 4) ∧
    (setClipPlane (failingEnv allCalls) 0 1 2 3 4 simInit).1 = Except.ok () ∧
    (setClipPlane (failingEnv allCalls) 0 1 2 3 4 simInit).2.trace
      = [NativeCall.SetClipPlane 0 1 2 3 4] ∧
    (enableClipPlane (failingEnv allCalls) 3 true simInit).1 = Except.ok () ∧
    (enableClipPlane (failingEnv allCalls) 3 true simInit).2.trace
      = [NativeCall.GetRenderState D3DRS_CLIPPLANEENABLE,
         NativeCall.GetRenderState D3DRS_CLIPPLANEENABLE] ∧
    (setTextureAnisotropy (failingEnv allCalls) 0 4 simInit).1 = Except.ok () ∧
    (setTextureAnisotropy (failingEnv allCalls) 0 4 simInit).2.trace
      = [NativeCall.GetSamplerState 0 D3DSAMP_MAXANISOTROPY,
         NativeCall.GetSamplerState 0 D3DSAMP_MAXANISOTROPY] ∧
    (setViewport (failingEnv isSRGBWriteCall) gammaViewport simInit).1 = Except.ok () ∧
    (setViewport (failingEnv isSRGBWriteCall) gammaViewport simInit).2.trace.getLast?
      = some (NativeCall.GetRenderState D3DRS_SRGBWRITEENABLE) :=
  ⟨by decide, fun _ _ => rfl,
   (native_failure_not_raised (failingEnv allCalls) (by decide)).1 0 1 2 3 4,
   rfl, rfl, rfl, rfl, rfl, rfl, rfl, rfl⟩

/-! ## Registration of render windows -/

theorem emits_nativeOn {P : NativeCall → Prop} (env : Env σ) (device : Nat) (c : NativeCall)
    (hc : P c) : Emits P (nativeOn env device c) := by
  intro s
  unfold nativeOn
  cases s.devices device with
  | none => exact ⟨[], by simp, by simp⟩
  | some d =>
    refine ⟨[c], rfl, ?_⟩
    intro x hx
    rw [List.mem_singleton] at hx
    rw [hx]; exact hc

theorem emits_probeDevice {P : NativeCall → Prop} (hP : ∀ c, isDeviceCall c = true → P c)
    (env : Env σ) (i : Nat) (rsc : RenderSystemCapabilities) :
    Emits P (probeDevice env i rsc) := by
  unfold probeDevice
  refine emits_bind (emits_nativeOn env _ _ (hP _ rfl)) (fun r => ?_)
  refine emits_bind ?_ (fun rsc1 => ?_)
  · refine emits_ite _ ?_ (emits_pure P _)
    exact emits_bind (emits_nativeOn env _ _ (hP _ rfl)) (fun _ => emits_pure P _)
  · exact emits_bind (emits_nativeOn env _ _ (hP _ rfl)) (fun _ => emits_pure P _)

theorem emits_probeDevices {P : NativeCall → Prop} (hP : ∀ c, isDeviceCall c = true → P c)
    (env : Env σ) (count : Nat) :
    ∀ (i : Nat) (rsc : RenderSystemCapabilities), Emits P (probeDevices env i count rsc) := by
  induction count with
  | zero => intro i rsc; exact emits_pure P rsc
  | succ n ih =>
    intro i rsc
    unfold probeDevices
    exact emits_bind (emits_probeDevice hP env i rsc) (fun rsc1 => ih (i + 1) rsc1)

theorem emits_convertVertexShaderCaps {P : NativeCall → Prop}
    (hP : ∀ c, isDeviceCall c = true → P c) (env : Env σ) (rsc : RenderSystemCapabilities) :
    Emits P (convertVertexShaderCaps env rsc) := by
  unfold convertVertexShaderCaps
  refine emits_bind (emits_getRS P) (fun s => emits_ite _ ?_ (emits_pure P _))
  exact emits_bind (emits_native env _ (hP _ rfl)) (fun _ => emits_pure P _)

theorem emits_initialiseFromRenderSystemCapabilities (P : NativeCall → Prop)
    (caps : RenderSystemCapabilities) :
    Emits P (initialiseFromRenderSystemCapabilities caps : RSM σ Unit) := by
  unfold initialiseFromRenderSystemCapabilities
  exact emits_ite _ (emits_except P _) (emits_pure P ())

theorem emits_updateRenderSystemCapabilities {P : NativeCall → Prop}
    (hP : ∀ c, isDeviceCall c = true → P c) (env : Env σ) (renderWindow : RenderTarget) :
    Emits P (updateRenderSystemCapabilities env renderWindow) := by
  unfold updateRenderSystemCapabilities
  refine emits_bind (emits_getRS P) (fun s => ?_)
  refine emits_bind (emits_probeDevices hP env _ _ _) (fun rsc => ?_)
  refine emits_bind ?_ (fun _ => ?_)
  · exact emits_ite _ (emits_pure P _) (emits_modifyRS P _ (fun _ => rfl))
  refine emits_bind (emits_convertVertexShaderCaps hP env _) (fun rsc1 => ?_)
  refine emits_ite _ ?_ ?_
  · refine emits_bind (emits_modifyRS P _ (fun _ => rfl)) (fun _ => ?_)
    exact emits_bind (emits_initialiseFromRenderSystemCapabilities P _)
      (fun _ => emits_pure P _)
  · exact emits_bind (emits_modifyRS P _ (fun _ => rfl)) (fun _ => emits_pure P _)

theorem collaborate_apply (env : Env σ) (c : NativeCall) (s : RS σ) (r : Except Exception Unit)
    (h : (env.collab c s).1 = r) :
    collaborate env c s
      = (r, { s with devices := (env.collab c s).2.1, activeDevice := (env.collab c s).2.2,
                     trace := s.trace ++ [c] }) := by
  unfold collaborate
  rw [h]

/-- The run of `registerRenderWindow` when linking the window raises
`RenderingAPIException`: the exception is raised again after device access is
unlocked and the window destroyed, and only the devices and the trace differ
from the state before. -/
theorem registerRenderWindow_link_fails (env : Env σ) (hT : env.threadOk)
    (renderWindow : RenderTarget) (s : RS σ)
    (hlock : ∀ st, (env.collab NativeCall.lockDeviceAccess st).1 = Except.ok ())
    (hunlock : ∀ st, (env.collab NativeCall.unlockDeviceAccess st).1 = Except.ok ())
    (hdestroy : ∀ st, (env.collab (NativeCall.destroyWindow renderWindow.id) st).1 = Except.ok ())
    (hlink : (env.collab (NativeCall.linkRenderWindow renderWindow.id)
        (collaborate env NativeCall.lockDeviceAccess s).2).1
      = Except.error Exception.RenderingAPIException) :
    (registerRenderWindow env renderWindow s).1
      = Except.error Exception.RenderingAPIException ∧
    (registerRenderWindow env renderWindow s).2.trace
      = s.trace ++ [NativeCall.lockDeviceAccess, NativeCall.linkRenderWindow renderWindow.id,
          NativeCall.unlockDeviceAccess, NativeCall.destroyWindow renderWindow.id] ∧
    (registerRenderWindow env renderWindow s).2.mRenderWindows = s.mRenderWindows ∧
    (registerRenderWindow env renderWindow s).2.mCurrentCapabilities = s.mCurrentCapabilities ∧
    (registerRenderWindow env renderWindow s).2.mRenderTargets = s.mRenderTargets := by
  unfold registerRenderWindow
  rw [rsm_bind_apply, THROW_IF_NOT_RENDER_THREAD_ok env hT]
  simp only []
  rw [rsm_bind_apply, collaborate_apply env _ s _ (hlock s)]
  simp only []
  rw [collaborate_apply env _ s _ (hlock s)] at hlink
  rw [rsm_bind_apply]
  unfold tryCatch
  simp only []
  rw [collaborate_apply env _ _ _ hlink]
  simp only []
  rw [rsm_bind_apply, collaborate_apply env _ _ _ (hunlock _)]
  simp only []
  rw [rsm_bind_apply, collaborate_apply env _ _ _ (hdestroy _)]
  simp [CM_EXCEPT_apply]

theorem not_lock_of_isDeviceCall (c : NativeCall) (h : isDeviceCall c = true) :
    isLock c = false ∧ isUnlock c = false := by
  cases c <;> first | exact ⟨rfl, rfl⟩ | cases h

/-- The run of `registerRenderWindow` when linking the window returns: device access is
locked, the window linked, device access unlocked, and nothing after that locks
or unlocks. -/
theorem registerRenderWindow_link_returns (env : Env σ) (hT : env.threadOk)
    (renderWindow : RenderTarget) (s : RS σ)
    (hq : Emits (fun c => isLock c = false ∧ isUnlock c = false)
      (env.attachRenderTarget renderWindow))
    (hlock : ∀ st, (env.collab NativeCall.lockDeviceAccess st).1 = Except.ok ())
    (hunlock : ∀ st, (env.collab NativeCall.unlockDeviceAccess st).1 = Except.ok ())
    (hlink : (env.collab (NativeCall.linkRenderWindow renderWindow.id)
        (collaborate env NativeCall.lockDeviceAccess s).2).1 = Except.ok ()) :
    ∃ rest, (registerRenderWindow env renderWindow s).2.trace
        = s.trace ++ [NativeCall.lockDeviceAccess, NativeCall.linkRenderWindow renderWindow.id,
            NativeCall.unlockDeviceAccess] ++ rest ∧
      ∀ c ∈ rest, isLock c = false ∧ isUnlock c = false := by
  have hE := emits_bind
    (emits_modifyRS (fun c => isLock c = false ∧ isUnlock c = false)
      (fun s : RS σ => { s with mRenderWindows := s.mRenderWindows ++ [renderWindow.id] })
      (fun _ => rfl))
    (fun _ => emits_bind
      (emits_updateRenderSystemCapabilities not_lock_of_isDeviceCall env renderWindow)
      (fun _ => hq))
  unfold registerRenderWindow
  rw [rsm_bind_apply, THROW_IF_NOT_RENDER_THREAD_ok env hT]
  simp only []
  rw [rsm_bind_apply, collaborate_apply env _ s _ (hlock s)]
  simp only []
  rw [collaborate_apply env _ s _ (hlock s)] at hlink
  rw [rsm_bind_apply]
  unfold tryCatch
  simp only []
  rw [collaborate_apply env _ _ _ hlink]
  simp only []
  rw [rsm_bind_apply, collaborate_apply env _ _ _ (hunlock _)]
  simp only []
  refine (hE _).imp (fun rest h => ⟨h.1.trans ?_, h.2⟩)
  simp

/-- C16: on the render thread, with a resource manager whose lock and unlock return
and a window whose `destroy` returns: if `linkRenderWindow` raises
`RenderingAPIException`, then `registerRenderWindow` raises `RenderingAPIException`, the calls
it made are `lockDeviceAccess`, `linkRenderWindow`, `unlockDeviceAccess` and the window's
`destroy`, in this order, and the list of render windows, the current
capabilities and the attached render targets are as before; and if
`linkRenderWindow` returns, the calls start with `lockDeviceAccess`, `linkRenderWindow`,
`unlockDeviceAccess` and no further lock or unlock follows, so in both runs there
is exactly one lock and one unlock. -/
theorem registerRenderWindow_atomic (env : Env σ) (hT : env.threadOk)
    (renderWindow : RenderTarget) (s : RS σ)
    (hq : Emits (fun c => isLock c = false ∧ isUnlock c = false)
      (env.attachRenderTarget renderWindow))
    (hlock : ∀ st, (env.collab NativeCall.lockDeviceAccess st).1 = Except.ok ())
    (hunlock : ∀ st, (env.collab NativeCall.unlockDeviceAccess st).1 = Except.ok ())
    (hdestroy : ∀ st, (env.collab (NativeCall.destroyWindow renderWindow.id) st).1
      = Except.ok ()) :
    ((env.collab (NativeCall.linkRenderWindow renderWindow.id)
        (collaborate env NativeCall.lockDeviceAccess s).2).1
        = Except.error Exception.RenderingAPIException →
      (registerRenderWindow env renderWindow s).1
        = Except.error Exception.RenderingAPIException ∧
      (registerRenderWindow env renderWindow s).2.trace
        = s.trace ++ [NativeCall.lockDeviceAccess, NativeCall.linkRenderWindow renderWindow.id,
            NativeCall.unlockDeviceAccess, NativeCall.destroyWindow renderWindow.id] ∧
      (registerRenderWindow env renderWindow s).2.mRenderWindows = s.mRenderWindows ∧
      (registerRenderWindow env renderWindow s).2.mCurrentCapabilities
        = s.mCurrentCapabilities ∧
      (registerRenderWindow env renderWindow s).2.mRenderTargets = s.mRenderTargets) ∧
    ((env.collab (NativeCall.linkRenderWindow renderWindow.id)
        (collaborate env NativeCall.lockDeviceAccess s).2).1 = Except.ok () →
      ∃ rest, (registerRenderWindow env renderWindow s).2.trace
          = s.trace ++ [NativeCall.lockDeviceAccess,
              NativeCall.linkRenderWindow renderWindow.id,
              NativeCall.unlockDeviceAccess] ++ rest ∧
        countCalls isLock ([NativeCall.lockDeviceAccess,
              NativeCall.linkRenderWindow renderWindow.id,
              NativeCall.unlockDeviceAccess] ++ rest) = 1 ∧
        countCalls isUnlock ([NativeCall.lockDeviceAccess,
              NativeCall.linkRenderWindow renderWindow.id,
              NativeCall.unlockDeviceAccess] ++ rest) = 1) := by
  refine ⟨fun hlink => registerRenderWindow_link_fails env hT renderWindow s hlock hunlock
    hdestroy hlink, fun hlink => ?_⟩
  obtain ⟨rest, h1, h2⟩ :=
    registerRenderWindow_link_returns env hT renderWindow s hq hlock hunlock hlink
  refine ⟨rest, h1, ?_, ?_⟩
  · rw [countCalls_append, countCalls_eq_zero isLock rest (fun c hc => (h2 c hc).1)]
    rfl
  · rw [countCalls_append, countCalls_eq_zero isUnlock rest (fun c hc => (h2 c hc).2)]
    rfl

theorem registerRenderWindow_atomic_witness :
    linkFailingEnv.threadOk ∧
    (registerRenderWindow linkFailingEnv sampleTarget simInit).1
      = Except.error Exception.RenderingAPIException ∧
    (registerRenderWindow linkFailingEnv sampleTarget simInit).2.trace
      = simInit.trace ++ [NativeCall.lockDeviceAccess, NativeCall.linkRenderWindow 3,
          NativeCall.unlockDeviceAccess, NativeCall.destroyWindow 3] ∧
    (registerRenderWindow linkFailingEnv sampleTarget simInit).2.mRenderWindows
      = simInit.mRenderWindows ∧
    (registerRenderWindow linkFailingEnv sampleTarget simInit).2.mCurrentCapabilities
      = simInit.mCurrentCapabilities ∧
    (registerRenderWindow linkFailingEnv sampleTarget simInit).2.mRenderTargets
      = simInit.mRenderTargets ∧
    (registerRenderWindow simEnv sampleTarget simInit).1 = Except.ok () ∧
    (registerRenderWindow simEnv sampleTarget simInit).2.mRenderWindows = [3] ∧
    ∃ rest, (registerRenderWindow simEnv sampleTarget simInit).2.trace
        = simInit.trace ++ [NativeCall.lockDeviceAccess, NativeCall.linkRenderWindow 3,
            NativeCall.unlockDeviceAccess] ++ rest ∧
      countCalls isLock ([NativeCall.lockDeviceAccess, NativeCall.linkRenderWindow 3,
            NativeCall.unlockDeviceAccess] ++ rest) = 1 ∧
      countCalls isUnlock ([NativeCall.lockDeviceAccess, NativeCall.linkRenderWindow 3,
            NativeCall.unlockDeviceAccess] ++ rest) = 1 :=
  have hf := (registerRenderWindow_atomic linkFailingEnv (by decide) sampleTarget simInit
    (emits_modifyRS _ _ (fun _ => rfl)) (fun _ => rfl) (fun _ => rfl) (fun _ => rfl)).1 rfl
  ⟨by decide, hf.1, hf.2.1, hf.2.2.1, hf.2.2.2.1, hf.2.2.2.2, rfl, rfl,
   (registerRenderWindow_atomic simEnv (by decide) sampleTarget simInit
    (emits_modifyRS _ _ (fun _ => rfl)) (fun _ => rfl) (fun _ => rfl) (fun _ => rfl)).2 rfl⟩

/-! ## Capabilities: what each statement of the adapter loop does -/

theorem hasCapability_setCapability (rsc : RenderSystemCapabilities) (c f : Capabilities) :
    (rsc.setCapability c).hasCapability f = (decide (f = c) || rsc.hasCapability f) := by
  unfold RenderSystemCapabilities.setCapability RenderSystemCapabilities.hasCapability
  by_cases hc : c ∈ rsc.capabilities
  · by_cases hf : f = c
    · simp [hc, hf]
    · simp [hc, hf]
  · by_cases hf : f = c
    · simp [hc, hf]
    · simp [hc, hf]

theorem hasCapability_unsetCapability (rsc : RenderSystemCapabilities) (c f : Capabilities) :
    (rsc.unsetCapability c).hasCapability f = (rsc.hasCapability f && !decide (f = c)) := by
  unfold RenderSystemCapabilities.unsetCapability RenderSystemCapabilities.hasCapability
  by_cases hf : f = c
  · simp [hf]
  · simp [hf, List.mem_filter]

theorem hasCapability_unsetCapabilityWhen (rsc : RenderSystemCapabilities) (b : Bool)
    (c f : Capabilities) :
    (rsc.unsetCapabilityWhen b c).hasCapability f
      = (rsc.hasCapability f && !(b && decide (f = c))) := by
  unfold RenderSystemCapabilities.unsetCapabilityWhen
  cases b
  · simp
  · simp [hasCapability_unsetCapability]

theorem hasCapability_setCapabilityWhen (rsc : RenderSystemCapabilities) (b : Bool)
    (c f : Capabilities) :
    (rsc.setCapabilityWhen b c).hasCapability f
      = ((b && decide (f = c)) || rsc.hasCapability f) := by
  unfold RenderSystemCapabilities.setCapabilityWhen
  cases b
  · simp
  · simp [hasCapability_setCapability]

theorem hasCapability_limitNumTextureUnits (rsc : RenderSystemCapabilities) (caps : D3DCAPS9)
    (f : Capabilities) :
    (limitNumTextureUnits rsc caps).hasCapability f = rsc.hasCapability f := by
  unfold limitNumTextureUnits
  split <;> rfl

theorem hasCapability_limitNumMultiRenderTargets (maxRT : Nat) (rsc : RenderSystemCapabilities)
    (caps : D3DCAPS9) (f : Capabilities) :
    (limitNumMultiRenderTargets maxRT rsc caps).hasCapability f = rsc.hasCapability f := by
  unfold limitNumMultiRenderTargets
  split <;> rfl

theorem hasCapability_limitMaxPointSize (rsc : RenderSystemCapabilities) (caps : D3DCAPS9)
    (f : Capabilities) :
    (limitMaxPointSize rsc caps).hasCapability f = rsc.hasCapability f := by
  unfold limitMaxPointSize
  split <;> rfl

theorem hasCapability_limitNonPOW2 (rsc : RenderSystemCapabilities) (caps : D3DCAPS9)
    (f : Capabilities) (hf : f ≠ Capabilities.RSC_NON_POWER_OF_2_TEXTURES) :
    (limitNonPOW2 rsc caps).hasCapability f = rsc.hasCapability f := by
  unfold limitNonPOW2
  split
  · split
    · rfl
    · rw [hasCapability_unsetCapability]
      simp [hf]
  · rfl

/-- The statements of the adapter loop other than the two limits leave the limits
and the name alone. -/
theorem limits_unsetCapabilityWhen (rsc : RenderSystemCapabilities) (b : Bool)
    (c : Capabilities) :
    (rsc.unsetCapabilityWhen b c).numTextureUnits = rsc.numTextureUnits ∧
    (rsc.unsetCapabilityWhen b c).numMultiRenderTargets = rsc.numMultiRenderTargets ∧
    (rsc.unsetCapabilityWhen b c).renderSystemName = rsc.renderSystemName := by
  unfold RenderSystemCapabilities.unsetCapabilityWhen
  cases b <;> exact ⟨rfl, rfl, rfl⟩

theorem limits_setCapabilityWhen (rsc : RenderSystemCapabilities) (b : Bool)
    (c : Capabilities) :
    (rsc.setCapabilityWhen b c).numTextureUnits = rsc.numTextureUnits ∧
    (rsc.setCapabilityWhen b c).numMultiRenderTargets = rsc.numMultiRenderTargets ∧
    (rsc.setCapabilityWhen b c).renderSystemName = rsc.renderSystemName := by
  unfold RenderSystemCapabilities.setCapabilityWhen
  cases b <;> exact ⟨rfl, rfl, rfl⟩

theorem limits_limitNonPOW2 (rsc : RenderSystemCapabilities) (caps : D3DCAPS9) :
    (limitNonPOW2 rsc caps).numTextureUnits = rsc.numTextureUnits ∧
    (limitNonPOW2 rsc caps).numMultiRenderTargets = rsc.numMultiRenderTargets ∧
    (limitNonPOW2 rsc caps).renderSystemName = rsc.renderSystemName := by
  unfold limitNonPOW2
  split
  · split <;> exact ⟨rfl, rfl, rfl⟩
  · exact ⟨rfl, rfl, rfl⟩

theorem limits_limitMaxPointSize (rsc : RenderSystemCapabilities) (caps : D3DCAPS9) :
    (limitMaxPointSize rsc caps).numTextureUnits = rsc.numTextureUnits ∧
    (limitMaxPointSize rsc caps).numMultiRenderTargets = rsc.numMultiRenderTargets ∧
    (limitMaxPointSize rsc caps).renderSystemName = rsc.renderSystemName := by
  unfold limitMaxPointSize
  split <;> exact ⟨rfl, rfl, rfl⟩

theorem limits_limitNumTextureUnits (rsc : RenderSystemCapabilities) (caps : D3DCAPS9)
    (h : rsc.numTextureUnits ≤ 65536) :
    (limitNumTextureUnits rsc caps).numTextureUnits
      = min caps.MaxSimultaneousTextures rsc.numTextureUnits ∧
    (limitNumTextureUnits rsc caps).numMultiRenderTargets = rsc.numMultiRenderTargets ∧
    (limitNumTextureUnits rsc caps).renderSystemName = rsc.renderSystemName := by
  unfold limitNumTextureUnits
  split
  · refine ⟨?_, rfl, rfl⟩
    show castUINT16 caps.MaxSimultaneousTextures = _
    unfold castUINT16
    omega
  · refine ⟨?_, rfl, rfl⟩
    omega

theorem limits_limitNumMultiRenderTargets (maxRT : Nat) (rsc : RenderSystemCapabilities)
    (caps : D3DCAPS9) (hmax : maxRT < 65536) (h : rsc.numMultiRenderTargets ≤ maxRT) :
    (limitNumMultiRenderTargets maxRT rsc caps).numTextureUnits = rsc.numTextureUnits ∧
    (limitNumMultiRenderTargets maxRT rsc caps).numMultiRenderTargets
      = min caps.NumSimultaneousRTs rsc.numMultiRenderTargets ∧
    (limitNumMultiRenderTargets maxRT rsc caps).renderSystemName = rsc.renderSystemName := by
  unfold limitNumMultiRenderTargets
  split
  · refine ⟨rfl, ?_, rfl⟩
    show min (castUINT16 caps.NumSimultaneousRTs) (castUINT16 maxRT) = _
    unfold castUINT16
    omega
  · refine ⟨rfl, ?_, rfl⟩
    omega

/-- One round of the adapter loop takes the minimum for the two limits and keeps
the name. -/
theorem capsFromDriver_limits (maxRT : Nat) (rsc : RenderSystemCapabilities) (caps : D3DCAPS9)
    (hmax : maxRT < 65536) (h1 : rsc.numTextureUnits ≤ 65536)
    (h2 : rsc.numMultiRenderTargets ≤ maxRT) :
    (capsFromDriver maxRT rsc caps).numTextureUnits
      = min caps.MaxSimultaneousTextures rsc.numTextureUnits ∧
    (capsFromDriver maxRT rsc caps).numMultiRenderTargets
      = min caps.NumSimultaneousRTs rsc.numMultiRenderTargets ∧
    (capsFromDriver maxRT rsc caps).renderSystemName = rsc.renderSystemName := by
  have u1 := fun r b c => (limits_unsetCapabilityWhen r b c).1
  have u2 := fun r b c => (limits_unsetCapabilityWhen r b c).2.1
  have u3 := fun r b c => (limits_unsetCapabilityWhen r b c).2.2
  have p1 := fun r c => (limits_limitNonPOW2 r c).1
  have p2 := fun r c => (limits_limitNonPOW2 r c).2.1
  have p3 := fun r c => (limits_limitNonPOW2 r c).2.2
  have s1 := fun r c => (limits_limitMaxPointSize r c).1
  have s2 := fun r c => (limits_limitMaxPointSize r c).2.1
  have s3 := fun r c => (limits_limitMaxPointSize r c).2.2
  have t := limits_limitNumTextureUnits rsc caps h1
  have m1 := fun r c h => (limits_limitNumMultiRenderTargets maxRT r c hmax h).1
  have m3 := fun r c h => (limits_limitNumMultiRenderTargets maxRT r c hmax h).2.2
  have m2 := fun r c h => (limits_limitNumMultiRenderTargets maxRT r c hmax h).2.1
  unfold capsFromDriver
  simp only [u1, u2, u3, s1, s2, s3]
  refine ⟨?_, ?_, ?_⟩
  · rw [m1 _ _ (by simp only [p2, u2, t.2.1]; exact h2)]
    simp only [p1, u1, t.1]
  · rw [m2 _ _ (by simp only [p2, u2, t.2.1]; exact h2)]
    simp only [p2, u2, t.2.1]
  · rw [m3 _ _ (by simp only [p2, u2, t.2.1]; exact h2)]
    simp only [p3, u3, t.2.2]

theorem not_decide_le_one {α : Type} [LinearOrder α] [One α] (a : α) :
    (!decide (a ≤ 1)) = decide (1 < a) := by
  by_cases h : a ≤ 1
  · simp [h]
  · simp [h, not_le.mp h]

/-- One round of the adapter loop keeps an adapter-derived flag exactly when the
adapter supports the feature. -/
theorem capsFromDriver_flags (maxRT : Nat) (rsc : RenderSystemCapabilities) (caps : D3DCAPS9)
    (f : Capabilities) (hf : f ∈ adapterFlags) :
    (capsFromDriver maxRT rsc caps).hasCapability f
      = (rsc.hasCapability f && adapterSupports f caps) := by
  simp only [adapterFlags, List.mem_cons, List.mem_singleton, List.not_mem_nil, or_false] at hf
  rcases hf with rfl | rfl | rfl | rfl | rfl | rfl | rfl | rfl | rfl | rfl | rfl | rfl | rfl |
    rfl | rfl <;>
  · unfold capsFromDriver
    simp [hasCapability_unsetCapabilityWhen, hasCapability_limitNumTextureUnits,
      hasCapability_limitNumMultiRenderTargets, hasCapability_limitMaxPointSize,
      hasCapability_limitNonPOW2, adapterSupports, not_decide_le_one]

theorem minOver_min (v start : Nat) (values : List Nat) :
    minOver (min v start) values = min v (minOver start values) := by
  induction values with
  | nil => rfl
  | cons x rest ih =>
    show min x (minOver (min v start) rest) = min v (min x (minOver start rest))
    rw [ih, min_left_comm]

theorem minOver_le (start : Nat) (values : List Nat) : minOver start values ≤ start := by
  induction values with
  | nil => exact le_refl _
  | cons x rest ih => exact le_trans (min_le_right _ _) ih

theorem minOver_perm (start : Nat) (l1 l2 : List Nat) (h : l1.Perm l2) :
    minOver start l1 = minOver start l2 := by
  induction h with
  | nil => rfl
  | cons x _ ih => exact congrArg (min x) ih
  | swap x y l => exact min_left_comm _ _ _
  | trans _ _ ih1 ih2 => rw [ih1, ih2]

/-- The adapter loop: each limit becomes the minimum of its value before the loop
and the values of the adapters, the name is kept, and an adapter-derived flag
stays set exactly when it was set and every adapter supports the feature. -/
theorem capsFromDrivers_view (maxRT : Nat) (hmax : maxRT < 65536) (drivers : List D3D9Driver) :
    ∀ rsc : RenderSystemCapabilities, rsc.numTextureUnits ≤ 65536 →
      rsc.numMultiRenderTargets ≤ maxRT →
      (capsFromDrivers maxRT rsc drivers).numTextureUnits
        = minOver rsc.numTextureUnits
            (drivers.map (fun d => d.d3d9DeviceCaps.MaxSimultaneousTextures)) ∧
      (capsFromDrivers maxRT rsc drivers).numMultiRenderTargets
        = minOver rsc.numMultiRenderTargets
            (drivers.map (fun d => d.d3d9DeviceCaps.NumSimultaneousRTs)) ∧
      (capsFromDrivers maxRT rsc drivers).renderSystemName = rsc.renderSystemName ∧
      ∀ f ∈ adapterFlags, (capsFromDrivers maxRT rsc drivers).hasCapability f
        = (rsc.hasCapability f &&
            drivers.all (fun d => adapterSupports f d.d3d9DeviceCaps)) := by
  induction drivers with
  | nil => intro rsc _ _; exact ⟨rfl, rfl, rfl, fun f _ => by simp [capsFromDrivers]⟩
  | cons d rest ih =>
    intro rsc h1 h2
    obtain ⟨a1, a2, a3⟩ := capsFromDriver_limits maxRT rsc d.d3d9DeviceCaps hmax h1 h2
    have b := ih (capsFromDriver maxRT rsc d.d3d9DeviceCaps)
      (by rw [a1]; exact le_trans (min_le_right _ _) h1)
      (by rw [a2]; exact le_trans (min_le_right _ _) h2)
    have hstep : capsFromDrivers maxRT rsc (d :: rest)
        = capsFromDrivers maxRT (capsFromDriver maxRT rsc d.d3d9DeviceCaps) rest := rfl
    rw [hstep]
    refine ⟨?_, ?_, ?_, fun f hf => ?_⟩
    · rw [b.1, a1, minOver_min]; rfl
    · rw [b.2.1, a2, minOver_min]; rfl
    · rw [b.2.2.1, a3]
    · rw [b.2.2.2 f hf, capsFromDriver_flags maxRT rsc _ f hf, List.all_cons, Bool.and_assoc]

/-! ## Capabilities: the statements outside the adapter loop keep the adapter view -/

theorem adapterView_eq (a b : RenderSystemCapabilities)
    (h1 : a.numTextureUnits = b.numTextureUnits)
    (h2 : a.numMultiRenderTargets = b.numMultiRenderTargets)
    (h3 : a.renderSystemName = b.renderSystemName)
    (h4 : ∀ f ∈ adapterFlags, a.hasCapability f = b.hasCapability f) :
    a.adapterView = b.adapterView := by
  unfold RenderSystemCapabilities.adapterView
  rw [h1, h2, h3, List.map_congr_left h4]

theorem adapterView_setCapability (rsc : RenderSystemCapabilities) (c : Capabilities)
    (hc : c ∉ adapterFlags) : (rsc.setCapability c).adapterView = rsc.adapterView := by
  refine adapterView_eq _ _ rfl rfl rfl (fun f hf => ?_)
  rw [hasCapability_setCapability]
  have hne : f ≠ c := fun h => hc (h ▸ hf)
  simp [hne]

theorem adapterView_unsetCapability (rsc : RenderSystemCapabilities) (c : Capabilities)
    (hc : c ∉ adapterFlags) : (rsc.unsetCapability c).adapterView = rsc.adapterView := by
  refine adapterView_eq _ _ rfl rfl rfl (fun f hf => ?_)
  rw [hasCapability_unsetCapability]
  have hne : f ≠ c := fun h => hc (h ▸ hf)
  simp [hne]

theorem adapterView_setCapabilityWhen (rsc : RenderSystemCapabilities) (b : Bool)
    (c : Capabilities) (hc : c ∉ adapterFlags) :
    (rsc.setCapabilityWhen b c).adapterView = rsc.adapterView := by
  unfold RenderSystemCapabilities.setCapabilityWhen
  cases b
  · rfl
  · exact adapterView_setCapability rsc c hc

theorem adapterView_unsetCapabilityWhen (rsc : RenderSystemCapabilities) (b : Bool)
    (c : Capabilities) (hc : c ∉ adapterFlags) :
    (rsc.unsetCapabilityWhen b c).adapterView = rsc.adapterView := by
  unfold RenderSystemCapabilities.unsetCapabilityWhen
  cases b
  · rfl
  · exact adapterView_unsetCapability rsc c hc

theorem adapterView_addProfileWhen (rsc : RenderSystemCapabilities) (b : Bool)
    (gpp : GpuProgramProfile) (name : String) :
    (rsc.addProfileWhen b gpp name).adapterView = rsc.adapterView := by
  unfold RenderSystemCapabilities.addProfileWhen
  cases b <;> rfl

theorem adapterView_vertexShaderProfiles (major : Nat) (minVSCaps : D3DCAPS9)
    (rsc : RenderSystemCapabilities) :
    (vertexShaderProfiles major minVSCaps rsc).adapterView = rsc.adapterView := by
  unfold vertexShaderProfiles
  simp only [adapterView_addProfileWhen,
    adapterView_setCapabilityWhen _ _ Capabilities.RSC_VERTEX_PROGRAM (by decide)]
  split
  · rfl
  · split <;> rfl

theorem adapterView_pixelShaderProfiles (major minor : Nat) (minPSCaps : D3DCAPS9)
    (rsc : RenderSystemCapabilities) :
    (pixelShaderProfiles major minor minPSCaps rsc).adapterView = rsc.adapterView := by
  unfold pixelShaderProfiles
  simp only [adapterView_addProfileWhen,
    adapterView_setCapabilityWhen _ _ Capabilities.RSC_FRAGMENT_PROGRAM (by decide)]
  split
  · rfl
  · split
    · rfl
    · split <;> rfl

theorem adapterView_convertPixelShaderCaps (indeterminate : D3DCAPS9) (drivers : List D3D9Driver)
    (rsc : RenderSystemCapabilities) :
    (convertPixelShaderCaps indeterminate drivers rsc).adapterView = rsc.adapterView := by
  unfold convertPixelShaderCaps
  exact adapterView_pixelShaderProfiles _ _ _ rsc

theorem adapterView_setters (rsc : RenderSystemCapabilities) (v : GPUVendor) (n : Nat)
    (b : Bool) :
    (rsc.setVendor v).adapterView = rsc.adapterView ∧
    (rsc.setNumVertexTextureUnits n).adapterView = rsc.adapterView ∧
    (rsc.setVertexTextureUnitsShared b).adapterView = rsc.adapterView :=
  ⟨rfl, rfl, rfl⟩

theorem adapterView_capsFromAdapter (env : Env σ) (adapter : D3D9Driver)
    (renderWindow : RenderTarget) (rsc : RenderSystemCapabilities) :
    (capsFromAdapter env adapter renderWindow rsc).adapterView = rsc.adapterView := by
  unfold capsFromAdapter
  simp only [adapterView_setCapabilityWhen _ _ Capabilities.RSC_ALPHA_TO_COVERAGE (by decide)]
  split <;>
    simp only [(adapterView_setters _ GPUVendor.GPU_UNKNOWN 0 false).2.2,
      (adapterView_setters _ GPUVendor.GPU_UNKNOWN 4 false).2.1,
      (adapterView_setters _ (vendorOf adapter.VendorId) 0 false).1,
      adapterView_setCapability _ Capabilities.RSC_VERTEX_TEXTURE_FETCH (by decide),
      adapterView_setCapabilityWhen _ _ Capabilities.RSC_TEXTURE_FLOAT (by decide),
      adapterView_setCapability _ Capabilities.RSC_HWRENDER_TO_TEXTURE (by decide),
      adapterView_setCapabilityWhen _ _ Capabilities.RSC_INFINITE_FAR_PLANE (by decide)]

/-! ## Capabilities: the whole of `updateRenderSystemCapabilities` -/

theorem yields_pure {α : Type} {Q : α → RS σ → Prop} (a : α) (h : ∀ s, Q a s) :
    Yields Q (pure a : RSM σ α) := by
  intro s b s1 hb
  cases hb
  exact h s

theorem yields_except {α : Type} (Q : α → RS σ → Prop) (e : Exception) :
    Yields Q (CM_EXCEPT e : RSM σ α) := by
  intro s b s1 hb
  cases hb

theorem yields_bind {α β : Type} {P : α → Prop} {Q : β → RS σ → Prop} {m : RSM σ α}
    {k : α → RSM σ β} (hm : Yields (fun a _ => P a) m) (hk : ∀ a, P a → Yields Q (k a)) :
    Yields Q (m >>= k) := by
  intro s b s2 hb
  rw [rsm_bind_apply] at hb
  rcases hms : m s with ⟨r, s1⟩
  rw [hms] at hb
  cases r with
  | error e => cases hb
  | ok a => exact hk a (hm s a s1 hms) s1 b s2 hb

theorem yields_ite {α : Type} {Q : α → RS σ → Prop} (b : Prop) [Decidable b] {m1 m2 : RSM σ α}
    (h1 : Yields Q m1) (h2 : Yields Q m2) : Yields Q (if b then m1 else m2) := by
  split
  · exact h1
  · exact h2

theorem yields_true {α : Type} (m : RSM σ α) : Yields (fun _ _ => True) m :=
  fun _ _ _ _ => trivial

theorem yields_probeDevice (env : Env σ) (i : Nat) (rsc : RenderSystemCapabilities) :
    Yields (fun r _ => r.adapterView = rsc.adapterView) (probeDevice env i rsc) := by
  unfold probeDevice
  refine yields_bind (yields_true _) (fun r _ => ?_)
  refine yields_bind (P := fun r1 => r1.adapterView = rsc.adapterView) ?_ (fun r1 h1 => ?_)
  · refine yields_ite _ ?_ (yields_pure _ (fun _ => rfl))
    refine yields_bind (yields_true _) (fun desc _ => yields_pure _ (fun _ => ?_))
    exact adapterView_unsetCapabilityWhen _ _ _ (by decide)
  · refine yields_bind (yields_true _) (fun q _ => yields_pure _ (fun _ => ?_))
    exact (adapterView_unsetCapabilityWhen _ _ _ (by decide)).trans h1

theorem yields_probeDevices (env : Env σ) (count : Nat) :
    ∀ (i : Nat) (rsc : RenderSystemCapabilities),
      Yields (fun r _ => r.adapterView = rsc.adapterView) (probeDevices env i count rsc) := by
  induction count with
  | zero => intro i rsc; exact yields_pure _ (fun _ => rfl)
  | succ n ih =>
    intro i rsc
    unfold probeDevices
    refine yields_bind (yields_probeDevice env i rsc) (fun r1 h1 => ?_)
    intro s a s1 h
    exact (ih (i + 1) r1 s a s1 h).trans h1

theorem yields_convertVertexShaderCaps (env : Env σ) (rsc : RenderSystemCapabilities) :
    Yields (fun r _ => r.adapterView = rsc.adapterView) (convertVertexShaderCaps env rsc) := by
  unfold convertVertexShaderCaps
  refine yields_bind (yields_true _) (fun s _ => ?_)
  refine yields_ite _ ?_ (yields_pure _ (fun _ => adapterView_vertexShaderProfiles _ _ _))
  exact yields_bind (yields_true _)
    (fun _ _ => yields_pure _ (fun _ => adapterView_vertexShaderProfiles _ _ _))

theorem fields_setCategoryRelevantD3D9 (rsc : RenderSystemCapabilities) (v : Bool) :
    (∀ f, (rsc.setCategoryRelevantD3D9 v).hasCapability f = rsc.hasCapability f) ∧
    (rsc.setCategoryRelevantD3D9 v).numTextureUnits = rsc.numTextureUnits ∧
    (rsc.setCategoryRelevantD3D9 v).numMultiRenderTargets = rsc.numMultiRenderTargets ∧
    (rsc.setCategoryRelevantD3D9 v).renderSystemName = rsc.renderSystemName :=
  ⟨fun _ => rfl, rfl, rfl, rfl⟩

theorem fields_setDriverVersion (rsc : RenderSystemCapabilities) (v : Nat) :
    (∀ f, (rsc.setDriverVersion v).hasCapability f = rsc.hasCapability f) ∧
    (rsc.setDriverVersion v).numTextureUnits = rsc.numTextureUnits ∧
    (rsc.setDriverVersion v).numMultiRenderTargets = rsc.numMultiRenderTargets ∧
    (rsc.setDriverVersion v).renderSystemName = rsc.renderSystemName :=
  ⟨fun _ => rfl, rfl, rfl, rfl⟩

theorem fields_setDeviceName (rsc : RenderSystemCapabilities) (v : String) :
    (∀ f, (rsc.setDeviceName v).hasCapability f = rsc.hasCapability f) ∧
    (rsc.setDeviceName v).numTextureUnits = rsc.numTextureUnits ∧
    (rsc.setDeviceName v).numMultiRenderTargets = rsc.numMultiRenderTargets ∧
    (rsc.setDeviceName v).renderSystemName = rsc.renderSystemName :=
  ⟨fun _ => rfl, rfl, rfl, rfl⟩

theorem fields_setRenderSystemName (rsc : RenderSystemCapabilities) (v : String) :
    (∀ f, (rsc.setRenderSystemName v).hasCapability f = rsc.hasCapability f) ∧
    (rsc.setRenderSystemName v).numTextureUnits = rsc.numTextureUnits ∧
    (rsc.setRenderSystemName v).numMultiRenderTargets = rsc.numMultiRenderTargets ∧
    (rsc.setRenderSystemName v).renderSystemName = v :=
  ⟨fun _ => rfl, rfl, rfl, rfl⟩

theorem fields_setNumTextureUnits (rsc : RenderSystemCapabilities) (v : Nat) :
    (∀ f, (rsc.setNumTextureUnits v).hasCapability f = rsc.hasCapability f) ∧
    (rsc.setNumTextureUnits v).numTextureUnits = v ∧
    (rsc.setNumTextureUnits v).numMultiRenderTargets = rsc.numMultiRenderTargets ∧
    (rsc.setNumTextureUnits v).renderSystemName = rsc.renderSystemName :=
  ⟨fun _ => rfl, rfl, rfl, rfl⟩

theorem fields_setNonPOW2TexturesLimited (rsc : RenderSystemCapabilities) (v : Bool) :
    (∀ f, (rsc.setNonPOW2TexturesLimited v).hasCapability f = rsc.hasCapability f) ∧
    (rsc.setNonPOW2TexturesLimited v).numTextureUnits = rsc.numTextureUnits ∧
    (rsc.setNonPOW2TexturesLimited v).numMultiRenderTargets = rsc.numMultiRenderTargets ∧
    (rsc.setNonPOW2TexturesLimited v).renderSystemName = rsc.renderSystemName :=
  ⟨fun _ => rfl, rfl, rfl, rfl⟩

theorem fields_setNumMultiRenderTargets (rsc : RenderSystemCapabilities) (v : Nat) :
    (∀ f, (rsc.setNumMultiRenderTargets v).hasCapability f = rsc.hasCapability f) ∧
    (rsc.setNumMultiRenderTargets v).numTextureUnits = rsc.numTextureUnits ∧
    (rsc.setNumMultiRenderTargets v).numMultiRenderTargets = v ∧
    (rsc.setNumMultiRenderTargets v).renderSystemName = rsc.renderSystemName :=
  ⟨fun _ => rfl, rfl, rfl, rfl⟩

theorem fields_setMaxPointSize (rsc : RenderSystemCapabilities) (v : ℚ) :
    (∀ f, (rsc.setMaxPointSize v).hasCapability f = rsc.hasCapability f) ∧
    (rsc.setMaxPointSize v).numTextureUnits = rsc.numTextureUnits ∧
    (rsc.setMaxPointSize v).numMultiRenderTargets = rsc.numMultiRenderTargets ∧
    (rsc.setMaxPointSize v).renderSystemName = rsc.renderSystemName :=
  ⟨fun _ => rfl, rfl, rfl, rfl⟩

theorem fields_setStencilBufferBitDepth (rsc : RenderSystemCapabilities) (v : Nat) :
    (∀ f, (rsc.setStencilBufferBitDepth v).hasCapability f = rsc.hasCapability f) ∧
    (rsc.setStencilBufferBitDepth v).numTextureUnits = rsc.numTextureUnits ∧
    (rsc.setStencilBufferBitDepth v).numMultiRenderTargets = rsc.numMultiRenderTargets ∧
    (rsc.setStencilBufferBitDepth v).renderSystemName = rsc.renderSystemName :=
  ⟨fun _ => rfl, rfl, rfl, rfl⟩

theorem fields_setCapability (rsc : RenderSystemCapabilities) (c : Capabilities) :
    (rsc.setCapability c).numTextureUnits = rsc.numTextureUnits ∧
    (rsc.setCapability c).numMultiRenderTargets = rsc.numMultiRenderTargets ∧
    (rsc.setCapability c).renderSystemName = rsc.renderSystemName :=
  ⟨rfl, rfl, rfl⟩

theorem adapterView_capsInit (env : Env σ) (s : RS σ) (rsc : RenderSystemCapabilities) :
    (capsInit env s rsc).adapterView
      = (1024, env.CM_MAX_MULTIPLE_RENDER_TARGETS, getName, adapterFlags.map (fun _ => true)) := by
  unfold RenderSystemCapabilities.adapterView
  have hn : (capsInit env s rsc).numTextureUnits = 1024 ∧
      (capsInit env s rsc).numMultiRenderTargets = env.CM_MAX_MULTIPLE_RENDER_TARGETS ∧
      (capsInit env s rsc).renderSystemName = getName := by
    unfold capsInit
    simp only [fields_setCapability, fields_setCategoryRelevantD3D9, fields_setDriverVersion,
      fields_setDeviceName, fields_setRenderSystemName, fields_setNumTextureUnits,
      fields_setNonPOW2TexturesLimited, fields_setNumMultiRenderTargets, fields_setMaxPointSize,
      fields_setStencilBufferBitDepth, and_self]
  have hf : ∀ f ∈ adapterFlags, (capsInit env s rsc).hasCapability f = true := by
    intro f hf
    unfold capsInit
    simp only [adapterFlags, List.mem_cons, List.mem_singleton, List.not_mem_nil,
      or_false] at hf
    rcases hf with rfl | rfl | rfl | rfl | rfl | rfl | rfl | rfl | rfl | rfl | rfl | rfl | rfl |
      rfl | rfl <;>
    simp [hasCapability_setCapability, fields_setCategoryRelevantD3D9, fields_setDriverVersion,
      fields_setDeviceName, fields_setRenderSystemName, fields_setNumTextureUnits,
      fields_setNonPOW2TexturesLimited, fields_setNumMultiRenderTargets, fields_setMaxPointSize,
      fields_setStencilBufferBitDepth]
  rw [hn.1, hn.2.1, hn.2.2, List.map_congr_left hf]

/-- The adapter loop run on a capabilities object at its maximum gives the
expected adapter view. -/
theorem adapterView_capsFromDrivers (maxRT : Nat) (hmax : maxRT < 65536)
    (drivers : List D3D9Driver) (rsc : RenderSystemCapabilities)
    (h : rsc.adapterView = (1024, maxRT, getName, adapterFlags.map (fun _ => true))) :
    (capsFromDrivers maxRT rsc drivers).adapterView = expectedAdapterView maxRT drivers := by
  unfold RenderSystemCapabilities.adapterView at h
  have h1 : rsc.numTextureUnits = 1024 := congrArg Prod.fst h
  have h2 : rsc.numMultiRenderTargets = maxRT := congrArg (fun x => x.2.1) h
  have h3 : rsc.renderSystemName = getName := congrArg (fun x => x.2.2.1) h
  have h4 : ∀ f ∈ adapterFlags, rsc.hasCapability f = true :=
    List.map_inj_left.mp (congrArg (fun x => x.2.2.2) h)
  obtain ⟨a1, a2, a3, a4⟩ := capsFromDrivers_view maxRT hmax drivers rsc
    (by rw [h1]; decide) (by rw [h2])
  unfold RenderSystemCapabilities.adapterView expectedAdapterView
  rw [a1, a2, a3, h1, h2, h3]
  refine Prod.ext rfl (Prod.ext rfl (Prod.ext rfl ?_))
  show List.map (fun c => (capsFromDrivers maxRT rsc drivers).hasCapability c) adapterFlags
    = List.map (fun c => drivers.all fun d => adapterSupports c d.d3d9DeviceCaps) adapterFlags
  refine List.map_congr_left (fun f hf => ?_)
  rw [a4 f hf, h4 f hf, Bool.true_and]

theorem initialiseFromRenderSystemCapabilities_ok (caps : RenderSystemCapabilities)
    (h : caps.renderSystemName = getName) :
    (initialiseFromRenderSystemCapabilities caps : RSM σ Unit) = pure () := by
  unfold initialiseFromRenderSystemCapabilities
  rw [if_neg (not_not.mpr h)]

/-- Whenever `updateRenderSystemCapabilities` returns, the capabilities it returns are the
current capabilities and have the expected adapter view for the driver list. -/
theorem updateRenderSystemCapabilities_view (env : Env σ)
    (hmax : env.CM_MAX_MULTIPLE_RENDER_TARGETS < 65536) (renderWindow : RenderTarget)
    (s : RS σ) (rsc : RenderSystemCapabilities) (s1 : RS σ)
    (h : updateRenderSystemCapabilities env renderWindow s = (Except.ok rsc, s1)) :
    rsc.adapterView
      = expectedAdapterView env.CM_MAX_MULTIPLE_RENDER_TARGETS (s.mDriverList.getD []) ∧
    s1.mCurrentCapabilities = some rsc := by
  unfold updateRenderSystemCapabilities at h
  rw [rsm_bind_apply, getRS_apply] at h
  simp only [] at h
  revert h
  refine (yields_bind (yields_probeDevices env _ 0 _) (fun rscB hB => ?_) :
    Yields (fun r st => r.adapterView
        = expectedAdapterView env.CM_MAX_MULTIPLE_RENDER_TARGETS (s.mDriverList.getD []) ∧
      st.mCurrentCapabilities = some r) _) s rsc s1
  have hD := adapterView_capsFromDrivers env.CM_MAX_MULTIPLE_RENDER_TARGETS hmax
    (s.mDriverList.getD []) rscB (hB.trans (adapterView_capsInit env s _))
  refine yields_bind (yields_true _) (fun _ _ => ?_)
  refine yields_bind (yields_convertVertexShaderCaps env _) (fun rsc3 h3 => ?_)
  rw [adapterView_setCapability _ _ (by decide), adapterView_setCapability _ _ (by decide),
    adapterView_setCapability _ _ (by decide), adapterView_setCapability _ _ (by decide),
    hD] at h3
  have h4 := (adapterView_capsFromAdapter env
      (s.mActiveD3DDriver.getD { DriverDescription := "" }) renderWindow
      (convertPixelShaderCaps env.indeterminateCaps (s.mDriverList.getD []) rsc3)).trans
    ((adapterView_convertPixelShaderCaps _ _ rsc3).trans h3)
  generalize capsFromAdapter env (s.mActiveD3DDriver.getD { DriverDescription := "" })
    renderWindow (convertPixelShaderCaps env.indeterminateCaps (s.mDriverList.getD []) rsc3)
    = rsc4 at h4
  refine yields_ite _ ?_ ?_
  · intro st a st1 hrun
    have hview : ((rsc4.addShaderProfile "hlsl").addShaderProfile "cg").adapterView
        = rsc4.adapterView := rfl
    have hname : ((rsc4.addShaderProfile "hlsl").addShaderProfile "cg").renderSystemName
        = getName := congrArg (fun x => x.2.2.1) (hview.trans h4)
    rw [initialiseFromRenderSystemCapabilities_ok _ hname] at hrun
    simp only [rsm_bind_apply, modifyRS_apply, rsm_pure_apply, Prod.mk.injEq,
      Except.ok.injEq] at hrun
    obtain ⟨ha, hst⟩ := hrun
    subst ha
    subst hst
    exact ⟨hview.trans h4, rfl⟩
  · intro st a st1 hrun
    simp only [rsm_bind_apply, modifyRS_apply, rsm_pure_apply, Prod.mk.injEq,
      Except.ok.injEq] at hrun
    obtain ⟨ha, hst⟩ := hrun
    subst ha
    subst hst
    exact ⟨h4, rfl⟩

theorem returns_modifyRS (f : RS σ → RS σ)
    (hf : ∀ s, (f s).devices = s.devices ∧ (f s).activeDevice = s.activeDevice) :
    Returns (modifyRS f) := by
  intro s hL
  refine ⟨(), f s, rfl, ?_⟩
  obtain ⟨d, hd⟩ := hL
  exact ⟨d, by rw [(hf s).1, (hf s).2]; exact hd⟩

theorem returns_nativeOn (env : Env σ) (device : Nat) (c : NativeCall) :
    Returns (nativeOn env device c) := by
  intro s hL
  unfold nativeOn
  cases hdev : s.devices device with
  | none => exact ⟨_, s, rfl, hL⟩
  | some d0 =>
    refine ⟨_, _, rfl, ?_⟩
    obtain ⟨d, hd⟩ := hL
    by_cases h : s.activeDevice = device
    · exact ⟨(env.dev.call c d0).2, by rw [h]; simp⟩
    · exact ⟨d, by simp [Function.update, h, hd]⟩

theorem returns_probeDevice (env : Env σ) (i : Nat) (rsc : RenderSystemCapabilities) :
    Returns (probeDevice env i rsc) := by
  unfold probeDevice
  refine returns_bind (returns_nativeOn env _ _) (fun r => ?_)
  refine returns_bind ?_ (fun r1 => ?_)
  · refine returns_ite _ ?_ (returns_pure _)
    exact returns_bind (returns_nativeOn env _ _) (fun _ => returns_pure _)
  · exact returns_bind (returns_nativeOn env _ _) (fun _ => returns_pure _)

theorem returns_probeDevices (env : Env σ) (count : Nat) :
    ∀ (i : Nat) (rsc : RenderSystemCapabilities), Returns (probeDevices env i count rsc) := by
  induction count with
  | zero => intro i rsc; exact returns_pure rsc
  | succ n ih =>
    intro i rsc
    unfold probeDevices
    exact returns_bind (returns_probeDevice env i rsc) (fun r1 => ih (i + 1) r1)

theorem returns_convertVertexShaderCaps (env : Env σ) (hT : env.threadOk)
    (rsc : RenderSystemCapabilities) : Returns (convertVertexShaderCaps env rsc) := by
  unfold convertVertexShaderCaps
  refine returns_bind returns_getRS (fun s => returns_ite _ ?_ (returns_pure _))
  exact returns_bind (returns_native env hT _) (fun _ => returns_pure _)

theorem runs_bind {α β : Type} {m : RSM σ α} {k : α → RSM σ β} {s : RS σ}
    (P : α → RS σ → Prop) (hm : ∃ a s1, m s = (Except.ok a, s1) ∧ P a s1)
    (hk : ∀ a s1, P a s1 → ∃ b s2, k a s1 = (Except.ok b, s2)) :
    ∃ b s2, (m >>= k) s = (Except.ok b, s2) := by
  obtain ⟨a, s1, h1, hP⟩ := hm
  obtain ⟨b, s2, h2⟩ := hk a s1 hP
  exact ⟨b, s2, by rw [rsm_bind_apply, h1]; exact h2⟩

theorem runs_of {α : Type} {m : RSM σ α} {Q : α → Prop} (hr : Returns m)
    (hy : Yields (fun a _ => Q a) m) (s : RS σ) (hL : s.live) :
    ∃ a s1, m s = (Except.ok a, s1) ∧ (s1.live ∧ Q a) := by
  obtain ⟨a, s1, h1, hL1⟩ := hr s hL
  exact ⟨a, s1, h1, hL1, hy s a s1 h1⟩

/-- On the render thread with a live active device `updateRenderSystemCapabilities` returns. -/
theorem updateRenderSystemCapabilities_returns (env : Env σ) (hT : env.threadOk)
    (hmax : env.CM_MAX_MULTIPLE_RENDER_TARGETS < 65536)
    (renderWindow : RenderTarget) (s : RS σ) (hL : s.live) :
    ∃ rsc s1, updateRenderSystemCapabilities env renderWindow s = (Except.ok rsc, s1) := by
  unfold updateRenderSystemCapabilities
  rw [rsm_bind_apply, getRS_apply]
  simp only []
  refine runs_bind (fun r st => st.live ∧
      r.adapterView = (capsInit env s (s.mCurrentCapabilities.getD {})).adapterView)
    (runs_of (returns_probeDevices env _ 0 _) (yields_probeDevices env _ 0 _) s hL)
    (fun rscB sB hB => ?_)
  have hD := adapterView_capsFromDrivers env.CM_MAX_MULTIPLE_RENDER_TARGETS hmax
    (s.mDriverList.getD []) rscB (hB.2.trans (adapterView_capsInit env s _))
  refine runs_bind (fun _ st => st.live) ?_ (fun _ sC hLC => ?_)
  · split
    · exact ⟨(), sB, rfl, hB.1⟩
    · exact ⟨(), _, rfl, hB.1⟩
  refine runs_bind _ (runs_of (returns_convertVertexShaderCaps env hT _)
    (yields_convertVertexShaderCaps env _) sC hLC) (fun rsc3 s3 h3 => ?_)
  have h3v := h3.2
  rw [adapterView_setCapability _ _ (by decide), adapterView_setCapability _ _ (by decide),
    adapterView_setCapability _ _ (by decide), adapterView_setCapability _ _ (by decide),
    hD] at h3v
  have h4 := (adapterView_capsFromAdapter env
      (s.mActiveD3DDriver.getD { DriverDescription := "" }) renderWindow
      (convertPixelShaderCaps env.indeterminateCaps (s.mDriverList.getD []) rsc3)).trans
    ((adapterView_convertPixelShaderCaps _ _ rsc3).trans h3v)
  generalize capsFromAdapter env (s.mActiveD3DDriver.getD { DriverDescription := "" })
    renderWindow (convertPixelShaderCaps env.indeterminateCaps (s.mDriverList.getD []) rsc3)
    = rsc4 at h4
  split
  · have hview : ((rsc4.addShaderProfile "hlsl").addShaderProfile "cg").adapterView
        = rsc4.adapterView := rfl
    have hname : ((rsc4.addShaderProfile "hlsl").addShaderProfile "cg").renderSystemName
        = getName := congrArg (fun x => x.2.2.1) (hview.trans h4)
    rw [initialiseFromRenderSystemCapabilities_ok _ hname]
    exact ⟨_, _, rfl⟩
  · exact ⟨_, _, rfl⟩

/-! ## The claims on capabilities -/

/-- C17: for a `CM_MAX_MULTIPLE_RENDER_TARGETS` that fits in 16 bits: whenever
`updateRenderSystemCapabilities` returns, the capabilities returned are the current
capabilities, their `numTextureUnits` is the minimum of 1024 and the
`MaxSimultaneousTextures` of all enumerated adapters, and their
`numMultiRenderTargets` is the minimum of `CM_MAX_MULTIPLE_RENDER_TARGETS` and the
`NumSimultaneousRTs` of all enumerated adapters; run on any reordering of the
driver list the call gives the same two limits; and on the render thread with
a live active device the call does return. -/
theorem updateRenderSystemCapabilities_limits (env : Env σ)
    (hmax : env.CM_MAX_MULTIPLE_RENDER_TARGETS < 65536) (renderWindow : RenderTarget)
    (s : RS σ) :
    (∀ rsc s1, updateRenderSystemCapabilities env renderWindow s = (Except.ok rsc, s1) →
      rsc.numTextureUnits
        = minOver 1024 ((s.mDriverList.getD []).map
            (fun d => d.d3d9DeviceCaps.MaxSimultaneousTextures)) ∧
      rsc.numMultiRenderTargets
        = minOver env.CM_MAX_MULTIPLE_RENDER_TARGETS ((s.mDriverList.getD []).map
            (fun d => d.d3d9DeviceCaps.NumSimultaneousRTs)) ∧
      s1.mCurrentCapabilities = some rsc) ∧
    (∀ reordered : List D3D9Driver, reordered.Perm (s.mDriverList.getD []) →
      ∀ rsc s1, updateRenderSystemCapabilities env renderWindow
          { s with mDriverList := some reordered } = (Except.ok rsc, s1) →
      rsc.numTextureUnits
        = minOver 1024 ((s.mDriverList.getD []).map
            (fun d => d.d3d9DeviceCaps.MaxSimultaneousTextures)) ∧
      rsc.numMultiRenderTargets
        = minOver env.CM_MAX_MULTIPLE_RENDER_TARGETS ((s.mDriverList.getD []).map
            (fun d => d.d3d9DeviceCaps.NumSimultaneousRTs))) ∧
    (env.threadOk → s.live →
      ∃ rsc s1, updateRenderSystemCapabilities env renderWindow s = (Except.ok rsc, s1)) := by
  refine ⟨fun rsc s1 h => ?_, fun reordered hp rsc s1 h => ?_,
    fun hT hL => updateRenderSystemCapabilities_returns env hT hmax renderWindow s hL⟩
  · obtain ⟨hv, hc⟩ := updateRenderSystemCapabilities_view env hmax renderWindow s rsc s1 h
    exact ⟨congrArg Prod.fst hv, congrArg (fun x => x.2.1) hv, hc⟩
  · obtain ⟨hv, -⟩ := updateRenderSystemCapabilities_view env hmax renderWindow _ rsc s1 h
    refine ⟨(congrArg Prod.fst hv).trans ?_, (congrArg (fun x => x.2.1) hv).trans ?_⟩
    · exact minOver_perm _ _ _ (hp.map _)
    · exact minOver_perm _ _ _ (hp.map _)

theorem updateRenderSystemCapabilities_limits_witness :
    simEnv.CM_MAX_MULTIPLE_RENDER_TARGETS < 65536 ∧ simEnv.threadOk ∧ simAdapters.live ∧
    ∃ rsc s1, updateRenderSystemCapabilities simEnv sampleTarget simAdapters
        = (Except.ok rsc, s1) ∧
      rsc.numTextureUnits = 4 ∧ rsc.numMultiRenderTargets = 1 ∧
      s1.mCurrentCapabilities = some rsc :=
  have h := updateRenderSystemCapabilities_limits simEnv (by decide) sampleTarget simAdapters
  have hL : simAdapters.live := ⟨_, rfl⟩
  ⟨by decide, by decide, hL,
   (h.2.2 (by decide) hL).imp (fun rsc hs => hs.imp (fun s1 hrun =>
     ⟨hrun, (h.1 rsc s1 hrun).1, (h.1 rsc s1 hrun).2.1, (h.1 rsc s1 hrun).2.2⟩))⟩

/-- C18: for a `CM_MAX_MULTIPLE_RENDER_TARGETS` that fits in 16 bits and any state, with
or without an existing capabilities object and whatever flags that object
holds: whenever `updateRenderSystemCapabilities` returns, each of the fifteen
adapter-derived flags is set in the capabilities returned, which are the
current capabilities, if and only if the caps of every enumerated adapter
report the feature; and on the render thread with a live active device the
call does return. -/
theorem updateRenderSystemCapabilities_flags (env : Env σ)
    (hmax : env.CM_MAX_MULTIPLE_RENDER_TARGETS < 65536) (renderWindow : RenderTarget)
    (s : RS σ) :
    (∀ rsc s1, updateRenderSystemCapabilities env renderWindow s = (Except.ok rsc, s1) →
      s1.mCurrentCapabilities = some rsc ∧
      ∀ f ∈ adapterFlags,
        (f ∈ rsc.capabilities ↔
          ∀ d ∈ s.mDriverList.getD [], adapterSupports f d.d3d9DeviceCaps = true)) ∧
    (env.threadOk → s.live →
      ∃ rsc s1, updateRenderSystemCapabilities env renderWindow s = (Except.ok rsc, s1)) := by
  refine ⟨fun rsc s1 h => ?_,
    fun hT hL => updateRenderSystemCapabilities_returns env hT hmax renderWindow s hL⟩
  obtain ⟨hv, hc⟩ := updateRenderSystemCapabilities_view env hmax renderWindow s rsc s1 h
  refine ⟨hc, fun f hf => ?_⟩
  have hflags : ∀ c ∈ adapterFlags, rsc.hasCapability c
      = (s.mDriverList.getD []).all (fun d => adapterSupports c d.d3d9DeviceCaps) :=
    List.map_inj_left.mp (congrArg (fun x => x.2.2.2) hv)
  have h1 := hflags f hf
  unfold RenderSystemCapabilities.hasCapability at h1
  rw [← List.all_eq_true, ← h1, decide_eq_true_iff]

set_option maxRecDepth 8192 in
theorem updateRenderSystemCapabilities_flags_witness :
    simEnv.CM_MAX_MULTIPLE_RENDER_TARGETS < 65536 ∧
    (∃ rsc s1, updateRenderSystemCapabilities simEnv sampleTarget simAdapters
        = (Except.ok rsc, s1) ∧
      (Capabilities.RSC_DOT3 ∈ rsc.capabilities ↔
        ∀ d ∈ [adapterA, adapterB],
          adapterSupports Capabilities.RSC_DOT3 d.d3d9DeviceCaps = true) ∧
      (Capabilities.RSC_ANISOTROPY ∈ rsc.capabilities ↔
        ∀ d ∈ [adapterA, adapterB],
          adapterSupports Capabilities.RSC_ANISOTROPY d.d3d9DeviceCaps = true)) ∧
    adapterSupports Capabilities.RSC_DOT3 adapterB.d3d9DeviceCaps = true ∧
    adapterSupports Capabilities.RSC_ANISOTROPY adapterB.d3d9DeviceCaps = false ∧
    (updateRenderSystemCapabilities simEnv sampleTarget simAdaptersFresh).1.toOption.map
        (fun rsc => adapterFlags.filter (fun f => rsc.hasCapability f))
      = some [Capabilities.RSC_AUTOMIPMAP, Capabilities.RSC_DOT3,
          Capabilities.RSC_SCISSOR_TEST, Capabilities.RSC_STENCIL_WRAP,
          Capabilities.RSC_USER_CLIP_PLANES, Capabilities.RSC_VERTEX_FORMAT_UBYTE4,
          Capabilities.RSC_CUBEMAPPING, Capabilities.RSC_TEXTURE_3D,
          Capabilities.RSC_MRT_DIFFERENT_BIT_DEPTHS, Capabilities.RSC_MIPMAP_LOD_BIAS,
          Capabilities.RSC_PERSTAGECONSTANT, Capabilities.RSC_ADVANCED_BLEND_OPERATIONS] :=
  have h := updateRenderSystemCapabilities_flags simEnv (by decide) sampleTarget simAdapters
  ⟨by decide,
   (h.2 (by decide) ⟨_, rfl⟩).imp (fun rsc hs => hs.imp (fun s1 hrun =>
     ⟨hrun, (h.1 rsc s1 hrun).2 _ (by decide), (h.1 rsc s1 hrun).2 _ (by decide)⟩)),
   by decide, by decide, rfl⟩

/-! ## Shader versions and profiles -/

theorem versionMajor_le (v : Nat) : versionMajor v ≤ 255 := by
  unfold versionMajor castUINT16
  have h := @Nat.and_le_right v 0x0000FF00
  rw [Nat.shiftRight_eq_div_pow]
  omega

theorem versionMinor_le (v : Nat) : versionMinor v ≤ 255 := by
  unfold versionMinor castUINT16
  have h := @Nat.and_le_right v 0x000000FF
  omega

/-- One round of the loop of `lowestShaderCaps`. -/
theorem lowestShaderCaps_cons (version : D3DCAPS9 → Nat) (d : D3D9Driver)
    (rest : List D3D9Driver) (start : Nat × Nat × D3DCAPS9) :
    lowestShaderCaps version (d :: rest) start
      = lowestShaderCaps version rest
          (if versionMajor (version d.d3d9DeviceCaps) < start.1 then
            (versionMajor (version d.d3d9DeviceCaps), versionMinor (version d.d3d9DeviceCaps),
              d.d3d9DeviceCaps)
          else if versionMajor (version d.d3d9DeviceCaps) = start.1 ∧
              versionMinor (version d.d3d9DeviceCaps) < start.2.1 then
            (start.1, versionMinor (version d.d3d9DeviceCaps), d.d3d9DeviceCaps)
          else start) := rfl

/-- The loop of `lowestShaderCaps` ends on a version that is lexicographically at most
the starting one and at most the version of every driver, and that is the
starting one or the version of some driver. -/
theorem lowestShaderCaps_least (version : D3DCAPS9 → Nat) (drivers : List D3D9Driver) :
    ∀ start : Nat × Nat × D3DCAPS9,
      lexLE ((lowestShaderCaps version drivers start).1,
             (lowestShaderCaps version drivers start).2.1) (start.1, start.2.1) ∧
      (∀ d ∈ drivers,
        lexLE ((lowestShaderCaps version drivers start).1,
               (lowestShaderCaps version drivers start).2.1)
          (versionMajor (version d.d3d9DeviceCaps), versionMinor (version d.d3d9DeviceCaps))) ∧
      (((lowestShaderCaps version drivers start).1 = start.1 ∧
        (lowestShaderCaps version drivers start).2.1 = start.2.1) ∨
       ∃ d ∈ drivers,
        (lowestShaderCaps version drivers start).1 = versionMajor (version d.d3d9DeviceCaps) ∧
        (lowestShaderCaps version drivers start).2.1
          = versionMinor (version d.d3d9DeviceCaps)) := by
  induction drivers with
  | nil =>
    intro start
    refine ⟨Or.inr ⟨rfl, le_refl _⟩, fun d hd => ?_, Or.inl ⟨rfl, rfl⟩⟩
    cases hd
  | cons d rest ih =>
    intro start
    rw [lowestShaderCaps_cons]
    generalize hM : versionMajor (version d.d3d9DeviceCaps) = cM
    generalize hm : versionMinor (version d.d3d9DeviceCaps) = cm
    obtain ⟨M0, m0, c0⟩ := start
    simp only []
    by_cases h1 : cM < M0
    · rw [if_pos h1]
      obtain ⟨a1, a2, a3⟩ := ih (cM, cm, d.d3d9DeviceCaps)
      refine ⟨?_, fun x hx => ?_, ?_⟩
      · clear a2 a3 ih; simp only [lexLE] at a1 ⊢; omega
      · rcases List.mem_cons.mp hx with rfl | hx
        · rw [hM, hm]; exact a1
        · exact a2 x hx
      · rcases a3 with a3 | ⟨x, hx, a3⟩
        · exact Or.inr ⟨d, List.mem_cons_self _ _, by rw [hM, hm]; exact a3⟩
        · exact Or.inr ⟨x, List.mem_cons_of_mem _ hx, a3⟩
    · rw [if_neg h1]
      by_cases h2 : cM = M0 ∧ cm < m0
      · rw [if_pos h2]
        obtain ⟨a1, a2, a3⟩ := ih (M0, cm, d.d3d9DeviceCaps)
        refine ⟨?_, fun x hx => ?_, ?_⟩
        · clear a2 a3 ih; simp only [lexLE] at a1 ⊢; omega
        · rcases List.mem_cons.mp hx with rfl | hx
          · rw [hM, hm]; clear a2 a3 ih hx; simp only [lexLE] at a1 ⊢; omega
          · exact a2 x hx
        · rcases a3 with a3 | ⟨x, hx, a3⟩
          · exact Or.inr ⟨d, List.mem_cons_self _ _, by
              rw [hM, hm]; simp only [] at a3 ⊢; omega⟩
          · exact Or.inr ⟨x, List.mem_cons_of_mem _ hx, a3⟩
      · rw [if_neg h2]
        obtain ⟨a1, a2, a3⟩ := ih (M0, m0, c0)
        refine ⟨a1, fun x hx => ?_, ?_⟩
        · rcases List.mem_cons.mp hx with rfl | hx
          · rw [hM, hm]; clear a2 a3 ih hx; simp only [lexLE] at a1 ⊢; omega
          · exact a2 x hx
        · rcases a3 with a3 | ⟨x, hx, a3⟩
          · exact Or.inl a3
          · exact Or.inr ⟨x, List.mem_cons_of_mem _ hx, a3⟩

theorem mem_addShaderProfile (rsc : RenderSystemCapabilities) (name p : String) :
    p ∈ (rsc.addShaderProfile name).shaderProfiles ↔ p = name ∨ p ∈ rsc.shaderProfiles := by
  unfold RenderSystemCapabilities.addShaderProfile
  by_cases h : name ∈ rsc.shaderProfiles
  · simp only [if_pos h]
    constructor
    · exact Or.inr
    · rintro (rfl | hp)
      · exact h
      · exact hp
  · simp only [if_neg h, List.mem_cons]

theorem mem_addProfileWhen (rsc : RenderSystemCapabilities) (b : Bool) (gpp : GpuProgramProfile)
    (name p : String) :
    p ∈ (rsc.addProfileWhen b gpp name).shaderProfiles
      ↔ (b = true ∧ p = name) ∨ p ∈ rsc.shaderProfiles := by
  unfold RenderSystemCapabilities.addProfileWhen
  cases b
  · simp
  · have h : ((rsc.addShaderProfile name).addGpuProgramProfile gpp name).shaderProfiles
        = (rsc.addShaderProfile name).shaderProfiles := rfl
    simp [h, mem_addShaderProfile]

theorem shaderProfiles_setCapabilityWhen (rsc : RenderSystemCapabilities) (b : Bool)
    (c : Capabilities) : (rsc.setCapabilityWhen b c).shaderProfiles = rsc.shaderProfiles := by
  unfold RenderSystemCapabilities.setCapabilityWhen
  cases b <;> rfl

/-- A vertex profile in the capabilities after `vertexShaderProfiles` was there before or
has a major version of at most the `major` the profiles are populated for. -/
theorem mem_vertexShaderProfiles (major : Nat) (minVSCaps : D3DCAPS9)
    (rsc : RenderSystemCapabilities) (p : String) (m : Nat) (hpm : (p, m) ∈ vertexProfiles)
    (hp : p ∈ (vertexShaderProfiles major minVSCaps rsc).shaderProfiles) :
    p ∈ rsc.shaderProfiles ∨ (m ≤ major ∧ major ≤ 3) := by
  unfold vertexShaderProfiles at hp
  simp only [shaderProfiles_setCapabilityWhen, mem_addProfileWhen] at hp
  have hbase : ∀ q, q ∈ (if major = 1 then
        ((rsc.setVertexProgramConstantBoolCount 0).setVertexProgramConstantIntCount
          0).setVertexProgramConstantFloatCount (castUINT16 minVSCaps.MaxVertexShaderConst)
      else if major = 2 ∨ major = 3 then
        ((rsc.setVertexProgramConstantBoolCount 16).setVertexProgramConstantIntCount
          16).setVertexProgramConstantFloatCount (castUINT16 minVSCaps.MaxVertexShaderConst)
      else rsc).shaderProfiles → q ∈ rsc.shaderProfiles := by
    intro q hq
    split at hq
    · exact hq
    · split at hq <;> exact hq
  simp only [vertexProfiles, List.mem_cons, List.mem_singleton, List.not_mem_nil, or_false,
    Prod.mk.injEq] at hpm
  rcases hpm with e | e | e | e | e <;>
  · obtain ⟨rfl, rfl⟩ := e
    simp only [Bool.and_eq_true, decide_eq_true_eq] at hp
    rcases hp with h | h | h | h | h | h
    all_goals first
      | exact Or.inl (hbase _ h)
      | (exfalso; revert h; simp; done)
      | (right; omega)

/-- A pixel profile in the capabilities after `pixelShaderProfiles` was there before or
has a major version of at most the `major` the profiles are populated for. -/
theorem mem_pixelShaderProfiles (major minor : Nat) (minPSCaps : D3DCAPS9)
    (rsc : RenderSystemCapabilities) (p : String) (m : Nat) (hpm : (p, m) ∈ pixelProfiles)
    (hp : p ∈ (pixelShaderProfiles major minor minPSCaps rsc).shaderProfiles) :
    p ∈ rsc.shaderProfiles ∨ (m ≤ major ∧ major ≤ 3) := by
  unfold pixelShaderProfiles at hp
  simp only [shaderProfiles_setCapabilityWhen, mem_addProfileWhen] at hp
  have hbase : ∀ q, q ∈ (if major = 1 then
        ((rsc.setFragmentProgramConstantBoolCount 0).setFragmentProgramConstantIntCount
          0).setFragmentProgramConstantFloatCount 8
      else if major = 2 then
        ((rsc.setFragmentProgramConstantBoolCount 16).setFragmentProgramConstantIntCount
          16).setFragmentProgramConstantFloatCount 32
      else if major = 3 then
        ((rsc.setFragmentProgramConstantBoolCount 16).setFragmentProgramConstantIntCount
          16).setFragmentProgramConstantFloatCount 224
      else rsc).shaderProfiles → q ∈ rsc.shaderProfiles := by
    intro q hq
    split at hq
    · exact hq
    · split at hq
      · exact hq
      · split at hq <;> exact hq
  simp only [pixelProfiles, List.mem_cons, List.mem_singleton, List.not_mem_nil, or_false,
    Prod.mk.injEq] at hpm
  rcases hpm with e | e | e | e | e | e | e | e | e | e <;>
  · obtain ⟨rfl, rfl⟩ := e
    simp only [Bool.and_eq_true, decide_eq_true_eq] at hp
    rcases hp with h | h | h | h | h | h | h | h | h | h | h
    all_goals first
      | exact Or.inl (hbase _ h)
      | (exfalso; revert h; simp; done)
      | (right; omega)

/-- The major version found by `lowestShaderCaps` from `(0xFF, 0xFF)` is at most the
major version of every driver. -/
theorem lowestShaderCaps_major_le (version : D3DCAPS9 → Nat) (drivers : List D3D9Driver)
    (start : Nat × Nat × D3DCAPS9) (d : D3D9Driver) (hd : d ∈ drivers) :
    (lowestShaderCaps version drivers start).1 ≤ versionMajor (version d.d3d9DeviceCaps) := by
  have h := (lowestShaderCaps_least version drivers start).2.1 d hd
  simp only [lexLE] at h
  omega

/-- C19, counterexample: the single enumerated adapter reports vertex shader version
0.0, the active device reports 3.0 through `GetDeviceCaps`, and
`convertVertexShaderCaps` advertises `vs_1_1`, `vs_2_0` and `vs_3_0`: profiles of major
version 3 although the adapter's major version is 0, and a version that is not
the smallest one reported by the adapters. -/
theorem convertVertexShaderCaps_device_fallback :
    simSoftwareVertex.mDriverList = some [adapterSoftwareVertex] ∧
    versionMajor adapterSoftwareVertex.d3d9DeviceCaps.VertexShaderVersion = 0 ∧
    versionMinor adapterSoftwareVertex.d3d9DeviceCaps.VertexShaderVersion = 0 ∧
    (convertVertexShaderCaps softwareVertexEnv {} simSoftwareVertex).1.toOption.map
        (fun r => r.shaderProfiles)
      = some ["vs_1_1", "vs_2_0", "vs_3_0"] ∧
    (convertVertexShaderCaps softwareVertexEnv {} simSoftwareVertex).2.trace
      = [NativeCall.GetDeviceCaps] := by
  refine ⟨rfl, by decide, by decide, ?_, rfl⟩
  decide

/-! ## Initialisation: the choice of the active driver -/

theorem returnsKeeping_pure {α β : Type} (f : RS σ → β) (a : α) :
    ReturnsKeeping f (pure a : RSM σ α) :=
  fun s => ⟨a, s, rfl, rfl⟩

theorem returnsKeeping_getRS {β : Type} (f : RS σ → β) :
    ReturnsKeeping f (getRS : RSM σ (RS σ)) :=
  fun s => ⟨s, s, rfl, rfl⟩

theorem returnsKeeping_modifyRS {β : Type} (f : RS σ → β) (g : RS σ → RS σ)
    (hg : ∀ s, f (g s) = f s) : ReturnsKeeping f (modifyRS g) :=
  fun s => ⟨(), g s, rfl, hg s⟩

theorem returnsKeeping_bind {α γ β : Type} {f : RS σ → β} {m : RSM σ α} {k : α → RSM σ γ}
    (hm : ReturnsKeeping f m) (hk : ∀ a, ReturnsKeeping f (k a)) :
    ReturnsKeeping f (m >>= k) := by
  intro s
  obtain ⟨a, s1, h1, e1⟩ := hm s
  obtain ⟨b, s2, h2, e2⟩ := hk a s1
  exact ⟨b, s2, by rw [rsm_bind_apply, h1]; exact h2, e2.trans e1⟩

theorem find_filter_other (options : List (String × ConfigOption)) (name key : String)
    (h : name ≠ key) :
    (options.filter (fun x => decide (x.1 ≠ name))).find? (fun x => decide (x.1 = key))
      = options.find? (fun x => decide (x.1 = key)) := by
  induction options with
  | nil => rfl
  | cons x rest ih =>
    by_cases hx : x.1 = name
    · have hk : ¬ x.1 = key := fun hxk => h (hx.symm.trans hxk)
      rw [List.filter_cons_of_neg (by simp [hx]), List.find?_cons_of_neg _ (by simp [hk])]
      exact ih
    · rw [List.filter_cons_of_pos (by simp [hx])]
      by_cases hk : x.1 = key
      · rw [List.find?_cons_of_pos _ (by simp [hk]), List.find?_cons_of_pos _ (by simp [hk])]
      · rw [List.find?_cons_of_neg _ (by simp [hk]), List.find?_cons_of_neg _ (by simp [hk])]
        exact ih

theorem findOption_assignOption (options : List (String × ConfigOption)) (name : String)
    (option : ConfigOption) (key : String) :
    findOption (assignOption options name option) key
      = if name = key then some option else findOption options key := by
  unfold findOption assignOption
  by_cases h : name = key
  · rw [if_pos h, List.find?_cons_of_pos _ (by simp [h])]
    rfl
  · rw [if_neg h, List.find?_cons_of_neg _ (by simp [h]), find_filter_other options name key h]

theorem findOption_updateOption (options : List (String × ConfigOption)) (name : String)
    (g : ConfigOption → ConfigOption) (key : String) (h : name ≠ key) :
    findOption (updateOption options name g) key = findOption options key := by
  unfold findOption updateOption
  congr 1
  induction options with
  | nil => rfl
  | cons x rest ih =>
    rw [List.map_cons]
    by_cases hx : x.1 = name
    · have hk : ¬ x.1 = key := fun hxk => h (hx.symm.trans hxk)
      rw [if_pos hx, List.find?_cons_of_neg _ (by simp [hk]),
        List.find?_cons_of_neg _ (by simp [hk])]
      exact ih
    · rw [if_neg hx]
      by_cases hk : x.1 = key
      · rw [List.find?_cons_of_pos _ (by simp [hk]), List.find?_cons_of_pos _ (by simp [hk])]
      · rw [List.find?_cons_of_neg _ (by simp [hk]), List.find?_cons_of_neg _ (by simp [hk])]
        exact ih

theorem getDirect3DDrivers_apply (env : Env σ) (s : RS σ) :
    getDirect3DDrivers env s
      = (Except.ok (driversOf env s), { s with mDriverList := some (driversOf env s) }) := by
  unfold getDirect3DDrivers driversOf
  rw [rsm_bind_apply, getRS_apply]
  simp only []
  cases h : s.mDriverList with
  | none => rfl
  | some drivers =>
    simp only [Option.getD_some, rsm_pure_apply]
    rw [← h]

theorem returnsKeeping_getDirect3DDrivers (env : Env σ) :
    ReturnsKeeping (deviceSelection env) (getDirect3DDrivers env) := by
  intro s
  refine ⟨_, _, getDirect3DDrivers_apply env s, ?_⟩
  unfold deviceSelection driversOf
  rfl

theorem returnsKeeping_modifyOptions (env : Env σ) (name : String)
    (g : ConfigOption → ConfigOption) (h : name ≠ "Rendering Device") :
    ReturnsKeeping (deviceSelection env)
      (modifyOptions (fun options => updateOption options name g)) := by
  unfold modifyOptions
  refine returnsKeeping_modifyRS _ _ (fun s => ?_)
  unfold deviceSelection driversOf
  simp only []
  rw [findOption_updateOption _ _ _ _ h]

theorem returnsKeeping_refreshFSAAOptions (env : Env σ) :
    ReturnsKeeping (deviceSelection env) (refreshFSAAOptions env) := by
  unfold refreshFSAAOptions
  refine returnsKeeping_bind (returnsKeeping_modifyOptions env _ _ (by decide)) (fun _ => ?_)
  refine returnsKeeping_bind (returnsKeeping_getRS _) (fun s => ?_)
  refine returnsKeeping_bind (returnsKeeping_getDirect3DDrivers env) (fun drivers => ?_)
  split
  · refine returnsKeeping_bind (returnsKeeping_getRS _) (fun s1 => ?_)
    dsimp only
    split
    · refine returnsKeeping_bind (returnsKeeping_modifyOptions env _ _ (by decide)) (fun _ => ?_)
      exact returnsKeeping_modifyOptions env _ _ (by decide)
    · refine returnsKeeping_bind (returnsKeeping_pure _ _) (fun _ => ?_)
      exact returnsKeeping_modifyOptions env _ _ (by decide)
  · refine returnsKeeping_bind (returnsKeeping_pure _ _) (fun _ => ?_)
    exact returnsKeeping_modifyOptions env _ _ (by decide)

theorem returnsKeeping_refreshD3DSettings (env : Env σ) :
    ReturnsKeeping (deviceSelection env) (refreshD3DSettings env) := by
  unfold refreshD3DSettings
  refine returnsKeeping_bind (returnsKeeping_getRS _) (fun s => ?_)
  split
  · refine returnsKeeping_bind (returnsKeeping_getDirect3DDrivers env) (fun drivers => ?_)
    split
    · refine returnsKeeping_bind (returnsKeeping_modifyOptions env _ _ (by decide)) (fun _ => ?_)
      exact returnsKeeping_refreshFSAAOptions env
    · exact returnsKeeping_pure _ _
  · exact returnsKeeping_pure _ _

theorem returnsKeeping_run {β : Type} {f : RS σ → β} {m : RSM σ Unit}
    (hm : ReturnsKeeping f m) (s : RS σ) {v : β} (hv : f s = v) :
    ∃ s1, m s = (Except.ok (), s1) ∧ f s1 = v := by
  obtain ⟨a, s1, h1, e1⟩ := hm s
  exact ⟨s1, h1, e1.trans hv⟩

theorem returnsKeeping_assignOption (env : Env σ) (name : String) (option : ConfigOption)
    (h : name ≠ "Rendering Device") :
    ReturnsKeeping (deviceSelection env)
      (modifyRS (fun s => { s with mOptions := assignOption s.mOptions name option })) := by
  refine returnsKeeping_modifyRS _ _ (fun s => ?_)
  unfold deviceSelection driversOf
  simp only []
  rw [findOption_assignOption, if_neg h]

theorem deviceOptionLoop_name (drivers : List D3D9Driver) :
    ∀ (j : Nat) (opt : ConfigOption), (deviceOptionLoop drivers j opt).name = opt.name := by
  induction drivers with
  | nil => intro j opt; rfl
  | cons d rest ih =>
    intro j opt
    unfold deviceOptionLoop
    simp only []
    rw [ih]
    split <;> rfl

theorem deviceOptionLoop_currentValue (drivers : List D3D9Driver) :
    ∀ (j : Nat) (opt : ConfigOption),
      (deviceOptionLoop drivers j opt).currentValue
        = if j = 0 then ((drivers.head?).map (fun d => d.DriverDescription)).getD opt.currentValue
          else opt.currentValue := by
  induction drivers with
  | nil => intro j opt; simp [deviceOptionLoop]
  | cons d rest ih =>
    intro j opt
    unfold deviceOptionLoop
    simp only []
    rw [ih, if_neg (Nat.succ_ne_zero j)]
    by_cases hj : j = 0
    · simp [hj]
    · simp [hj]

/-- The function `initConfigOptions` returns, and leaves the option "Rendering Device" as built
from the driver list. -/
theorem initConfigOptions_selection (env : Env σ) (s : RS σ) :
    ∃ s1, initConfigOptions env s = (Except.ok (), s1) ∧
      deviceSelection env s1
        = (driversOf env s, some (defaultDeviceOption (driversOf env s))) := by
  unfold initConfigOptions
  rw [rsm_bind_apply, getDirect3DDrivers_apply]
  simp only []
  rw [rsm_bind_apply]
  unfold modifyOptions
  rw [modifyRS_apply]
  simp only []
  refine returnsKeeping_run ?_ _ ?_
  · refine returnsKeeping_bind (returnsKeeping_assignOption env _ _ (by decide)) (fun _ => ?_)
    refine returnsKeeping_bind (returnsKeeping_assignOption env _ _ (by decide)) (fun _ => ?_)
    refine returnsKeeping_bind (returnsKeeping_assignOption env _ _ (by decide)) (fun _ => ?_)
    refine returnsKeeping_bind (returnsKeeping_assignOption env _ _ (by decide)) (fun _ => ?_)
    refine returnsKeeping_bind (returnsKeeping_assignOption env _ _ (by decide)) (fun _ => ?_)
    refine returnsKeeping_bind (returnsKeeping_assignOption env _ _ (by decide)) (fun _ => ?_)
    refine returnsKeeping_bind (returnsKeeping_assignOption env _ _ (by decide)) (fun _ => ?_)
    refine returnsKeeping_bind (returnsKeeping_assignOption env _ _ (by decide)) (fun _ => ?_)
    refine returnsKeeping_bind (returnsKeeping_assignOption env _ _ (by decide)) (fun _ => ?_)
    exact returnsKeeping_refreshD3DSettings env
  · unfold deviceSelection
    rw [findOption_assignOption, if_pos (deviceOptionLoop_name _ _ _)]
    rfl

/-- What `initialize_internal` does once the Direct3D object exists: the driver list is
searched for the current value of the option "Rendering Device", which is the
value `initConfigOptions` has just given it; without a match the call raises
`InvalidParametersException`, otherwise the first match is the active driver when
the base class is initialised. -/
theorem initialize_internal_apply (env : Env σ) (hT : env.threadOk)
    (hD3D : env.direct3DCreate9 = true) (s : RS σ) :
    ∃ s1 : RS σ,
      findOption s1.mOptions "Rendering Device"
        = some (defaultDeviceOption (driversOf env s)) ∧
      s1.mDriverList = some (driversOf env s) ∧
      s1.mActiveD3DDriver
        = firstDriverWithDescription (driversOf env s)
            (defaultDeviceOption (driversOf env s)).currentValue ∧
      (firstDriverWithDescription (driversOf env s)
          (defaultDeviceOption (driversOf env s)).currentValue = none →
        initialize_internal env s
          = (Except.error Exception.InvalidParametersException, s1)) ∧
      (∀ driver, firstDriverWithDescription (driversOf env s)
          (defaultDeviceOption (driversOf env s)).currentValue = some driver →
        initialize_internal env s
          = env.superInitialize { s1 with mDriverVersion := driver.DriverVersion }) := by
  obtain ⟨s1, h1, e1⟩ := initConfigOptions_selection env
    { s with mpD3D := env.direct3DCreate9 }
  have ed : s1.mDriverList.getD env.enumeratedDrivers = driversOf env s :=
    congrArg Prod.fst e1
  have eo : findOption s1.mOptions "Rendering Device"
      = some (defaultDeviceOption (driversOf env s)) := congrArg Prod.snd e1
  unfold initialize_internal
  rw [rsm_bind_apply, THROW_IF_NOT_RENDER_THREAD_ok env hT]
  simp only []
  rw [rsm_bind_apply, modifyRS_apply]
  simp only []
  rw [if_neg (by rw [hD3D]; decide)]
  rw [rsm_bind_apply, h1]
  simp only [rsm_bind_apply, modifyRS_apply, getRS_apply, getDirect3DDrivers_apply, driversOf,
    ed, eo, Option.getD_some]
  refine ⟨{ s1 with
      mTexStageDesc := fun n =>
        if n < env.CM_MAX_TEXTURE_LAYERS then
          { coordIndex := 0, texType := eD3DTexType.D3D_TEX_TYPE_NORMAL, pTex := 0,
            pVertexTex := 0 }
        else s1.mTexStageDesc n,
      mLastVertexSourceCount := 0,
      mDriverList := some (s.mDriverList.getD env.enumeratedDrivers),
      mActiveD3DDriver := firstDriverWithDescription (s.mDriverList.getD env.enumeratedDrivers)
        (defaultDeviceOption (s.mDriverList.getD env.enumeratedDrivers)).currentValue,
      mFSAAHint := "", mFSAASamples := 0 }, eo, rfl, rfl, fun h => ?_, fun driver h => ?_⟩
  · rw [h]
    rfl
  · rw [h]
    rfl

theorem firstDriverWithDescription_none (drivers : List D3D9Driver) (value : String) :
    firstDriverWithDescription drivers value = none
      ↔ ∀ d ∈ drivers, d.DriverDescription ≠ value := by
  induction drivers with
  | nil => simp [firstDriverWithDescription]
  | cons d rest ih =>
    unfold firstDriverWithDescription
    by_cases h : d.DriverDescription = value
    · simp [h]
    · simp [h, ih]

theorem firstDriverWithDescription_some (drivers : List D3D9Driver) (value : String)
    (driver : D3D9Driver) (h : firstDriverWithDescription drivers value = some driver) :
    driver.DriverDescription = value ∧
    ∃ before after, drivers = before ++ driver :: after ∧
      ∀ d ∈ before, d.DriverDescription ≠ value := by
  induction drivers with
  | nil => cases h
  | cons d rest ih =>
    unfold firstDriverWithDescription at h
    by_cases hd : d.DriverDescription = value
    · rw [if_pos hd] at h
      cases h
      exact ⟨hd, [], rest, rfl, fun x hx => by cases hx⟩
    · rw [if_neg hd] at h
      obtain ⟨h1, before, after, h2, h3⟩ := ih h
      refine ⟨h1, d :: before, after, by rw [h2]; rfl, fun x hx => ?_⟩
      rcases List.mem_cons.mp hx with rfl | hx
      · exact hd
      · exact h3 x hx

theorem defaultDeviceOption_currentValue (drivers : List D3D9Driver) :
    (defaultDeviceOption drivers).currentValue
      = ((drivers.head?).map (fun d => d.DriverDescription)).getD "" := by
  unfold defaultDeviceOption
  rw [deviceOptionLoop_currentValue, if_pos rfl]

/-- C20: on the render thread, once the Direct3D object is created, and with a
base-class initialisation that does not itself raise `InvalidParametersException`:
`initialize_internal` looks up, in the driver list, the current value of the option
"Rendering Device"; it raises `InvalidParametersException` if and only if no driver
of the list has that description; otherwise the active driver is the first
driver of the list with that description, and the base class is initialised
with it.  The value looked up is the one `initConfigOptions` has just set, the
description of driver 0, so whenever the list has a driver the active driver
is driver 0. -/
theorem initialize_internal_active_driver (env : Env σ) (hT : env.threadOk)
    (hD3D : env.direct3DCreate9 = true)
    (hsuper : ∀ st, (env.superInitialize st).1
      ≠ Except.error Exception.InvalidParametersException) (s : RS σ) :
    ∃ (s1 : RS σ) (opt : ConfigOption),
      findOption s1.mOptions "Rendering Device" = some opt ∧
      s1.mDriverList = some (driversOf env s) ∧
      ((initialize_internal env s).1 = Except.error Exception.InvalidParametersException
        ↔ ∀ d ∈ driversOf env s, d.DriverDescription ≠ opt.currentValue) ∧
      (∀ driver, firstDriverWithDescription (driversOf env s) opt.currentValue = some driver →
        s1.mActiveD3DDriver = some driver ∧
        initialize_internal env s
          = env.superInitialize { s1 with mDriverVersion := driver.DriverVersion } ∧
        driver.DriverDescription = opt.currentValue ∧
        ∃ before after, driversOf env s = before ++ driver :: after ∧
          ∀ d ∈ before, d.DriverDescription ≠ opt.currentValue) ∧
      (∀ driver0 rest, driversOf env s = driver0 :: rest →
        opt.currentValue = driver0.DriverDescription ∧
        s1.mActiveD3DDriver = some driver0 ∧
        initialize_internal env s
          = env.superInitialize { s1 with mDriverVersion := driver0.DriverVersion }) := by
  obtain ⟨s1, h1, h2, h3, h4, h5⟩ := initialize_internal_apply env hT hD3D s
  refine ⟨s1, defaultDeviceOption (driversOf env s), h1, h2, ?_, fun driver hdrv => ?_,
    fun driver0 rest hlist => ?_⟩
  · rw [← firstDriverWithDescription_none]
    constructor
    · intro hraise
      cases hfirst : firstDriverWithDescription (driversOf env s)
          (defaultDeviceOption (driversOf env s)).currentValue with
      | none => rfl
      | some d =>
        rw [h5 d hfirst] at hraise
        exact absurd hraise (hsuper _)
    · intro hnone
      rw [h4 hnone]
  · obtain ⟨a, b⟩ := firstDriverWithDescription_some _ _ _ hdrv
    exact ⟨h3.trans hdrv, h5 driver hdrv, a, b⟩
  · have hv : (defaultDeviceOption (driversOf env s)).currentValue
        = driver0.DriverDescription := by
      rw [defaultDeviceOption_currentValue, hlist]
      rfl
    have hfirst : firstDriverWithDescription (driversOf env s)
        (defaultDeviceOption (driversOf env s)).currentValue = some driver0 := by
      rw [hv, hlist]
      unfold firstDriverWithDescription
      rw [if_pos rfl]
    exact ⟨hv, h3.trans hfirst, h5 driver0 hfirst⟩

theorem initialize_internal_active_driver_witness :
    adaptersEnv.threadOk ∧ adaptersEnv.direct3DCreate9 = true ∧
    driversOf adaptersEnv simInit = [adapterA, adapterB] ∧
    (initialize_internal adaptersEnv simInit).1 = Except.ok () ∧
    (initialize_internal adaptersEnv simInit).2.mActiveD3DDriver = some adapterA ∧
    driversOf simEnv simInit = [] ∧
    (initialize_internal simEnv simInit).1
      = Except.error Exception.InvalidParametersException ∧
    ∃ (s1 : RS SimState) (opt : ConfigOption),
      findOption s1.mOptions "Rendering Device" = some opt ∧
      opt.currentValue = adapterA.DriverDescription ∧
      s1.mActiveD3DDriver = some adapterA ∧
      initialize_internal adaptersEnv simInit
        = adaptersEnv.superInitialize { s1 with mDriverVersion := adapterA.DriverVersion } := by
  have hsuper : ∀ st : RS SimState, (adaptersEnv.superInitialize st).1
      ≠ Except.error Exception.InvalidParametersException := fun st h => by cases h
  obtain ⟨s1, opt, h1, -, -, -, h5⟩ :=
    initialize_internal_active_driver adaptersEnv (by decide) rfl hsuper simInit
  have h := h5 adapterA [adapterB] rfl
  have hrun := h.2.2
  refine ⟨by decide, rfl, rfl, ?_, ?_, rfl, ?_, s1, opt, h1, h.1, h.2.1, hrun⟩
  · rw [hrun]; rfl
  · rw [hrun]; exact h.2.1
  · have hsuper2 : ∀ st : RS SimState, (simEnv.superInitialize st).1
        ≠ Except.error Exception.InvalidParametersException := fun st h => by cases h
    obtain ⟨s2, opt2, -, -, h3, -, -⟩ :=
      initialize_internal_active_driver simEnv (by decide) rfl hsuper2 simInit
    exact h3.mpr (fun d hd => by cases hd)

/-! ## The visibility of a Mono field -/

/-- A test `flags & k` against a constant below 8 reads the access bits only. -/
theorem land_accessBits (flags k : Nat) (hk : k < 8) :
    flags &&& k = accessBits flags &&& k := by
  unfold accessBits
  rw [Nat.and_assoc]
  congr 1
  interval_cases k <;> rfl

theorem accessBits_lt (flags : Nat) : accessBits flags < 8 := by
  unfold accessBits
  exact lt_of_le_of_lt Nat.and_le_right (by norm_num)

/-- C23, as the code has it: `MonoField::getVisibility` tests the flags bit by bit
against the Mono constants instead of comparing the access bits with them.
Whatever the other bits of the flags are, the result is decided by the access
bits alone: `Private` for the odd values 1, 3, 5 and 7, `ProtectedInternal`
for 2 and 6, `Protected` for 4, and the failed assertion (or `Private` in a
build without assertions) for 0.  So the levels 0x1, 0x2 and 0x4 are reported
`Private`, `ProtectedInternal` and `Protected`, while a field whose access bits are
`MONO_FIELD_ATTR_ASSEMBLY` (0x3) is reported `Private` and a field whose access
bits are `MONO_FIELD_ATTR_PUBLIC` (0x6) is reported `ProtectedInternal`; no
flags at all yield `Internal` or `Public`. -/
theorem getVisibility_bit_tests (NDEBUG : Bool) (flags : Nat) :
    MonoField.getVisibility monoFieldAttributes NDEBUG flags =
      (if accessBits flags = 1 ∨ accessBits flags = 3 ∨ accessBits flags = 5 ∨
          accessBits flags = 7 then some MonoFieldVisibility.Private
       else if accessBits flags = 2 ∨ accessBits flags = 6 then
         some MonoFieldVisibility.ProtectedInternal
       else if accessBits flags = 4 then some MonoFieldVisibility.Protected
       else if NDEBUG then some MonoFieldVisibility.Private
       else none) ∧
    MonoField.getVisibility monoFieldAttributes NDEBUG flags ≠ some MonoFieldVisibility.Internal ∧
    MonoField.getVisibility monoFieldAttributes NDEBUG flags ≠ some MonoFieldVisibility.Public ∧
    accessBits 0x3 = monoFieldAttributes.MONO_FIELD_ATTR_ASSEMBLY ∧
    MonoField.getVisibility monoFieldAttributes NDEBUG 0x3 = some MonoFieldVisibility.Private ∧
    accessBits 0x6 = monoFieldAttributes.MONO_FIELD_ATTR_PUBLIC ∧
    MonoField.getVisibility monoFieldAttributes NDEBUG 0x6
      = some MonoFieldVisibility.ProtectedInternal := by
  have key : ∀ a : Nat, a < 8 → ∀ f : Nat, accessBits f = a →
      MonoField.getVisibility monoFieldAttributes NDEBUG f =
      (if a = 1 ∨ a = 3 ∨ a = 5 ∨ a = 7 then some MonoFieldVisibility.Private
       else if a = 2 ∨ a = 6 then some MonoFieldVisibility.ProtectedInternal
       else if a = 4 then some MonoFieldVisibility.Protected
       else if NDEBUG then some MonoFieldVisibility.Private
       else none) := by
    intro a ha f hf
    unfold MonoField.getVisibility monoFieldAttributes
    simp only []
    rw [land_accessBits f 1 (by norm_num), land_accessBits f 2 (by norm_num),
      land_accessBits f 3 (by norm_num), land_accessBits f 4 (by norm_num),
      land_accessBits f 6 (by norm_num), hf]
    interval_cases a <;> cases NDEBUG <;> rfl
  have h := key (accessBits flags) (accessBits_lt flags) flags rfl
  refine ⟨h, ?_, ?_, rfl, ?_, rfl, ?_⟩
  · rw [h]; split
    · simp
    · split
      · simp
      · split
        · simp
        · cases NDEBUG <;> simp
  · rw [h]; split
    · simp
    · split
      · simp
      · split
        · simp
        · cases NDEBUG <;> simp
  · cases NDEBUG <;> rfl
  · cases NDEBUG <;> rfl

/-! ## The vertex buffer descriptor and its core -/

/-- C22, counterexample: a descriptor of 65536 vertices of 65536 bytes asks for a
core with these values, and the core built from them has size 0, not
`65536 * 65536`. -/
theorem VertexBuffer_createCore_size_overflow :
    (VertexBuffer.createCore VertexBufferCore.new
        (VertexBuffer.new 65536 65536 GpuBufferUsage.GBU_STATIC false)).mSizeInBytes = 0 ∧
    (VertexBuffer.new 65536 65536 GpuBufferUsage.GBU_STATIC false).mProperties.mVertexSize *
      (VertexBuffer.new 65536 65536 GpuBufferUsage.GBU_STATIC false).mProperties.mNumVertices
      = 4294967296 := by
  constructor <;> decide

/-- C22, as the code has it: a `VertexBuffer` descriptor constructed with
`(vertexSize, numVerts, usage, streamOut)` records `vertexSize` as its vertex
size and `numVerts` as its vertex count, together with the usage and the
stream-out flag; `createCore` hands exactly these four values, in the order
`(vertexSize, numVerts, usage, streamOut)`, to whatever creates the core; and a
core constructed from them by `VertexBufferCore` records the same vertex size
and count and has `sizeInBytes` equal to `vertexSize * numVerts` reduced modulo
`2^32`, the product being a `UINT32` product. -/
theorem VertexBuffer_createCore_values (vertexSize numVerts : Nat) (usage : GpuBufferUsage)
    (streamOut : Bool) :
    (VertexBuffer.new vertexSize numVerts usage streamOut).mProperties.mVertexSize = vertexSize ∧
    (VertexBuffer.new vertexSize numVerts usage streamOut).mProperties.mNumVertices = numVerts ∧
    (VertexBuffer.new vertexSize numVerts usage streamOut).mUsage = usage ∧
    (VertexBuffer.new vertexSize numVerts usage streamOut).mStreamOut = streamOut ∧
    (∀ (α : Type) (createVertexBuffer : Nat → Nat → GpuBufferUsage → Bool → α),
      VertexBuffer.createCore createVertexBuffer
          (VertexBuffer.new vertexSize numVerts usage streamOut)
        = createVertexBuffer vertexSize numVerts usage streamOut) ∧
    (VertexBuffer.createCore VertexBufferCore.new
        (VertexBuffer.new vertexSize numVerts usage streamOut)).mProperties
      = (VertexBuffer.new vertexSize numVerts usage streamOut).mProperties ∧
    (VertexBuffer.createCore VertexBufferCore.new
        (VertexBuffer.new vertexSize numVerts usage streamOut)).mSizeInBytes
      = (vertexSize * numVerts) % 2 ^ 32 :=
  ⟨rfl, rfl, rfl, rfl, fun _ _ => rfl, rfl, rfl⟩

/-! ## Pixel shader profiles by version -/

/-- Membership in the profiles after `pixelShaderProfiles`, condition by condition. -/
theorem mem_pixelShaderProfiles_iff (major minor : Nat) (minPSCaps : D3DCAPS9)
    (rsc : RenderSystemCapabilities) (p : String) :
    p ∈ (pixelShaderProfiles major minor minPSCaps rsc).shaderProfiles ↔
      (((major = 3 ∨ major = 2 ∨ major = 1) ∧ p = "ps_1_1") ∨
       (((major = 3 ∨ major = 2 ∨ major = 1) ∧ (major > 1 ∨ minor ≥ 2)) ∧ p = "ps_1_2") ∨
       (((major = 3 ∨ major = 2 ∨ major = 1) ∧ (major > 1 ∨ minor ≥ 3)) ∧ p = "ps_1_3") ∨
       (((major = 3 ∨ major = 2 ∨ major = 1) ∧ (major > 1 ∨ minor ≥ 4)) ∧ p = "ps_1_4") ∨
       ((major = 3 ∨ major = 2) ∧ p = "ps_2_0") ∨
       (((major = 3 ∨ major = 2) ∧ (major ≥ 2 ∧ ps2bCaps minPSCaps = true)) ∧ p = "ps_2_b") ∨
       (((major = 3 ∨ major = 2) ∧ (major ≥ 2 ∧ ps2aCaps minPSCaps = true)) ∧ p = "ps_2_a") ∨
       (((major = 3 ∨ major = 2) ∧ ((major ≥ 2 ∧ ps2aCaps minPSCaps = true) ∨
          (major ≥ 2 ∧ ps2bCaps minPSCaps = true))) ∧ p = "ps_2_x") ∨
       (major = 3 ∧ p = "ps_3_0") ∨
       ((major = 3 ∧ minor > 0) ∧ p = "ps_3_x") ∨
       p ∈ rsc.shaderProfiles) := by
  unfold pixelShaderProfiles
  simp only [shaderProfiles_setCapabilityWhen, mem_addProfileWhen]
  have hbase : ∀ q, q ∈ (if major = 1 then
        ((rsc.setFragmentProgramConstantBoolCount 0).setFragmentProgramConstantIntCount
          0).setFragmentProgramConstantFloatCount 8
      else if major = 2 then
        ((rsc.setFragmentProgramConstantBoolCount 16).setFragmentProgramConstantIntCount
          16).setFragmentProgramConstantFloatCount 32
      else if major = 3 then
        ((rsc.setFragmentProgramConstantBoolCount 16).setFragmentProgramConstantIntCount
          16).setFragmentProgramConstantFloatCount 224
      else rsc).shaderProfiles ↔ q ∈ rsc.shaderProfiles := by
    intro q
    split
    · exact Iff.rfl
    · split
      · exact Iff.rfl
      · split <;> exact Iff.rfl
  rw [hbase]
  unfold ps2aCaps ps2bCaps
  simp only [Bool.and_eq_true, Bool.or_eq_true, decide_eq_true_eq]


/-- The conditions of the second `switch` of `convertPixelShaderCaps`, for a major version
of 1, 2 or 3, are the expected ones. -/
theorem pixelProfileExpected_iff (major minor : Nat) (a b : Bool) (p : String) (R : Prop)
    (hm : major = 1 ∨ major = 2 ∨ major = 3) :
      (((major = 3 ∨ major = 2 ∨ major = 1) ∧ p = "ps_1_1") ∨
       (((major = 3 ∨ major = 2 ∨ major = 1) ∧ (major > 1 ∨ minor ≥ 2)) ∧ p = "ps_1_2") ∨
       (((major = 3 ∨ major = 2 ∨ major = 1) ∧ (major > 1 ∨ minor ≥ 3)) ∧ p = "ps_1_3") ∨
       (((major = 3 ∨ major = 2 ∨ major = 1) ∧ (major > 1 ∨ minor ≥ 4)) ∧ p = "ps_1_4") ∨
       ((major = 3 ∨ major = 2) ∧ p = "ps_2_0") ∨
       (((major = 3 ∨ major = 2) ∧ (major ≥ 2 ∧ b = true)) ∧ p = "ps_2_b") ∨
       (((major = 3 ∨ major = 2) ∧ (major ≥ 2 ∧ a = true)) ∧ p = "ps_2_a") ∨
       (((major = 3 ∨ major = 2) ∧ ((major ≥ 2 ∧ a = true) ∨
          (major ≥ 2 ∧ b = true))) ∧ p = "ps_2_x") ∨
       (major = 3 ∧ p = "ps_3_0") ∨
       ((major = 3 ∧ minor > 0) ∧ p = "ps_3_x") ∨
       R) ↔ (R ∨ pixelProfileExpected major minor a b p = true) := by
  unfold pixelProfileExpected
  simp only [Bool.or_eq_true, Bool.and_eq_true, decide_eq_true_eq]
  have e32 : (major = 3 ∨ major = 2) ↔ major ≥ 2 := by omega
  have e321 : (major = 3 ∨ major = 2 ∨ major = 1) ↔ True := by
    simp only [iff_true]; omega
  rw [e32, e321]
  simp only [true_and, and_self]
  constructor
  · rintro (h | h | h | h | h | h | h | h | h | h | h)
    · exact Or.inr (by simp [h])
    · exact Or.inr (by simp [h])
    · exact Or.inr (by simp [h])
    · exact Or.inr (by simp [h])
    · exact Or.inr (by simp [h])
    · exact Or.inr (by simp [h])
    · exact Or.inr (by simp [h])
    · obtain ⟨⟨h1, h2⟩, h3⟩ := h
      rcases h2 with h2 | h2 <;> exact Or.inr (by simp [h1, h2, h3])
    · exact Or.inr (by simp [h])
    · exact Or.inr (by simp [h])
    · exact Or.inl h
  · rintro (h | h)
    · simp [h]
    · rcases h with ((((((((h | h) | h) | h) | h) | h) | h) | h) | h) | h
      all_goals simp [h]


theorem floatCount_addProfileWhen (rsc : RenderSystemCapabilities) (b : Bool)
    (gpp : GpuProgramProfile) (name : String) :
    (rsc.addProfileWhen b gpp name).fragmentProgramConstantFloatCount
      = rsc.fragmentProgramConstantFloatCount := by
  cases b <;> rfl

theorem floatCount_setCapabilityWhen (rsc : RenderSystemCapabilities) (b : Bool)
    (c : Capabilities) :
    (rsc.setCapabilityWhen b c).fragmentProgramConstantFloatCount
      = rsc.fragmentProgramConstantFloatCount := by
  unfold RenderSystemCapabilities.setCapabilityWhen RenderSystemCapabilities.setCapability
  cases b <;> rfl

/-- C27: `convertPixelShaderCaps` populates the capabilities from the lowest
`(major, minor)` of the adapters and that adapter's caps, and what it populates
is a function of `major`, `minor` and the two capability tests `ps2a` and
`ps2b`.  For `major` one of 1, 2, 3 a profile is advertised afterwards exactly
when it was advertised before or is expected for the version (`ps_1_1` always;
`ps_1_2`, `ps_1_3`, `ps_1_4` iff `major > 1` or `minor` is at least 2, 3, 4;
`ps_2_0` iff `major ≥ 2`; `ps_2_a` iff `major ≥ 2` and `ps2a`; `ps_2_b` iff
`major ≥ 2` and `ps2b`; `ps_2_x` iff `major ≥ 2` and one of the two; `ps_3_0`
iff `major = 3`; `ps_3_x` iff `major = 3` and `minor > 0`),
`RSC_FRAGMENT_PROGRAM` is set, and the float constant count is 8, 32, 224 for
`major` 1, 2, 3.  For every other `major` the capabilities are returned as
they were: no profile is added and no capability is set. -/
theorem pixel_profiles_by_version (indeterminate : D3DCAPS9) (drivers : List D3D9Driver)
    (major minor : Nat) (minPSCaps : D3DCAPS9) (rsc : RenderSystemCapabilities) (p : String) :
    convertPixelShaderCaps indeterminate drivers rsc
      = pixelShaderProfiles
          (lowestShaderCaps (fun caps => caps.PixelShaderVersion) drivers
            (0xFF, 0xFF, indeterminate)).1
          (lowestShaderCaps (fun caps => caps.PixelShaderVersion) drivers
            (0xFF, 0xFF, indeterminate)).2.1
          (lowestShaderCaps (fun caps => caps.PixelShaderVersion) drivers
            (0xFF, 0xFF, indeterminate)).2.2 rsc ∧
    (if major = 1 ∨ major = 2 ∨ major = 3 then
      (p ∈ (pixelShaderProfiles major minor minPSCaps rsc).shaderProfiles ↔
        p ∈ rsc.shaderProfiles ∨
          pixelProfileExpected major minor (ps2aCaps minPSCaps) (ps2bCaps minPSCaps) p = true) ∧
      (pixelShaderProfiles major minor minPSCaps rsc).hasCapability
          Capabilities.RSC_FRAGMENT_PROGRAM = true ∧
      (pixelShaderProfiles major minor minPSCaps rsc).fragmentProgramConstantFloatCount
        = (if major = 1 then 8 else if major = 2 then 32 else 224)
    else pixelShaderProfiles major minor minPSCaps rsc = rsc) := by
  refine ⟨rfl, ?_⟩
  split
  · rename_i hm
    refine ⟨?_, ?_, ?_⟩
    · rw [mem_pixelShaderProfiles_iff]
      exact pixelProfileExpected_iff major minor _ _ p _ hm
    · unfold pixelShaderProfiles
      rw [hasCapability_setCapabilityWhen]
      have h : decide (major = 3 ∨ major = 2 ∨ major = 1) = true := by
        rw [decide_eq_true_eq]; omega
      rw [h]
      simp
    · unfold pixelShaderProfiles
      simp only [floatCount_setCapabilityWhen, floatCount_addProfileWhen]
      rcases hm with rfl | rfl | rfl <;> rfl
  · rename_i hm
    unfold pixelShaderProfiles
    have h1 : ¬ major = 1 := fun h => hm (Or.inl h)
    have h2 : ¬ major = 2 := fun h => hm (Or.inr (Or.inl h))
    have h3 : ¬ major = 3 := fun h => hm (Or.inr (Or.inr h))
    simp [h1, h2, h3, RenderSystemCapabilities.addProfileWhen,
      RenderSystemCapabilities.setCapabilityWhen]

/-! ## Clip planes -/

theorem unbindCalls_eq_map (count : Nat) : ∀ source : Nat, source + count ≤ UINT32_RANGE →
    unbindCalls source count
      = (List.range' source count).map (fun i => NativeCall.SetStreamSource i 0 0 0) := by
  induction count with
  | zero => intro source _; rfl
  | succ n ih =>
    intro source h
    have hc : castDWORD source = source := by
      unfold castDWORD; exact Nat.mod_eq_of_lt (by omega)
    rw [unbindCalls, List.range'_succ, List.map_cons, hc, ih (source + 1) (by omega)]

/-- A stream index below every key of the map is not a key. -/
theorem expectedStreamCall_below (binding : List (Nat × D3D9HardwareVertexBuffer)) (i : Nat)
    (h : ∀ b ∈ binding, b.1 ≠ i) :
    expectedStreamCall binding i = NativeCall.SetStreamSource i 0 0 0 := by
  unfold expectedStreamCall
  have hn : binding.find? (fun b => decide (b.1 = i)) = none := by
    rw [List.find?_eq_none]
    intro b hb
    simpa using h b hb
  rw [hn]

/-- The main loop of `setVertexBufferBinding` on a map with ascending keys: it ends one
past the last key and has issued the expected call for every index it passed. -/
theorem bindCalls_sorted (binding : List (Nat × D3D9HardwareVertexBuffer)) :
    ∀ source : Nat, binding.Pairwise (fun a b => a.1 < b.1) →
    (∀ b ∈ binding, source ≤ b.1 ∧ b.1 < UINT32_RANGE ∧ b.2.vertexSize < UINT32_RANGE) →
    (bindCalls binding source).2 = (if binding = [] then source else sourceCount binding) ∧
    source ≤ (bindCalls binding source).2 ∧
    (∀ b ∈ binding, b.1 < (bindCalls binding source).2) ∧
    (bindCalls binding source).1
      = (List.range' source ((bindCalls binding source).2 - source)).map
          (expectedStreamCall binding) := by
  induction binding with
  | nil => intro source _ _; simp [bindCalls]
  | cons x rest ih =>
    intro source hs hb
    obtain ⟨first, d3d9buf⟩ := x
    rw [List.pairwise_cons] at hs
    obtain ⟨hfirst, hrest⟩ := hs
    obtain ⟨h1, h2, h3⟩ := hb (first, d3d9buf) (List.mem_cons_self _ _)
    simp only [] at h1 h2 h3 hfirst
    have hmax : max source first = first := max_eq_right h1
    obtain ⟨i1, i2, i3, i4⟩ := ih (first + 1) hrest (fun b hb1 =>
      ⟨hfirst b hb1, (hb b (List.mem_cons_of_mem _ hb1)).2⟩)
    have hfin : (bindCalls ((first, d3d9buf) :: rest) source).2 = (bindCalls rest (first + 1)).2 := by
      simp [bindCalls, hmax]
    have hcalls : (bindCalls ((first, d3d9buf) :: rest) source).1
        = unbindCalls source (first - source) ++
          NativeCall.SetStreamSource (castDWORD first) d3d9buf.d3d9VertexBuffer 0
            (castDWORD d3d9buf.vertexSize) :: (bindCalls rest (first + 1)).1 := by
      simp [bindCalls, hmax]
    have hc1 : castDWORD first = first := by
      unfold castDWORD; exact Nat.mod_eq_of_lt h2
    have hc2 : castDWORD d3d9buf.vertexSize = d3d9buf.vertexSize := by
      unfold castDWORD; exact Nat.mod_eq_of_lt h3
    refine ⟨?_, ?_, ?_, ?_⟩
    · rw [hfin, i1]
      cases rest with
      | nil => simp [sourceCount]
      | cons y rest2 => simp [sourceCount, List.getLast?_cons_cons]
    · rw [hfin]; omega
    · intro b hb1
      rw [hfin]
      rcases List.mem_cons.mp hb1 with e | e
      · rw [e]; simp only []; omega
      · exact i3 b e
    · rw [hcalls, hfin, i4, hc1, hc2, unbindCalls_eq_map _ _ (by omega)]
      have hsplit : List.range' source ((bindCalls rest (first + 1)).2 - source)
          = List.range' source (first - source) ++
            (first :: List.range' (first + 1) ((bindCalls rest (first + 1)).2 - (first + 1))) := by
        rw [← List.range'_succ first _ 1]
        have e1 : first = source + (first - source) := by omega
        conv_rhs => rw [e1]
        rw [← e1]
        have e2 : List.range' first ((bindCalls rest (first + 1)).2 - (first + 1) + 1)
            = List.range' (source + (first - source))
                ((bindCalls rest (first + 1)).2 - (first + 1) + 1) := by rw [← e1]
        rw [e2, List.range'_append_1]
        congr 1
        omega
      rw [hsplit, List.map_append, List.map_cons]
      congr 1
      · apply List.map_congr_left
        intro i hi
        rw [List.mem_range'_1] at hi
        rw [expectedStreamCall_below]
        intro b hb1
        rcases List.mem_cons.mp hb1 with e | e
        · rw [e]; simp only []; omega
        · have := hfirst b e; omega
      · congr 1
        · unfold expectedStreamCall
          rw [List.find?_cons_of_pos _ (by simp)]
        · apply List.map_congr_left
          intro i hi
          rw [List.mem_range'_1] at hi
          unfold expectedStreamCall
          rw [List.find?_cons_of_neg _ (by simp; omega)]

/-- The calls of `setVertexBufferBinding` on a map with ascending keys are the expected
ones. -/
theorem streamCalls_sorted (binding : List (Nat × D3D9HardwareVertexBuffer)) (last : Nat)
    (hs : binding.Pairwise (fun a b => a.1 < b.1))
    (hb : ∀ b ∈ binding, b.1 < UINT32_RANGE ∧ b.2.vertexSize < UINT32_RANGE)
    (hlast : last ≤ UINT32_RANGE) :
    streamCalls binding last = expectedStreamCalls binding last ∧
    (bindCalls binding 0).2 = sourceCount binding := by
  obtain ⟨h1, -, h3, h4⟩ := bindCalls_sorted binding 0 hs (fun b hb1 => ⟨Nat.zero_le _, hb b hb1⟩)
  have hfin : (bindCalls binding 0).2 = sourceCount binding := by
    rw [h1]
    split
    · rename_i he; rw [he]; rfl
    · rfl
  have hle : sourceCount binding ≤ UINT32_RANGE := by
    unfold sourceCount
    cases hg : binding.getLast? with
    | none => exact Nat.zero_le _
    | some b =>
      obtain ⟨ys, hy⟩ := List.getLast?_eq_some_iff.mp hg
      have := (hb b (by rw [hy]; simp)).1
      simp only []
      omega
  refine ⟨?_, hfin⟩
  unfold streamCalls expectedStreamCalls
  rw [hfin] at h3 h4
  rw [h4, hfin, unbindCalls_eq_map _ _ (by omega), List.range_eq_range', Nat.sub_zero]
  have hsplit : List.range' 0 (max last (sourceCount binding))
      = List.range' 0 (sourceCount binding) ++
        List.range' (sourceCount binding) (last - sourceCount binding) := by
    have := List.range'_append_1 0 (sourceCount binding) (last - sourceCount binding)
    rw [Nat.zero_add] at this
    rw [this]
    congr 1
    omega
  rw [hsplit, List.map_append]
  congr 1
  apply List.map_congr_left
  intro i hi
  rw [List.mem_range'_1] at hi
  rw [expectedStreamCall_below]
  intro b hb1
  have := h3 b hb1
  omega

/-- C24: on the render thread, with a live device on which no native call fails,
for every binding map with ascending stream indices (indices and vertex sizes
being 32-bit values) and every previous source count `L` (at most `2^32`),
`setVertexBufferBinding` returns after exactly one `SetStreamSource` call for each
stream index below `max(L, lastKey + 1)`, in ascending order and for no other
index: for a key `k` the call binds the buffer of `k` to stream `k` with offset
0 and the buffer's vertex size as stride, for an index that is not a key it
sets the stream to `NULL`.  Afterwards `mLastVertexSourceCount` is
`lastKey + 1`, and 0 for the empty map. -/
theorem setVertexBufferBinding_streams (env : Env σ) (hT : env.threadOk) (hH : env.dev.healthy)
    (binding : List (Nat × D3D9HardwareVertexBuffer)) (s : RS σ) (hL : s.live)
    (hs : binding.Pairwise (fun a b => a.1 < b.1))
    (hb : ∀ b ∈ binding, b.1 < UINT32_RANGE ∧ b.2.vertexSize < UINT32_RANGE)
    (hlast : s.mLastVertexSourceCount ≤ UINT32_RANGE) :
    ∃ s1, setVertexBufferBinding env binding s = (Except.ok (), s1) ∧
      s1.trace = s.trace ++ expectedStreamCalls binding s.mLastVertexSourceCount ∧
      s1.mLastVertexSourceCount = sourceCount binding := by
  obtain ⟨e1, e2⟩ := streamCalls_sorted binding s.mLastVertexSourceCount hs hb hlast
  obtain ⟨s1, h1, t1, l1, m1⟩ := bindSources_run env hT hH binding 0 s hL
  obtain ⟨s2, h2, t2, l2, -⟩ := unbindSources_run env hT hH
    (s1.mLastVertexSourceCount - (bindCalls binding 0).2) (bindCalls binding 0).2 s1 l1
  refine ⟨{ s2 with mLastVertexSourceCount := (bindCalls binding 0).2 }, ?_, ?_, e2⟩
  · unfold setVertexBufferBinding
    simp [THROW_IF_NOT_RENDER_THREAD_ok env hT, h1, h2]
  · rw [← e1]
    simp only [t2, t1, m1, streamCalls, List.append_assoc]

theorem setVertexBufferBinding_streams_witness :
    simEnv.threadOk ∧ simEnv.dev.healthy ∧ simStreamed.live ∧
    simStreamed.mLastVertexSourceCount = 3 ∧
    (∃ s1, setVertexBufferBinding simEnv sampleBinding simStreamed = (Except.ok (), s1) ∧
      s1.trace = simStreamed.trace ++
        expectedStreamCalls sampleBinding simStreamed.mLastVertexSourceCount ∧
      s1.mLastVertexSourceCount = sourceCount sampleBinding) ∧
    expectedStreamCalls sampleBinding 3
      = [NativeCall.SetStreamSource 0 0 0 0, NativeCall.SetStreamSource 1 5 0 32,
         NativeCall.SetStreamSource 2 0 0 0, NativeCall.SetStreamSource 3 0 0 0,
         NativeCall.SetStreamSource 4 6 0 12] ∧
    sourceCount sampleBinding = 5 ∧
    (setVertexBufferBinding simEnv [] simStreamed).2.trace
      = [NativeCall.SetStreamSource 0 0 0 0, NativeCall.SetStreamSource 1 0 0 0,
         NativeCall.SetStreamSource 2 0 0 0] ∧
    (setVertexBufferBinding simEnv [] simStreamed).2.mLastVertexSourceCount = 0 :=
  ⟨by decide, simDevice_healthy, ⟨_, rfl⟩, rfl,
   setVertexBufferBinding_streams simEnv (by decide) simDevice_healthy sampleBinding simStreamed
     ⟨_, rfl⟩ (by decide) (by decide) (by decide),
   by decide, by decide, rfl, rfl⟩

/-! ## The anti-aliasing option -/

theorem fsaaValues_eq_flatMap (bOK : Nat → Bool) (count : Nat) : ∀ n : Nat,
    fsaaValues bOK n count = (List.range' n count).flatMap (fun n =>
      if bOK n then
        (if n ≥ 8 then [toString n, toString n ++ " [Quality]"] else [toString n])
      else []) := by
  induction count with
  | zero => intro n; rfl
  | succ c ih =>
    intro n
    rw [fsaaValues, List.range'_succ, List.flatMap_cons, ih (n + 1)]
    congr 1
    split
    · split <;> rfl
    · rfl

theorem expectedFSAAValues_none :
    expectedFSAAValues (fun _ => false) = ["0"] := by
  unfold expectedFSAAValues
  simp

theorem updateOption_updateOption (options : List (String × ConfigOption)) (name : String)
    (f g : ConfigOption → ConfigOption) :
    updateOption (updateOption options name f) name g
      = updateOption options name (fun o => g (f o)) := by
  unfold updateOption
  rw [List.map_map]
  apply List.map_congr_left
  intro x _
  simp only [Function.comp]
  split
  · rename_i h; simp [h]
  · rename_i h; simp [h]

theorem findOption_updateOption_same (options : List (String × ConfigOption)) (name : String)
    (g : ConfigOption → ConfigOption) :
    findOption (updateOption options name g) name = (findOption options name).map g := by
  unfold findOption updateOption
  induction options with
  | nil => rfl
  | cons x rest ih =>
    rw [List.map_cons]
    by_cases hx : x.1 = name
    · rw [if_pos hx, List.find?_cons_of_pos _ (by simp [hx]),
        List.find?_cons_of_pos _ (by simp [hx])]
      rfl
    · rw [if_neg hx, List.find?_cons_of_neg _ (by simp [hx]),
        List.find?_cons_of_neg _ (by simp [hx])]
      exact ih

/-- What `refreshFSAAOptions` does: it always returns, creates the driver list if there is
none, and leaves the options as they were except for the option "FSAA", which
becomes the expected one. -/
theorem refreshFSAAOptions_apply (env : Env σ) (s : RS σ) :
    refreshFSAAOptions env s
      = (Except.ok (),
         { s with mDriverList := some (driversOf env s),
                  mOptions := updateOption s.mOptions "FSAA"
                    (expectedFSAAOption (fsaaAccepted env s)) }) := by
  have hdev : ∀ g, findOption (updateOption s.mOptions "FSAA" g) "Rendering Device"
      = findOption s.mOptions "Rendering Device" :=
    fun g => findOption_updateOption _ _ g _ (by decide)
  have hmode : ∀ g, findOption (updateOption s.mOptions "FSAA" g) "Video Mode"
      = findOption s.mOptions "Video Mode" :=
    fun g => findOption_updateOption _ _ g _ (by decide)
  unfold refreshFSAAOptions modifyOptions
  simp only [rsm_bind_apply, modifyRS_apply, getRS_apply, getDirect3DDrivers_apply, hdev]
  have hd : ∀ o, driversOf env { s with mOptions := o } = driversOf env s := fun _ => rfl
  simp only [hd]
  unfold fsaaAccepted
  cases h1 : driverByDescription (driversOf env s)
      (((findOption s.mOptions "Rendering Device").map (fun o => o.currentValue)).getD "") with
  | none =>
    simp only [rsm_bind_apply, rsm_pure_apply, modifyRS_apply, updateOption_updateOption]
    congr 3
  | some driver =>
    simp only [rsm_bind_apply, getRS_apply, hmode]
    cases h2 : videoModeByDescription driver.videoModeList
        (((findOption s.mOptions "Video Mode").map (fun o => o.currentValue)).getD "") with
    | none =>
      simp only [rsm_bind_apply, rsm_pure_apply, modifyRS_apply, updateOption_updateOption]
      congr 3
    | some videoMode =>
      simp only [rsm_bind_apply, rsm_pure_apply, modifyRS_apply, updateOption_updateOption]
      congr 3


/-- The strings of the sample counts are not the initial default "None". -/
theorem none_not_mem_expectedFSAAValues (accepted : Nat → Bool) :
    "None" ∉ expectedFSAAValues accepted := by
  unfold expectedFSAAValues
  intro h
  rw [List.mem_cons] at h
  rcases h with h | h
  · exact absurd h (by decide)
  · rw [List.mem_flatMap] at h
    obtain ⟨n, hn, hmem⟩ := h
    rw [List.mem_range'_1] at hn
    obtain ⟨h2, h25⟩ := hn
    split at hmem
    · interval_cases n <;> revert hmem <;> decide
    · simp at hmem

/-- A " [Quality]" entry among the expected values belongs to an accepted sample
count of at least 8. -/
theorem quality_mem_expectedFSAAValues (accepted : Nat → Bool) (n : Nat) (h2 : 2 ≤ n)
    (h25 : n < 25) (h : toString n ++ " [Quality]" ∈ expectedFSAAValues accepted) :
    8 ≤ n ∧ accepted n = true := by
  unfold expectedFSAAValues at h
  rw [List.mem_cons] at h
  rcases h with h | h
  · exfalso; revert h; interval_cases n <;> decide
  · rw [List.mem_flatMap] at h
    obtain ⟨m, hm, hmem⟩ := h
    rw [List.mem_range'_1] at hm
    obtain ⟨m2, m25⟩ := hm
    by_cases ha : accepted m = true
    · rw [if_pos ha] at hmem
      have hnm : n = m ∧ 8 ≤ m := by
        clear ha
        revert hmem
        interval_cases n <;> interval_cases m <;> decide
      rw [hnm.1]
      exact ⟨hnm.2, ha⟩
    · rw [if_neg ha] at hmem
      simp at hmem

/-- C21: whenever the option "FSAA" exists, `refreshFSAAOptions` returns and leaves its
possible values as "0" followed, for `n` ascending from 2 to 24, by the string
of `n` for exactly those `n` the selected adapter accepts for the selected
video mode, each `n ≥ 8` immediately followed by the string of `n` with
" [Quality]" appended; so no " [Quality]" entry exists for an `n` below 8 or
for an `n` that is not accepted.  When the options select no driver or no
video mode, nothing is asked and the list is just "0". -/
theorem refreshFSAAOptions_possibleValues (env : Env σ) (s : RS σ) (optFSAA : ConfigOption)
    (h : findOption s.mOptions "FSAA" = some optFSAA) :
    ∃ s1 opt1, refreshFSAAOptions env s = (Except.ok (), s1) ∧
      findOption s1.mOptions "FSAA" = some opt1 ∧
      opt1.possibleValues = expectedFSAAValues (fsaaAccepted env s) ∧
      (∀ n, 2 ≤ n → n < 25 → toString n ++ " [Quality]" ∈ opt1.possibleValues →
        8 ≤ n ∧ fsaaAccepted env s n = true) := by
  have hp : (expectedFSAAOption (fsaaAccepted env s) optFSAA).possibleValues
      = expectedFSAAValues (fsaaAccepted env s) := by
    unfold expectedFSAAOption
    split <;> rfl
  refine ⟨_, expectedFSAAOption (fsaaAccepted env s) optFSAA, refreshFSAAOptions_apply env s,
    ?_, hp, ?_⟩
  · simp only [findOption_updateOption_same, h, Option.map_some']
  · intro n h2 h25 hmem
    rw [hp] at hmem
    exact quality_mem_expectedFSAAValues _ n h2 h25 hmem

theorem refreshFSAAOptions_possibleValues_witness :
    findOption simOptions.mOptions "FSAA"
      = some { name := "FSAA", possibleValues := ["None"], currentValue := "None" } ∧
    (∃ s1 opt1, refreshFSAAOptions fsaaEnv simOptions = (Except.ok (), s1) ∧
      findOption s1.mOptions "FSAA" = some opt1 ∧
      opt1.possibleValues = expectedFSAAValues (fsaaAccepted fsaaEnv simOptions) ∧
      (∀ n, 2 ≤ n → n < 25 → toString n ++ " [Quality]" ∈ opt1.possibleValues →
        8 ≤ n ∧ fsaaAccepted fsaaEnv simOptions n = true)) ∧
    expectedFSAAValues (fsaaAccepted fsaaEnv simOptions) = ["0", "2", "4", "8", "8 [Quality]"] ∧
    (findOption (refreshFSAAOptions fsaaEnv simOptions).2.mOptions "FSAA").map
        (fun o => o.possibleValues)
      = some ["0", "2", "4", "8", "8 [Quality]"] :=
  ⟨rfl, refreshFSAAOptions_possibleValues fsaaEnv simOptions _ rfl, by decide, by decide⟩

/-- C30: whenever the option "FSAA" exists, `refreshFSAAOptions` returns and leaves it with
possible values that start with "0" (so the list is not empty) and with a
current value that is one of the possible values: the previous current value
when that is among the new possible values, and "0" otherwise.  The initial
default "None" of `initConfigOptions` is never a possible value, so it becomes "0". -/
theorem refreshFSAAOptions_currentValue (env : Env σ) (s : RS σ) (optFSAA : ConfigOption)
    (h : findOption s.mOptions "FSAA" = some optFSAA) :
    ∃ s1 opt1, refreshFSAAOptions env s = (Except.ok (), s1) ∧
      findOption s1.mOptions "FSAA" = some opt1 ∧
      opt1.possibleValues.head? = some "0" ∧
      opt1.currentValue
        = (if optFSAA.currentValue ∈ opt1.possibleValues then optFSAA.currentValue else "0") ∧
      opt1.currentValue ∈ opt1.possibleValues ∧
      (optFSAA.currentValue = "None" → opt1.currentValue = "0") := by
  have hp : (expectedFSAAOption (fsaaAccepted env s) optFSAA).possibleValues
      = expectedFSAAValues (fsaaAccepted env s) := by
    unfold expectedFSAAOption
    split <;> rfl
  have hc : (expectedFSAAOption (fsaaAccepted env s) optFSAA).currentValue
      = (if optFSAA.currentValue ∈ expectedFSAAValues (fsaaAccepted env s) then
          optFSAA.currentValue else "0") := by
    unfold expectedFSAAOption
    split <;> rfl
  have h0 : "0" ∈ expectedFSAAValues (fsaaAccepted env s) := by
    unfold expectedFSAAValues
    exact List.mem_cons_self _ _
  refine ⟨_, expectedFSAAOption (fsaaAccepted env s) optFSAA, refreshFSAAOptions_apply env s,
    ?_, ?_, ?_, ?_, ?_⟩
  · simp only [findOption_updateOption_same, h, Option.map_some']
  · rw [hp]; rfl
  · rw [hc, hp]
  · rw [hc, hp]
    split
    · assumption
    · exact h0
  · intro hn
    rw [hc, hn, if_neg (none_not_mem_expectedFSAAValues _)]

theorem refreshFSAAOptions_currentValue_witness :
    findOption simOptions.mOptions "FSAA"
      = some { name := "FSAA", possibleValues := ["None"], currentValue := "None" } ∧
    (∃ s1 opt1, refreshFSAAOptions fsaaEnv simOptions = (Except.ok (), s1) ∧
      findOption s1.mOptions "FSAA" = some opt1 ∧
      opt1.possibleValues.head? = some "0" ∧
      opt1.currentValue = (if "None" ∈ opt1.possibleValues then "None" else "0") ∧
      opt1.currentValue ∈ opt1.possibleValues ∧
      ("None" = "None" → opt1.currentValue = "0")) ∧
    findOption (refreshFSAAOptions fsaaEnv simOptions).2.mOptions "FSAA"
      = some { name := "FSAA", possibleValues := ["0", "2", "4", "8", "8 [Quality]"],
               currentValue := "0" } ∧
    (findOption (refreshFSAAOptions fsaaEnv
        (refreshFSAAOptions fsaaEnv
          { simOptions with
              mOptions := updateOption simOptions.mOptions "FSAA"
                (fun o => { o with currentValue := "4" }) }).2).2.mOptions "FSAA").map
        (fun o => o.currentValue)
      = some "4" ∧
    (findOption (initConfigOptions fsaaEnv simInit).2.mOptions "FSAA").map
        (fun o => (o.possibleValues.head?, o.currentValue))
      = some (some "0", "0") :=
  ⟨rfl, refreshFSAAOptions_currentValue fsaaEnv simOptions _ rfl, by decide, by decide, by decide⟩

/-! ## The multisampling settings -/

theorem fsaaRounds_pos (fsaa : Nat) (qualityHint tryCSAA : Bool)
    (h : tryCSAA = true → 8 ≤ fsaa) : 1 ≤ fsaaRounds fsaa qualityHint tryCSAA := by
  unfold fsaaRounds
  cases tryCSAA with
  | true => have := h rfl; simp only [if_true]; omega
  | false => simp only [Bool.false_eq_true, if_false]; omega

theorem fsaaRounds_le (fsaa : Nat) (qualityHint tryCSAA : Bool) (h : fsaa < UINT32_RANGE) :
    fsaaRounds fsaa qualityHint tryCSAA ≤ 3 * UINT32_RANGE := by
  unfold fsaaRounds UINT32_RANGE
  unfold UINT32_RANGE at h
  cases tryCSAA <;> cases qualityHint <;> simp only [if_true, Bool.false_eq_true, if_false] <;>
    omega

theorem fsaaRounds_drop_quality (origFSAA : Nat) (h : origFSAA < 4294967296) :
    fsaaRounds origFSAA false true < fsaaRounds 8 true true := by
  unfold fsaaRounds UINT32_RANGE
  simp only [if_true, Bool.false_eq_true, if_false]
  omega

theorem fsaaRounds_drop_csaa (origFSAA : Nat) :
    fsaaRounds origFSAA false false < fsaaRounds 8 false true := by
  unfold fsaaRounds UINT32_RANGE
  simp only [if_true, Bool.false_eq_true, if_false]
  omega

theorem dwordSub_one (fsaa : Nat) :
    dwordSub fsaa 1 = (fsaa + 4294967295) % 4294967296 := by
  unfold dwordSub UINT32_RANGE
  omega

theorem fsaaRounds_drop_sample (fsaa : Nat) (qualityHint tryCSAA : Bool)
    (h : fsaa < UINT32_RANGE) (hinv : tryCSAA = true → 8 ≤ fsaa)
    (h8 : ¬ (tryCSAA = true ∧ fsaa = 8)) (h1 : dwordSub fsaa 1 ≠ 1) :
    fsaaRounds (dwordSub fsaa 1) qualityHint tryCSAA < fsaaRounds fsaa qualityHint tryCSAA ∧
    dwordSub fsaa 1 < UINT32_RANGE ∧ (tryCSAA = true → 8 ≤ dwordSub fsaa 1) := by
  rw [dwordSub_one fsaa] at h1 ⊢
  unfold fsaaRounds UINT32_RANGE
  unfold UINT32_RANGE at h
  cases tryCSAA with
  | true =>
    have := hinv rfl
    have hne : fsaa ≠ 8 := fun e => h8 ⟨rfl, e⟩
    cases qualityHint <;> simp only [if_true, Bool.false_eq_true, if_false] <;>
      refine ⟨?_, ?_, fun _ => ?_⟩ <;> omega
  | false =>
    simp only [Bool.false_eq_true, if_false]
    refine ⟨?_, ?_, fun h => absurd h (by decide)⟩ <;> omega

/-- One round of the loop of `determineFSAASettings`. -/
theorem determineFSAASettingsLoop_succ (check : Nat → Nat → Int × Nat) (origFSAA fuel calls : Nat)
    (fsaa : Nat) (qualityHint tryCSAA : Bool) (out : Nat × Nat) :
    determineFSAASettingsLoop check origFSAA (fuel + 1) calls fsaa qualityHint tryCSAA out =
      if SUCCEEDED (check calls (fsaaCandidate tryCSAA qualityHint fsaa out).1).1 = true ∧
          (tryCSAA = false ∨ (check calls (fsaaCandidate tryCSAA qualityHint fsaa out).1).2 >
            (fsaaCandidate tryCSAA qualityHint fsaa out).2) then
        some (fsaaCandidate tryCSAA qualityHint fsaa out)
      else if tryCSAA = true ∧ fsaa = 8 then
        if qualityHint = true then
          determineFSAASettingsLoop check origFSAA fuel (calls + 1) origFSAA false tryCSAA
            (fsaaCandidate tryCSAA qualityHint fsaa out)
        else
          determineFSAASettingsLoop check origFSAA fuel (calls + 1) origFSAA qualityHint false
            (fsaaCandidate tryCSAA qualityHint fsaa out)
      else if dwordSub fsaa 1 = 1 then
        some (fsaaCandidate tryCSAA qualityHint fsaa out)
      else
        determineFSAASettingsLoop check origFSAA fuel (calls + 1) (dwordSub fsaa 1) qualityHint
          tryCSAA (fsaaCandidate tryCSAA qualityHint fsaa out) := by
  rw [determineFSAASettingsLoop]

/-- From a loop state of `determineFSAASettings` that needs at most `n` more rounds, the loop
ends with the same result for every fuel that covers the rounds. -/
theorem determineFSAASettingsLoop_ends (check : Nat → Nat → Int × Nat) (origFSAA : Nat)
    (horig : origFSAA < UINT32_RANGE) (n : Nat) :
    ∀ (calls fsaa : Nat) (qualityHint tryCSAA : Bool) (out : Nat × Nat),
      fsaa < UINT32_RANGE → (tryCSAA = true → 8 ≤ fsaa ∧ 8 ≤ origFSAA) →
      fsaaRounds fsaa qualityHint tryCSAA ≤ n →
      ∃ r, ∀ fuel, fsaaRounds fsaa qualityHint tryCSAA ≤ fuel →
        determineFSAASettingsLoop check origFSAA fuel calls fsaa qualityHint tryCSAA out
          = some r := by
  induction n with
  | zero =>
    intro calls fsaa qualityHint tryCSAA out hf hinv hn
    have := fsaaRounds_pos fsaa qualityHint tryCSAA (fun h => (hinv h).1)
    omega
  | succ n ih =>
    intro calls fsaa qualityHint tryCSAA out hf hinv hn
    have hpos := fsaaRounds_pos fsaa qualityHint tryCSAA (fun h => (hinv h).1)
    have step : ∀ (P : Nat → Option (Nat × Nat)) (r : Nat × Nat),
        (∀ fuel, fsaaRounds fsaa qualityHint tryCSAA ≤ fuel + 1 → P fuel = some r) →
        (∀ fuel, determineFSAASettingsLoop check origFSAA (fuel + 1) calls fsaa qualityHint
          tryCSAA out = P fuel) →
        ∃ r, ∀ fuel, fsaaRounds fsaa qualityHint tryCSAA ≤ fuel →
          determineFSAASettingsLoop check origFSAA fuel calls fsaa qualityHint tryCSAA out
            = some r := by
      intro P r hP hstep
      refine ⟨r, fun fuel hfuel => ?_⟩
      cases fuel with
      | zero => omega
      | succ fuel => rw [hstep]; exact hP fuel hfuel
    by_cases hok : SUCCEEDED (check calls (fsaaCandidate tryCSAA qualityHint fsaa out).1).1 = true ∧
        (tryCSAA = false ∨ (check calls (fsaaCandidate tryCSAA qualityHint fsaa out).1).2 >
          (fsaaCandidate tryCSAA qualityHint fsaa out).2)
    · exact step (fun _ => some (fsaaCandidate tryCSAA qualityHint fsaa out)) _ (fun _ _ => rfl)
        (fun fuel => by rw [determineFSAASettingsLoop_succ, if_pos hok])
    · by_cases h8 : tryCSAA = true ∧ fsaa = 8
      · have ho := (hinv h8.1).2
        obtain ⟨ht, hf8⟩ := h8
        subst ht hf8
        cases qualityHint with
        | true =>
          have hlt := fsaaRounds_drop_quality origFSAA horig
          obtain ⟨r, hr⟩ := ih (calls + 1) origFSAA false true
            (fsaaCandidate true true 8 out) horig (fun _ => ⟨ho, ho⟩) (by omega)
          exact step (fun fuel => determineFSAASettingsLoop check origFSAA fuel (calls + 1)
            origFSAA false true (fsaaCandidate true true 8 out)) r
            (fun fuel hfuel => hr fuel (by omega))
            (fun fuel => by
              rw [determineFSAASettingsLoop_succ, if_neg hok, if_pos ⟨rfl, rfl⟩, if_pos rfl])
        | false =>
          have hlt := fsaaRounds_drop_csaa origFSAA
          obtain ⟨r, hr⟩ := ih (calls + 1) origFSAA false false
            (fsaaCandidate true false 8 out) horig (fun h => absurd h (by decide)) (by omega)
          exact step (fun fuel => determineFSAASettingsLoop check origFSAA fuel (calls + 1)
            origFSAA false false (fsaaCandidate true false 8 out)) r
            (fun fuel hfuel => hr fuel (by omega))
            (fun fuel => by
              rw [determineFSAASettingsLoop_succ, if_neg hok, if_pos ⟨rfl, rfl⟩,
                if_neg (by decide)])
      · by_cases h1 : dwordSub fsaa 1 = 1
        · exact step (fun _ => some (fsaaCandidate tryCSAA qualityHint fsaa out)) _
            (fun _ _ => rfl)
            (fun fuel => by
              rw [determineFSAASettingsLoop_succ, if_neg hok, if_neg h8, if_pos h1])
        · obtain ⟨hlt, hlt2, hinv2⟩ := fsaaRounds_drop_sample fsaa qualityHint tryCSAA hf
            (fun h => (hinv h).1) h8 h1
          obtain ⟨r, hr⟩ := ih (calls + 1) (dwordSub fsaa 1) qualityHint tryCSAA
            (fsaaCandidate tryCSAA qualityHint fsaa out) hlt2
            (fun h => ⟨hinv2 h, (hinv h).2⟩) (by omega)
          exact step (fun fuel => determineFSAASettingsLoop check origFSAA fuel (calls + 1)
            (dwordSub fsaa 1) qualityHint tryCSAA (fsaaCandidate tryCSAA qualityHint fsaa out)) r
            (fun fuel hfuel => hr fuel (by omega))
            (fun fuel => by
              rw [determineFSAASettingsLoop_succ, if_neg hok, if_neg h8, if_neg h1])

/-- C25: `determineFSAASettings` terminates for every input: for every 32-bit `fsaa`
(0 and 1 included), every hint, every driver list and active driver (so every
vendor), every content of the out-parameters on entry and every way the
device answers the queries from call to call (a device that rejects
everything included), the downgrade loop ends after at most `3 * 2^32` rounds
with a result that no longer depends on the fuel. -/
theorem determineFSAASettings_terminates (check : Nat → Nat → Nat → Bool → Nat → Int × Nat)
    (driverList : List D3D9Driver) (mActiveD3DDriver : Option D3D9Driver)
    (deviceAdapterNumber fsaa : Nat) (fsaaHint : String) (d3dPixelFormat : Nat)
    (fullScreen : Bool) (out : Nat × Nat) (hfsaa : fsaa < UINT32_RANGE) :
    ∃ r, ∀ fuel, 3 * UINT32_RANGE ≤ fuel →
      determineFSAASettings check driverList mActiveD3DDriver fuel deviceAdapterNumber fsaa
        fsaaHint d3dPixelFormat fullScreen out = some r := by
  have key : ∀ (chk : Nat → Nat → Int × Nat) (q t : Bool), (t = true → 8 ≤ fsaa) →
      ∃ r, ∀ fuel, 3 * UINT32_RANGE ≤ fuel →
        determineFSAASettingsLoop chk fsaa fuel 0 fsaa q t out = some r := by
    intro chk q t ht
    obtain ⟨r, hr⟩ := determineFSAASettingsLoop_ends chk fsaa hfsaa _ 0 fsaa q t out hfsaa
      (fun h => ⟨ht h, ht h⟩) (le_refl _)
    exact ⟨r, fun fuel hfuel => hr fuel (le_trans (fsaaRounds_le _ _ _ hfsaa) hfuel)⟩
  unfold determineFSAASettings
  simp only []
  refine key _ _ _ (fun h => ?_)
  simp only [Bool.and_eq_true, decide_eq_true_eq] at h
  exact h.2

theorem determineFSAASettings_terminates_witness :
    (16 : Nat) < UINT32_RANGE ∧
    (∃ r, ∀ fuel, 3 * UINT32_RANGE ≤ fuel →
      determineFSAASettings rejectAll [adapterNVIDIA] none fuel 0 16 "16 [Quality]" 22 true (0, 0)
        = some r) ∧
    determineFSAASettings rejectAll [adapterNVIDIA] none (3 * UINT32_RANGE) 0 16 "16 [Quality]"
        22 true (0, 0) = some (2, 0) ∧
    determineFSAASettings rejectAll [] none (3 * UINT32_RANGE) 0 16 "" 22 true (0, 0)
      = determineFSAASettings rejectAll [] none 15 0 16 "" 22 true (0, 0) :=
  ⟨by decide,
   determineFSAASettings_terminates rejectAll [adapterNVIDIA] none 0 16 "16 [Quality]" 22 true
     (0, 0) (by decide),
   by decide, by decide⟩


/-- Without CSAA, on a device that rejects every query, the loop of
`determineFSAASettings` walks from `fsaa ≥ 2` down to 2 and ends with the
out-parameters as the last round wrote them: two samples, quality 0. -/
theorem determineFSAASettingsLoop_rejected (check : Nat → Nat → Int × Nat) (origFSAA : Nat)
    (hreject : ∀ k type, SUCCEEDED (check k type).1 = false) (fuel : Nat) :
    ∀ (calls fsaa : Nat) (qualityHint : Bool) (out : Nat × Nat),
      2 ≤ fsaa → fsaa < UINT32_RANGE → fsaa - 1 ≤ fuel →
      determineFSAASettingsLoop check origFSAA fuel calls fsaa qualityHint false out
        = some (2, 0) := by
  induction fuel with
  | zero => intro calls fsaa qualityHint out h2 hf hfuel; omega
  | succ fuel ih =>
    intro calls fsaa qualityHint out h2 hf hfuel
    have hsub : dwordSub fsaa 1 = fsaa - 1 := by
      rw [dwordSub_one]
      unfold UINT32_RANGE at hf
      omega
    rw [determineFSAASettingsLoop_succ, if_neg (by rw [hreject]; simp),
      if_neg (by simp), hsub]
    by_cases h1 : fsaa - 1 = 1
    · rw [if_pos h1]
      have e : fsaa = 2 := by omega
      rw [e]
      rfl
    · rw [if_neg h1]
      exact ih _ _ _ _ (by omega) (by omega) (by omega)

/-- Whatever the loop of `determineFSAASettings` ends with was accepted by a query, or is
two samples with quality 0. -/
theorem determineFSAASettingsLoop_result (check : Nat → Nat → Int × Nat) (origFSAA : Nat)
    (horig : origFSAA < UINT32_RANGE) (fuel : Nat) :
    ∀ (calls fsaa : Nat) (qualityHint tryCSAA : Bool) (out r : Nat × Nat),
      fsaa < UINT32_RANGE → (tryCSAA = true → 8 ≤ fsaa ∧ 8 ≤ origFSAA) →
      determineFSAASettingsLoop check origFSAA fuel calls fsaa qualityHint tryCSAA out = some r →
      (∃ k, SUCCEEDED (check k r.1).1 = true) ∨ r = (2, 0) := by
  induction fuel with
  | zero =>
    intro calls fsaa qualityHint tryCSAA out r _ _ h
    rw [determineFSAASettingsLoop] at h
    exact absurd h (by simp)
  | succ fuel ih =>
    intro calls fsaa qualityHint tryCSAA out r hf hinv h
    rw [determineFSAASettingsLoop_succ] at h
    by_cases hok : SUCCEEDED (check calls (fsaaCandidate tryCSAA qualityHint fsaa out).1).1 = true ∧
        (tryCSAA = false ∨ (check calls (fsaaCandidate tryCSAA qualityHint fsaa out).1).2 >
          (fsaaCandidate tryCSAA qualityHint fsaa out).2)
    · rw [if_pos hok] at h
      have e : r = fsaaCandidate tryCSAA qualityHint fsaa out := (Option.some.inj h).symm
      rw [e]
      exact Or.inl ⟨calls, hok.1⟩
    · rw [if_neg hok] at h
      by_cases h8 : tryCSAA = true ∧ fsaa = 8
      · rw [if_pos h8] at h
        have ho := (hinv h8.1).2
        split at h
        · exact ih _ _ _ _ _ r horig (fun _ => ⟨ho, ho⟩) h
        · exact ih _ _ _ _ _ r horig (fun e => absurd e (by decide)) h
      · rw [if_neg h8] at h
        by_cases h1 : dwordSub fsaa 1 = 1
        · rw [if_pos h1] at h
          have e : r = fsaaCandidate tryCSAA qualityHint fsaa out := (Option.some.inj h).symm
          have e2 : fsaa = 2 := by
            rw [dwordSub_one] at h1
            unfold UINT32_RANGE at hf
            omega
          cases tryCSAA with
          | true => have := (hinv rfl).1; omega
          | false => right; rw [e, e2]; rfl
        · rw [if_neg h1] at h
          obtain ⟨-, hlt2, hinv2⟩ := fsaaRounds_drop_sample fsaa qualityHint tryCSAA hf
            (fun e => (hinv e).1) h8 h1
          exact ih _ _ _ _ _ r hlt2 (fun e => ⟨hinv2 e, (hinv e).2⟩) h

/-- C26, as the code has it: when `determineFSAASettings` runs out of options (no CSAA:
fewer than 8 samples asked or no NVIDIA driver; `fsaa ≥ 2`; every query
rejected) it returns with the out-parameters as the last round wrote them,
sample type 2 (`D3DMULTISAMPLE_2_SAMPLES`) with quality 0, and not
`D3DMULTISAMPLE_NONE`: the branch that gives up sets the local `fsaa` to 0 and
leaves the out-parameters alone.  In general, whatever the function returns
is a sample type that some query accepted, or else this pair `(2, 0)`. -/
theorem determineFSAASettings_out_of_options (check : Nat → Nat → Nat → Bool → Nat → Int × Nat)
    (driverList : List D3D9Driver) (mActiveD3DDriver : Option D3D9Driver)
    (deviceAdapterNumber fsaa : Nat) (fsaaHint : String) (d3dPixelFormat : Nat)
    (fullScreen : Bool) (out : Nat × Nat) (hfsaa : fsaa < UINT32_RANGE)
    (fuel : Nat) (hfuel : 3 * UINT32_RANGE ≤ fuel) :
    (2 ≤ fsaa →
      (fsaa < 8 ∨ ((∀ d ∈ driverList, d.VendorId ≠ 0x10DE) ∧
        ∀ d, mActiveD3DDriver = some d → d.VendorId ≠ 0x10DE)) →
      (∀ k adapter format windowed type,
        SUCCEEDED (check k adapter format windowed type).1 = false) →
      determineFSAASettings check driverList mActiveD3DDriver fuel deviceAdapterNumber fsaa
          fsaaHint d3dPixelFormat fullScreen out = some (2, 0) ∧
      (2, 0) ≠ (D3DMULTISAMPLE_NONE, 0)) ∧
    (∀ r, determineFSAASettings check driverList mActiveD3DDriver fuel deviceAdapterNumber fsaa
        fsaaHint d3dPixelFormat fullScreen out = some r →
      (∃ k adapter, SUCCEEDED (check k adapter d3dPixelFormat fullScreen r.1).1 = true) ∨
        r = (2, 0)) := by
  constructor
  · intro h2 hplain hreject
    refine ⟨?_, by decide⟩
    have key : ∀ (chk : Nat → Nat → Int × Nat) (q t : Bool), t = false →
        (∀ k type, SUCCEEDED (chk k type).1 = false) →
        determineFSAASettingsLoop chk fsaa fuel 0 fsaa q t out = some (2, 0) := by
      intro chk q t ht hrej
      rw [ht]
      exact determineFSAASettingsLoop_rejected chk fsaa hrej fuel 0 fsaa q out h2 hfsaa
        (by unfold UINT32_RANGE at hfuel hfsaa; omega)
    unfold determineFSAASettings
    simp only []
    refine key _ _ _ ?_ (fun k type => hreject k _ _ _ type)
    simp only [Bool.and_eq_false_iff, decide_eq_false_iff_not]
    rcases hplain with h | ⟨hl, ha⟩
    · right; omega
    · left
      split
      · rename_i currDriver hfind
        exact hl _ (List.mem_of_find?_eq_some hfind)
      · cases hact : mActiveD3DDriver with
        | none => decide
        | some a => exact ha a hact
  · intro r hr
    unfold determineFSAASettings at hr
    simp only [] at hr
    have := determineFSAASettingsLoop_result _ fsaa hfsaa fuel 0 fsaa _ _ out r hfsaa (fun h => by
      simp only [Bool.and_eq_true, decide_eq_true_eq] at h
      exact ⟨h.2, h.2⟩) hr
    rcases this with ⟨k, hk⟩ | h
    · exact Or.inl ⟨k, _, hk⟩
    · exact Or.inr h

theorem determineFSAASettings_out_of_options_witness :
    (4 : Nat) < UINT32_RANGE ∧ 3 * UINT32_RANGE ≤ 3 * UINT32_RANGE ∧
    (determineFSAASettings rejectAll [] none (3 * UINT32_RANGE) 0 4 "" 22 true (0, 0)
        = some (2, 0) ∧ ((2 : Nat), (0 : Nat)) ≠ (D3DMULTISAMPLE_NONE, 0)) ∧
    (∀ r, determineFSAASettings rejectAll [adapterNVIDIA] none (3 * UINT32_RANGE) 0 16
        "16 [Quality]" 22 true (0, 0) = some r →
      (∃ k adapter, SUCCEEDED (rejectAll k adapter 22 true r.1).1 = true) ∨ r = (2, 0)) :=
  ⟨by decide, le_refl _,
   (determineFSAASettings_out_of_options rejectAll [] none 0 4 "" 22 true (0, 0) (by decide)
     (3 * UINT32_RANGE) (le_refl _)).1 (by decide) (Or.inl (by decide)) (fun _ _ _ _ _ => rfl),
   (determineFSAASettings_out_of_options rejectAll [adapterNVIDIA] none 0 16 "16 [Quality]" 22
     true (0, 0) (by decide) (3 * UINT32_RANGE) (le_refl _)).2⟩

/-! ## Shader profiles and the lowest version -/

/-- Membership in the profiles after `vertexShaderProfiles`, condition by condition. -/
theorem mem_vertexShaderProfiles_cases (major : Nat) (minVSCaps : D3DCAPS9)
    (rsc : RenderSystemCapabilities) (p : String) :
    p ∈ (vertexShaderProfiles major minVSCaps rsc).shaderProfiles ↔
      (((major = 3 ∨ major = 2 ∨ major = 1) ∧ p = "vs_1_1") ∨
       ((major = 3 ∨ major = 2) ∧ p = "vs_2_0") ∨
       (((major = 3 ∨ major = 2) ∧ (major ≥ 2 ∧ vs2aCaps minVSCaps = true)) ∧ p = "vs_2_a") ∨
       (((major = 3 ∨ major = 2) ∧ (major ≥ 2 ∧ vs2xCaps minVSCaps = true)) ∧ p = "vs_2_x") ∨
       (major = 3 ∧ p = "vs_3_0") ∨
       p ∈ rsc.shaderProfiles) := by
  unfold vertexShaderProfiles
  simp only [shaderProfiles_setCapabilityWhen, mem_addProfileWhen]
  have hbase : ∀ q, q ∈ (if major = 1 then
        ((rsc.setVertexProgramConstantBoolCount 0).setVertexProgramConstantIntCount
          0).setVertexProgramConstantFloatCount (castUINT16 minVSCaps.MaxVertexShaderConst)
      else if major = 2 ∨ major = 3 then
        ((rsc.setVertexProgramConstantBoolCount 16).setVertexProgramConstantIntCount
          16).setVertexProgramConstantFloatCount (castUINT16 minVSCaps.MaxVertexShaderConst)
      else rsc).shaderProfiles ↔ q ∈ rsc.shaderProfiles := by
    intro q
    split
    · exact Iff.rfl
    · split <;> exact Iff.rfl
  rw [hbase]
  unfold vs2xCaps vs2aCaps
  simp only [Bool.and_eq_true, Bool.or_eq_true, decide_eq_true_eq]

/-- The conditions of the second `switch` of `convertVertexShaderCaps` are the expected
ones. -/
theorem vertexProfileExpected_iff (major : Nat) (x a : Bool) (p : String) (R : Prop) :
      (((major = 3 ∨ major = 2 ∨ major = 1) ∧ p = "vs_1_1") ∨
       ((major = 3 ∨ major = 2) ∧ p = "vs_2_0") ∨
       (((major = 3 ∨ major = 2) ∧ (major ≥ 2 ∧ a = true)) ∧ p = "vs_2_a") ∨
       (((major = 3 ∨ major = 2) ∧ (major ≥ 2 ∧ x = true)) ∧ p = "vs_2_x") ∨
       (major = 3 ∧ p = "vs_3_0") ∨
       R) ↔ (R ∨ vertexProfileExpected major x a p = true) := by
  unfold vertexProfileExpected
  simp only [Bool.or_eq_true, Bool.and_eq_true, decide_eq_true_eq]
  constructor
  · rintro (h | h | h | h | h | h)
    · exact Or.inr (Or.inl (Or.inl (Or.inl (Or.inl ⟨h.2, by omega⟩))))
    · exact Or.inr (Or.inl (Or.inl (Or.inl (Or.inr ⟨h.2, by omega⟩))))
    · exact Or.inr (Or.inl (Or.inr ⟨h.2, by omega, h.1.2.2⟩))
    · exact Or.inr (Or.inl (Or.inl (Or.inr ⟨h.2, by omega, h.1.2.2⟩)))
    · exact Or.inr (Or.inr ⟨h.2, h.1⟩)
    · exact Or.inl h
  · rintro (h | h)
    · exact Or.inr (Or.inr (Or.inr (Or.inr (Or.inr h))))
    · rcases h with (((h | h) | h) | h) | h
      · exact Or.inl ⟨by omega, h.1⟩
      · exact Or.inr (Or.inl ⟨by omega, h.1⟩)
      · exact Or.inr (Or.inr (Or.inr (Or.inl ⟨⟨by omega, by omega, h.2.2⟩, h.1⟩)))
      · exact Or.inr (Or.inr (Or.inl ⟨⟨by omega, by omega, h.2.2⟩, h.1⟩))
      · exact Or.inr (Or.inr (Or.inr (Or.inr (Or.inl ⟨h.2, h.1⟩))))

/-- Membership in the profiles after `vertexShaderProfiles`: the profiles present before
and the ones expected for the major version. -/
theorem mem_vertexShaderProfiles_iff (major : Nat) (minVSCaps : D3DCAPS9)
    (rsc : RenderSystemCapabilities) (p : String) :
    p ∈ (vertexShaderProfiles major minVSCaps rsc).shaderProfiles ↔
      p ∈ rsc.shaderProfiles ∨
        vertexProfileExpected major (vs2xCaps minVSCaps) (vs2aCaps minVSCaps) p = true := by
  rw [mem_vertexShaderProfiles_cases]
  exact vertexProfileExpected_iff major _ _ p _

/-- A native call returns only from a live device, with the answer of the device. -/
theorem native_ok (env : Env σ) (c : NativeCall) (s s1 : RS σ) (r : Reply)
    (h : native env c s = (Except.ok r, s1)) :
    ∃ d, s.devices s.activeDevice = some d ∧ r = (env.dev.call c d).1 := by
  by_cases hT : env.threadOk
  · cases hd : s.devices s.activeDevice with
    | none =>
      rw [native_null env hT c s hd] at h
      simp at h
    | some d =>
      rw [native_apply env hT c s d hd] at h
      simp only [Prod.mk.injEq, Except.ok.injEq] at h
      exact ⟨d, rfl, h.1.symm⟩
  · exfalso
    unfold Env.threadOk at hT
    simp only [Classical.not_imp, Bool.not_eq_true] at hT
    simp [native, getActiveD3D9Device, THROW_IF_NOT_RENDER_THREAD, throwIfNotRenderThread,
      hT.1, hT.2, CM_EXCEPT_apply, rsm_bind_apply] at h

/-- C19, as the code has it: the loop of `convertVertexShaderCaps` and `convertPixelShaderCaps`
ends on the lexicographically smallest `(major, minor)` reported by the
enumerated adapters (it is at most the version of every adapter and, if there
is an adapter, it is the version of one).  A pixel profile of major version `m`
that `convertPixelShaderCaps` adds is advertised only if every adapter reports a
pixel shader major version of at least `m`.  A vertex profile of major version
`m` that `convertVertexShaderCaps` adds is advertised only if every adapter reports a
vertex shader major version of at least `m`, or some adapter reports vertex
shader version 0.0.  In that case, on the render thread with a live device,
the function returns the profiles populated for the major version that the
active device reports through `GetDeviceCaps`; otherwise it returns the profiles
populated for the smallest major version of the adapters.  The profiles after
populating for a major version are exactly the profiles present before and
the ones expected for that version: `vs_1_1` for 1, 2, 3, `vs_2_0` for 2, 3,
`vs_2_x` and `vs_2_a` for 2, 3 when the capability test on the adapter caps
holds, `vs_3_0` for 3.  `convertPixelShaderCaps` keeps every profile that was
present.  Last, for every run of `convertVertexShaderCaps` that returns: every
profile that was present is still there; and if the smallest version of the
adapters is 0.0, the active device is live and the profiles returned are
exactly those present before and those expected for the major version the
device reports, so that the profiles up to the device's version are
advertised and none above it is added. -/
theorem shader_profiles_lowest_version (env : Env σ) (rsc : RenderSystemCapabilities)
    (s : RS σ) :
    (∀ (version : D3DCAPS9 → Nat) (drivers : List D3D9Driver),
      (∀ d ∈ drivers,
        lexLE ((lowestShaderCaps version drivers (0xFF, 0xFF, env.indeterminateCaps)).1,
               (lowestShaderCaps version drivers (0xFF, 0xFF, env.indeterminateCaps)).2.1)
          (versionMajor (version d.d3d9DeviceCaps),
           versionMinor (version d.d3d9DeviceCaps))) ∧
      (drivers ≠ [] → ∃ d ∈ drivers,
        (lowestShaderCaps version drivers (0xFF, 0xFF, env.indeterminateCaps)).1
          = versionMajor (version d.d3d9DeviceCaps) ∧
        (lowestShaderCaps version drivers (0xFF, 0xFF, env.indeterminateCaps)).2.1
          = versionMinor (version d.d3d9DeviceCaps))) ∧
    (∀ (drivers : List D3D9Driver) (p : String) (m : Nat), (p, m) ∈ pixelProfiles →
      p ∈ (convertPixelShaderCaps env.indeterminateCaps drivers rsc).shaderProfiles →
      p ∈ rsc.shaderProfiles ∨
      ∀ d ∈ drivers, m ≤ versionMajor d.d3d9DeviceCaps.PixelShaderVersion) ∧
    (∀ (r : RenderSystemCapabilities) (s1 : RS σ),
      convertVertexShaderCaps env rsc s = (Except.ok r, s1) →
      ∀ (p : String) (m : Nat), (p, m) ∈ vertexProfiles → p ∈ r.shaderProfiles →
      p ∈ rsc.shaderProfiles ∨
      (∀ d ∈ s.mDriverList.getD [], m ≤ versionMajor d.d3d9DeviceCaps.VertexShaderVersion) ∨
      (∃ d ∈ s.mDriverList.getD [],
        versionMajor d.d3d9DeviceCaps.VertexShaderVersion = 0 ∧
        versionMinor d.d3d9DeviceCaps.VertexShaderVersion = 0)) ∧
    (env.threadOk → ∀ d, s.devices s.activeDevice = some d →
      ((lowestShaderCaps (fun caps => caps.VertexShaderVersion) (s.mDriverList.getD [])
          (0xFF, 0xFF, env.indeterminateCaps)).1 = 0 ∧
       (lowestShaderCaps (fun caps => caps.VertexShaderVersion) (s.mDriverList.getD [])
          (0xFF, 0xFF, env.indeterminateCaps)).2.1 = 0) →
      (convertVertexShaderCaps env rsc s).1
        = Except.ok (vertexShaderProfiles
            (versionMajor (env.dev.call NativeCall.GetDeviceCaps d).1.out)
            (lowestShaderCaps (fun caps => caps.VertexShaderVersion) (s.mDriverList.getD [])
              (0xFF, 0xFF, env.indeterminateCaps)).2.2 rsc)) ∧
    (¬ ((lowestShaderCaps (fun caps => caps.VertexShaderVersion) (s.mDriverList.getD [])
          (0xFF, 0xFF, env.indeterminateCaps)).1 = 0 ∧
        (lowestShaderCaps (fun caps => caps.VertexShaderVersion) (s.mDriverList.getD [])
          (0xFF, 0xFF, env.indeterminateCaps)).2.1 = 0) →
      convertVertexShaderCaps env rsc s
        = (Except.ok (vertexShaderProfiles
            (lowestShaderCaps (fun caps => caps.VertexShaderVersion) (s.mDriverList.getD [])
              (0xFF, 0xFF, env.indeterminateCaps)).1
            (lowestShaderCaps (fun caps => caps.VertexShaderVersion) (s.mDriverList.getD [])
              (0xFF, 0xFF, env.indeterminateCaps)).2.2 rsc), s)) ∧
    (∀ (major : Nat) (minVSCaps : D3DCAPS9) (p : String),
      p ∈ (vertexShaderProfiles major minVSCaps rsc).shaderProfiles ↔
        p ∈ rsc.shaderProfiles ∨
          vertexProfileExpected major (vs2xCaps minVSCaps) (vs2aCaps minVSCaps) p = true) ∧
    (∀ (drivers : List D3D9Driver) (p : String), p ∈ rsc.shaderProfiles →
      p ∈ (convertPixelShaderCaps env.indeterminateCaps drivers rsc).shaderProfiles) ∧
    (∀ (r : RenderSystemCapabilities) (s1 : RS σ),
      convertVertexShaderCaps env rsc s = (Except.ok r, s1) →
      (∀ p : String, p ∈ rsc.shaderProfiles → p ∈ r.shaderProfiles) ∧
      (((lowestShaderCaps (fun caps => caps.VertexShaderVersion) (s.mDriverList.getD [])
          (0xFF, 0xFF, env.indeterminateCaps)).1 = 0 ∧
        (lowestShaderCaps (fun caps => caps.VertexShaderVersion) (s.mDriverList.getD [])
          (0xFF, 0xFF, env.indeterminateCaps)).2.1 = 0) →
        ∃ d, s.devices s.activeDevice = some d ∧
          ∀ p : String, p ∈ r.shaderProfiles ↔
            p ∈ rsc.shaderProfiles ∨
              vertexProfileExpected (versionMajor (env.dev.call NativeCall.GetDeviceCaps d).1.out)
                (vs2xCaps (lowestShaderCaps (fun caps => caps.VertexShaderVersion)
                  (s.mDriverList.getD []) (0xFF, 0xFF, env.indeterminateCaps)).2.2)
                (vs2aCaps (lowestShaderCaps (fun caps => caps.VertexShaderVersion)
                  (s.mDriverList.getD []) (0xFF, 0xFF, env.indeterminateCaps)).2.2) p = true)) := by
  refine ⟨fun version drivers => ?_, fun drivers p m hpm hp => ?_, fun r s1 hrun p m hpm hp => ?_,
    fun hT d hd hzero => ?_, fun hzero => ?_,
    fun major minVSCaps p => mem_vertexShaderProfiles_iff major minVSCaps rsc p,
    fun drivers p hp => ?_, fun r s1 hrun => ?_⟩
  · obtain ⟨-, a2, a3⟩ := lowestShaderCaps_least version drivers (0xFF, 0xFF, env.indeterminateCaps)
    refine ⟨a2, fun hne => ?_⟩
    rcases a3 with a3 | a3
    · obtain ⟨d, hd⟩ := List.exists_mem_of_ne_nil drivers hne
      refine ⟨d, hd, ?_⟩
      have h1 := a2 d hd
      have h2 := versionMajor_le (version d.d3d9DeviceCaps)
      have h3 := versionMinor_le (version d.d3d9DeviceCaps)
      simp only [lexLE] at h1 a3
      omega
    · exact a3
  · unfold convertPixelShaderCaps at hp
    rcases mem_pixelShaderProfiles _ _ _ rsc p m hpm hp with h | h
    · exact Or.inl h
    · exact Or.inr (fun d hd => le_trans h.1
        (lowestShaderCaps_major_le (fun caps => caps.PixelShaderVersion) drivers _ d hd))
  · unfold convertVertexShaderCaps at hrun
    rw [rsm_bind_apply, getRS_apply] at hrun
    simp only [] at hrun
    split at hrun
    · rename_i hzero
      obtain ⟨-, -, a3⟩ := lowestShaderCaps_least (fun caps => caps.VertexShaderVersion)
        (s.mDriverList.getD []) (0xFF, 0xFF, env.indeterminateCaps)
      rcases a3 with a3 | ⟨d, hd, a3⟩
      · exfalso
        simp only [] at a3
        omega
      · exact Or.inr (Or.inr ⟨d, hd, by omega, by omega⟩)
    · simp only [rsm_pure_apply, Prod.mk.injEq, Except.ok.injEq] at hrun
      rw [← hrun.1] at hp
      rcases mem_vertexShaderProfiles _ _ rsc p m hpm hp with h | h
      · exact Or.inl h
      · exact Or.inr (Or.inl (fun d hd => le_trans h.1
          (lowestShaderCaps_major_le (fun caps => caps.VertexShaderVersion) _ _ d hd)))
  · unfold convertVertexShaderCaps
    rw [rsm_bind_apply, getRS_apply]
    simp only []
    rw [if_pos hzero, rsm_bind_apply, native_apply env hT _ s d hd]
    rfl
  · unfold convertVertexShaderCaps
    rw [rsm_bind_apply, getRS_apply]
    simp only []
    rw [if_neg hzero]
    rfl
  · unfold convertPixelShaderCaps
    rw [mem_pixelShaderProfiles_iff]
    exact Or.inr (Or.inr (Or.inr (Or.inr (Or.inr (Or.inr (Or.inr (Or.inr (Or.inr
      (Or.inr hp)))))))))
  · unfold convertVertexShaderCaps at hrun
    rw [rsm_bind_apply, getRS_apply] at hrun
    simp only [] at hrun
    split at hrun
    · rename_i hzero
      rw [rsm_bind_apply] at hrun
      rcases hn : native env NativeCall.GetDeviceCaps s with ⟨res, s2⟩
      rw [hn] at hrun
      cases res with
      | error e => simp at hrun
      | ok reply =>
        obtain ⟨d, hd, hreply⟩ := native_ok env _ s s2 reply hn
        simp only [rsm_pure_apply, Prod.mk.injEq, Except.ok.injEq] at hrun
        rw [← hrun.1, hreply]
        refine ⟨fun p hp => (mem_vertexShaderProfiles_iff _ _ rsc p).2 (Or.inl hp),
          fun _ => ⟨d, hd, fun p => mem_vertexShaderProfiles_iff _ _ rsc p⟩⟩
    · rename_i hzero
      simp only [rsm_pure_apply, Prod.mk.injEq, Except.ok.injEq] at hrun
      rw [← hrun.1]
      exact ⟨fun p hp => (mem_vertexShaderProfiles_iff _ _ rsc p).2 (Or.inl hp),
        fun h => absurd h hzero⟩

theorem shader_profiles_lowest_version_witness :
    "ps_2_0" ∈ (convertPixelShaderCaps simEnv.indeterminateCaps [adapterA, adapterB]
        {}).shaderProfiles ∧
    (∀ d ∈ [adapterA, adapterB], 2 ≤ versionMajor d.d3d9DeviceCaps.PixelShaderVersion) ∧
    (lowestShaderCaps (fun caps => caps.VertexShaderVersion) [adapterA, adapterB]
        (0xFF, 0xFF, simEnv.indeterminateCaps)).1 = 1 ∧
    (∃ d ∈ [adapterA, adapterB],
      (lowestShaderCaps (fun caps => caps.VertexShaderVersion) [adapterA, adapterB]
          (0xFF, 0xFF, simEnv.indeterminateCaps)).1
        = versionMajor d.d3d9DeviceCaps.VertexShaderVersion ∧
      (lowestShaderCaps (fun caps => caps.VertexShaderVersion) [adapterA, adapterB]
          (0xFF, 0xFF, simEnv.indeterminateCaps)).2.1
        = versionMinor d.d3d9DeviceCaps.VertexShaderVersion) ∧
    softwareVertexEnv.threadOk ∧
    (convertVertexShaderCaps softwareVertexEnv {} simSoftwareVertex).1
      = Except.ok (vertexShaderProfiles 3 adapterSoftwareVertex.d3d9DeviceCaps {}) ∧
    "vs_3_0" ∈ (vertexShaderProfiles 3 adapterSoftwareVertex.d3d9DeviceCaps {}).shaderProfiles ∧
    convertVertexShaderCaps simEnv {} simAdapters
      = (Except.ok (vertexShaderProfiles 1 adapterB.d3d9DeviceCaps {}), simAdapters) ∧
    ("vs_2_0" ∈ (vertexShaderProfiles 1 adapterA.d3d9DeviceCaps
        { shaderProfiles := ["vs_2_0"] }).shaderProfiles) :=
  have h := shader_profiles_lowest_version simEnv {} simInit
  have h2 := shader_profiles_lowest_version softwareVertexEnv {} simSoftwareVertex
  have h3 := shader_profiles_lowest_version simEnv {} simAdapters
  have h4 := shader_profiles_lowest_version simEnv { shaderProfiles := ["vs_2_0"] } simInit
  ⟨by decide,
   (h.2.1 [adapterA, adapterB] "ps_2_0" 2 (by decide) (by decide)).resolve_left (by decide),
   by decide,
   (h.1 (fun caps => caps.VertexShaderVersion) [adapterA, adapterB]).2 (by decide),
   by decide,
   h2.2.2.2.1 (by decide) _ rfl (by decide),
   (h2.2.2.2.2.2.1 3 adapterSoftwareVertex.d3d9DeviceCaps "vs_3_0").2 (Or.inr (by decide)),
   h3.2.2.2.2.1 (by decide),
   (h4.2.2.2.2.2.1 1 adapterA.d3d9DeviceCaps "vs_2_0").2 (Or.inl (by decide))⟩

/-! ## Frames: which calls the remaining operations can append -/

theorem emits_checkedSetRenderState_of {P : NativeCall → Prop}
    (hP : ∀ c, isDeviceCall c = true → P c) (env : Env σ) (state value : Nat) :
    Emits P (checkedSetRenderState env state value) := by
  unfold checkedSetRenderState
  refine emits_bind (emits_SetRenderState_of env _ _ (hP _ rfl) (hP _ rfl)) (fun hr => ?_)
  exact emits_ite _ (emits_except P _) (emits_pure P ())

theorem emits_checkedSetSamplerState_of {P : NativeCall → Prop}
    (hP : ∀ c, isDeviceCall c = true → P c) (env : Env σ) (sampler type value : Nat) :
    Emits P (checkedSetSamplerState env sampler type value) := by
  unfold checkedSetSamplerState
  refine emits_bind (emits_SetSamplerState_of hP env _ _ _) (fun hr => ?_)
  exact emits_ite _ (emits_except P _) (emits_pure P ())

theorem emits_assert (P : NativeCall → Prop) (env : Env σ) (cond : Bool) :
    Emits P (assert env cond) := by
  unfold Bsf.assert
  exact emits_ite _ (emits_pure P ()) (emits_ite _ (emits_pure P ()) (emits_except P _))

theorem emits_setAlphaToCoverage {P : NativeCall → Prop} (hP : ∀ c, isDeviceCall c = true → P c)
    (env : Env σ) (enable : Bool) :
    Emits P (setAlphaToCoverage env enable) := by
  unfold setAlphaToCoverage
  repeat' first
    | with_reducible exact emits_pure _ _
    | with_reducible exact emits_thread _ _
    | with_reducible exact emits_getRS _
    | with_reducible exact emits_checkedSetRenderState_of hP _ _ _
    | with_reducible refine emits_bind ?_ (fun _ => ?_)
    | with_reducible refine emits_ite _ ?_ ?_

theorem emits_setSceneBlending {P : NativeCall → Prop} (hP : ∀ c, isDeviceCall c = true → P c)
    (env : Env σ) (sourceFactor destFactor : SceneBlendFactor) (op : SceneBlendOperation) :
    Emits P (setSceneBlending env sourceFactor destFactor op) := by
  unfold setSceneBlending
  repeat' first
    | with_reducible exact emits_thread _ _
    | with_reducible exact emits_checkedSetRenderState_of hP _ _ _
    | with_reducible refine emits_bind ?_ (fun _ => ?_)
    | with_reducible refine emits_ite _ ?_ ?_

theorem emits_setSceneBlendingSeparate {P : NativeCall → Prop}
    (hP : ∀ c, isDeviceCall c = true → P c) (env : Env σ)
    (sourceFactor destFactor sourceFactorAlpha destFactorAlpha : SceneBlendFactor)
    (op alphaOp : SceneBlendOperation) :
    Emits P (setSceneBlendingSeparate env sourceFactor destFactor sourceFactorAlpha destFactorAlpha
      op alphaOp) := by
  unfold setSceneBlendingSeparate
  repeat' first
    | with_reducible exact emits_thread _ _
    | with_reducible exact emits_checkedSetRenderState_of hP _ _ _
    | with_reducible refine emits_bind ?_ (fun _ => ?_)
    | with_reducible refine emits_ite _ ?_ ?_

theorem emits_setColorBufferWriteEnabled {P : NativeCall → Prop}
    (hP : ∀ c, isDeviceCall c = true → P c) (env : Env σ) (red green blue alpha : Bool) :
    Emits P (setColorBufferWriteEnabled env red green blue alpha) := by
  unfold setColorBufferWriteEnabled
  repeat' first
    | with_reducible exact emits_thread _ _
    | with_reducible exact emits_checkedSetRenderState_of hP _ _ _
    | with_reducible refine emits_bind ?_ (fun _ => ?_)

theorem emits_setBlendState {P : NativeCall → Prop} (hP : ∀ c, isDeviceCall c = true → P c)
    (env : Env σ) (blendState : BlendState) :
    Emits P (setBlendState env blendState) := by
  unfold setBlendState
  repeat' first
    | with_reducible exact emits_thread _ _
    | with_reducible exact emits_setAlphaToCoverage hP _ _
    | with_reducible exact emits_setSceneBlending hP _ _ _ _
    | with_reducible exact emits_setSceneBlendingSeparate hP _ _ _ _ _ _ _
    | with_reducible exact emits_setColorBufferWriteEnabled hP _ _ _ _ _
    | with_reducible refine emits_bind ?_ (fun _ => ?_)
    | with_reducible refine emits_ite _ ?_ ?_

theorem emits_setClipPlanesLoop {P : NativeCall → Prop}
    (hP : ∀ c, isDeviceCall c = true → P c) (env : Env σ) (clipPlanes : List Plane) :
    ∀ i mask : Nat, Emits P (setClipPlanesLoop env clipPlanes i mask) := by
  induction clipPlanes with
  | nil => intro i mask; exact emits_pure P mask
  | cons plane rest ih =>
    intro i mask
    unfold setClipPlanesLoop
    refine emits_bind (emits_native env _ (hP _ rfl)) (fun r => ?_)
    exact emits_ite _ (emits_except P _) (ih _ _)

theorem emits_setClipPlanesImpl {P : NativeCall → Prop} (hP : ∀ c, isDeviceCall c = true → P c)
    (env : Env σ) (clipPlanes : List Plane) :
    Emits P (setClipPlanesImpl env clipPlanes) := by
  unfold setClipPlanesImpl
  repeat' first
    | with_reducible exact emits_checkedSetRenderState_of hP _ _ _
    | with_reducible exact emits_setClipPlanesLoop hP _ _ _ _
    | with_reducible refine emits_bind ?_ (fun _ => ?_)

theorem emits_setTextureFiltering {P : NativeCall → Prop} (hP : ∀ c, isDeviceCall c = true → P c)
    (env : Env σ) (unit : Nat) (ftype : FilterType) (filter : FilterOptions) :
    Emits P (setTextureFiltering env unit ftype filter) := by
  unfold setTextureFiltering
  repeat' first
    | with_reducible exact emits_pure _ _
    | with_reducible exact emits_except _ _
    | with_reducible exact emits_thread _ _
    | with_reducible exact emits_getRS _
    | with_reducible exact emits_SetSamplerState_of hP _ _ _ _
    | with_reducible refine emits_bind ?_ (fun _ => ?_)
    | with_reducible refine emits_ite _ ?_ ?_

theorem emits_setTextureMipmapBias {P : NativeCall → Prop} (hP : ∀ c, isDeviceCall c = true → P c)
    (env : Env σ) (unit bias : Nat) :
    Emits P (setTextureMipmapBias env unit bias) := by
  unfold setTextureMipmapBias
  repeat' first
    | with_reducible exact emits_pure _ _
    | with_reducible exact emits_except _ _
    | with_reducible exact emits_thread _ _
    | with_reducible exact emits_getRS _
    | with_reducible exact emits_SetSamplerState_of hP _ _ _ _
    | with_reducible refine emits_bind ?_ (fun _ => ?_)
    | with_reducible refine emits_ite _ ?_ ?_

theorem emits_setTextureAddressingMode {P : NativeCall → Prop}
    (hP : ∀ c, isDeviceCall c = true → P c) (env : Env σ) (stage : Nat)
    (uvw : UVWAddressingMode) :
    Emits P (setTextureAddressingMode env stage uvw) := by
  unfold setTextureAddressingMode
  repeat' first
    | with_reducible exact emits_thread _ _
    | with_reducible exact emits_getRS _
    | with_reducible exact emits_checkedSetSamplerState_of hP _ _ _ _
    | with_reducible refine emits_bind ?_ (fun _ => ?_)

theorem emits_setTextureBorderColor {P : NativeCall → Prop}
    (hP : ∀ c, isDeviceCall c = true → P c) (env : Env σ) (stage : Nat) (colour : Color) :
    Emits P (setTextureBorderColor env stage colour) := by
  unfold setTextureBorderColor
  repeat' first
    | with_reducible exact emits_thread _ _
    | with_reducible exact emits_checkedSetSamplerState_of hP _ _ _ _
    | with_reducible refine emits_bind ?_ (fun _ => ?_)

theorem emits_setSamplerState {P : NativeCall → Prop} (hP : ∀ c, isDeviceCall c = true → P c)
    (env : Env σ) (unit : Nat) (state : SamplerState) :
    Emits P (setSamplerState env unit state) := by
  unfold setSamplerState
  repeat' first
    | with_reducible exact emits_thread _ _
    | with_reducible exact emits_setTextureFiltering hP _ _ _ _
    | with_reducible exact emits_setTextureAnisotropy hP _ _ _
    | with_reducible exact emits_setTextureMipmapBias hP _ _ _
    | with_reducible exact emits_setTextureAddressingMode hP _ _ _
    | with_reducible exact emits_setTextureBorderColor hP _ _ _
    | with_reducible refine emits_bind ?_ (fun _ => ?_)

theorem emits_setStencilRefValue {P : NativeCall → Prop} (hP : ∀ c, isDeviceCall c = true → P c)
    (env : Env σ) (refValue : Nat) :
    Emits P (setStencilRefValue env refValue) := by
  unfold setStencilRefValue
  repeat' first
    | with_reducible exact emits_pure _ _
    | with_reducible exact emits_except _ _
    | with_reducible exact emits_thread _ _
    | (with_reducible refine emits_SetRenderState_of _ _ _ ?_ ?_) <;> exact hP _ rfl
    | with_reducible refine emits_bind ?_ (fun _ => ?_)
    | with_reducible refine emits_ite _ ?_ ?_

theorem emits_setAlphaTest {P : NativeCall → Prop} (hP : ∀ c, isDeviceCall c = true → P c)
    (env : Env σ) (func : CompareFunction) (value : Nat) :
    Emits P (setAlphaTest env func value) := by
  unfold setAlphaTest
  repeat' first
    | with_reducible exact emits_thread _ _
    | with_reducible exact emits_checkedSetRenderState_of hP _ _ _
    | with_reducible refine emits_bind ?_ (fun _ => ?_)
    | with_reducible refine emits_ite _ ?_ ?_

theorem emits_setDepthBufferCheckEnabled {P : NativeCall → Prop}
    (hP : ∀ c, isDeviceCall c = true → P c) (env : Env σ) (enabled : Bool) :
    Emits P (setDepthBufferCheckEnabled env enabled) := by
  unfold setDepthBufferCheckEnabled
  repeat' first
    | with_reducible exact emits_pure _ _
    | with_reducible exact emits_except _ _
    | with_reducible exact emits_thread _ _
    | (with_reducible refine emits_SetRenderState_of _ _ _ ?_ ?_) <;> exact hP _ rfl
    | with_reducible refine emits_bind ?_ (fun _ => ?_)
    | with_reducible refine emits_ite _ ?_ ?_

theorem emits_setDepthBufferFunction {P : NativeCall → Prop}
    (hP : ∀ c, isDeviceCall c = true → P c) (env : Env σ) (func : CompareFunction) :
    Emits P (setDepthBufferFunction env func) := by
  unfold setDepthBufferFunction
  repeat' first
    | with_reducible exact emits_thread _ _
    | with_reducible exact emits_checkedSetRenderState_of hP _ _ _
    | with_reducible refine emits_bind ?_ (fun _ => ?_)

theorem emits_setDepthBufferParams {P : NativeCall → Prop} (hP : ∀ c, isDeviceCall c = true → P c)
    (env : Env σ) (depthTest depthWrite : Bool) (depthFunction : CompareFunction) :
    Emits P (setDepthBufferParams env depthTest depthWrite depthFunction) := by
  unfold setDepthBufferParams
  repeat' first
    | with_reducible exact emits_thread _ _
    | with_reducible exact emits_setDepthBufferCheckEnabled hP _ _
    | with_reducible exact emits_setDepthBufferWriteEnabled hP _ _
    | with_reducible exact emits_setDepthBufferFunction hP _ _
    | with_reducible refine emits_bind ?_ (fun _ => ?_)

theorem emits_setDepthBias {P : NativeCall → Prop} (hP : ∀ c, isDeviceCall c = true → P c)
    (env : Env σ) (constantBias slopeScaleBias : Nat) :
    Emits P (setDepthBias env constantBias slopeScaleBias) := by
  unfold setDepthBias
  repeat' first
    | with_reducible exact emits_pure _ _
    | with_reducible exact emits_except _ _
    | with_reducible exact emits_thread _ _
    | with_reducible exact emits_getRS _
    | (with_reducible refine emits_SetRenderState_of _ _ _ ?_ ?_) <;> exact hP _ rfl
    | with_reducible refine emits_bind ?_ (fun _ => ?_)
    | with_reducible refine emits_ite _ ?_ ?_

theorem emits_setPolygonMode {P : NativeCall → Prop} (hP : ∀ c, isDeviceCall c = true → P c)
    (env : Env σ) (level : PolygonMode) :
    Emits P (setPolygonMode env level) := by
  unfold setPolygonMode
  repeat' first
    | with_reducible exact emits_pure _ _
    | with_reducible exact emits_except _ _
    | with_reducible exact emits_thread _ _
    | (with_reducible refine emits_SetRenderState_of _ _ _ ?_ ?_) <;> exact hP _ rfl
    | with_reducible refine emits_bind ?_ (fun _ => ?_)
    | with_reducible refine emits_ite _ ?_ ?_

theorem emits_setStencilCheckEnabled {P : NativeCall → Prop}
    (hP : ∀ c, isDeviceCall c = true → P c) (env : Env σ) (enabled : Bool) :
    Emits P (setStencilCheckEnabled env enabled) := by
  unfold setStencilCheckEnabled
  repeat' first
    | with_reducible exact emits_pure _ _
    | with_reducible exact emits_except _ _
    | with_reducible exact emits_thread _ _
    | with_reducible exact emits_getRS _
    | (with_reducible refine emits_SetRenderState_of _ _ _ ?_ ?_) <;> exact hP _ rfl
    | with_reducible refine emits_bind ?_ (fun _ => ?_)
    | with_reducible refine emits_ite _ ?_ ?_

theorem emits_setStencilBufferOperations {P : NativeCall → Prop}
    (hP : ∀ c, isDeviceCall c = true → P c) (env : Env σ)
    (stencilFailOp depthFailOp passOp : StencilOperation) (ccw : Bool) :
    Emits P (setStencilBufferOperations env stencilFailOp depthFailOp passOp ccw) := by
  unfold setStencilBufferOperations
  repeat' first
    | with_reducible exact emits_thread _ _
    | with_reducible exact emits_getRS _
    | with_reducible exact emits_checkedSetRenderState_of hP _ _ _
    | with_reducible refine emits_bind ?_ (fun _ => ?_)
    | with_reducible refine emits_ite _ ?_ ?_

theorem emits_setStencilBufferFunc {P : NativeCall → Prop} (hP : ∀ c, isDeviceCall c = true → P c)
    (env : Env σ) (func : CompareFunction) (ccw : Bool) :
    Emits P (setStencilBufferFunc env func ccw) := by
  unfold setStencilBufferFunc
  repeat' first
    | with_reducible exact emits_pure _ _
    | with_reducible exact emits_except _ _
    | (with_reducible refine emits_SetRenderState_of _ _ _ ?_ ?_) <;> exact hP _ rfl
    | with_reducible refine emits_bind ?_ (fun _ => ?_)
    | with_reducible refine emits_ite _ ?_ ?_

theorem emits_setStencilBufferReadMask {P : NativeCall → Prop}
    (hP : ∀ c, isDeviceCall c = true → P c) (env : Env σ) (mask : Nat) :
    Emits P (setStencilBufferReadMask env mask) := by
  unfold setStencilBufferReadMask
  repeat' first
    | with_reducible exact emits_pure _ _
    | with_reducible exact emits_except _ _
    | (with_reducible refine emits_SetRenderState_of _ _ _ ?_ ?_) <;> exact hP _ rfl
    | with_reducible refine emits_bind ?_ (fun _ => ?_)
    | with_reducible refine emits_ite _ ?_ ?_

theorem emits_setStencilBufferWriteMask {P : NativeCall → Prop}
    (hP : ∀ c, isDeviceCall c = true → P c) (env : Env σ) (mask : Nat) :
    Emits P (setStencilBufferWriteMask env mask) := by
  unfold setStencilBufferWriteMask
  repeat' first
    | with_reducible exact emits_pure _ _
    | with_reducible exact emits_except _ _
    | (with_reducible refine emits_SetRenderState_of _ _ _ ?_ ?_) <;> exact hP _ rfl
    | with_reducible refine emits_bind ?_ (fun _ => ?_)
    | with_reducible refine emits_ite _ ?_ ?_

theorem emits_setScissorRect (P : NativeCall → Prop) (env : Env σ) (left top right bottom : Nat) :
    Emits P (setScissorRect env left top right bottom) := by
  unfold setScissorRect
  repeat' first
    | with_reducible exact emits_thread _ _
    | (with_reducible refine emits_modifyRS _ _ ?_) <;> exact fun _ => rfl
    | with_reducible refine emits_bind ?_ (fun _ => ?_)

theorem emits_setScissorTestEnable {P : NativeCall → Prop} (hP : ∀ c, isDeviceCall c = true → P c)
    (env : Env σ) (enable : Bool) :
    Emits P (setScissorTestEnable env enable) := by
  unfold setScissorTestEnable
  repeat' first
    | with_reducible exact emits_pure _ _
    | with_reducible exact emits_except _ _
    | with_reducible exact emits_thread _ _
    | with_reducible exact emits_getRS _
    | with_reducible exact emits_checkedSetRenderState_of hP _ _ _
    | (with_reducible refine emits_native _ _ ?_) <;> exact hP _ rfl
    | with_reducible refine emits_bind ?_ (fun _ => ?_)
    | with_reducible refine emits_ite _ ?_ ?_

theorem emits_setMultisampleAntialiasEnable {P : NativeCall → Prop}
    (hP : ∀ c, isDeviceCall c = true → P c) (env : Env σ) (enable : Bool) :
    Emits P (setMultisampleAntialiasEnable env enable) := by
  unfold setMultisampleAntialiasEnable
  repeat' first
    | with_reducible exact emits_checkedSetRenderState_of hP _ _ _
    | with_reducible refine emits_bind ?_ (fun _ => ?_)
    | with_reducible refine emits_ite _ ?_ ?_

theorem emits_setAntialiasedLineEnable {P : NativeCall → Prop}
    (hP : ∀ c, isDeviceCall c = true → P c) (env : Env σ) (enable : Bool) :
    Emits P (setAntialiasedLineEnable env enable) := by
  unfold setAntialiasedLineEnable
  repeat' first
    | with_reducible exact emits_checkedSetRenderState_of hP _ _ _
    | with_reducible refine emits_bind ?_ (fun _ => ?_)
    | with_reducible refine emits_ite _ ?_ ?_

theorem emits_setRasterizerState {P : NativeCall → Prop} (hP : ∀ c, isDeviceCall c = true → P c)
    (env : Env σ) (rasterizerState : RasterizerState) :
    Emits P (setRasterizerState env rasterizerState) := by
  unfold setRasterizerState
  repeat' first
    | with_reducible exact emits_thread _ _
    | with_reducible exact emits_setDepthBias hP _ _ _
    | with_reducible exact emits_setCullingMode hP _ _
    | with_reducible exact emits_setPolygonMode hP _ _
    | with_reducible exact emits_setScissorTestEnable hP _ _
    | with_reducible exact emits_setMultisampleAntialiasEnable hP _ _
    | with_reducible exact emits_setAntialiasedLineEnable hP _ _
    | with_reducible refine emits_bind ?_ (fun _ => ?_)

theorem emits_setDepthStencilState {P : NativeCall → Prop} (hP : ∀ c, isDeviceCall c = true → P c)
    (env : Env σ) (depthStencilState : DepthStencilState) :
    Emits P (setDepthStencilState env depthStencilState) := by
  unfold setDepthStencilState
  repeat' first
    | with_reducible exact emits_thread _ _
    | with_reducible exact emits_setStencilCheckEnabled hP _ _
    | with_reducible exact emits_setStencilBufferOperations hP _ _ _ _ _
    | with_reducible exact emits_setStencilBufferFunc hP _ _ _
    | with_reducible exact emits_setStencilBufferReadMask hP _ _
    | with_reducible exact emits_setStencilBufferWriteMask hP _ _
    | with_reducible exact emits_setDepthBufferCheckEnabled hP _ _
    | with_reducible exact emits_setDepthBufferWriteEnabled hP _ _
    | with_reducible exact emits_setDepthBufferFunction hP _ _
    | with_reducible refine emits_bind ?_ (fun _ => ?_)

theorem emits_clearFrameBuffer {P : NativeCall → Prop} (hP : ∀ c, isDeviceCall c = true → P c)
    (env : Env σ) (buffers : Nat) (colour : Color) (depth stencil : Nat) :
    Emits P (clearFrameBuffer env buffers colour depth stencil) := by
  unfold clearFrameBuffer
  repeat' first
    | with_reducible exact emits_pure _ _
    | with_reducible exact emits_except _ _
    | with_reducible exact emits_thread _ _
    | with_reducible exact emits_getRS _
    | (with_reducible refine emits_native _ _ ?_) <;> exact hP _ rfl
    | with_reducible refine emits_bind ?_ (fun _ => ?_)
    | with_reducible refine emits_ite _ ?_ ?_

theorem emits_resetTexCoordIndex {P : NativeCall → Prop}
    (hP : ∀ c, isDeviceCall c = true → P c) (env : Env σ) (count : Nat) :
    ∀ nStage : Nat, Emits P (resetTexCoordIndex env nStage count) := by
  induction count with
  | zero => intro nStage; exact emits_pure P ()
  | succ n ih =>
    intro nStage
    unfold resetTexCoordIndex
    exact emits_bind (emits_SetTextureStageState_of hP env _ _ _) (fun _ => ih _)

theorem emits_bindGpuProgram {P : NativeCall → Prop} (hP : ∀ c, isDeviceCall c = true → P c)
    (env : Env σ) (hb : env.quietBase P) (prg : GpuProgram) :
    Emits P (bindGpuProgram env prg) := by
  unfold bindGpuProgram
  repeat' first
    | with_reducible exact emits_pure _ _
    | with_reducible exact emits_except _ _
    | with_reducible exact emits_thread _ _
    | (with_reducible refine emits_native _ _ ?_) <;> exact hP _ rfl
    | with_reducible exact emits_resetTexCoordIndex hP _ _ _
    | exact hb.2.1 _
    | with_reducible refine emits_bind ?_ (fun _ => ?_)
    | with_reducible refine emits_ite _ ?_ ?_
    | dsimp only
    | split

theorem emits_unbindGpuProgram {P : NativeCall → Prop} (hP : ∀ c, isDeviceCall c = true → P c)
    (env : Env σ) (hb : env.quietBase P) (gptype : GpuProgramType) :
    Emits P (unbindGpuProgram env gptype) := by
  unfold unbindGpuProgram
  repeat' first
    | with_reducible exact emits_pure _ _
    | with_reducible exact emits_except _ _
    | with_reducible exact emits_thread _ _
    | (with_reducible refine emits_native _ _ ?_) <;> exact hP _ rfl
    | (with_reducible refine emits_modifyRS _ _ ?_) <;> exact fun _ => rfl
    | exact hb.2.2.1 _
    | with_reducible refine emits_bind ?_ (fun _ => ?_)
    | with_reducible refine emits_ite _ ?_ ?_
    | dsimp only
    | split

theorem emits_bindSamplerStates {P : NativeCall → Prop}
    (hP : ∀ c, isDeviceCall c = true → P c) (env : Env σ) (params : GpuProgramParameters)
    (variability : Nat) (entries : List (Nat × GpuLogicalIndexUse)) :
    Emits P (bindSamplerStates env params variability entries) := by
  induction entries with
  | nil => exact emits_pure P ()
  | cons i rest ih =>
    unfold bindSamplerStates
    refine emits_bind (emits_ite _ ?_ (emits_pure P ())) (fun _ => ih)
    dsimp only
    split
    · exact emits_setSamplerState hP env _ _
    · exact emits_setSamplerState hP env _ _

theorem emits_bindTextures {P : NativeCall → Prop}
    (hP : ∀ c, isDeviceCall c = true → P c) (env : Env σ) (params : GpuProgramParameters)
    (variability : Nat) (entries : List (Nat × GpuLogicalIndexUse)) :
    Emits P (bindTextures env params variability entries) := by
  induction entries with
  | nil => exact emits_pure P ()
  | cons i rest ih =>
    unfold bindTextures
    refine emits_bind (emits_ite _ ?_ (emits_pure P ())) (fun _ => ih)
    dsimp only
    exact emits_ite _ (emits_pure P ()) (emits_setTexture hP env _ _ _)

theorem emits_uploadConstants {P : NativeCall → Prop} (env : Env σ)
    (upload : Nat → Nat → Nat → NativeCall) (hu : ∀ a b c, P (upload a b c))
    (pointer : Nat → Nat) (variability : Nat) (entries : List (Nat × GpuLogicalIndexUse)) :
    Emits P (uploadConstants env upload pointer variability entries) := by
  induction entries with
  | nil => exact emits_pure P ()
  | cons i rest ih =>
    unfold uploadConstants
    refine emits_bind (emits_ite _ ?_ (emits_pure P ())) (fun _ => ih)
    dsimp only
    refine emits_bind (emits_assert P env _) (fun _ => ?_)
    refine emits_bind (emits_native env _ (hu _ _ _)) (fun r => ?_)
    exact emits_ite _ (emits_except P _) (emits_pure P ())

theorem emits_bindGpuProgramParameters {P : NativeCall → Prop}
    (hP : ∀ c, isDeviceCall c = true → P c) (env : Env σ) (gptype : GpuProgramType)
    (params : GpuProgramParameters)
    (variability : Nat) :
    Emits P (bindGpuProgramParameters env gptype params variability) := by
  unfold bindGpuProgramParameters
  repeat' first
    | with_reducible exact emits_pure _ _
    | with_reducible exact emits_thread _ _
    | (with_reducible refine emits_modifyRS _ _ ?_) <;> exact fun _ => rfl
    | with_reducible exact emits_bindSamplerStates hP _ _ _ _
    | with_reducible exact emits_bindTextures hP _ _ _ _
    | (with_reducible refine emits_uploadConstants _ _ ?_ _ _ _) <;> exact fun _ _ _ => hP _ rfl
    | with_reducible refine emits_bind ?_ (fun _ => ?_)
    | with_reducible refine emits_ite _ ?_ ?_
    | dsimp only
    | split

theorem emits_disableTextureUnit {P : NativeCall → Prop} (env : Env σ) (hb : env.quietBase P)
    (texUnit : Nat) :
    Emits P (disableTextureUnit env texUnit) := by
  unfold disableTextureUnit
  repeat' first
    | with_reducible exact emits_thread _ _
    | exact hb.1 _
    | with_reducible refine emits_bind ?_ (fun _ => ?_)

theorem emits_destroyRenderTarget {P : NativeCall → Prop} (env : Env σ) (hb : env.quietBase P)
    (renderTarget : RenderTarget) :
    Emits P (destroyRenderTarget env renderTarget) := by
  unfold destroyRenderTarget
  repeat' first
    | with_reducible exact emits_thread _ _
    | (with_reducible refine emits_modifyRS _ _ ?_) <;> exact fun _ => rfl
    | exact hb.2.2.2.1 _
    | with_reducible refine emits_bind ?_ (fun _ => ?_)

theorem emits_destroy_internal {P : NativeCall → Prop} (env : Env σ) (hb : env.quietBase P) :
    Emits P (destroy_internal env) := by
  unfold destroy_internal
  repeat' first
    | (with_reducible refine emits_modifyRS _ _ ?_) <;> exact fun _ => rfl
    | exact hb.2.2.2.2.1
    | exact hb.2.2.2.2.2.1
    | exact hb.2.2.2.2.2.2
    | with_reducible refine emits_bind ?_ (fun _ => ?_)

theorem emits_resetTextureStages {P : NativeCall → Prop}
    (hP : ∀ c, isDeviceCall c = true → P c) (env : Env σ) (count : Nat) :
    ∀ i : Nat, Emits P (resetTextureStages env i count) := by
  induction count with
  | zero => intro i; exact emits_pure P ()
  | succ n ih =>
    intro i
    unfold resetTextureStages
    exact emits_bind (emits_setTexture hP env _ _ _) (fun _ => ih _)

theorem emits_notifyOnDeviceReset {P : NativeCall → Prop} (hP : ∀ c, isDeviceCall c = true → P c)
    (env : Env σ) (device : Nat) :
    Emits P (notifyOnDeviceReset env device) := by
  unfold notifyOnDeviceReset
  repeat' first
    | (with_reducible refine emits_modifyRS _ _ ?_) <;> exact fun _ => rfl
    | with_reducible exact emits_resetTextureStages hP _ _ _
    | with_reducible refine emits_bind ?_ (fun _ => ?_)

theorem emits_getDirect3DDrivers (P : NativeCall → Prop) (env : Env σ) :
    Emits P (getDirect3DDrivers env) := by
  unfold getDirect3DDrivers
  repeat' first
    | with_reducible exact emits_pure _ _
    | with_reducible exact emits_getRS _
    | (with_reducible refine emits_modifyRS _ _ ?_) <;> exact fun _ => rfl
    | with_reducible refine emits_bind ?_ (fun _ => ?_)
    | with_reducible refine emits_ite _ ?_ ?_
    | dsimp only
    | split

theorem emits_refreshFSAAOptions (P : NativeCall → Prop) (env : Env σ) :
    Emits P (refreshFSAAOptions env) := by
  unfold refreshFSAAOptions modifyOptions
  repeat' first
    | with_reducible exact emits_pure _ _
    | with_reducible exact emits_getRS _
    | (with_reducible refine emits_modifyRS _ _ ?_) <;> exact fun _ => rfl
    | with_reducible exact emits_getDirect3DDrivers P _
    | with_reducible refine emits_bind ?_ (fun _ => ?_)
    | with_reducible refine emits_ite _ ?_ ?_
    | dsimp only
    | split

theorem emits_refreshD3DSettings (P : NativeCall → Prop) (env : Env σ) :
    Emits P (refreshD3DSettings env) := by
  unfold refreshD3DSettings modifyOptions
  repeat' first
    | with_reducible exact emits_pure _ _
    | with_reducible exact emits_getRS _
    | (with_reducible refine emits_modifyRS _ _ ?_) <;> exact fun _ => rfl
    | with_reducible exact emits_getDirect3DDrivers P _
    | with_reducible exact emits_refreshFSAAOptions P _
    | with_reducible refine emits_bind ?_ (fun _ => ?_)
    | with_reducible refine emits_ite _ ?_ ?_
    | dsimp only
    | split

theorem emits_initConfigOptions (P : NativeCall → Prop) (env : Env σ) :
    Emits P (initConfigOptions env) := by
  unfold initConfigOptions modifyOptions
  repeat' first
    | (with_reducible refine emits_modifyRS _ _ ?_) <;> exact fun _ => rfl
    | with_reducible exact emits_getDirect3DDrivers P _
    | with_reducible exact emits_refreshD3DSettings P _
    | with_reducible refine emits_bind ?_ (fun _ => ?_)

theorem emits_initialize_internal {P : NativeCall → Prop} (env : Env σ) (hq : env.quiet P) :
    Emits P (initialize_internal env) := by
  unfold initialize_internal
  repeat' first
    | with_reducible exact emits_except _ _
    | with_reducible exact emits_thread _ _
    | with_reducible exact emits_getRS _
    | (with_reducible refine emits_modifyRS _ _ ?_) <;> exact fun _ => rfl
    | with_reducible exact emits_getDirect3DDrivers P _
    | with_reducible exact emits_initConfigOptions P _
    | exact hq.2.2.2.2
    | with_reducible refine emits_bind ?_ (fun _ => ?_)
    | with_reducible refine emits_ite _ ?_ ?_
    | dsimp only
    | split

theorem emits_tryCatch {α : Type} {P : NativeCall → Prop} {body : RSM σ α}
    {handler : Exception → Option (RSM σ α)} (hbody : Emits P body)
    (hh : ∀ e h, handler e = some h → Emits P h) : Emits P (tryCatch body handler) := by
  intro s
  obtain ⟨c1, h1, p1⟩ := hbody s
  unfold tryCatch
  rcases hbs : body s with ⟨r, s1⟩
  rw [hbs] at h1
  cases r with
  | ok a => exact ⟨c1, h1, p1⟩
  | error e =>
    simp only []
    cases hhe : handler e with
    | none => exact ⟨c1, h1, p1⟩
    | some h =>
      obtain ⟨c2, h2, p2⟩ := hh e h hhe s1
      refine ⟨c1 ++ c2, ?_, ?_⟩
      · simp only [] at h1 ⊢
        rw [h2, h1, List.append_assoc]
      · intro c hc
        rcases List.mem_append.mp hc with h | h
        · exact p1 c h
        · exact p2 c h

theorem emits_registerRenderWindow {P : NativeCall → Prop}
    (hM : ∀ c, isCleanup c = false → P c) (env : Env σ) (hq : env.quiet P)
    (renderWindow : RenderTarget) : Emits P (registerRenderWindow env renderWindow) := by
  have hP : ∀ c, isDeviceCall c = true → P c := fun c h => hM c (isCleanup_of_isDeviceCall c h)
  unfold registerRenderWindow
  refine emits_bind (emits_thread P env) (fun _ => ?_)
  refine emits_bind (emits_collaborate env _ (hM _ rfl)) (fun _ => ?_)
  refine emits_bind (emits_tryCatch (emits_collaborate env _ (hM _ rfl)) ?_) (fun _ => ?_)
  · intro e h he
    cases e <;> simp only [reduceCtorEq] at he
    rw [← Option.some.inj he]
    refine emits_bind (emits_collaborate env _ (hM _ rfl)) (fun _ => ?_)
    exact emits_bind (emits_collaborate env _ (hM _ rfl)) (fun _ => emits_except P _)
  · refine emits_bind (emits_collaborate env _ (hM _ rfl)) (fun _ => ?_)
    refine emits_bind (emits_modifyRS P _ (fun _ => rfl)) (fun _ => ?_)
    refine emits_bind (emits_updateRenderSystemCapabilities hP env _) (fun _ => ?_)
    exact hq.2.2.2.1 _

/-! ## Frames: no operation but `endFrame` cleans up devices -/

/-- Every operation other than `endFrame` appends only calls that satisfy `P`, when
every call other than `destroyInactiveRenderDevices` satisfies `P` and the
collaborators append only such calls. -/
theorem emits_op {P : NativeCall → Prop} (hM : ∀ c, isCleanup c = false → P c) (env : Env σ)
    (hq : env.quiet P) (hb : env.quietBase P) (op : Op) (hop : op.isEndFrame = false) :
    Emits P (op.run env) := by
  have hP : ∀ c, isDeviceCall c = true → P c := fun c h => hM c (isCleanup_of_isDeviceCall c h)
  cases op with
  | initialize_internal => exact emits_initialize_internal env hq
  | destroy_internal => exact emits_destroy_internal env hb
  | registerRenderWindow renderWindow => exact emits_registerRenderWindow hM env hq _
  | bindGpuProgram prg => exact emits_bindGpuProgram hP env hb _
  | unbindGpuProgram gptype => exact emits_unbindGpuProgram hP env hb _
  | bindGpuProgramParameters gptype params variability =>
    exact emits_bindGpuProgramParameters hP env _ _ _
  | destroyRenderTarget renderTarget => exact emits_destroyRenderTarget env hb _
  | setTexture stage enabled tex => exact emits_setTexture hP env _ _ _
  | disableTextureUnit texUnit => exact emits_disableTextureUnit env hb _
  | setSamplerState unit state => exact emits_setSamplerState hP env _ _
  | setBlendState blendState => exact emits_setBlendState hP env _
  | setRasterizerState rasterizerState => exact emits_setRasterizerState hP env _
  | setDepthStencilState depthStencilState => exact emits_setDepthStencilState hP env _
  | setStencilRefValue refValue => exact emits_setStencilRefValue hP env _
  | setTextureMipmapBias unit bias => exact emits_setTextureMipmapBias hP env _ _
  | setTextureAddressingMode stage uvw => exact emits_setTextureAddressingMode hP env _ _
  | setTextureBorderColor stage colour => exact emits_setTextureBorderColor hP env _ _
  | setSceneBlending sourceFactor destFactor op => exact emits_setSceneBlending hP env _ _ _
  | setSceneBlendingSeparate sourceFactor destFactor sourceFactorAlpha destFactorAlpha op alphaOp =>
    exact emits_setSceneBlendingSeparate hP env _ _ _ _ _ _
  | setAlphaTest func value => exact emits_setAlphaTest hP env _ _
  | setAlphaToCoverage enable => exact emits_setAlphaToCoverage hP env _
  | setCullingMode mode => exact emits_setCullingMode hP env _
  | setDepthBufferParams depthTest depthWrite depthFunction =>
    exact emits_setDepthBufferParams hP env _ _ _
  | setDepthBufferCheckEnabled enabled => exact emits_setDepthBufferCheckEnabled hP env _
  | setDepthBufferWriteEnabled enabled => exact emits_setDepthBufferWriteEnabled hP env _
  | setDepthBufferFunction func => exact emits_setDepthBufferFunction hP env _
  | setDepthBias constantBias slopeScaleBias => exact emits_setDepthBias hP env _ _
  | setColorBufferWriteEnabled red green blue alpha =>
    exact emits_setColorBufferWriteEnabled hP env _ _ _ _
  | setPolygonMode level => exact emits_setPolygonMode hP env _
  | setStencilCheckEnabled enabled => exact emits_setStencilCheckEnabled hP env _
  | setStencilBufferOperations stencilFailOp depthFailOp passOp ccw =>
    exact emits_setStencilBufferOperations hP env _ _ _ _
  | setStencilBufferFunc func ccw => exact emits_setStencilBufferFunc hP env _ _
  | setStencilBufferReadMask mask => exact emits_setStencilBufferReadMask hP env _
  | setStencilBufferWriteMask mask => exact emits_setStencilBufferWriteMask hP env _
  | setTextureFiltering unit ftype filter => exact emits_setTextureFiltering hP env _ _ _
  | setTextureAnisotropy unit maxAnisotropy => exact emits_setTextureAnisotropy hP env _ _
  | setRenderTarget target => exact emits_setRenderTarget hP env hq _
  | setViewport vp => exact emits_setViewport hP env hq _
  | beginFrame => exact emits_beginFrame hP (hM _ rfl) env
  | endFrame => cases hop
  | setVertexDeclaration decl => exact emits_setVertexDeclaration_of hP env _
  | setVertexBufferBinding binding => exact emits_setVertexBufferBinding_of hP env _
  | render op => exact emits_render hP env hq _
  | setScissorRect left top right bottom => exact emits_setScissorRect P env _ _ _ _
  | setScissorTestEnable enable => exact emits_setScissorTestEnable hP env _
  | setMultisampleAntialiasEnable enable => exact emits_setMultisampleAntialiasEnable hP env _
  | setAntialiasedLineEnable enable => exact emits_setAntialiasedLineEnable hP env _
  | clearFrameBuffer buffers colour depth stencil => exact emits_clearFrameBuffer hP env _ _ _ _
  | getActiveD3D9Device =>
    exact emits_bind (emits_getActiveD3D9Device P env) (fun _ => emits_pure P ())
  | getDirect3DDrivers =>
    exact emits_bind (emits_getDirect3DDrivers P env) (fun _ => emits_pure P ())
  | initConfigOptions => exact emits_initConfigOptions P env
  | refreshD3DSettings => exact emits_refreshD3DSettings P env
  | refreshFSAAOptions => exact emits_refreshFSAAOptions P env
  | updateRenderSystemCapabilities renderWindow =>
    exact emits_bind (emits_updateRenderSystemCapabilities hP env _) (fun _ => emits_pure P ())
  | convertVertexShaderCaps rsc =>
    exact emits_bind (emits_convertVertexShaderCaps hP env _) (fun _ => emits_pure P ())
  | initialiseFromRenderSystemCapabilities caps =>
    exact emits_initialiseFromRenderSystemCapabilities P _
  | setClipPlane index A B C D => exact emits_setClipPlane hP env _ _ _ _ _
  | enableClipPlane index enable => exact emits_enableClipPlane hP env _ _
  | notifyOnDeviceLost device => exact emits_pure P ()
  | notifyOnDeviceReset device => exact emits_notifyOnDeviceReset hP env device
  | setClipPlanesImpl clipPlanes => exact emits_setClipPlanesImpl hP env _
  | __SetRenderState state value =>
    exact emits_bind (emits_SetRenderState_of env _ _ (hP _ rfl) (hP _ rfl))
      (fun _ => emits_pure P ())
  | __SetSamplerState sampler type value =>
    exact emits_bind (emits_SetSamplerState_of hP env _ _ _) (fun _ => emits_pure P ())
  | __SetTextureStageState stage type value =>
    exact emits_bind (emits_SetTextureStageState_of hP env _ _ _)
      (fun _ => emits_pure P ())
  | _getCurrentAnisotropy unit =>
    exact emits_bind (emits_bind (emits_native env _ (hP _ rfl)) (fun _ => emits_pure P _))
      (fun _ => emits_pure P ())

/-- The calls of one operation: no cleanup unless the operation is an `endFrame`
whose `EndScene` succeeded, and then exactly one, right after the `EndScene`. -/
theorem op_calls (env : Env σ) (hT : env.threadOk)
    (hq : env.quiet (fun c => isCleanup c = false))
    (hb : env.quietBase (fun c => isCleanup c = false)) (op : Op) (s : RS σ) :
    ∃ calls, (op.run env s).2.trace = s.trace ++ calls ∧
      cleanupFollowsEndScene false calls = true ∧
      countCalls isCleanup calls
        = (if (op.isEndFrame && endSceneSucceeds env s) = true then 1 else 0) := by
  cases hop : op.isEndFrame with
  | false =>
    obtain ⟨calls, h1, h2⟩ := emits_op (fun _ h => h) env hq hb op hop s
    exact ⟨calls, h1, cleanupFollowsEndScene_of_none calls h2 false,
      by simpa using countCalls_eq_zero isCleanup calls h2⟩
  | true =>
    cases op <;> cases hop
    have h := endFrame_apply env hT s
    show ∃ calls, (endFrame env s).2.trace = s.trace ++ calls ∧ _
    unfold endSceneSucceeds
    cases hd : s.devices s.activeDevice with
    | none =>
      rw [h.1 hd]
      exact ⟨[], by simp, rfl, by simp [countCalls]⟩
    | some d =>
      cases hF : FAILED (env.dev.call NativeCall.EndScene d).1.hr with
      | true =>
        rw [((h.2 d hd).1 hF)]
        exact ⟨[NativeCall.EndScene], rfl, rfl, by simp [countCalls, isCleanup, hF]⟩
      | false =>
        rw [((h.2 d hd).2 hF)]
        exact ⟨[NativeCall.EndScene, NativeCall.destroyInactiveRenderDevices],
          by simp [collaborate], rfl, by simp [countCalls, isCleanup, hF]⟩

/-- The calls of a sequence of operations: every cleanup comes right after an
`EndScene`, and there are as many cleanups as `endFrame` calls whose `EndScene`
succeeded. -/
theorem runOps_calls (env : Env σ) (hT : env.threadOk)
    (hq : env.quiet (fun c => isCleanup c = false))
    (hb : env.quietBase (fun c => isCleanup c = false)) (ops : List Op) :
    ∀ s : RS σ, ∃ calls, (runOps env ops s).trace = s.trace ++ calls ∧
      cleanupFollowsEndScene false calls = true ∧
      countCalls isCleanup calls = endedFrames env ops s := by
  induction ops with
  | nil => intro s; exact ⟨[], by simp [runOps], rfl, rfl⟩
  | cons op rest ih =>
    intro s
    obtain ⟨c1, h1, f1, n1⟩ := op_calls env hT hq hb op s
    obtain ⟨c2, h2, f2, n2⟩ := ih (op.run env s).2
    refine ⟨c1 ++ c2, ?_, cleanupFollowsEndScene_append c1 c2 false f1 f2, ?_⟩
    · show (runOps env rest (op.run env s).2).trace = _
      rw [h2, h1, List.append_assoc]
    · rw [countCalls_append, n1, n2]
      rfl

theorem simEnv_quietBase (P : NativeCall → Prop) : simEnv.quietBase P :=
  ⟨fun _ => emits_pure P (), fun _ => emits_pure P (), fun _ => emits_pure P (),
   fun _ => emits_pure P (), emits_pure P (), emits_pure P (), emits_pure P ()⟩

/-- C14: on the render thread, with collaborators (the base-class functions, the
device manager's `setActiveRenderTargetDevice`, the validation of a window, the
deletion of the device manager, the start-up and the shut-down of the
managers) that do not themselves append `destroyInactiveRenderDevices` to the
trace.  First, no operation of `Op` other than `endFrame` appends a
`destroyInactiveRenderDevices`, whether it returns or raises; `Op` lists every
function of the class that the file models as a computation: initialisation
and destruction, the registration and the removal of a window, the binding
of programs and of their parameters, every `set...` function (textures,
sampler, blend, rasterizer and depth-stencil state with all their parts,
alpha test, scissor, clip planes, viewport, render target, vertex declaration
and vertex buffers), `disableTextureUnit`, `clearFrameBuffer`, `render`,
`beginFrame`, the two device notifications, the refreshing of the options and
of the capabilities, and the private `__Set...` helpers.  Second, `endFrame`
on a live device appends `EndScene` alone and raises `RenderingAPIException`
when `EndScene` fails, and appends `EndScene` followed by exactly one
`destroyInactiveRenderDevices` when it succeeds.  Third, in the calls of
every sequence of operations each `destroyInactiveRenderDevices` comes
immediately after an `EndScene`, and their number is the number of `endFrame`
calls whose `EndScene` succeeded. -/
theorem destroyInactiveRenderDevices_only_in_endFrame (env : Env σ) (hT : env.threadOk)
    (hq : env.quiet (fun c => isCleanup c = false))
    (hb : env.quietBase (fun c => isCleanup c = false)) :
    (∀ op : Op, op.isEndFrame = false → Emits (fun c => isCleanup c = false) (op.run env)) ∧
    (∀ (s : RS σ) (d : σ), s.devices s.activeDevice = some d →
      (FAILED (env.dev.call NativeCall.EndScene d).1.hr = true →
        (endFrame env s).1 = Except.error Exception.RenderingAPIException ∧
        (endFrame env s).2.trace = s.trace ++ [NativeCall.EndScene]) ∧
      (FAILED (env.dev.call NativeCall.EndScene d).1.hr = false →
        (endFrame env s).2.trace
          = s.trace ++ [NativeCall.EndScene, NativeCall.destroyInactiveRenderDevices])) ∧
    (∀ (ops : List Op) (s : RS σ), ∃ calls, (runOps env ops s).trace = s.trace ++ calls ∧
      cleanupFollowsEndScene false calls = true ∧
      countCalls isCleanup calls = endedFrames env ops s) := by
  refine ⟨fun op hop => emits_op (fun _ h => h) env hq hb op hop,
    fun s d hd => ⟨fun hF => ?_, fun hF => ?_⟩, fun ops s => runOps_calls env hT hq hb ops s⟩
  · rw [((endFrame_apply env hT s).2 d hd).1 hF]
    exact ⟨rfl, rfl⟩
  · rw [((endFrame_apply env hT s).2 d hd).2 hF]
    simp [collaborate]

theorem destroyInactiveRenderDevices_only_in_endFrame_witness :
    simEnv.threadOk ∧ simEnv.quiet (fun c => isCleanup c = false) ∧
    simEnv.quietBase (fun c => isCleanup c = false) ∧
    endedFrames simEnv sampleFrames simInit = 2 ∧
    Emits (fun c => isCleanup c = false)
      ((Op.setRasterizerState sampleRasterizerState).run simEnv) ∧
    (FAILED (simEnv.dev.call NativeCall.EndScene
        { renderState := fun _ => 0, samplerState := fun _ _ => 0,
          textureStageState := fun _ _ => 0 }).1.hr = false →
      (endFrame simEnv simInit).2.trace
        = simInit.trace ++ [NativeCall.EndScene, NativeCall.destroyInactiveRenderDevices]) ∧
    ∃ calls, (runOps simEnv sampleFrames simInit).trace = simInit.trace ++ calls ∧
      cleanupFollowsEndScene false calls = true ∧
      countCalls isCleanup calls = endedFrames simEnv sampleFrames simInit :=
  ⟨by decide, simEnv_quiet _, simEnv_quietBase _, rfl,
   (destroyInactiveRenderDevices_only_in_endFrame simEnv (by decide) (simEnv_quiet _)
      (simEnv_quietBase _)).1 _ rfl,
   ((destroyInactiveRenderDevices_only_in_endFrame simEnv (by decide) (simEnv_quiet _)
      (simEnv_quietBase _)).2.1 simInit _ rfl).2,
   (destroyInactiveRenderDevices_only_in_endFrame simEnv (by decide) (simEnv_quiet _)
      (simEnv_quietBase _)).2.2 sampleFrames simInit⟩

end Bsf
